import Mathlib

/-!
# RAONTECH mtv818 T-DMB demodulator driver: sub-channel manager, scan engine, signal
quality accessors, FIC reader

Shallow embedding of `kernel/drivers/misc/mtv818/src/raontv_tdmb.c`.

* The per-chip globals `g_a*[RaonTvChipIdx]` of the C file are the fields of `ChipState`
  (one chip is modelled, so the chip index is dropped).
* The register-access macros and the `rtv_*` helpers live in headers that are not part of the
  sources; they are collaborators.  Every collaborator call is recorded in `ChipState.trace`
  (newest call first) and every value returned by a collaborator comes from an `Env` that is
  indexed by `ChipState.time`, the number of values read so far, so that hardware answers may
  change arbitrarily between two reads.
* `UINT`/`U32` are 32-bit, `U8` is 8-bit and `U16` is 16-bit; wrap-around is written with
  explicit `% 2 ^ w`.
* Compile-time switches (`#if`) are fields of `BuildConfig`.
-/

namespace Mtv818

/-! ## Build configuration -/

/-- Host interface selected at compile time (exactly one `RTV_IF_*` macro is defined). -/
inductive Interface
  | RTV_IF_MPEG2_SERIAL_TSIF
  | RTV_IF_SPI_SLAVE
  | RTV_IF_QUALCOMM_TSIF
  | RTV_IF_MPEG2_PARALLEL_TSIF
  | RTV_IF_SPI
  | RTV_IF_EBI2
  deriving DecidableEq, Repr

/-- Compile-time switches and the constants of `raontv.h` / `raontv_internal.h` that the C file
uses but that are not part of the sources (they are taken as parameters). -/
structure BuildConfig where
  /-- Size of the registration table; `1` selects the single sub-channel code paths. -/
  RTV_MAX_NUM_SUB_CHANNEL_USED : Nat
  /-- Host interface. -/
  iface : Interface
  /-- CIF aggregation mode. -/
  RTV_CIF_MODE_ENABLED : Bool
  /-- Whether `__KERNEL__` is defined. -/
  KERNEL : Bool
  /-- Whether `RTV_FIC_POLLING_MODE` is defined. -/
  RTV_FIC_POLLING_MODE : Bool
  COMM_PAGE : Nat
  HOST_PAGE : Nat
  DD_PAGE : Nat
  RF_PAGE : Nat
  FIC_PAGE : Nat
  INT_E_UCLRL : Nat
  INT_E_STATL : Nat
  FIC_E_INT : Nat
  MSC0_INTR_BITS : Nat
  MSC1_INTR_BITS : Nat
  RTV_TS_PACKET_SIZE : Nat
  RTV_TDMB_OFDM_LOCK_MASK : Nat
  RTV_TDMB_FEC_LOCK_MASK : Nat
  RTV_TDMB_CNR_DIVIDER : Nat
  RTV_TDMB_RSSI_DIVIDER : Nat
  RTV_TDMB_BER_DIVIDER : Nat
  RTV_COMM_CON47_CLK_SEL : Nat

/-- `#if defined(RTV_IF_SPI) || defined(RTV_IF_EBI2)`. -/
def BuildConfig.ifSpiOrEbi2 (cfg : BuildConfig) : Bool :=
  cfg.iface = Interface.RTV_IF_SPI || cfg.iface = Interface.RTV_IF_EBI2

/-- `#if defined(RTV_IF_MPEG2_SERIAL_TSIF) || defined(RTV_IF_SPI_SLAVE) ||
defined(RTV_IF_QUALCOMM_TSIF)`. -/
def BuildConfig.ifSerialTsif (cfg : BuildConfig) : Bool :=
  cfg.iface = Interface.RTV_IF_MPEG2_SERIAL_TSIF || cfg.iface = Interface.RTV_IF_SPI_SLAVE
    || cfg.iface = Interface.RTV_IF_QUALCOMM_TSIF

/-- The serial TSIF interfaces or `RTV_IF_MPEG2_PARALLEL_TSIF`. -/
def BuildConfig.ifAnyTsif (cfg : BuildConfig) : Bool :=
  cfg.ifSerialTsif || cfg.iface = Interface.RTV_IF_MPEG2_PARALLEL_TSIF

/-- `#if (RTV_MAX_NUM_SUB_CHANNEL_USED == 1)`. -/
def BuildConfig.single (cfg : BuildConfig) : Bool :=
  cfg.RTV_MAX_NUM_SUB_CHANNEL_USED = 1

def OFDM_PAGE : Nat := 0x6

def FEC_PAGE : Nat := 0x09

def MAX_NUM_TDMB_SUB_CH : Nat := 64

/-- `TDMB_MSC0_SUBCH_USE_MASK`: `0x00` in the single sub-channel build, `0x78` (SUBCH 3,4,5,6)
otherwise. -/
def TDMB_MSC0_SUBCH_USE_MASK (cfg : BuildConfig) : Nat :=
  if cfg.single then 0x00 else 0x78

/-- `TDMB_MSC1_SUBCH_USE_MASK`: SUBCH 0 in both builds. -/
def TDMB_MSC1_SUBCH_USE_MASK : Nat := 0x01

/-! ## Data model -/

inductive E_RTV_TDMB_SERVICE_TYPE
  | RTV_TDMB_SERVICE_VIDEO
  | RTV_TDMB_SERVICE_AUDIO
  | RTV_TDMB_SERVICE_DATA
  deriving DecidableEq, Repr

inductive E_RTV_COUNTRY_BAND_TYPE
  | RTV_COUNTRY_BAND_KOREA
  | other (n : Nat)
  deriving DecidableEq, Repr

/-- ADC clock type; `unsupported` stands for any value outside the four handled by the
`switch` statements. -/
inductive E_RTV_ADC_CLK_FREQ_TYPE
  | RTV_ADC_CLK_FREQ_8_MHz
  | RTV_ADC_CLK_FREQ_8_192_MHz
  | RTV_ADC_CLK_FREQ_9_MHz
  | RTV_ADC_CLK_FREQ_9_6_MHz
  | unsupported (n : Nat)
  deriving DecidableEq, Repr

/-- Modelled from the spec: the `INT` result codes (`RTV_SUCCESS`, `RTV_INVAILD_...`), whose
numeric values are defined in a header that is not part of the sources.  The spec's error
taxonomy lists them as distinct values; `ScanTimeout` and `FicReadTimeout` are listed there too.
`collaboratorFailure c` is a failure code handed back by a collaborator (RF tuner, system
init), which the C code passes through unchanged. -/
inductive RtvResult
  | RTV_SUCCESS
  | RTV_INVAILD_COUNTRY_BAND
  | RTV_UNSUPPORT_ADC_CLK
  | RTV_CHANNEL_NOT_DETECTED
  | RTV_INVAILD_SUB_CHANNEL_ID
  | RTV_NO_MORE_SUB_CHANNEL
  | RTV_INVAILD_THRESHOLD_SIZE
  | RTV_INVALID_CHIP_IDX
  | ScanTimeout
  | FicReadTimeout
  | collaboratorFailure (code : Nat)
  deriving DecidableEq, Repr

/-- Registered sub channel table entry (`RTV_TDMB_REG_SUBCH_INFO`). -/
structure RTV_TDMB_REG_SUBCH_INFO where
  nSubChID : Nat
  nHwSubChIdx : Nat
  eServiceType : E_RTV_TDMB_SERVICE_TYPE
  nThresholdSize : Nat
  deriving DecidableEq, Repr

/-- Calls to collaborators (register access macros, `rtv_*` helpers, RF tuner). -/
inductive Event
  | RTV_GUARD_LOCK
  | RTV_GUARD_FREE
  | RTV_REG_MAP_SEL (page : Nat)
  | RTV_REG_SET (addr val : Nat)
  | RTV_REG_MASK_SET (addr mask val : Nat)
  | RTV_REG_GET (addr : Nat)
  | RTV_REG_BURST_GET (addr offset len : Nat)
  | RTV_DELAY_MS (ms : Nat)
  | rtv_Set_MSC1_SUBCH0 (nSubChID : Nat) (fSubChEnable fRsEnable : Bool)
  | rtv_Set_MSC0_SUBCH3 (nSubChID : Nat) (fSubChEnable : Bool)
  | rtv_Set_MSC0_SUBCH4 (nSubChID : Nat) (fSubChEnable : Bool)
  | rtv_Set_MSC0_SUBCH5 (nSubChID : Nat) (fSubChEnable : Bool)
  | rtv_Set_MSC0_SUBCH6 (nSubChID : Nat) (fSubChEnable : Bool)
  | rtv_ResetMemory_MSC0
  | rtv_ResetMemory_MSC1
  | rtv_ResetMemory_FIC
  | rtv_SetupMemory_MSC0 (nThresholdSize : Nat)
  | rtv_SetupMemory_MSC1 (nThresholdSize : Nat)
  | rtv_SetupMemory_FIC
  | rtv_StreamRestore
  | rtv_StreamDisable
  | rtvRF_SetFrequency (dwChFreqKHz : Nat)
  | rtvRF_Initilize
  | rtv_InitSystem
  | rtvCIFDEC_Init
  | rtvCIFDEC_AddSubChannelID (nSubChID : Nat)
  | rtvCIFDEC_DeleteSubChannelID (nSubChID : Nat)
  | rtvOEM_ConfigureInterrupt
  | rtv_ConfigureTsifFormat
  | rtv_SetParallelTsif_TDMB_Only
  | rtv_ConfigureHostIF
  deriving DecidableEq, Repr

/-- State of the collaborator interface: the selected register page, the number of values
obtained from collaborators so far, and the collaborator calls made (newest first). -/
structure HwIf where
  /-- Register page selected by the last `RTV_REG_MAP_SEL`. -/
  page : Nat
  /-- Number of values obtained from collaborators so far. -/
  time : Nat
  /-- Collaborator calls, newest first. -/
  trace : List Event
  deriving DecidableEq, Repr

/-- The per-chip globals of `raontv_tdmb.c` together with the state of the collaborator
interface.  Arrays are total functions of the index; the C arrays have
`RTV_MAX_NUM_SUB_CHANNEL_USED` (table) and `2` (ID words) elements. -/
structure ChipState where
  g_atTdmbRegSubchInfo : Nat → RTV_TDMB_REG_SUBCH_INFO
  g_aRegSubChArrayIdxBits : Nat
  g_aRtvUsedHwSubChIdxBits : Nat
  g_aTdmbPrevChFreqKHz : Nat
  g_afRtvTdmbConfiguredFIC : Bool
  g_aRegSubChIdBits : Nat → Nat
  g_afRtvChannelChange : Bool
  g_abRtvIntrMaskRegL : Nat
  g_eRtvCountryBandType : E_RTV_COUNTRY_BAND_TYPE
  g_aeRtvAdcClkFreqType : E_RTV_ADC_CLK_FREQ_TYPE
  hw : HwIf

/-- Answers of the collaborators.  `reg t page addr` is the byte returned by the register read
issued at time `t`; the tuner and init collaborators return `none` for `RTV_SUCCESS` and
`some c` for a failure code `c`. -/
structure Env where
  reg : Nat → Nat → Nat → Nat
  rfSetFrequency : Nat → Nat → Option Nat
  initSystem : Nat → Option Nat
  rfInitilize : Nat → Option Nat

/-- Modelled from the spec: the result of a collaborator seen as an `INT` result code. -/
def RtvResult.ofCollaborator : Option Nat → RtvResult
  | none => RtvResult.RTV_SUCCESS
  | some c => RtvResult.collaboratorFailure c

/-! ## Machine arithmetic -/

/-- The C expression `(1 << n)` used as a 32-bit mask. -/
def shl1 (n : Nat) : Nat := (1 <<< n) % 2 ^ 32

/-- The C expression `x & ~m` on 32-bit operands. -/
def andNot32 (x m : Nat) : Nat := x &&& (0xFFFFFFFF ^^^ (m % 2 ^ 32))

/-- `SUBCH_GRP_IDX(sub_ch_id)`. -/
def SUBCH_GRP_IDX (sub_ch_id : Nat) : Nat := sub_ch_id >>> 5

/-- `MOD32(x)`. -/
def MOD32 (x : Nat) : Nat := x &&& 31

/-! ## Collaborator primitives -/

/-- Record a collaborator call. -/
def HwIf.emit (e : Event) (h : HwIf) : HwIf :=
  { h with trace := e :: h.trace }

def RTV_REG_MAP_SEL (page : Nat) (h : HwIf) : HwIf :=
  { h with page := page, trace := Event.RTV_REG_MAP_SEL page :: h.trace }

def RTV_REG_SET (addr val : Nat) (h : HwIf) : HwIf :=
  h.emit (Event.RTV_REG_SET addr val)

def RTV_REG_MASK_SET (addr mask val : Nat) (h : HwIf) : HwIf :=
  h.emit (Event.RTV_REG_MASK_SET addr mask val)

def RTV_DELAY_MS (ms : Nat) (h : HwIf) : HwIf :=
  h.emit (Event.RTV_DELAY_MS ms)

/-- `RTV_REG_GET(addr)`: a `U8` read on the selected page. -/
def RTV_REG_GET (env : Env) (addr : Nat) (h : HwIf) : Nat × HwIf :=
  (env.reg h.time h.page addr % 256,
    { h with time := h.time + 1, trace := Event.RTV_REG_GET addr :: h.trace })

/-- `rtvRF_SetFrequency(RTV_TV_MODE_TDMB, 0, dwChFreqKHz)`. -/
def rtvRF_SetFrequency (env : Env) (dwChFreqKHz : Nat) (h : HwIf) : RtvResult × HwIf :=
  (RtvResult.ofCollaborator (env.rfSetFrequency h.time dwChFreqKHz),
    { h with time := h.time + 1, trace := Event.rtvRF_SetFrequency dwChFreqKHz :: h.trace })

/-- Run a collaborator action inside a chip state. -/
def onHw (f : HwIf → HwIf) (s : ChipState) : ChipState :=
  { s with hw := f s.hw }

/-- Record a collaborator call in a chip state. -/
def emit (e : Event) (s : ChipState) : ChipState :=
  onHw (HwIf.emit e) s

/-- `RTV_REG_MAP_SEL(HOST_PAGE); g_abRtvIntrMaskRegL |= bits;
RTV_REG_SET(0x62, g_abRtvIntrMaskRegL)`. -/
def disableIntr (cfg : BuildConfig) (bits : Nat) (s : ChipState) : ChipState :=
  let s1 := onHw (RTV_REG_MAP_SEL cfg.HOST_PAGE) s
  let m := (s1.g_abRtvIntrMaskRegL ||| bits) % 256
  onHw (RTV_REG_SET 0x62 m) { s1 with g_abRtvIntrMaskRegL := m }

/-- `RTV_REG_MAP_SEL(DD_PAGE); RTV_REG_SET(INT_E_UCLRL, clr); RTV_REG_MAP_SEL(HOST_PAGE);
g_abRtvIntrMaskRegL &= ~bits; RTV_REG_SET(0x62, g_abRtvIntrMaskRegL)`. -/
def enableIntr (cfg : BuildConfig) (clr bits : Nat) (s : ChipState) : ChipState :=
  let s1 := onHw (RTV_REG_SET cfg.INT_E_UCLRL clr) (onHw (RTV_REG_MAP_SEL cfg.DD_PAGE) s)
  let s2 := onHw (RTV_REG_MAP_SEL cfg.HOST_PAGE) s1
  let m := (andNot32 s2.g_abRtvIntrMaskRegL bits) % 256
  onHw (RTV_REG_SET 0x62 m) { s2 with g_abRtvIntrMaskRegL := m }

/-! ## Channel / sub-channel manager -/

/-- The `switch( nHwSubChIdx )` of `tdmb_CloseSubChannel` (multi sub-channel builds). -/
def closeSwitch (nSubChID nHwSubChIdx : Nat) (s : ChipState) : ChipState :=
  if nHwSubChIdx = 0 then emit (Event.rtv_Set_MSC1_SUBCH0 nSubChID false false) s
  else if nHwSubChIdx = 3 then emit (Event.rtv_Set_MSC0_SUBCH3 nSubChID false) s
  else if nHwSubChIdx = 4 then emit (Event.rtv_Set_MSC0_SUBCH4 nSubChID false) s
  else if nHwSubChIdx = 5 then emit (Event.rtv_Set_MSC0_SUBCH5 nSubChID false) s
  else if nHwSubChIdx = 6 then emit (Event.rtv_Set_MSC0_SUBCH6 nSubChID false) s
  else s

/-- `if((g_aRtvUsedHwSubChIdxBits & TDMB_MSC1_SUBCH_USE_MASK) == 0) { ...
rtv_ResetMemory_MSC1(); }` of `tdmb_CloseSubChannel`. -/
def closeResetMSC1 (cfg : BuildConfig) (s : ChipState) : ChipState :=
  if s.g_aRtvUsedHwSubChIdxBits &&& TDMB_MSC1_SUBCH_USE_MASK = 0 then
    emit Event.rtv_ResetMemory_MSC1 -- Disable MSC1 memory
      (if cfg.ifSpiOrEbi2 then disableIntr cfg cfg.MSC1_INTR_BITS s else s)
  else s

/-- `if((g_aRtvUsedHwSubChIdxBits & TDMB_MSC0_SUBCH_USE_MASK) == 0) { ...
rtv_ResetMemory_MSC0(); }` of `tdmb_CloseSubChannel`. -/
def closeResetMSC0 (cfg : BuildConfig) (s : ChipState) : ChipState :=
  if s.g_aRtvUsedHwSubChIdxBits &&& TDMB_MSC0_SUBCH_USE_MASK cfg = 0 then
    emit Event.rtv_ResetMemory_MSC0 -- Disable MSC0 memory
      (if cfg.ifSpiOrEbi2 then disableIntr cfg cfg.MSC0_INTR_BITS s else s)
  else s

/-- The collaborator calls of `tdmb_CloseSubChannel` ("Disable the specified SUB CH first"):
the code between the reading of the table entry and the three bookkeeping updates at the end
of the function. -/
def closeSubChannelHw (cfg : BuildConfig) (nSubChID nHwSubChIdx : Nat) (s : ChipState) :
    ChipState :=
  if cfg.single then
    emit Event.rtv_ResetMemory_MSC1 -- Disable MSC1 memory.
      (if cfg.ifSpiOrEbi2 then
        disableIntr cfg cfg.MSC1_INTR_BITS (emit (Event.rtv_Set_MSC1_SUBCH0 nSubChID false false) s)
       else emit (Event.rtv_Set_MSC1_SUBCH0 nSubChID false false) s)
  else if cfg.RTV_CIF_MODE_ENABLED then
    emit (Event.rtvCIFDEC_DeleteSubChannelID nSubChID)
      (closeResetMSC0 cfg (closeResetMSC1 cfg (closeSwitch nSubChID nHwSubChIdx s)))
  else closeResetMSC0 cfg (closeResetMSC1 cfg (closeSwitch nSubChID nHwSubChIdx s))

/-- `tdmb_CloseSubChannel(nRegSubChArrayIdx)`. -/
def tdmb_CloseSubChannel (cfg : BuildConfig) (nRegSubChArrayIdx : Nat) (s : ChipState) :
    ChipState :=
  if s.g_aRegSubChArrayIdxBits &&& shl1 nRegSubChArrayIdx = 0 then
    s -- not opened! already closed!
  else
    let nSubChID := (s.g_atTdmbRegSubchInfo nRegSubChArrayIdx).nSubChID
    let nHwSubChIdx := (s.g_atTdmbRegSubchInfo nRegSubChArrayIdx).nHwSubChIdx
    -- Disable the specified SUB CH first.
    let s1 := closeSubChannelHw cfg nSubChID nHwSubChIdx s
    { s1 with
      -- Delete a used sub channel index.
      g_aRtvUsedHwSubChIdxBits := andNot32 s1.g_aRtvUsedHwSubChIdxBits (shl1 nHwSubChIdx)
      -- Delete a registered subch array index.
      g_aRegSubChArrayIdxBits := andNot32 s1.g_aRegSubChArrayIdxBits (shl1 nRegSubChArrayIdx)
      -- Deregister a sub channel ID Bit.
      g_aRegSubChIdBits := Function.update s1.g_aRegSubChIdBits (SUBCH_GRP_IDX nSubChID)
        (andNot32 (s1.g_aRegSubChIdBits (SUBCH_GRP_IDX nSubChID)) (shl1 (MOD32 nSubChID))) }

/-- The loop `while(nRegSubChArrayIdxBits != 0) { if(bits & 0x01) tdmb_CloseSubChannel(i);
bits >>= 1; i++; }` of `tdmb_CloseAllSubChannel`.  `fuel` bounds the number of iterations; the
loop shifts `nRegSubChArrayIdxBits` right once per iteration, so `fuel = nRegSubChArrayIdxBits`
is never exhausted. -/
def closeAllLoop (cfg : BuildConfig) : Nat → Nat → Nat → ChipState → ChipState
  | 0, _, _, s => s
  | fuel + 1, nRegSubChArrayIdxBits, i, s =>
    if nRegSubChArrayIdxBits = 0 then s
    else
      closeAllLoop cfg fuel (nRegSubChArrayIdxBits >>> 1) (i + 1)
        (if nRegSubChArrayIdxBits &&& 0x01 ≠ 0 then tdmb_CloseSubChannel cfg i s else s)

/-- `tdmb_CloseAllSubChannel()` (multi sub-channel builds). -/
def tdmb_CloseAllSubChannel (cfg : BuildConfig) (s : ChipState) : ChipState :=
  closeAllLoop cfg s.g_aRegSubChArrayIdxBits s.g_aRegSubChArrayIdxBits 0 s

/-- The loop of `rtvTDMB_CloseSubChannel` in multi sub-channel builds: close every registered
table index whose `nSubChID` equals the argument.  Same fuel convention as `closeAllLoop`. -/
def closeIdLoop (cfg : BuildConfig) (nSubChID : Nat) : Nat → Nat → Nat → ChipState → ChipState
  | 0, _, _, s => s
  | fuel + 1, nRegSubChArrayIdxBits, i, s =>
    if nRegSubChArrayIdxBits = 0 then s
    else
      closeIdLoop cfg nSubChID fuel (nRegSubChArrayIdxBits >>> 1) (i + 1)
        (if nRegSubChArrayIdxBits &&& 0x01 ≠ 0 then
          (if nSubChID = (s.g_atTdmbRegSubchInfo i).nSubChID then tdmb_CloseSubChannel cfg i s
           else s)
         else s)

/-- `rtvTDMB_CloseSubChannel(nSubChID)`. -/
def rtvTDMB_CloseSubChannel (cfg : BuildConfig) (nSubChID : Nat) (s : ChipState) :
    RtvResult × ChipState :=
  let s1 := emit Event.RTV_GUARD_LOCK s
  let s2 :=
    if cfg.single then tdmb_CloseSubChannel cfg 0 s1
    else closeIdLoop cfg nSubChID s.g_aRegSubChArrayIdxBits s.g_aRegSubChArrayIdxBits 0 s1
  (RtvResult.RTV_SUCCESS, emit Event.RTV_GUARD_FREE s2)

/-- The search `for(nHwSubChIdx=3; nHwSubChIdx<=6; nHwSubChIdx++) if((used & (1<<nHwSubChIdx))
== 0) break;` of `tdmb_OpenSubChannel`; the loop ends with `7` when SUBCH 3..6 are all used. -/
def searchHwSubChIdx (used : Nat) : Nat :=
  if used &&& shl1 3 = 0 then 3
  else if used &&& shl1 4 = 0 then 4
  else if used &&& shl1 5 = 0 then 5
  else if used &&& shl1 6 = 0 then 6
  else 7

/-- The search `for(i=0; i<RTV_MAX_NUM_SUB_CHANNEL_USED; i++) if((bits & (1<<i)) == 0)` of
`tdmb_OpenSubChannel` for the first free table index, with `n` iterations left and the loop
variable at `i`; `none` when the loop ends without finding one. -/
def searchFreeFrom (bits : Nat) : Nat → Nat → Option Nat
  | 0, _ => none
  | n + 1, i => if bits &&& shl1 i = 0 then some i else searchFreeFrom bits n (i + 1)

/-- The free table index search of `tdmb_OpenSubChannel`, started at `i = 0`. -/
def searchFreeArrayIdx (cfg : BuildConfig) (bits : Nat) : Option Nat :=
  searchFreeFrom bits cfg.RTV_MAX_NUM_SUB_CHANNEL_USED 0

/-- The body of the registration branch of `tdmb_OpenSubChannel`: set the table bit `i` and
write the entry. -/
def registerEntry (i nSubChID nHwSubChIdx : Nat) (eServiceType : E_RTV_TDMB_SERVICE_TYPE)
    (nThresholdSize : Nat) (s : ChipState) : ChipState :=
  { s with
    g_aRegSubChArrayIdxBits := s.g_aRegSubChArrayIdxBits ||| shl1 i
    g_atTdmbRegSubchInfo := Function.update s.g_atTdmbRegSubchInfo i
      { nSubChID := nSubChID, nHwSubChIdx := nHwSubChIdx, eServiceType := eServiceType,
        nThresholdSize := nThresholdSize } }

/-- The `switch( nHwSubChIdx )` of `tdmb_OpenSubChannel` (Audio/Data, multi sub-channel
builds). -/
def openSwitch (nSubChID nHwSubChIdx : Nat) (s : ChipState) : ChipState :=
  if nHwSubChIdx = 3 then emit (Event.rtv_Set_MSC0_SUBCH3 nSubChID true) s
  else if nHwSubChIdx = 4 then emit (Event.rtv_Set_MSC0_SUBCH4 nSubChID true) s
  else if nHwSubChIdx = 5 then emit (Event.rtv_Set_MSC0_SUBCH5 nSubChID true) s
  else if nHwSubChIdx = 6 then emit (Event.rtv_Set_MSC0_SUBCH6 nSubChID true) s
  else s

/-- `if((g_aRtvUsedHwSubChIdxBits & TDMB_MSC1_SUBCH_USE_MASK) == 0) { ...
rtv_SetupMemory_MSC1(nThresholdSize); }` of `tdmb_OpenSubChannel` ("First enabled"). -/
def openSetupMSC1 (cfg : BuildConfig) (nThresholdSize : Nat) (s : ChipState) : ChipState :=
  if s.g_aRtvUsedHwSubChIdxBits &&& TDMB_MSC1_SUBCH_USE_MASK = 0 then
    emit (Event.rtv_SetupMemory_MSC1 nThresholdSize)
      (if cfg.ifSpiOrEbi2 then enableIntr cfg 0x04 cfg.MSC1_INTR_BITS s else s)
  else s

/-- `if((g_aRtvUsedHwSubChIdxBits & TDMB_MSC0_SUBCH_USE_MASK) == 0) { ...
rtv_SetupMemory_MSC0(nThresholdSize); }` of `tdmb_OpenSubChannel`. -/
def openSetupMSC0 (cfg : BuildConfig) (nThresholdSize : Nat) (s : ChipState) : ChipState :=
  if s.g_aRtvUsedHwSubChIdxBits &&& TDMB_MSC0_SUBCH_USE_MASK cfg = 0 then
    emit (Event.rtv_SetupMemory_MSC0 nThresholdSize)
      (if cfg.ifSpiOrEbi2 then enableIntr cfg 0x02 cfg.MSC0_INTR_BITS s else s)
  else s

/-- The collaborator calls of the single sub-channel branch of `tdmb_OpenSubChannel`. -/
def openSingleHw (cfg : BuildConfig) (nSubChID : Nat)
    (eServiceType : E_RTV_TDMB_SERVICE_TYPE) (nThresholdSize : Nat) (s : ChipState) :
    ChipState :=
  -- Set the sub-channel and enable MSC memory with the specified sub ID.
  emit (Event.rtv_SetupMemory_MSC1 nThresholdSize)
    (if cfg.ifSpiOrEbi2 then
      enableIntr cfg 0x04 cfg.MSC1_INTR_BITS
        (emit (Event.rtv_Set_MSC1_SUBCH0 nSubChID true
          (decide (eServiceType = E_RTV_TDMB_SERVICE_TYPE.RTV_TDMB_SERVICE_VIDEO))) s)
     else
      emit (Event.rtv_Set_MSC1_SUBCH0 nSubChID true
        (decide (eServiceType = E_RTV_TDMB_SERVICE_TYPE.RTV_TDMB_SERVICE_VIDEO))) s)

/-- The collaborator calls of the Video branch of `tdmb_OpenSubChannel` (multi sub-channel
builds). -/
def openVideoHw (cfg : BuildConfig) (nSubChID nThresholdSize : Nat) (s : ChipState) :
    ChipState :=
  if cfg.ifSerialTsif && cfg.RTV_CIF_MODE_ENABLED then
    emit (Event.rtvCIFDEC_AddSubChannelID nSubChID)
      (openSetupMSC1 cfg nThresholdSize (emit (Event.rtv_Set_MSC1_SUBCH0 nSubChID true true) s))
  else openSetupMSC1 cfg nThresholdSize (emit (Event.rtv_Set_MSC1_SUBCH0 nSubChID true true) s)

/-- The collaborator calls of the Audio/Data branch of `tdmb_OpenSubChannel` (multi
sub-channel builds) once `nHwSubChIdx` is chosen. -/
def openAudioHw (cfg : BuildConfig) (nSubChID nHwSubChIdx nThresholdSize : Nat)
    (s : ChipState) : ChipState :=
  if cfg.RTV_CIF_MODE_ENABLED then
    emit (Event.rtvCIFDEC_AddSubChannelID nSubChID)
      (openSetupMSC0 cfg nThresholdSize (openSwitch nSubChID nHwSubChIdx s))
  else openSetupMSC0 cfg nThresholdSize (openSwitch nSubChID nHwSubChIdx s)

/-- The first part of `tdmb_OpenSubChannel` (up to the comment "To use when close"): choose
`nHwSubChIdx` and program the hardware sub channel.  Returns `nHwSubChIdx`. -/
def openSubChannelHw (cfg : BuildConfig) (nSubChID : Nat)
    (eServiceType : E_RTV_TDMB_SERVICE_TYPE) (nThresholdSize : Nat) (s : ChipState) :
    Nat × ChipState :=
  if cfg.single then (0, openSingleHw cfg nSubChID eServiceType nThresholdSize s)
  else if eServiceType = E_RTV_TDMB_SERVICE_TYPE.RTV_TDMB_SERVICE_VIDEO then
    (0, openVideoHw cfg nSubChID nThresholdSize s)
  else
    -- Search an available SUBCH index for Audio/Data service. (3 ~ 6)
    (searchHwSubChIdx s.g_aRtvUsedHwSubChIdxBits,
      openAudioHw cfg nSubChID (searchHwSubChIdx s.g_aRtvUsedHwSubChIdxBits) nThresholdSize s)

/-- `tdmb_OpenSubChannel(nSubChID, eServiceType, nThresholdSize)`. -/
def tdmb_OpenSubChannel (cfg : BuildConfig) (nSubChID : Nat)
    (eServiceType : E_RTV_TDMB_SERVICE_TYPE) (nThresholdSize : Nat) (s : ChipState) :
    ChipState :=
  let r := openSubChannelHw cfg nSubChID eServiceType nThresholdSize s
  let nHwSubChIdx := r.1
  -- To use when close.
  let s2 :=
    if cfg.single then registerEntry 0 nSubChID nHwSubChIdx eServiceType nThresholdSize r.2
    else
      match searchFreeArrayIdx cfg r.2.g_aRegSubChArrayIdxBits with
      | some i => registerEntry i nSubChID nHwSubChIdx eServiceType nThresholdSize r.2
      | none => r.2
  { s2 with
    -- Add the HW sub channel index.
    g_aRtvUsedHwSubChIdxBits := s2.g_aRtvUsedHwSubChIdxBits ||| shl1 nHwSubChIdx
    -- Register a new sub channel ID Bit.
    g_aRegSubChIdBits := Function.update s2.g_aRegSubChIdBits (SUBCH_GRP_IDX nSubChID)
      (s2.g_aRegSubChIdBits (SUBCH_GRP_IDX nSubChID) ||| shl1 (MOD32 nSubChID)) }

/-- The threshold seen by `rtvTDMB_OpenSubChannel` after the `#if` at its top: CIF mode and
the TSIF interfaces overwrite the argument with `RTV_TS_PACKET_SIZE`. -/
def effectiveThreshold (cfg : BuildConfig) (nThresholdSize : Nat) : Nat :=
  if cfg.RTV_CIF_MODE_ENABLED || cfg.ifAnyTsif then cfg.RTV_TS_PACKET_SIZE else nThresholdSize

/-- `lock; rtv_StreamRestore(RTV_TV_MODE_TDMB); free`. -/
def restoreStream (s : ChipState) : ChipState :=
  emit Event.RTV_GUARD_FREE (emit Event.rtv_StreamRestore (emit Event.RTV_GUARD_LOCK s))

/-- `rtvTDMB_OpenSubChannel(dwChFreqKHz, nSubChID, eServiceType, nThresholdSize)`. -/
def rtvTDMB_OpenSubChannel (cfg : BuildConfig) (env : Env) (dwChFreqKHz nSubChID : Nat)
    (eServiceType : E_RTV_TDMB_SERVICE_TYPE) (nThresholdSize0 : Nat) (s : ChipState) :
    RtvResult × ChipState :=
  let nThresholdSize := effectiveThreshold cfg nThresholdSize0
  if nSubChID > MAX_NUM_TDMB_SUB_CH - 1 then
    (RtvResult.RTV_INVAILD_SUB_CHANNEL_ID, s)
  -- Check for threshold size.
  else if !cfg.RTV_CIF_MODE_ENABLED && cfg.ifSpiOrEbi2 && decide (nThresholdSize > 188 * 18) then
    (RtvResult.RTV_INVAILD_THRESHOLD_SIZE, s)
  -- Check the previous freq.
  else if s.g_aTdmbPrevChFreqKHz = dwChFreqKHz then
    -- Is registerd sub ch ID?
    if s.g_aRegSubChIdBits (SUBCH_GRP_IDX nSubChID) &&& shl1 (MOD32 nSubChID) ≠ 0 then
      (RtvResult.RTV_SUCCESS, restoreStream s)
    else if cfg.single then
      (RtvResult.RTV_SUCCESS,
        emit Event.RTV_GUARD_FREE
          (tdmb_OpenSubChannel cfg nSubChID eServiceType nThresholdSize
            (tdmb_CloseSubChannel cfg 0 (emit Event.RTV_GUARD_LOCK s))))
    else if eServiceType = E_RTV_TDMB_SERVICE_TYPE.RTV_TDMB_SERVICE_VIDEO
        ∧ s.g_aRtvUsedHwSubChIdxBits &&& TDMB_MSC1_SUBCH_USE_MASK = TDMB_MSC1_SUBCH_USE_MASK then
      (RtvResult.RTV_NO_MORE_SUB_CHANNEL, restoreStream s) -- Only 1 Video service.
    else if eServiceType ≠ E_RTV_TDMB_SERVICE_TYPE.RTV_TDMB_SERVICE_VIDEO
        ∧ s.g_aRtvUsedHwSubChIdxBits &&& TDMB_MSC0_SUBCH_USE_MASK cfg
            = TDMB_MSC0_SUBCH_USE_MASK cfg then
      (RtvResult.RTV_NO_MORE_SUB_CHANNEL, restoreStream s) -- Not available SUBCH.
    else
      (RtvResult.RTV_SUCCESS,
        emit Event.RTV_GUARD_FREE
          (emit Event.rtv_StreamRestore
            (tdmb_OpenSubChannel cfg nSubChID eServiceType nThresholdSize
              (emit Event.RTV_GUARD_LOCK s))))
  else
    let s1 := emit Event.RTV_GUARD_LOCK
      { s with g_aTdmbPrevChFreqKHz := dwChFreqKHz, g_afRtvChannelChange := true }
    let s2 := if cfg.single then tdmb_CloseSubChannel cfg 0 s1 else tdmb_CloseAllSubChannel cfg s1
    let r := rtvRF_SetFrequency env dwChFreqKHz s2.hw
    let s3 := tdmb_OpenSubChannel cfg nSubChID eServiceType nThresholdSize { s2 with hw := r.2 }
    (r.1, { emit Event.RTV_GUARD_FREE s3 with g_afRtvChannelChange := false })

/-! ## Scan engine -/

/-- `tdmb_SoftReset()`. -/
def tdmb_SoftReset (h : HwIf) : HwIf :=
  RTV_REG_SET 0x10 0xC9 (RTV_DELAY_MS 1 (RTV_REG_SET 0x10 0x48 (RTV_REG_MAP_SEL OFDM_PAGE h)))

/-- Threshold constants selected by the two nested `switch` statements of
`rtvTDMB_ScanFrequency`. -/
structure ScanThresholds where
  PreGainTH : Nat
  PWR_TH : Nat
  ILoopTH : Nat
  Cfreq_HTH : Nat
  Cfreq_LTH : Nat
  deriving DecidableEq, Repr

/-- The `switch( g_aeRtvAdcClkFreqType[RaonTvChipIdx] )` of `rtvTDMB_ScanFrequency` with its
inner `switch(DAB_Mode)`; `none` is the outer `default:` (unsupported ADC clock). -/
def scanThresholds (adc : E_RTV_ADC_CLK_FREQ_TYPE) (DAB_Mode : Nat) : Option ScanThresholds :=
  match adc with
  | E_RTV_ADC_CLK_FREQ_TYPE.RTV_ADC_CLK_FREQ_8_MHz =>
    some (match DAB_Mode with
      | 0 => ⟨405, 2400, 200, 206, 55⟩
      | 1 => ⟨405, 2000, 180, 242, 14⟩
      | 2 => ⟨405, 1300, 180, 248, 8⟩
      | 3 => ⟨405, 280, 180, 230, 26⟩
      | _ => ⟨405, 2400, 200, 206, 55⟩)
  | E_RTV_ADC_CLK_FREQ_TYPE.RTV_ADC_CLK_FREQ_8_192_MHz =>
    some (match DAB_Mode with
      | 0 => ⟨405, 1700, 200, 206, 55⟩
      | 1 => ⟨405, 1500, 180, 242, 14⟩
      | 2 => ⟨405, 1200, 180, 248, 8⟩
      | 3 => ⟨405, 1900, 180, 230, 26⟩
      | _ => ⟨405, 1700, 200, 206, 55⟩)
  | E_RTV_ADC_CLK_FREQ_TYPE.RTV_ADC_CLK_FREQ_9_MHz =>
    some (match DAB_Mode with
      | 0 => ⟨380, 7000, 200, 206, 55⟩
      | 1 => ⟨380, 5000, 180, 242, 14⟩
      | 2 => ⟨380, 1300, 180, 248, 8⟩
      | 3 => ⟨380, 8000, 180, 230, 26⟩
      | _ => ⟨380, 8000, 200, 206, 55⟩)
  | E_RTV_ADC_CLK_FREQ_TYPE.RTV_ADC_CLK_FREQ_9_6_MHz =>
    some (match DAB_Mode with
      | 0 => ⟨380, 7000, 200, 206, 55⟩
      | 1 => ⟨380, 5000, 180, 242, 14⟩
      | 2 => ⟨380, 1300, 180, 248, 8⟩
      | 3 => ⟨380, 8000, 180, 230, 26⟩
      | _ => ⟨380, 8000, 200, 206, 55⟩)
  | E_RTV_ADC_CLK_FREQ_TYPE.unsupported _ => none

/-- Values of `scan_flag` and of the debug variable `fail` at `TDMB_SCAN_EXIT`. -/
structure ScanExit where
  scan_flag : RtvResult
  fail : Nat
  deriving DecidableEq, Repr

/-- The `for(n=0;n<20;n++)` FEC sync retry loop.  Arguments: fuel, `n`, and the current
`scan_flag`/`fail`; the result is the state at `TDMB_SCAN_EXIT`. -/
def fecSyncLoop (env : Env) : Nat → Nat → ScanExit → HwIf → ScanExit × HwIf
  | 0, _, x, h => (x, h)
  | fuel + 1, n, x, h =>
    if n < 20 then
      let h1 := RTV_REG_MAP_SEL FEC_PAGE (RTV_DELAY_MS 10 h)
      let r1 := RTV_REG_GET env 0xFB h1
      let FEC_SYNC := r1.1 &&& 0x03
      let r2 := RTV_REG_GET env 0x12 (RTV_REG_MAP_SEL OFDM_PAGE r1.2)
      let OFDM_L := r2.1 &&& 0x80
      if OFDM_L = 0x80 then
        if FEC_SYNC = 0x03 then (⟨RtvResult.RTV_SUCCESS, 0xFF71⟩, r2.2)
        else if FEC_SYNC = 0x02 then
          fecSyncLoop env fuel (n + 1) ⟨RtvResult.RTV_CHANNEL_NOT_DETECTED, 0xFF72⟩ r2.2
        else fecSyncLoop env fuel (n + 1) ⟨RtvResult.RTV_CHANNEL_NOT_DETECTED, 0xFF73⟩ r2.2
      else (⟨RtvResult.RTV_CHANNEL_NOT_DETECTED, 0xFF74⟩, r2.2)
    else (x, h)

/-- The `for(j=0;j<50;j++)` OFDM lock wait loop.  Arguments: fuel, `j` and the current
`OFDM_L`; the result is `OFDM_L` after the loop. -/
def ofdmLockLoop (env : Env) : Nat → Nat → Nat → HwIf → Nat × HwIf
  | 0, _, OFDM_L, h => (OFDM_L, h)
  | fuel + 1, j, OFDM_L, h =>
    if j < 50 then
      let r0 := RTV_REG_GET env 0x12 (RTV_REG_MAP_SEL OFDM_PAGE (RTV_DELAY_MS 10 h))
      let r1 := RTV_REG_GET env 0x7E (RTV_REG_MASK_SET 0x82 0x01 0x01 r0.2)
      let r2 := RTV_REG_GET env 0x7F r1.2
      let varyMon := (((r2.1 &&& 0x1f) <<< 8) + r1.1) % 2 ^ 16
      if r0.1 &&& 0x80 ≠ 0 ∧ varyMon > 0 then
        (r0.1, RTV_REG_SET 0x54 0x58 (RTV_REG_MAP_SEL OFDM_PAGE r2.2))
      else ofdmLockLoop env fuel (j + 1) r0.1 r2.2
    else (OFDM_L, h)

/-- The code run when `ccnt > 1`: OFDM lock wait, then FEC sync detection; always ends at
`TDMB_SCAN_EXIT`.  `x` holds `scan_flag`/`fail` on entry and `OFDM_L` the current value of
that local. -/
def lockAndSync (env : Env) (x : ScanExit) (OFDM_L : Nat) (h : HwIf) : ScanExit × HwIf :=
  let l := ofdmLockLoop env 50 0 OFDM_L h
  if l.1 &&& 0x80 ≠ 0 then
    let r := RTV_REG_GET env 0xFB (RTV_REG_MAP_SEL FEC_PAGE l.2)
    let FEC_SYNC := r.1 &&& 0x03
    if FEC_SYNC = 0x03 then (⟨RtvResult.RTV_SUCCESS, 0xFF70⟩, r.2)
    else if FEC_SYNC = 0x02 then fecSyncLoop env 20 0 x r.2
    else (⟨RtvResult.RTV_CHANNEL_NOT_DETECTED, 0xFF75⟩, r.2)
  else (⟨RtvResult.RTV_CHANNEL_NOT_DETECTED, 0xFF0B⟩, l.2)

/-- Locals that live across iterations of the fine-check loop. -/
structure FineLocals where
  scan_flag : RtvResult
  fail : Nat
  SCV_C : Nat
  FsmCntChk : Nat
  ccnt : Nat
  OFDM_L : Nat
  deriving DecidableEq, Repr

/-- The `for(i=0; i<100; i++)` fine-check loop together with the statements after it; always
ends at `TDMB_SCAN_EXIT`. -/
def fineCheckLoop (cfg : BuildConfig) (env : Env) (DAB_Mode PreGain NullChCnt : Nat) :
    Nat → Nat → FineLocals → HwIf → ScanExit × HwIf
  | 0, _, _, h => (⟨RtvResult.RTV_CHANNEL_NOT_DETECTED, 0xFF0C⟩, h)
  | fuel + 1, i, v, h =>
    if i < 100 then
      let r0 := RTV_REG_GET env 0x30 (RTV_REG_MAP_SEL OFDM_PAGE (RTV_DELAY_MS 10 h))
      let ASCV := r0.1 &&& 0x0F
      if v.SCV_C > 0 ∧ ASCV > 7 then (⟨RtvResult.RTV_CHANNEL_NOT_DETECTED, 0xFF08⟩, r0.2)
      else
        let SCV_C := if ASCV > 7 then (v.SCV_C + 1) % 256 else v.SCV_C
        let r1 := RTV_REG_GET env 0x27 r0.2
        let DAB_Mode_Chk := (r1.1 &&& 0x30) >>> 4
        if DAB_Mode ≠ DAB_Mode_Chk then (⟨RtvResult.RTV_CHANNEL_NOT_DETECTED, 0xF100⟩, r1.2)
        else
          let h2 := RTV_REG_MASK_SET 0x4D 0x04 0x04
            (RTV_REG_MASK_SET 0x4D 0x04 0x00 (RTV_REG_MAP_SEL cfg.COMM_PAGE r1.2))
          let a0 := RTV_REG_GET env 0x4E h2
          let a1 := RTV_REG_GET env 0x4F a0.2
          let i_chk := ((a1.1 <<< 8) + a0.1) % 2 ^ 16
          let b0 := RTV_REG_GET env 0x50 a1.2
          let b1 := RTV_REG_GET env 0x51 b0.2
          let q_chk := ((b1.1 <<< 8) + b0.1) % 2 ^ 16
          if ((i_chk > 5 ∧ i_chk < 65530) ∨ (q_chk > 5 ∧ q_chk < 65530)) ∧ PreGain < 500 then
            (⟨RtvResult.RTV_CHANNEL_NOT_DETECTED, 0xF200⟩, b1.2)
          else
            -- FSM Monitoring check
            let r3 := RTV_REG_GET env 0x37 (RTV_REG_MAP_SEL OFDM_PAGE b1.2)
            let MON_FSM := r3.1 &&& 0x07
            let FsmCntChk :=
              if MON_FSM = 1 ∧ PreGain < 600 then
                (if NullChCnt > 14 then ((v.FsmCntChk + 1) % 256 + 3) % 256
                 else (v.FsmCntChk + 1) % 256)
              else v.FsmCntChk
            if MON_FSM = 1 ∧ FsmCntChk > 9 ∧ v.ccnt < 2 then
              (⟨RtvResult.RTV_CHANNEL_NOT_DETECTED, 0xFF0A⟩, r3.2)
            else
              -- Coarse Freq. check
              let r4 := RTV_REG_GET env 0x17 r3.2
              let ccnt := r4.1 &&& 0x1F
              if ccnt > 1 then lockAndSync env ⟨v.scan_flag, v.fail⟩ v.OFDM_L r4.2
              else
                fineCheckLoop cfg env DAB_Mode PreGain NullChCnt fuel (i + 1)
                  { v with scan_flag := RtvResult.RTV_CHANNEL_NOT_DETECTED, SCV_C := SCV_C,
                           FsmCntChk := FsmCntChk, ccnt := ccnt } r4.2
    else (⟨RtvResult.RTV_CHANNEL_NOT_DETECTED, 0xFF0C⟩, h)

/-- Outcome of the null-symbol sampling loop: a jump to `TDMB_SCAN_EXIT`, or the end of the
loop with the current `scan_flag`, `fail` and `NullChCnt`. -/
inductive NullOutcome
  | exit (x : ScanExit)
  | done (scan_flag : RtvResult) (fail : Nat) (NullChCnt : Nat)
  deriving DecidableEq, Repr

/-- The `for(m =0; m<16; m++)` null-symbol sampling loop. -/
def nullSampleLoop (env : Env) (DAB_Mode PreGain : Nat) :
    Nat → Nat → RtvResult → Nat → Nat → HwIf → NullOutcome × HwIf
  | 0, _, scan_flag, fail, NullChCnt, h => (NullOutcome.done scan_flag fail NullChCnt, h)
  | fuel + 1, m, scan_flag, fail, NullChCnt, h =>
    if m < 16 then
      let r0 := RTV_REG_GET env 0x1C h
      let t0 := RTV_REG_GET env 0x26 (RTV_REG_SET 0x1C (r0.1 ||| 0x10) r0.2)
      let t1 := RTV_REG_GET env 0x27 t0.2
      let NullLengthMon := ((t1.1 &&& 0x0F) <<< 8) ||| t0.1
      let r1 := RTV_REG_GET env 0x27 t1.2
      let DAB_Mode_Chk := (r1.1 &&& 0x30) >>> 4
      if DAB_Mode ≠ DAB_Mode_Chk then
        (NullOutcome.exit ⟨RtvResult.RTV_CHANNEL_NOT_DETECTED, 0xE000⟩, r1.2)
      else
        let NullChCnt1 :=
          if NullLengthMon = 0 ∨ NullLengthMon > 3000 then (NullChCnt + 1) % 256 else NullChCnt
        if NullChCnt1 > 10 ∧ m > 14 ∧ PreGain < 400 then
          (NullOutcome.exit ⟨RtvResult.RTV_CHANNEL_NOT_DETECTED, 0xEF05⟩, r1.2)
        else if m > 14 then (NullOutcome.done RtvResult.RTV_SUCCESS 0x1111 NullChCnt1, r1.2)
        else nullSampleLoop env DAB_Mode PreGain fuel (m + 1) scan_flag fail NullChCnt1
          (RTV_DELAY_MS 10 r1.2)
    else (NullOutcome.done scan_flag fail NullChCnt, h)

/-- Locals that live across iterations of the outer `while(1)` loop. -/
structure ScanLocals where
  nReTryCnt : Nat
  scan_flag : RtvResult
  fail : Nat
  NullChCnt : Nat
  deriving DecidableEq, Repr

/-- The `while(1)` polling loop of `rtvTDMB_ScanFrequency` up to `TDMB_SCAN_EXIT`.  The first
argument is fuel: every iteration increments `nReTryCnt` and the loop is left when it reaches
`10000`, so fuel `10000` is never exhausted when `nReTryCnt` starts at `0`. -/
def scanLoop (cfg : BuildConfig) (env : Env) (band : E_RTV_COUNTRY_BAND_TYPE)
    (adc : E_RTV_ADC_CLK_FREQ_TYPE) : Nat → ScanLocals → HwIf → ScanExit × HwIf
  | 0, v, h => (⟨v.scan_flag, v.fail⟩, h)
  | fuel + 1, v, h =>
    let nReTryCnt := (v.nReTryCnt + 1) % 2 ^ 32
    if nReTryCnt = 10000 then
      -- Scan Timeout!
      (⟨RtvResult.RTV_CHANNEL_NOT_DETECTED, 0xFF0D⟩, h)
    else
      let d := RTV_REG_GET env 0xCF (RTV_REG_MAP_SEL OFDM_PAGE h)
      let scan_done := d.1
      let p1 := RTV_REG_GET env 0x38 (RTV_REG_MAP_SEL cfg.COMM_PAGE d.2)
      let p2 := RTV_REG_GET env 0x39 p1.2
      let SPower := (p2.1 <<< 8) ||| p1.1
      let h1 := RTV_REG_MAP_SEL OFDM_PAGE p2.2
      if scan_done ≠ 0xff then
        let g0 := RTV_REG_GET env 0x53 h1
        let g1 := RTV_REG_GET env 0x66 (RTV_REG_SET 0x53 (g0.1 ||| 0x80) g0.2)
        let g2 := RTV_REG_GET env 0x67 g1.2
        let PreGain := (g2.1 <<< 2) ||| (g1.1 &&& 0x03)
        let m0 := RTV_REG_GET env 0x27 g2.2
        let DAB_Mode := (m0.1 &&& 0x30) >>> 4
        match scanThresholds adc DAB_Mode with
        | none => (⟨RtvResult.RTV_UNSUPPORT_ADC_CLK, v.fail⟩, m0.2)
        | some th =>
          if scan_done = 0x01 then (⟨RtvResult.RTV_CHANNEL_NOT_DETECTED, 0xEF01⟩, m0.2)
          else if scan_done = 0x03 then
            let c := RTV_REG_GET env 0x18 (RTV_REG_MAP_SEL OFDM_PAGE m0.2)
            let CoarseFreq := c.1
            if band = E_RTV_COUNTRY_BAND_TYPE.RTV_COUNTRY_BAND_KOREA ∧ DAB_Mode > 0 then
              (⟨RtvResult.RTV_CHANNEL_NOT_DETECTED, 0xE002⟩, c.2)
            else if CoarseFreq < th.Cfreq_HTH ∧ CoarseFreq > th.Cfreq_LTH then
              (⟨RtvResult.RTV_CHANNEL_NOT_DETECTED, 0xEF33⟩, c.2)
            else if SPower < th.PWR_TH then
              (⟨RtvResult.RTV_CHANNEL_NOT_DETECTED, 0xEF03⟩, c.2)
            else if PreGain < th.PreGainTH ∨ PreGain = 0 then
              (⟨RtvResult.RTV_CHANNEL_NOT_DETECTED, 0xEF04⟩, c.2)
            else
              match nullSampleLoop env DAB_Mode PreGain 16 0 v.scan_flag v.fail v.NullChCnt c.2
              with
              | (NullOutcome.exit x, h2) => (x, h2)
              | (NullOutcome.done scan_flag fail NullChCnt, h2) =>
                if scan_flag = RtvResult.RTV_SUCCESS then
                  fineCheckLoop cfg env DAB_Mode PreGain NullChCnt 100 0
                    ⟨scan_flag, fail, 0, 0, 0, 0⟩ h2
                else
                  scanLoop cfg env band adc fuel ⟨nReTryCnt, scan_flag, fail, NullChCnt⟩ h2
          else scanLoop cfg env band adc fuel { v with nReTryCnt := nReTryCnt } m0.2
      else (⟨RtvResult.RTV_CHANNEL_NOT_DETECTED, 0xFF0C⟩, h1)

/-- The part of `rtvTDMB_ScanFrequency` between the closing of the sub-channels and
`TDMB_SCAN_EXIT`: it only talks to collaborators and reads the globals
`g_eRtvCountryBandType` and `g_aeRtvAdcClkFreqType`. -/
def scanBody (cfg : BuildConfig) (env : Env) (band : E_RTV_COUNTRY_BAND_TYPE)
    (adc : E_RTV_ADC_CLK_FREQ_TYPE) (dwChFreqKHz : Nat) (h : HwIf) : ScanExit × HwIf :=
  let r := rtvRF_SetFrequency env dwChFreqKHz h
  if r.1 ≠ RtvResult.RTV_SUCCESS then (⟨r.1, 0⟩, r.2)
  else
    let h1 := tdmb_SoftReset (RTV_REG_SET 0x54 0x70 (RTV_REG_MAP_SEL OFDM_PAGE r.2))
    scanLoop cfg env band adc 10000 ⟨0, r.1, 0xFFFF, 0⟩ h1

/-- `rtvTDMB_ScanFrequency(dwChFreqKHz)`. -/
def rtvTDMB_ScanFrequency (cfg : BuildConfig) (env : Env) (dwChFreqKHz : Nat) (s : ChipState) :
    RtvResult × ChipState :=
  let s1 := emit Event.RTV_GUARD_LOCK { s with g_afRtvChannelChange := true }
  let s2 := if cfg.single then tdmb_CloseSubChannel cfg 0 s1 else tdmb_CloseAllSubChannel cfg s1
  let r := scanBody cfg env s2.g_eRtvCountryBandType s2.g_aeRtvAdcClkFreqType dwChFreqKHz s2.hw
  -- TDMB_SCAN_EXIT:
  (r.1.scan_flag,
    { s2 with
      hw := r.2.emit Event.RTV_GUARD_FREE
      g_afRtvChannelChange := false
      g_aTdmbPrevChFreqKHz := dwChFreqKHz })

/-! ## Initialisation -/

/-- A run of `RTV_REG_SET(addr, val)` statements, in program order. -/
def regSets (l : List (Nat × Nat)) (h : HwIf) : HwIf :=
  l.foldl (fun a p => RTV_REG_SET p.1 p.2 a) h

/-- `tdmb_InitTOP()`. -/
def tdmb_InitTOP (h : HwIf) : HwIf :=
  regSets [(0x07, 0x08), (0x05, 0x17), (0x06, 0x10), (0x0A, 0x00)] (RTV_REG_MAP_SEL OFDM_PAGE h)

/-- `tdmb_InitCOMM()`. -/
def tdmb_InitCOMM (cfg : BuildConfig) (h : HwIf) : HwIf :=
  let h1 := regSets [(0x10, 0x91), (0xE1, 0x00), (0x35, 0x8B), (0x3B, 0x3C), (0x36, 0x67),
    (0x3A, 0x0F), (0x3C, 0x20), (0x3D, 0x0B), (0x3D, 0x09)] (RTV_REG_MAP_SEL cfg.COMM_PAGE h)
  let h2 :=
    if !cfg.RTV_CIF_MODE_ENABLED then RTV_REG_SET 0xA6 0x10 h1
    else if cfg.ifSerialTsif then RTV_REG_SET 0xA6 0x30 h1
    else RTV_REG_SET 0xA6 0x10 h1
  RTV_REG_SET 0xAA 0x01 h2

/-- `tdmb_InitHOST()`. -/
def tdmb_InitHOST (cfg : BuildConfig) (h : HwIf) : HwIf :=
  regSets [(0x10, 0x00), (0x13, 0x16), (0x14, 0x00), (0x19, 0x0A), (0xF0, 0x00), (0xF1, 0x00),
    (0xF2, 0x00), (0xF3, 0x00), (0xF4, 0x00), (0xF5, 0x00), (0xF6, 0x00), (0xF7, 0x00),
    (0xF8, 0x00), (0xFB, 0xFF)] (RTV_REG_MAP_SEL cfg.HOST_PAGE h)

/-- `tdmb_InitOFDM()`. -/
def tdmb_InitOFDM (cfg : BuildConfig) (band : E_RTV_COUNTRY_BAND_TYPE)
    (adc : E_RTV_ADC_CLK_FREQ_TYPE) (h : HwIf) : HwIf :=
  let h0 := RTV_REG_MAP_SEL OFDM_PAGE h
  let h1 :=
    if band = E_RTV_COUNTRY_BAND_TYPE.RTV_COUNTRY_BAND_KOREA then RTV_REG_SET 0x11 0x8e h0
    else h0
  let h2 := regSets [(0x12, 0x04), (0x13, 0x72), (0x14, 0x63), (0x15, 0x64), (0x16, 0x6C),
    (0x38, 0x01), (0x20, 0x5B), (0x25, 0x09), (0x44, 0x00 ||| 0x09), (0x46, 0xA0), (0x47, 0x0F),
    (0x48, 0xB8), (0x49, 0x0B), (0x54, 0x58), (0x55, 0x06), (0x56, 0x00 ||| 0x10), (0x59, 0x51),
    (0x5A, 0x1C), (0x6D, 0x00), (0x8B, 0x24), (0x6B, 0x2D), (0x85, 0x32), (0x8E, 0x01),
    (0x33, 0x00 ||| (1 <<< 1)), (0x53, 0x00 ||| 0x06), (0x6F, 0x00 ||| 0x03), (0xBA, 0x08)] h1
  let clk (a b c d e : Nat) : HwIf :=
    regSets [(0x3c, b), (0x3d, c), (0x3e, d), (0x3f, e)]
      (RTV_REG_MAP_SEL OFDM_PAGE (RTV_REG_SET 0x6A a (RTV_REG_MAP_SEL cfg.COMM_PAGE h2)))
  let h3 :=
    match adc with
    | E_RTV_ADC_CLK_FREQ_TYPE.RTV_ADC_CLK_FREQ_8_MHz => clk 0x01 0x4B 0x37 0x89 0x41
    | E_RTV_ADC_CLK_FREQ_TYPE.RTV_ADC_CLK_FREQ_8_192_MHz => clk 0x01 0x00 0x00 0x00 0x40
    | E_RTV_ADC_CLK_FREQ_TYPE.RTV_ADC_CLK_FREQ_9_MHz => clk 0x21 0xB5 0x14 0x41 0x3A
    | E_RTV_ADC_CLK_FREQ_TYPE.RTV_ADC_CLK_FREQ_9_6_MHz => clk 0x31 0x69 0x03 0x9D 0x36
    | E_RTV_ADC_CLK_FREQ_TYPE.unsupported _ => h2
  regSets [(0x42, 0x00), (0x43, 0x00), (0x94, 0x08), (0x98, 0x05), (0x99, 0x03), (0x9B, 0xCF),
    (0x9C, 0x10), (0x9D, 0x1C), (0x9F, 0x32), (0xA0, 0x90), (0xA4, 0x01), (0xA8, 0xF6),
    (0xA9, 0x89), (0xAA, 0x0C), (0xAB, 0x32), (0xAC, 0x14), (0xAD, 0x09), (0xAE, 0xFF),
    (0xEB, 0x6B)] h3

/-- `tdmb_InitFEC()`. -/
def tdmb_InitFEC (cfg : BuildConfig) (h : HwIf) : HwIf :=
  let h0 := RTV_REG_MAP_SEL FEC_PAGE h
  let h1 :=
    if cfg.ifSpiOrEbi2 && !cfg.RTV_CIF_MODE_ENABLED then RTV_REG_MASK_SET 0x7D 0x10 0x10 h0
    else h0
  regSets [(0x80, 0x80), (0x81, 0xFF), (0x87, 0x07), (0x45, 0xA0), (0xDD, 0xD0), (0x39, 0x07),
    (0xE6, 0x10), (0xA5, 0xA0)] h1

/-- `tdmb_InitDemod()`. -/
def tdmb_InitDemod (cfg : BuildConfig) (band : E_RTV_COUNTRY_BAND_TYPE)
    (adc : E_RTV_ADC_CLK_FREQ_TYPE) (h : HwIf) : HwIf :=
  let h1 := tdmb_InitFEC cfg (tdmb_InitOFDM cfg band adc
    (tdmb_InitHOST cfg (tdmb_InitCOMM cfg (tdmb_InitTOP h))))
  let h2 := h1.emit Event.rtv_ResetMemory_FIC
  -- Configure interrupt.
  let h3 :=
    if cfg.ifSpiOrEbi2 then h2.emit Event.rtvOEM_ConfigureInterrupt
    else if cfg.ifAnyTsif && cfg.single then h2.emit Event.rtvOEM_ConfigureInterrupt
    else h2
  -- Configure Individual or CIF mode.
  let h4 := RTV_REG_MASK_SET 0x31 0x03 (if cfg.RTV_CIF_MODE_ENABLED then 0x03 else 0x00)
    (RTV_REG_MAP_SEL cfg.DD_PAGE h3)
  -- Configure TSIF.
  let h5 :=
    if cfg.ifSerialTsif then
      let a := RTV_REG_MAP_SEL cfg.COMM_PAGE (h4.emit Event.rtv_ConfigureTsifFormat)
      if !cfg.RTV_CIF_MODE_ENABLED then RTV_REG_SET 0x47 (0x13 ||| cfg.RTV_COMM_CON47_CLK_SEL) a
      else
        RTV_REG_SET 0xD6 0xF4 (RTV_REG_MAP_SEL cfg.DD_PAGE
          (RTV_REG_SET 0x47 (0x3F ||| cfg.RTV_COMM_CON47_CLK_SEL) a))
    else if cfg.iface = Interface.RTV_IF_MPEG2_PARALLEL_TSIF then
      h4.emit Event.rtv_SetParallelTsif_TDMB_Only
    else h4
  h5.emit Event.rtv_ConfigureHostIF

/-- `rtvTDMB_Initialize(eRtvCountryBandType)` for one chip (the `RTV_DUAL_CHIP_USED` check of
the chip index is outside the model).  The collaborators `rtv_InitSystem` and
`rtvRF_Initilize` answer through `Env`. -/
def rtvTDMB_Initialize (cfg : BuildConfig) (env : Env)
    (eRtvCountryBandType : E_RTV_COUNTRY_BAND_TYPE) (s : ChipState) : RtvResult × ChipState :=
  match eRtvCountryBandType with
  | E_RTV_COUNTRY_BAND_TYPE.other _ => (RtvResult.RTV_INVAILD_COUNTRY_BAND, s)
  | E_RTV_COUNTRY_BAND_TYPE.RTV_COUNTRY_BAND_KOREA =>
    let s1 : ChipState :=
      { s with
        g_eRtvCountryBandType := eRtvCountryBandType
        g_aTdmbPrevChFreqKHz := 0
        g_aRtvUsedHwSubChIdxBits := 0x00
        g_afRtvTdmbConfiguredFIC := false
        g_aRegSubChArrayIdxBits := 0x00
        g_aRegSubChIdBits :=
          Function.update (Function.update s.g_aRegSubChIdBits 0 0x00000000) 1 0x00000000 }
    let nRet := RtvResult.ofCollaborator (env.initSystem s1.hw.time)
    let s2 := onHw (fun h => { h with time := h.time + 1,
                                      trace := Event.rtv_InitSystem :: h.trace }) s1
    if nRet ≠ RtvResult.RTV_SUCCESS then (nRet, s2)
    else
      -- Must after rtv_InitSystem() to save ADC clock.
      let s3 := onHw (tdmb_InitDemod cfg s2.g_eRtvCountryBandType s2.g_aeRtvAdcClkFreqType) s2
      let nRet := RtvResult.ofCollaborator (env.rfInitilize s3.hw.time)
      let s4 := onHw (fun h => { h with time := h.time + 1,
                                        trace := Event.rtvRF_Initilize :: h.trace }) s3
      if nRet ≠ RtvResult.RTV_SUCCESS then (nRet, s4)
      else
        let s5 := onHw (fun h => RTV_REG_SET 0x6b 0xC5
          (RTV_REG_MAP_SEL cfg.RF_PAGE (RTV_DELAY_MS 100 h))) s4
        (RtvResult.RTV_SUCCESS,
          if cfg.RTV_CIF_MODE_ENABLED then emit Event.rtvCIFDEC_Init s5 else s5)

/-! ## Signal quality: CNR -/

/-- The table `g_awSNR_15_160` (146 entries, for raw values 15 to 160). -/
def g_awSNR_15_160 : List Nat :=
  [
    33163, 32214, 31327, 30496, 29714, 28978, 28281, 27622, 26995, 26400,
    25832, 25290, 24772, 24277, 23801, 23345, 22907, 22486, 22080, 21690,
    21313, 20949, 20597, 20257, 19928, 19610, 19301, 19002, 18712, 18430,
    18156, 17890, 17632, 17380, 17135, 16897, 16665, 16438, 16218, 16002,
    15792, 15587, 15387, 15192, 15001, 14814, 14631, 14453, 14278, 14107,
    13939, 13775, 13615, 13457, 13303, 13152, 13004, 12858, 12715, 12575,
    12438, 12303, 12171, 12041, 11913, 11788, 11664, 11543, 11424, 11307,
    11192, 11078, 10967, 10857, 10749, 10643, 10539, 10436, 10334, 10235,
    10136, 10039, 9944, 9850, 9757, 9666, 9576, 9487, 9400, 9314,
    9229, 9145, 9062, 8980, 8900, 8820, 8742, 8664, 8588, 8512,
    8438, 8364, 8292, 8220, 8149, 8079, 8010, 7942, 7874, 7807,
    7742, 7676, 7612, 7548, 7485, 7423, 7362, 7301, 7241, 7181,
    7123, 7064, 7007, 6950, 6894, 6838, 6783, 6728, 6674, 6621,
    6568, 6516, 6464, 6412, 6362, 6311, 6262, 6212, 6164, 6115,
    6067, 6020, 5973, 5927, 5881, 5835
  ]

/-- `rtvTDMB_GetCNR()`.  The local `data` is declared `U8`, so the 13-bit expression
`((data2 & 0x1f) << 8) + data1` is truncated to 8 bits by the assignment.  The constants
`(S32)(33 * RTV_TDMB_CNR_DIVIDER)` and `(S32)(5.44 * RTV_TDMB_CNR_DIVIDER)` are written
`33 * D` and `544 * D / 100`. -/
def rtvTDMB_GetCNR (cfg : BuildConfig) (env : Env) (s : ChipState) : Nat × ChipState :=
  if s.g_afRtvChannelChange then (0, s)
  else
    let h1 := RTV_REG_SET 0x82 0x01 (RTV_REG_MAP_SEL OFDM_PAGE (s.hw.emit Event.RTV_GUARD_LOCK))
    let r1 := RTV_REG_GET env 0x7E h1
    let r2 := RTV_REG_GET env 0x7F r1.2
    let s1 : ChipState := { s with hw := r2.2.emit Event.RTV_GUARD_FREE }
    let data1 := r1.1
    let data2 := r2.1
    let data := (((data2 &&& 0x1f) <<< 8) + data1) % 256
    if data = 0 then (0, s1)
    else if data > 0 ∧ data < 15 then (33 * cfg.RTV_TDMB_CNR_DIVIDER, s1)
    else if data ≥ 15 ∧ data ≤ 160 then (g_awSNR_15_160.getD (data - 15) 0, s1)
    else if data > 160 then (544 * cfg.RTV_TDMB_CNR_DIVIDER / 100, s1)
    else (0, s1)

/-! ## Vocabulary of the claims -/

/-- Table index `i` is registered: its bit is set in `registeredSlotMask`
(`g_aRegSubChArrayIdxBits`). -/
def Registered (s : ChipState) (i : Nat) : Prop :=
  s.g_aRegSubChArrayIdxBits.testBit i = true

/-- Bit `b` of `usedHardwareSlotMask` (`g_aRtvUsedHwSubChIdxBits`) is set. -/
def UsedHw (s : ChipState) (b : Nat) : Prop :=
  s.g_aRtvUsedHwSubChIdxBits.testBit b = true

/-- The bit for sub-channel ID `k` is set in `registeredSubChannelIdBits`:
bit `k & 31` of `g_aRegSubChIdBits[k >> 5]`. -/
def IdBit (s : ChipState) (k : Nat) : Prop :=
  (s.g_aRegSubChIdBits (SUBCH_GRP_IDX k)).testBit (MOD32 k) = true

instance (s : ChipState) (i : Nat) : Decidable (Registered s i) :=
  inferInstanceAs (Decidable (_ = true))

instance (s : ChipState) (b : Nat) : Decidable (UsedHw s b) :=
  inferInstanceAs (Decidable (_ = true))

instance (s : ChipState) (k : Nat) : Decidable (IdBit s k) :=
  inferInstanceAs (Decidable (_ = true))

/-- Chip states reachable from a successful `rtvTDMB_Initialize` (called on any prior state)
by any sequence of `rtvTDMB_OpenSubChannel`, `rtvTDMB_CloseSubChannel` and
`rtvTDMB_ScanFrequency` calls with arbitrary arguments. -/
inductive Reachable (cfg : BuildConfig) (env : Env) : ChipState → Prop
  | init (s0 : ChipState) (band : E_RTV_COUNTRY_BAND_TYPE) :
      (rtvTDMB_Initialize cfg env band s0).1 = RtvResult.RTV_SUCCESS →
      Reachable cfg env (rtvTDMB_Initialize cfg env band s0).2
  | openSubChannel (s : ChipState) (dwChFreqKHz nSubChID : Nat)
      (eServiceType : E_RTV_TDMB_SERVICE_TYPE) (nThresholdSize : Nat) :
      Reachable cfg env s →
      Reachable cfg env
        (rtvTDMB_OpenSubChannel cfg env dwChFreqKHz nSubChID eServiceType nThresholdSize s).2
  | closeSubChannel (s : ChipState) (nSubChID : Nat) :
      Reachable cfg env s → Reachable cfg env (rtvTDMB_CloseSubChannel cfg nSubChID s).2
  | scanFrequency (s : ChipState) (dwChFreqKHz : Nat) :
      Reachable cfg env s → Reachable cfg env (rtvTDMB_ScanFrequency cfg env dwChFreqKHz s).2

/-- The table of at least five entries (one Video slot and four Audio/Data slots) or the
single sub-channel build. -/
def BuildConfig.roomy (cfg : BuildConfig) : Prop :=
  cfg.RTV_MAX_NUM_SUB_CHANNEL_USED = 1 ∨ 5 ≤ cfg.RTV_MAX_NUM_SUB_CHANNEL_USED

/-- A threshold size that passes the check at the top of `rtvTDMB_OpenSubChannel`. -/
def thresholdAccepted (cfg : BuildConfig) (nThresholdSize : Nat) : Prop :=
  ¬ (cfg.RTV_CIF_MODE_ENABLED = false ∧ cfg.ifSpiOrEbi2 = true
      ∧ effectiveThreshold cfg nThresholdSize > 188 * 18)

/-- Every global except the interrupt-mask shadow and the collaborator interface. -/
def globals (s : ChipState) :
    (Nat → RTV_TDMB_REG_SUBCH_INFO) × Nat × Nat × Nat × Bool × (Nat → Nat) × Bool
      × E_RTV_COUNTRY_BAND_TYPE × E_RTV_ADC_CLK_FREQ_TYPE :=
  (s.g_atTdmbRegSubchInfo, s.g_aRegSubChArrayIdxBits, s.g_aRtvUsedHwSubChIdxBits,
    s.g_aTdmbPrevChFreqKHz, s.g_afRtvTdmbConfiguredFIC, s.g_aRegSubChIdBits,
    s.g_afRtvChannelChange, s.g_eRtvCountryBandType, s.g_aeRtvAdcClkFreqType)

/-- Table index chosen by the registration loop of `tdmb_OpenSubChannel`. -/
def openIdx (cfg : BuildConfig) (s : ChipState) : Option Nat :=
  if cfg.single then some 0 else searchFreeArrayIdx cfg s.g_aRegSubChArrayIdxBits

/-- Hardware sub channel index chosen by `tdmb_OpenSubChannel`. -/
def openHwIdx (cfg : BuildConfig) (svc : E_RTV_TDMB_SERVICE_TYPE) (s : ChipState) : Nat :=
  if cfg.single then 0
  else if svc = E_RTV_TDMB_SERVICE_TYPE.RTV_TDMB_SERVICE_VIDEO then 0
  else searchHwSubChIdx s.g_aRtvUsedHwSubChIdxBits

/-- The collaborator calls made between state `before` and the later state `after`, in
program order. -/
def callTrace (before after : ChipState) : List Event :=
  (after.hw.trace.take (after.hw.trace.length - before.hw.trace.length)).reverse

/-! ## Concrete builds and states used in examples -/

/-- A build with a table of `n` entries on interface `i`; the header constants are given
representative values. -/
def sampleBuild (n : Nat) (i : Interface) (cif : Bool) : BuildConfig :=
  { RTV_MAX_NUM_SUB_CHANNEL_USED := n, iface := i, RTV_CIF_MODE_ENABLED := cif, KERNEL := true,
    RTV_FIC_POLLING_MODE := true, COMM_PAGE := 0x04, HOST_PAGE := 0x00, DD_PAGE := 0x05,
    RF_PAGE := 0x0F, FIC_PAGE := 0x07, INT_E_UCLRL := 0x35, INT_E_STATL := 0x33,
    FIC_E_INT := 0x01, MSC0_INTR_BITS := 0x02, MSC1_INTR_BITS := 0x04,
    RTV_TS_PACKET_SIZE := 188, RTV_TDMB_OFDM_LOCK_MASK := 0x01, RTV_TDMB_FEC_LOCK_MASK := 0x02,
    RTV_TDMB_CNR_DIVIDER := 1000, RTV_TDMB_RSSI_DIVIDER := 10, RTV_TDMB_BER_DIVIDER := 100000,
    RTV_COMM_CON47_CLK_SEL := 0 }

/-- Collaborators that always succeed over registers that read `0`. -/
def quietEnv : Env :=
  { reg := fun _ _ _ => 0, rfSetFrequency := fun _ _ => none, initSystem := fun _ => none,
    rfInitilize := fun _ => none }

/-- Collaborators that always succeed; register `0x7E` reads `d1`, register `0x7F` reads `d2`
and every other register reads `0`. -/
def cnrEnv (d1 d2 : Nat) : Env :=
  { reg := fun _ _ a => if a = 0x7E then d1 else if a = 0x7F then d2 else 0,
    rfSetFrequency := fun _ _ => none, initSystem := fun _ => none,
    rfInitilize := fun _ => none }

/-- The zero-initialised statics of a freshly loaded driver. -/
def bootState : ChipState :=
  { g_atTdmbRegSubchInfo := fun _ => ⟨0, 0, E_RTV_TDMB_SERVICE_TYPE.RTV_TDMB_SERVICE_VIDEO, 0⟩,
    g_aRegSubChArrayIdxBits := 0, g_aRtvUsedHwSubChIdxBits := 0, g_aTdmbPrevChFreqKHz := 0,
    g_afRtvTdmbConfiguredFIC := false, g_aRegSubChIdBits := fun _ => 0,
    g_afRtvChannelChange := false, g_abRtvIntrMaskRegL := 0,
    g_eRtvCountryBandType := E_RTV_COUNTRY_BAND_TYPE.RTV_COUNTRY_BAND_KOREA,
    g_aeRtvAdcClkFreqType := E_RTV_ADC_CLK_FREQ_TYPE.RTV_ADC_CLK_FREQ_8_MHz,
    hw := ⟨0, 0, []⟩ }

/-- The state after `rtvTDMB_Initialize(RTV_COUNTRY_BAND_KOREA)` on the boot state. -/
def initState (cfg : BuildConfig) : ChipState :=
  (rtvTDMB_Initialize cfg quietEnv E_RTV_COUNTRY_BAND_TYPE.RTV_COUNTRY_BAND_KOREA bootState).2

/-! ## Invariants -/


/-- Table entry `i` has service type Video. -/
def IsVideo (s : ChipState) (i : Nat) : Prop :=
  (s.g_atTdmbRegSubchInfo i).eServiceType = E_RTV_TDMB_SERVICE_TYPE.RTV_TDMB_SERVICE_VIDEO

/-- The part of the registration bookkeeping that keeps the Video slot unique; it holds in
every build. -/
structure VideoInv (cfg : BuildConfig) (s : ChipState) : Prop where
  lt32 : ∀ i, Registered s i → i < 32
  single : cfg.single = true → ∀ i, Registered s i → i = 0
  vused : cfg.single = false → ∀ i, Registered s i → IsVideo s i → UsedHw s 0
  hw0 : cfg.single = false → ∀ i, Registered s i →
    (s.g_atTdmbRegSubchInfo i).nHwSubChIdx = 0 → IsVideo s i
  uniq : ∀ i j, Registered s i → Registered s j → IsVideo s i → IsVideo s j → i = j


/-- The registration invariants of the spec's data model (section 3) together with the facts
needed to keep them: table indices stay below the number of hardware slots, registered entries
have distinct IDs and distinct hardware slots, and the ID words stay 32-bit. -/
structure RegInv (cfg : BuildConfig) (s : ChipState) : Prop where
  idx : ∀ i, Registered s i → i < (if cfg.single then 1 else 5)
  used_iff : ∀ b, UsedHw s b ↔ ∃ i, Registered s i ∧ (s.g_atTdmbRegSubchInfo i).nHwSubChIdx = b
  id_iff : ∀ k, k < 64 →
    (IdBit s k ↔ ∃ i, Registered s i ∧ (s.g_atTdmbRegSubchInfo i).nSubChID = k)
  id_lt : ∀ i, Registered s i → (s.g_atTdmbRegSubchInfo i).nSubChID < 64
  id_inj : ∀ i j, Registered s i → Registered s j →
    (s.g_atTdmbRegSubchInfo i).nSubChID = (s.g_atTdmbRegSubchInfo j).nSubChID → i = j
  hw_inj : ∀ i j, Registered s i → Registered s j →
    (s.g_atTdmbRegSubchInfo i).nHwSubChIdx = (s.g_atTdmbRegSubchInfo j).nHwSubChIdx → i = j
  hw_rng : ∀ i, Registered s i →
    ((s.g_atTdmbRegSubchInfo i).nHwSubChIdx = 0 ∨
      (cfg.single = false ∧
        ((s.g_atTdmbRegSubchInfo i).nHwSubChIdx = 3 ∨ (s.g_atTdmbRegSubchInfo i).nHwSubChIdx = 4
          ∨ (s.g_atTdmbRegSubchInfo i).nHwSubChIdx = 5
          ∨ (s.g_atTdmbRegSubchInfo i).nHwSubChIdx = 6)))
  word_lt : ∀ w c, w < 2 → (s.g_aRegSubChIdBits w).testBit c = true → c < 32

/-- The state and result of the frequency-changing path of `rtvTDMB_OpenSubChannel`. -/
def openNewFreq (cfg : BuildConfig) (env : Env) (f k : Nat) (svc : E_RTV_TDMB_SERVICE_TYPE)
    (thr : Nat) (s : ChipState) : RtvResult × ChipState :=
  let s1 := emit Event.RTV_GUARD_LOCK
    { s with g_aTdmbPrevChFreqKHz := f, g_afRtvChannelChange := true }
  let s2 := if cfg.single then tdmb_CloseSubChannel cfg 0 s1 else tdmb_CloseAllSubChannel cfg s1
  let r := rtvRF_SetFrequency env f s2.hw
  let s3 := tdmb_OpenSubChannel cfg k svc (effectiveThreshold cfg thr) { s2 with hw := r.2 }
  (r.1, { emit Event.RTV_GUARD_FREE s3 with g_afRtvChannelChange := false })


instance (cfg : BuildConfig) : Decidable cfg.roomy :=
  inferInstanceAs (Decidable (_ ∨ _))

instance (cfg : BuildConfig) (nThresholdSize : Nat) :
    Decidable (thresholdAccepted cfg nThresholdSize) :=
  inferInstanceAs (Decidable (¬ _))

/-! ## Concrete states used in examples -/

/-- Multi sub-channel SPI build (individual mode) with a table of 5 entries. -/
def cfgM5 : BuildConfig := sampleBuild 5 Interface.RTV_IF_SPI false

/-- Multi sub-channel SPI build (individual mode) with a table of 2 entries. -/
def cfgM2 : BuildConfig := sampleBuild 2 Interface.RTV_IF_SPI false

/-- Single sub-channel SPI build (individual mode). -/
def cfgS1 : BuildConfig := sampleBuild 1 Interface.RTV_IF_SPI false

/-- After `Initialize`: `OpenSubChannel(100, 1, Video, 188)` in the build `cfgM5`. -/
def videoOnly : ChipState :=
  (rtvTDMB_OpenSubChannel cfgM5 quietEnv 100 1 E_RTV_TDMB_SERVICE_TYPE.RTV_TDMB_SERVICE_VIDEO
    188 (initState cfgM5)).2

/-- After `Initialize`: `OpenSubChannel(100, 1, Audio, 188)` in the build `cfgM5`. -/
def audioOnly : ChipState :=
  (rtvTDMB_OpenSubChannel cfgM5 quietEnv 100 1 E_RTV_TDMB_SERVICE_TYPE.RTV_TDMB_SERVICE_AUDIO
    188 (initState cfgM5)).2

/-- After `Initialize`: `OpenSubChannel(100, 3, Audio, 188)` in the single sub-channel build
`cfgS1`. -/
def singleAudio : ChipState :=
  (rtvTDMB_OpenSubChannel cfgS1 quietEnv 100 3 E_RTV_TDMB_SERVICE_TYPE.RTV_TDMB_SERVICE_AUDIO
    188 (initState cfgS1)).2

/-- After `Initialize` in the build `cfgM2` (table of 2 entries): Audio opens of IDs 1, 2
and 3 on frequency `100`. -/
def leakState : ChipState :=
  (rtvTDMB_OpenSubChannel cfgM2 quietEnv 100 3 E_RTV_TDMB_SERVICE_TYPE.RTV_TDMB_SERVICE_AUDIO 188
    (rtvTDMB_OpenSubChannel cfgM2 quietEnv 100 2 E_RTV_TDMB_SERVICE_TYPE.RTV_TDMB_SERVICE_AUDIO
      188
      (rtvTDMB_OpenSubChannel cfgM2 quietEnv 100 1
        E_RTV_TDMB_SERVICE_TYPE.RTV_TDMB_SERVICE_AUDIO 188 (initState cfgM2)).2).2).2

/-! ## Signal quality: lock status, PER, RSSI, CER, BER -/

/-- `rtvTDMB_GetLockStatus()`. -/
def rtvTDMB_GetLockStatus (cfg : BuildConfig) (env : Env) (s : ChipState) : Nat × ChipState :=
  if s.g_afRtvChannelChange then (0x0, s)
  else
    let r1 := RTV_REG_GET env 0x37 (RTV_REG_MAP_SEL cfg.DD_PAGE (s.hw.emit Event.RTV_GUARD_LOCK))
    let lock_st := if r1.1 &&& 0x01 ≠ 0 then cfg.RTV_TDMB_OFDM_LOCK_MASK % 2 ^ 32 else 0
    let r2 := RTV_REG_GET env 0xFB (RTV_REG_MAP_SEL FEC_PAGE r1.2)
    let s1 : ChipState := { s with hw := r2.2.emit Event.RTV_GUARD_FREE }
    if r2.1 &&& 0x03 = 0x03 then ((lock_st ||| cfg.RTV_TDMB_FEC_LOCK_MASK) % 2 ^ 32, s1)
    else (lock_st, s1)

/-- `rtvTDMB_GetPER()`. -/
def rtvTDMB_GetPER (env : Env) (s : ChipState) : Nat × ChipState :=
  if s.g_afRtvChannelChange then (0, s)
  else
    let r0 := RTV_REG_GET env 0xD7 (RTV_REG_MAP_SEL FEC_PAGE (s.hw.emit Event.RTV_GUARD_LOCK))
    let rs_sync := (r0.1 &&& 0x08) >>> 3
    if rs_sync ≠ 0x01 then (0, { s with hw := r0.2.emit Event.RTV_GUARD_FREE })
    else
      let r1 := RTV_REG_GET env 0xB4 r0.2
      let r2 := RTV_REG_GET env 0xB5 r1.2
      let rdata1 := r1.1
      let rdata0 := r2.1
      ((rdata1 <<< 8) ||| rdata0, { s with hw := r2.2.emit Event.RTV_GUARD_FREE })

/-- The conversion `(S32)x` of a mathematical integer: 32-bit two's complement wrap-around. -/
def toS32 (x : Int) : Int := (x + 2147483648) % 4294967296 - 2147483648

/-- Number of low bits of `n` that do not fit a significand of 53 bits: the least `s` with
`n / 2 ^ s < 2 ^ 53`.  The first argument is fuel; `n` itself is always enough. -/
def sigShift : Nat → Nat → Nat
  | 0, _ => 0
  | fuel + 1, n => if n < 2 ^ 53 then 0 else sigShift fuel (n / 2) + 1

/-- IEEE 754 `binary64` rounding of the natural number `n`, in the unit of `n`: `n` is replaced
by the nearest number with a significand of 53 bits, ties to the even significand. -/
def roundBinary64 (n : Nat) : Nat :=
  let s := sigShift n n
  let q := n / 2 ^ s
  let r := n % 2 ^ s
  if 2 ^ s < 2 * r ∨ (2 * r = 2 ^ s ∧ q % 2 = 1) then (q + 1) * 2 ^ s else q * 2 ^ s

/-- The C constant `(S32)(c * D)` for a decimal literal `c` and an integer constant `D`: the
literal is the `double` `m * 2^-k` nearest to `c`, `D` is converted exactly, the product is
the exact product `m * D * 2^-k` rounded to a `double`, and the cast truncates it. -/
def f64MulTrunc (m k D : Nat) : Nat := roundBinary64 (m * D) / 2 ^ k

/-- `(S32)(2.8*RTV_TDMB_RSSI_DIVIDER)`.  The `double` nearest to `2.8` is
`0x1.6666666666666p+1 = 3152519739159347 * 2^-50`, just below `2.8`. -/
def weight2_8 (D : Nat) : Nat := f64MulTrunc 3152519739159347 50 D

/-- `(S32)(2.7*RTV_TDMB_RSSI_DIVIDER)`.  The `double` nearest to `2.7` is
`0x1.599999999999ap+1 = 3039929748475085 * 2^-50`, just above `2.7`. -/
def weight2_7 (D : Nat) : Nat := f64MulTrunc 3039929748475085 50 D

/-- `(S32)(0.4*RTV_TDMB_RSSI_DIVIDER)`.  The `double` nearest to `0.4` is
`0x1.999999999999ap-2 = 3602879701896397 * 2^-53`, just above `0.4`. -/
def weight0_4 (D : Nat) : Nat := f64MulTrunc 3602879701896397 53 D

/-- `rtvTDMB_GetRSSI()`.  The three registers are read in the order in which they appear in
the expression (`0x00`, `0x02`, `0x04`).  `12*RTV_TDMB_RSSI_DIVIDER` and
`10*RTV_TDMB_RSSI_DIVIDER` are integer products; the other three weights are `double` products
cast to `S32`.  `S32` arithmetic wraps around. -/
def rtvTDMB_GetRSSI (cfg : BuildConfig) (env : Env) (s : ChipState) : Int × ChipState :=
  if s.g_afRtvChannelChange then (0, s)
  else
    let r0 := RTV_REG_GET env 0x00 (RTV_REG_MAP_SEL cfg.RF_PAGE (s.hw.emit Event.RTV_GUARD_LOCK))
    let RD00 := r0.1
    let r2 := RTV_REG_GET env 0x02 r0.2
    let r4 := RTV_REG_GET env 0x04 r2.2
    let D := cfg.RTV_TDMB_RSSI_DIVIDER
    let gain : Nat := ((RD00 &&& 0x30) >>> 4) * (12 * D) + (RD00 &&& 0x0F) * weight2_8 D
      + ((r2.1 &&& 0x1E) >>> 1) * weight2_7 D + (r4.1 &&& 0x7F) * weight0_4 D
    let nRssi := toS32 (-((gain : Int) - ((10 * D : Nat) : Int)))
    let s1 : ChipState := { s with hw := r4.2.emit Event.RTV_GUARD_FREE }
    if RD00 &&& 0xC0 = 0x40 then (toS32 (nRssi - 5), s1)
    else (nRssi, s1)

/-- `rtvTDMB_GetCER()` (MSC BER). -/
def rtvTDMB_GetCER (env : Env) (s : ChipState) : Nat × ChipState :=
  if s.g_afRtvChannelChange then (0, s)
  else
    let r3 := RTV_REG_GET env 0x8C (RTV_REG_MAP_SEL FEC_PAGE (s.hw.emit Event.RTV_GUARD_LOCK))
    let r2 := RTV_REG_GET env 0x8D r3.2
    let r1 := RTV_REG_GET env 0x8E r2.2
    let r0 := RTV_REG_GET env 0x8F r1.2
    let val := ((r3.1 <<< 24) ||| (r2.1 <<< 16) ||| (r1.1 <<< 8) ||| r0.1) % 2 ^ 32
    (((val / 1000) * 25) % 2 ^ 32, { s with hw := r0.2.emit Event.RTV_GUARD_FREE })

/-- `rtvTDMB_GetBER()` (Pre BER). -/
def rtvTDMB_GetBER (cfg : BuildConfig) (env : Env) (s : ChipState) : Nat × ChipState :=
  if s.g_afRtvChannelChange then (0, s)
  else
    let r0 := RTV_REG_GET env 0xD7 (RTV_REG_MAP_SEL FEC_PAGE (s.hw.emit Event.RTV_GUARD_LOCK))
    let rs_sync := (r0.1 &&& 0x08) >>> 3
    if rs_sync ≠ 0x01 then (0, { s with hw := r0.2.emit Event.RTV_GUARD_FREE })
    else
      let c2 := RTV_REG_GET env 0xA6 r0.2
      let c1 := RTV_REG_GET env 0xA7 c2.2
      let c0 := RTV_REG_GET env 0xA8 c1.2
      let cnt := ((c2.1 <<< 16) ||| (c1.1 <<< 8) ||| c0.1) % 2 ^ 32
      let d2 := RTV_REG_GET env 0xA9 c0.2
      let d1 := RTV_REG_GET env 0xAA d2.2
      let d0 := RTV_REG_GET env 0xAB d1.2
      let val := ((d2.1 <<< 16) ||| (d1.1 <<< 8) ||| d0.1) % 2 ^ 32 -- max 24 bit
      let s1 : ChipState := { s with hw := d0.2.emit Event.RTV_GUARD_FREE }
      if cnt = 0 then (0, s1)
      else (((val * (cfg.RTV_TDMB_BER_DIVIDER % 2 ^ 32)) % 2 ^ 32) / cnt, s1)

/-! ## FIC -/

/-- `RTV_REG_BURST_GET(addr, pbBuf + off, len)`: `len` successive bytes of register `addr` on
the selected page are stored at `pbBuf[off .. off + len - 1]`.  The caller's memory from
`pbBuf` on is a function of the offset. -/
def RTV_REG_BURST_GET (env : Env) (addr off len : Nat) (buf : Nat → Nat) (h : HwIf) :
    (Nat → Nat) × HwIf :=
  (fun i => if off ≤ i ∧ i < off + len then env.reg (h.time + (i - off)) h.page addr % 256
            else buf i,
    { h with time := h.time + len, trace := Event.RTV_REG_BURST_GET addr off len :: h.trace })

/-- The table `frame_dur` of `rtvTDMB_ReadFIC`. -/
def frame_dur : List Nat := [(96) / 2, (96 / 4) / 2, (96 / 4) / 2, (96 / 2) / 2]

/-- The burst read of `rtvTDMB_ReadFIC`, selected by the interface `#if`; the EBI2 interface
matches neither branch. -/
def ficBurst (cfg : BuildConfig) (env : Env) (pbBuf : Nat → Nat) (h : HwIf) :
    (Nat → Nat) × HwIf :=
  if cfg.ifAnyTsif then
    let b := RTV_REG_BURST_GET env 0x10 0 192 pbBuf h
    RTV_REG_BURST_GET env 0x10 192 192 b.1 b.2
  else if cfg.iface = Interface.RTV_IF_SPI then
    if cfg.KERNEL then RTV_REG_BURST_GET env 0x10 0 (384 + 1) pbBuf h
    else RTV_REG_BURST_GET env 0x10 0 384 pbBuf h
  else (pbBuf, h)

/-- The statements `RTV_REG_MAP_SEL(FIC_PAGE); <burst read>; RTV_REG_MAP_SEL(DD_PAGE);
RTV_REG_SET(INT_E_UCLRL, 0x01); RTV_GUARD_FREE; return 384;` shared by both modes of
`rtvTDMB_ReadFIC`. -/
def ficReadOut (cfg : BuildConfig) (env : Env) (pbBuf : Nat → Nat) (h : HwIf) :
    Nat × (Nat → Nat) × HwIf :=
  let b := ficBurst cfg env pbBuf (RTV_REG_MAP_SEL cfg.FIC_PAGE h)
  -- FIC interrupt status clear
  (384, b.1,
    (RTV_REG_SET cfg.INT_E_UCLRL 0x01 (RTV_REG_MAP_SEL cfg.DD_PAGE b.2)).emit
      Event.RTV_GUARD_FREE)

/-- The loop `while(++cnt <= 10)` of `rtvTDMB_ReadFIC` (polling mode) with the statements
after it.  Arguments: fuel, `cnt` before the increment. -/
def ficPollLoop (cfg : BuildConfig) (env : Env) (tr_mode : Nat) (pbBuf : Nat → Nat) :
    Nat → Nat → HwIf → Nat × (Nat → Nat) × HwIf
  | 0, _, h => (0, pbBuf, h.emit Event.RTV_GUARD_FREE)
  | fuel + 1, cnt, h =>
    if cnt + 1 ≤ 10 then
      let r := RTV_REG_GET env cfg.INT_E_STATL h
      if r.1 &&& cfg.FIC_E_INT ≠ 0 then ficReadOut cfg env pbBuf r.2 -- FIC interrupt
      else ficPollLoop cfg env tr_mode pbBuf fuel (cnt + 1)
        (RTV_DELAY_MS (frame_dur.getD tr_mode 0) r.2)
    else (0, pbBuf, h.emit Event.RTV_GUARD_FREE)

/-- `rtvTDMB_ReadFIC(pbBuf)`: the returned triple is the return value, the caller's buffer
and the chip state. -/
def rtvTDMB_ReadFIC (cfg : BuildConfig) (env : Env) (pbBuf : Nat → Nat) (s : ChipState) :
    Nat × (Nat → Nat) × ChipState :=
  if cfg.RTV_FIC_POLLING_MODE then
    if s.g_afRtvTdmbConfiguredFIC = false then (0, pbBuf, s)
    else
      -- DAB TX Mode monitoring
      let r := RTV_REG_GET env 0x27 (RTV_REG_MAP_SEL 0x06 (s.hw.emit Event.RTV_GUARD_LOCK))
      let tr_mode := (r.1 &&& 0x30) >>> 4
      let l := ficPollLoop cfg env tr_mode pbBuf 11 0 (RTV_REG_MAP_SEL cfg.DD_PAGE r.2)
      (l.1, l.2.1, { s with hw := l.2.2 })
  else
    let l := ficReadOut cfg env pbBuf (s.hw.emit Event.RTV_GUARD_LOCK)
    (l.1, l.2.1, { s with hw := l.2.2 })

/-- The `#if` block of `rtvTDMB_CloseFIC` and `rtvTDMB_OpenFIC` applies: SPI or EBI2, or a
TSIF interface in the single sub-channel build; in both cases only without
`RTV_FIC_POLLING_MODE`. -/
def BuildConfig.ficIntrUsed (cfg : BuildConfig) : Bool :=
  if cfg.ifSpiOrEbi2 then !cfg.RTV_FIC_POLLING_MODE
  else if cfg.ifAnyTsif then cfg.single && !cfg.RTV_FIC_POLLING_MODE
  else false

/-- `rtvTDMB_CloseFIC()`. -/
def rtvTDMB_CloseFIC (cfg : BuildConfig) (s : ChipState) : ChipState :=
  if s.g_afRtvTdmbConfiguredFIC = false then s
  else
    let s1 := emit Event.RTV_GUARD_LOCK s
    -- Disable the FIC interrupt.
    let s2 := if cfg.ficIntrUsed then disableIntr cfg cfg.FIC_E_INT s1 else s1
    emit Event.RTV_GUARD_FREE
      { emit Event.rtv_ResetMemory_FIC s2 with g_afRtvTdmbConfiguredFIC := false }

/-- `rtvTDMB_OpenFIC()`. -/
def rtvTDMB_OpenFIC (cfg : BuildConfig) (s : ChipState) : ChipState :=
  if s.g_afRtvTdmbConfiguredFIC = true then s
  else
    let s1 := emit Event.RTV_GUARD_LOCK { s with g_afRtvTdmbConfiguredFIC := true }
    let s2 :=
      if cfg.ficIntrUsed then
        -- FIC Interrupt status clear, then enable the FIC interrupt.
        let a := onHw (RTV_REG_MAP_SEL cfg.HOST_PAGE)
          (onHw (RTV_REG_SET 0x35 0x01) (onHw (RTV_REG_MAP_SEL cfg.DD_PAGE) s1))
        let m := (andNot32 a.g_abRtvIntrMaskRegL cfg.FIC_E_INT) % 256
        onHw (RTV_REG_SET 0x62 m) { a with g_abRtvIntrMaskRegL := m }
      else s1
    -- Enable FIC memory.
    emit Event.RTV_GUARD_FREE (emit Event.rtv_SetupMemory_FIC s2)

/-! ## Vocabulary of the later claims -/

/-- The claims' `trunc(t/10 * D)` for a decimal with one digit after the point (`2.8`, `2.7`,
`0.4`): the exact product truncated.  It follows the words of the claims, not the code. -/
def truncTenths (t D : Nat) : Nat := t * D / 10

/-- The weighted sum of the four register fields in the claims' formula for the RSSI, for the
register readings `a`, `b`, `c` and the divider `D`, with the weight `w` on the field
`a & 0x0F`: the claims take `w = trunc(2.8 D)`. -/
def rssiGain (w D a b c : Nat) : Nat :=
  ((a &&& 0x30) >>> 4) * (12 * D) + (a &&& 0x0F) * w
    + ((b &&& 0x1E) >>> 1) * truncTenths 27 D + (c &&& 0x7F) * truncTenths 4 D

/-- The value `base` of the claims' formula for the RSSI, `-(weighted sum - 10 D)`, with the
weight `w` on the field `a & 0x0F`. -/
def rssiBase (w D a b c : Nat) : Int :=
  -((rssiGain w D a b c : Int) - ((10 * D : Nat) : Int))

/-- The calls of `n` rounds of the polling loop of `rtvTDMB_ReadFIC` in program order: a read
of the status register `statl` followed by a delay of `ms`. -/
def pollTrace (statl ms : Nat) : Nat → List Event
  | 0 => []
  | n + 1 => Event.RTV_REG_GET statl :: Event.RTV_DELAY_MS ms :: pollTrace statl ms n

/-- Number of bytes transferred by the burst reads of a call trace. -/
def burstBytes : List Event → Nat
  | [] => 0
  | Event.RTV_REG_BURST_GET _ _ len :: es => len + burstBytes es
  | _ :: es => burstBytes es

/-- A call is a register access: page select, read, write, masked write or burst read. -/
def Event.isRegAccess : Event → Bool
  | Event.RTV_REG_MAP_SEL _ => true
  | Event.RTV_REG_SET _ _ => true
  | Event.RTV_REG_MASK_SET _ _ _ => true
  | Event.RTV_REG_GET _ => true
  | Event.RTV_REG_BURST_GET _ _ _ => true
  | _ => false

/-! ## Concrete builds and register oracles of the later examples -/

/-- Collaborators that always succeed over registers whose content `R page addr` does not
change. -/
def regEnv (R : Nat → Nat → Nat) : Env :=
  { reg := fun _ p a => R p a, rfSetFrequency := fun _ _ => none, initSystem := fun _ => none,
    rfInitilize := fun _ => none }

/-- Collaborators that always succeed; every register reads `0` before time `n` and `0xFF`
from time `n` on. -/
def lateEnv (n : Nat) : Env :=
  { reg := fun t _ _ => if t < n then 0 else 0xFF, rfSetFrequency := fun _ _ => none,
    initSystem := fun _ => none, rfInitilize := fun _ => none }

/-- Multi sub-channel serial TSIF build (individual mode) with a table of 5 entries. -/
def cfgT5 : BuildConfig := sampleBuild 5 Interface.RTV_IF_MPEG2_SERIAL_TSIF false

/-- Multi sub-channel EBI2 build (individual mode) with a table of 5 entries. -/
def cfgE5 : BuildConfig := sampleBuild 5 Interface.RTV_IF_EBI2 false

/-- The build `cfgM5` without `RTV_FIC_POLLING_MODE` (direct mode of `rtvTDMB_ReadFIC`). -/
def cfgM5Direct : BuildConfig := { cfgM5 with RTV_FIC_POLLING_MODE := false }

/-- The state after `rtvTDMB_OpenFIC()` on the state after `Initialize` in the build
`cfgM5`. -/
def ficOpened : ChipState := rtvTDMB_OpenFIC cfgM5 (initState cfgM5)

/-- The caller's zeroed buffer. -/
def zeroBuf : Nat → Nat := fun _ => 0

/-- The boot state with the channel-changing flag set (a frequency change is under way). -/
def changingState : ChipState := { bootState with g_afRtvChannelChange := true }

/-- The build `cfgM5` with an RSSI divider of 45. -/
def cfgD45 : BuildConfig := { cfgM5 with RTV_TDMB_RSSI_DIVIDER := 45 }

/-- Collaborators that always succeed; register `0x00` reads `0x0F` and every other register
reads `0`. -/
def gainStepEnv : Env := regEnv (fun _ a => if a = 0x00 then 0x0F else 0)

/-! ## Vocabulary of the scan claims -/

/-- The scan-done flag read by an iteration of the `while(1)` loop of
`rtvTDMB_ScanFrequency` that starts at clock `t`. -/
def scanDoneAt (env : Env) (t : Nat) : Nat := env.reg t OFDM_PAGE 0xCF % 256

/-- `SPower = (scan_pwr2<<8)|scan_pwr1` as read by the iteration that starts at clock `t`. -/
def scanPowerAt (cfg : BuildConfig) (env : Env) (t : Nat) : Nat :=
  ((env.reg (t + 2) cfg.COMM_PAGE 0x39 % 256) <<< 8) ||| (env.reg (t + 1) cfg.COMM_PAGE 0x38 % 256)

/-- `PreGain = (pre_agc2<<2)|(pre_agc1&0x03)` as read by the iteration that starts at clock
`t`. -/
def preGainAt (env : Env) (t : Nat) : Nat :=
  ((env.reg (t + 5) OFDM_PAGE 0x67 % 256) <<< 2) ||| ((env.reg (t + 4) OFDM_PAGE 0x66 % 256) &&& 0x03)

/-- `DAB_Mode = (RTV_REG_GET(0x27) & 0x30)>>4` as read by the iteration that starts at clock
`t`. -/
def scanModeAt (env : Env) (t : Nat) : Nat := ((env.reg (t + 6) OFDM_PAGE 0x27 % 256) &&& 0x30) >>> 4

/-- A scan-done value after which the `while(1)` loop polls again: it is none of `0xff`,
`0x01`, `0x03`. -/
def scanPending (d : Nat) : Prop := d ≠ 0xff ∧ d ≠ 0x01 ∧ d ≠ 0x03

instance (d : Nat) : Decidable (scanPending d) := inferInstanceAs (Decidable (_ ∧ _))

/-- The ADC clock type is one of the four handled by the `switch` of the scan. -/
def adcSupported (adc : E_RTV_ADC_CLK_FREQ_TYPE) : Prop :=
  adc = E_RTV_ADC_CLK_FREQ_TYPE.RTV_ADC_CLK_FREQ_8_MHz ∨
  adc = E_RTV_ADC_CLK_FREQ_TYPE.RTV_ADC_CLK_FREQ_8_192_MHz ∨
  adc = E_RTV_ADC_CLK_FREQ_TYPE.RTV_ADC_CLK_FREQ_9_MHz ∨
  adc = E_RTV_ADC_CLK_FREQ_TYPE.RTV_ADC_CLK_FREQ_9_6_MHz

instance (adc : E_RTV_ADC_CLK_FREQ_TYPE) : Decidable (adcSupported adc) :=
  inferInstanceAs (Decidable (_ ∨ _))

/-- The state in which `rtvTDMB_ScanFrequency` calls the tuner: the flag is set, the lock is
taken and the sub-channels are closed.  It does not depend on the collaborators' answers. -/
def scanClosed (cfg : BuildConfig) (s : ChipState) : ChipState :=
  if cfg.single then
    tdmb_CloseSubChannel cfg 0 (emit Event.RTV_GUARD_LOCK { s with g_afRtvChannelChange := true })
  else
    tdmb_CloseAllSubChannel cfg
      (emit Event.RTV_GUARD_LOCK { s with g_afRtvChannelChange := true })

/-- Number of recorded collaborator calls that satisfy `p`. -/
def calls (p : Event → Bool) (h : HwIf) : Nat := h.trace.countP p

/-- The call is a read of register `addr`. -/
def isRead (addr : Nat) (e : Event) : Bool := decide (e = Event.RTV_REG_GET addr)

/-- The scan ended with OFDM lock and FEC sync: either the last value read is the FEC sync
status `0b11` and the OFDM lock bit was set in the last read of register `0x12` before it
(exit `0xFF70`), or the last two values read are the FEC sync status `0b11` and register
`0x12` with the lock bit set (exit `0xFF71`). -/
def LockedAndSynced (env : Env) (h : HwIf) : Prop :=
  (∃ tr, h.trace = Event.RTV_REG_GET 0xFB :: Event.RTV_REG_MAP_SEL FEC_PAGE :: tr ∧
    4 ≤ h.time ∧ (env.reg (h.time - 1) FEC_PAGE 0xFB % 256) &&& 0x03 = 0x03 ∧
    (env.reg (h.time - 4) OFDM_PAGE 0x12 % 256) &&& 0x80 ≠ 0) ∨
  (∃ tr, h.trace = Event.RTV_REG_GET 0x12 :: Event.RTV_REG_MAP_SEL OFDM_PAGE
      :: Event.RTV_REG_GET 0xFB :: Event.RTV_REG_MAP_SEL FEC_PAGE :: tr ∧
    2 ≤ h.time ∧ (env.reg (h.time - 2) FEC_PAGE 0xFB % 256) &&& 0x03 = 0x03 ∧
    (env.reg (h.time - 1) OFDM_PAGE 0x12 % 256) &&& 0x80 = 0x80)

/-! ## Concrete oracles and states of the scan examples -/

/-- Collaborators over registers that read `0` whose tuner fails with code `c`. -/
def tunerFailEnv (c : Nat) : Env :=
  { quietEnv with rfSetFrequency := fun _ _ => some c }

/-- The boot state with an ADC clock type outside the four supported ones. -/
def oddAdcState : ChipState :=
  { bootState with g_aeRtvAdcClkFreqType := E_RTV_ADC_CLK_FREQ_TYPE.unsupported 0 }

/-- The boot state with the 9 MHz ADC clock. -/
def nineMHzState : ChipState :=
  { bootState with g_aeRtvAdcClkFreqType := E_RTV_ADC_CLK_FREQ_TYPE.RTV_ADC_CLK_FREQ_9_MHz }

/-- Registers of a channel that passes every gate before the null-symbol sampling and then
reads a null-symbol length of 0 on every sample: scan done `0x03`, scan power `0xFFFF`,
pre-AGC gain `g`, transmission mode 0, coarse frequency 0. -/
def nullRejectEnv (g : Nat) : Env :=
  regEnv (fun _ a =>
    if a = 0xCF then 0x03 else if a = 0x38 then 0xFF else if a = 0x39 then 0xFF
    else if a = 0x66 then g % 4 else if a = 0x67 then g / 4 else 0)

/-- Registers of a channel that locks at once: like `nullRejectEnv 1023`, with a coarse count
of 2, the OFDM lock bit set, a variance monitor of 1 and FEC sync status `0b11`. -/
def lockedEnv : Env :=
  regEnv (fun _ a =>
    if a = 0xCF then 0x03 else if a = 0x38 then 0xFF else if a = 0x39 then 0xFF
    else if a = 0x66 then 0x03 else if a = 0x67 then 0xFF else if a = 0x26 then 0x01
    else if a = 0x17 then 0x02 else if a = 0x12 then 0x80 else if a = 0x7E then 0x01
    else if a = 0xFB then 0x03 else 0)

/-- Weight of one round of the FEC sync retry loop of the scan under the call predicate `p`
(five calls). -/
def syncRoundCalls (p : Event → Bool) : Nat :=
  (p (Event.RTV_DELAY_MS 10)).toNat + (p (Event.RTV_REG_MAP_SEL FEC_PAGE)).toNat
    + (p (Event.RTV_REG_GET 0xFB)).toNat + (p (Event.RTV_REG_MAP_SEL OFDM_PAGE)).toNat
    + (p (Event.RTV_REG_GET 0x12)).toNat

/-- Weight of one round of the OFDM lock wait loop (six calls). -/
def lockRoundCalls (p : Event → Bool) : Nat :=
  (p (Event.RTV_DELAY_MS 10)).toNat + (p (Event.RTV_REG_MAP_SEL OFDM_PAGE)).toNat
    + (p (Event.RTV_REG_GET 0x12)).toNat + (p (Event.RTV_REG_MASK_SET 0x82 0x01 0x01)).toNat
    + (p (Event.RTV_REG_GET 0x7E)).toNat + (p (Event.RTV_REG_GET 0x7F)).toNat

/-- Weight of the code run when `ccnt > 1`: 50 rounds of lock wait, the two calls at its
`break`, the read of the FEC sync status and 20 rounds of sync retry. -/
def lockAndSyncCalls (p : Event → Bool) : Nat :=
  50 * lockRoundCalls p
    + ((p (Event.RTV_REG_MAP_SEL OFDM_PAGE)).toNat + (p (Event.RTV_REG_SET 0x54 0x58)).toNat)
    + ((p (Event.RTV_REG_MAP_SEL FEC_PAGE)).toNat + (p (Event.RTV_REG_GET 0xFB)).toNat)
    + 20 * syncRoundCalls p

/-- Weight of one round of the fine-check loop (fourteen calls). -/
def fineRoundCalls (cfg : BuildConfig) (p : Event → Bool) : Nat :=
  (p (Event.RTV_DELAY_MS 10)).toNat + (p (Event.RTV_REG_MAP_SEL OFDM_PAGE)).toNat
    + (p (Event.RTV_REG_GET 0x30)).toNat + (p (Event.RTV_REG_GET 0x27)).toNat
    + (p (Event.RTV_REG_MAP_SEL cfg.COMM_PAGE)).toNat
    + (p (Event.RTV_REG_MASK_SET 0x4D 0x04 0x00)).toNat
    + (p (Event.RTV_REG_MASK_SET 0x4D 0x04 0x04)).toNat
    + (p (Event.RTV_REG_GET 0x4E)).toNat + (p (Event.RTV_REG_GET 0x4F)).toNat
    + (p (Event.RTV_REG_GET 0x50)).toNat + (p (Event.RTV_REG_GET 0x51)).toNat
    + (p (Event.RTV_REG_MAP_SEL OFDM_PAGE)).toNat
    + (p (Event.RTV_REG_GET 0x37)).toNat + (p (Event.RTV_REG_GET 0x17)).toNat

/-- Weight of one round of the null-symbol sampling loop (six calls; the value written to
`0x1C` is taken as 0). -/
def nullRoundCalls (p : Event → Bool) : Nat :=
  (p (Event.RTV_REG_GET 0x1C)).toNat + (p (Event.RTV_REG_SET 0x1C 0)).toNat
    + (p (Event.RTV_REG_GET 0x26)).toNat + (p (Event.RTV_REG_GET 0x27)).toNat
    + (p (Event.RTV_REG_GET 0x27)).toNat + (p (Event.RTV_DELAY_MS 10)).toNat

/-- Weight of the polls of one round of the `while(1)` loop (eleven calls; the value written
to `0x53` is taken as 0). -/
def pollRoundCalls (cfg : BuildConfig) (p : Event → Bool) : Nat :=
  (p (Event.RTV_REG_MAP_SEL OFDM_PAGE)).toNat + (p (Event.RTV_REG_GET 0xCF)).toNat
    + (p (Event.RTV_REG_MAP_SEL cfg.COMM_PAGE)).toNat + (p (Event.RTV_REG_GET 0x38)).toNat
    + (p (Event.RTV_REG_GET 0x39)).toNat + (p (Event.RTV_REG_MAP_SEL OFDM_PAGE)).toNat
    + (p (Event.RTV_REG_GET 0x53)).toNat + (p (Event.RTV_REG_SET 0x53 0)).toNat
    + (p (Event.RTV_REG_GET 0x66)).toNat + (p (Event.RTV_REG_GET 0x67)).toNat
    + (p (Event.RTV_REG_GET 0x27)).toNat

/-- Weight of what follows the polls in the round that ends the scan: the coarse frequency
read, 16 rounds of null-symbol sampling, 100 rounds of fine check, lock and sync. -/
def scanTailCalls (cfg : BuildConfig) (p : Event → Bool) : Nat :=
  ((p (Event.RTV_REG_MAP_SEL OFDM_PAGE)).toNat + (p (Event.RTV_REG_GET 0x18)).toNat)
    + 16 * nullRoundCalls p + 100 * fineRoundCalls cfg p + lockAndSyncCalls p

/-- Weight of the calls of `rtvTDMB_ScanFrequency` after the sub-channels are closed: the
tuner call, the five calls before the `while(1)` loop, 9,999 rounds of polls, the tail of the
last round and the unlock. -/
def scanCalls (cfg : BuildConfig) (f : Nat) (p : Event → Bool) : Nat :=
  (p (Event.rtvRF_SetFrequency f)).toNat
    + ((p (Event.RTV_REG_MAP_SEL OFDM_PAGE)).toNat + (p (Event.RTV_REG_SET 0x54 0x70)).toNat
      + (p (Event.RTV_REG_MAP_SEL OFDM_PAGE)).toNat + (p (Event.RTV_REG_SET 0x10 0x48)).toNat
      + (p (Event.RTV_DELAY_MS 1)).toNat + (p (Event.RTV_REG_SET 0x10 0xC9)).toNat)
    + 9999 * pollRoundCalls cfg p + scanTailCalls cfg p + (p Event.RTV_GUARD_FREE).toNat

/-- The call predicate does not look at the value written by `RTV_REG_SET`. -/
def ValueBlind (p : Event → Bool) : Prop :=
  ∀ a v : Nat, p (Event.RTV_REG_SET a v) = p (Event.RTV_REG_SET a 0)

/-- A call is a delay (`RTV_DELAY_MS`). -/
def Event.isDelay : Event → Bool
  | Event.RTV_DELAY_MS _ => true
  | _ => false

/-- The `while(1)` loop of the scan, started at clock `t0`, reaches its round `j`: the
scan-done flag read by every earlier round asked for another poll.  Round `j` then starts at
clock `t0 + 7 * j`, since a round that polls again reads seven registers. -/
def ReachesRound (env : Env) (t0 j : Nat) : Prop :=
  ∀ i, i < j → scanPending (scanDoneAt env (t0 + 7 * i))

/-- What is known of the state `r` at `TDMB_SCAN_EXIT` when the `while(1)` loop is entered at
clock `t` with `nReTryCnt = n` and `fail = fl`: either the scan was rejected ("not detected",
or "unsupported ADC clock" for an unsupported clock type) without passing the null-symbol
rejection, or some round `j` read scan-done `0x03` with a scan power and a pre-AGC gain at or
above their thresholds and ended in "not detected" (through the null-symbol rejection only with
a gain below 400) or in success with OFDM lock and FEC sync. -/
def ScanVerdict (cfg : BuildConfig) (env : Env) (adc : E_RTV_ADC_CLK_FREQ_TYPE) (t n fl : Nat)
    (r : ScanExit × HwIf) : Prop :=
  ((r.1.scan_flag = RtvResult.RTV_CHANNEL_NOT_DETECTED ∨
      (r.1.scan_flag = RtvResult.RTV_UNSUPPORT_ADC_CLK ∧ ¬ adcSupported adc)) ∧
    (r.1.fail = 0xEF05 → fl = 0xEF05)) ∨
  ∃ j, n + j < 9999 ∧ ReachesRound env t j ∧ scanDoneAt env (t + 7 * j) = 0x03 ∧
    ∃ th, scanThresholds adc (scanModeAt env (t + 7 * j)) = some th ∧
      th.PWR_TH ≤ scanPowerAt cfg env (t + 7 * j) ∧
      th.PreGainTH ≤ preGainAt env (t + 7 * j) ∧
      ((r.1.scan_flag = RtvResult.RTV_CHANNEL_NOT_DETECTED ∧
          (r.1.fail = 0xEF05 → preGainAt env (t + 7 * j) < 400)) ∨
        (r.1.scan_flag = RtvResult.RTV_SUCCESS ∧ r.1.fail ≠ 0xEF05 ∧ LockedAndSynced env r.2))

/-- Registers of a channel whose scan completes at once with no scan power: scan done reads
`0x03` and every other register reads `0`. -/
def lowPowerEnv : Env :=
  regEnv (fun _ a => if a = 0xCF then 0x03 else 0)

/-! # Theorems -/


/-! ## Bit-level facts -/

theorem shl1_eq (n : Nat) : shl1 n = if n < 32 then 2 ^ n else 0 := by
  unfold shl1
  rw [Nat.one_shiftLeft]
  split_ifs with h
  · exact Nat.mod_eq_of_lt (Nat.pow_lt_pow_right (by norm_num) h)
  · have : 32 ≤ n := Nat.le_of_not_lt h
    obtain ⟨k, rfl⟩ := Nat.exists_eq_add_of_le this
    rw [pow_add]; simp

theorem testBit_shl1 (n j : Nat) : (shl1 n).testBit j = (decide (n < 32) && decide (n = j)) := by
  rw [shl1_eq]
  split_ifs with h
  · simp [Nat.testBit_two_pow, h]
  · simp [h]

theorem testBit_andNot32 (x m j : Nat) :
    (andNot32 x m).testBit j = (x.testBit j && (decide (j < 32) && !m.testBit j)) := by
  unfold andNot32
  have h : (0xFFFFFFFF : Nat) = 2 ^ 32 - 1 := by norm_num
  rw [Nat.testBit_and, Nat.testBit_xor, h, Nat.testBit_two_pow_sub_one, Nat.testBit_mod_two_pow]
  by_cases hj : j < 32 <;> simp [hj]

theorem and_shl1_eq_zero (x n : Nat) : x &&& shl1 n = 0 ↔ ¬ (n < 32 ∧ x.testBit n = true) := by
  constructor
  · intro h ⟨hn, hx⟩
    have := congrArg (fun y => y.testBit n) h
    simp [Nat.testBit_and, testBit_shl1, hn, hx] at this
  · intro h
    apply Nat.eq_of_testBit_eq
    intro j
    simp only [Nat.testBit_and, testBit_shl1, Nat.zero_testBit]
    by_cases hn : n < 32
    · by_cases hj : n = j
      · subst hj; simp [hn] at h; simp [h]
      · simp [hj]
    · simp [hn]

/-! ## Frame: the collaborator calls leave the registration bookkeeping alone -/

theorem globals_onHw (f : HwIf → HwIf) (s : ChipState) : globals (onHw f s) = globals s := rfl

theorem globals_emit (e : Event) (s : ChipState) : globals (emit e s) = globals s := rfl

theorem globals_disableIntr (cfg : BuildConfig) (b : Nat) (s : ChipState) :
    globals (disableIntr cfg b s) = globals s := rfl

theorem globals_enableIntr (cfg : BuildConfig) (c b : Nat) (s : ChipState) :
    globals (enableIntr cfg c b s) = globals s := rfl

theorem globals_closeSwitch (id hw : Nat) (s : ChipState) :
    globals (closeSwitch id hw s) = globals s := by
  unfold closeSwitch; split_ifs <;> simp only [globals_emit]

theorem globals_closeResetMSC1 (cfg : BuildConfig) (s : ChipState) :
    globals (closeResetMSC1 cfg s) = globals s := by
  unfold closeResetMSC1; split_ifs <;> simp only [globals_emit, globals_disableIntr]

theorem globals_closeResetMSC0 (cfg : BuildConfig) (s : ChipState) :
    globals (closeResetMSC0 cfg s) = globals s := by
  unfold closeResetMSC0; split_ifs <;> simp only [globals_emit, globals_disableIntr]

theorem globals_closeHw (cfg : BuildConfig) (id hw : Nat) (s : ChipState) :
    globals (closeSubChannelHw cfg id hw s) = globals s := by
  unfold closeSubChannelHw
  split_ifs
  · simp only [globals_emit, globals_disableIntr]
  · simp only [globals_emit]
  · rw [globals_emit, globals_closeResetMSC0, globals_closeResetMSC1, globals_closeSwitch]
  · rw [globals_closeResetMSC0, globals_closeResetMSC1, globals_closeSwitch]

theorem globals_openSwitch (id hw : Nat) (s : ChipState) :
    globals (openSwitch id hw s) = globals s := by
  unfold openSwitch; split_ifs <;> simp only [globals_emit]

theorem globals_openSetupMSC1 (cfg : BuildConfig) (thr : Nat) (s : ChipState) :
    globals (openSetupMSC1 cfg thr s) = globals s := by
  unfold openSetupMSC1; split_ifs <;> simp only [globals_emit, globals_enableIntr]

theorem globals_openSetupMSC0 (cfg : BuildConfig) (thr : Nat) (s : ChipState) :
    globals (openSetupMSC0 cfg thr s) = globals s := by
  unfold openSetupMSC0; split_ifs <;> simp only [globals_emit, globals_enableIntr]

theorem globals_openHw (cfg : BuildConfig) (id : Nat) (svc : E_RTV_TDMB_SERVICE_TYPE)
    (thr : Nat) (s : ChipState) :
    globals (openSubChannelHw cfg id svc thr s).2 = globals s := by
  unfold openSubChannelHw
  split_ifs
  · show globals (openSingleHw cfg id svc thr s) = globals s
    unfold openSingleHw; split_ifs <;> simp only [globals_emit, globals_enableIntr]
  · show globals (openVideoHw cfg id thr s) = globals s
    unfold openVideoHw
    split_ifs
    · rw [globals_emit, globals_openSetupMSC1, globals_emit]
    · rw [globals_openSetupMSC1, globals_emit]
  · show globals (openAudioHw cfg id _ thr s) = globals s
    unfold openAudioHw
    split_ifs
    · rw [globals_emit, globals_openSetupMSC0, globals_openSwitch]
    · rw [globals_openSetupMSC0, globals_openSwitch]

theorem openHw_fst (cfg : BuildConfig) (id : Nat) (svc : E_RTV_TDMB_SERVICE_TYPE)
    (thr : Nat) (s : ChipState) :
    (openSubChannelHw cfg id svc thr s).1 =
      if cfg.single then 0
      else if svc = E_RTV_TDMB_SERVICE_TYPE.RTV_TDMB_SERVICE_VIDEO then 0
      else searchHwSubChIdx s.g_aRtvUsedHwSubChIdxBits := by
  unfold openSubChannelHw
  split_ifs <;> rfl

/-! ## Field-level description of `tdmb_CloseSubChannel` and `tdmb_OpenSubChannel` -/

theorem close_noop (cfg : BuildConfig) (i : Nat) (s : ChipState)
    (h : ¬ (i < 32 ∧ Registered s i)) : tdmb_CloseSubChannel cfg i s = s := by
  unfold tdmb_CloseSubChannel
  rw [if_pos ((and_shl1_eq_zero _ _).2 h)]

theorem close_globals (cfg : BuildConfig) (i : Nat) (s : ChipState)
    (h : i < 32 ∧ Registered s i) :
    globals (tdmb_CloseSubChannel cfg i s) =
      (s.g_atTdmbRegSubchInfo,
        andNot32 s.g_aRegSubChArrayIdxBits (shl1 i),
        andNot32 s.g_aRtvUsedHwSubChIdxBits (shl1 (s.g_atTdmbRegSubchInfo i).nHwSubChIdx),
        s.g_aTdmbPrevChFreqKHz, s.g_afRtvTdmbConfiguredFIC,
        Function.update s.g_aRegSubChIdBits (SUBCH_GRP_IDX (s.g_atTdmbRegSubchInfo i).nSubChID)
          (andNot32 (s.g_aRegSubChIdBits (SUBCH_GRP_IDX (s.g_atTdmbRegSubchInfo i).nSubChID))
            (shl1 (MOD32 (s.g_atTdmbRegSubchInfo i).nSubChID))),
        s.g_afRtvChannelChange, s.g_eRtvCountryBandType, s.g_aeRtvAdcClkFreqType) := by
  have hg := globals_closeHw cfg (s.g_atTdmbRegSubchInfo i).nSubChID
    (s.g_atTdmbRegSubchInfo i).nHwSubChIdx s
  unfold tdmb_CloseSubChannel
  rw [if_neg (fun h0 => (and_shl1_eq_zero _ _).1 h0 h)]
  simp only [globals, Prod.mk.injEq] at hg ⊢
  obtain ⟨h1, h2, h3, h4, h5, h6, h7, h8, h9⟩ := hg
  simp only [h1, h2, h3, h4, h5, h6, h7, h8, h9, and_self]

theorem open_globals (cfg : BuildConfig) (k : Nat) (svc : E_RTV_TDMB_SERVICE_TYPE) (thr : Nat)
    (s : ChipState) :
    globals (tdmb_OpenSubChannel cfg k svc thr s) =
      ((match openIdx cfg s with
          | some i => Function.update s.g_atTdmbRegSubchInfo i ⟨k, openHwIdx cfg svc s, svc, thr⟩
          | none => s.g_atTdmbRegSubchInfo),
        (match openIdx cfg s with
          | some i => s.g_aRegSubChArrayIdxBits ||| shl1 i
          | none => s.g_aRegSubChArrayIdxBits),
        s.g_aRtvUsedHwSubChIdxBits ||| shl1 (openHwIdx cfg svc s),
        s.g_aTdmbPrevChFreqKHz, s.g_afRtvTdmbConfiguredFIC,
        Function.update s.g_aRegSubChIdBits (SUBCH_GRP_IDX k)
          (s.g_aRegSubChIdBits (SUBCH_GRP_IDX k) ||| shl1 (MOD32 k)),
        s.g_afRtvChannelChange, s.g_eRtvCountryBandType, s.g_aeRtvAdcClkFreqType) := by
  have hg := globals_openHw cfg k svc thr s
  have hf := openHw_fst cfg k svc thr s
  unfold tdmb_OpenSubChannel openIdx
  simp only [globals, Prod.mk.injEq] at hg ⊢
  obtain ⟨h1, h2, h3, h4, h5, h6, h7, h8, h9⟩ := hg
  have hh : (openSubChannelHw cfg k svc thr s).1 = openHwIdx cfg svc s := hf
  by_cases hs : cfg.single = true
  · simp only [hs, if_true, registerEntry, h1, h2, h3, h4, h5, h6, h7, h8, h9, hh, and_self]
  · simp only [hs, Bool.false_eq_true, if_false, h2]
    cases hi : searchFreeArrayIdx cfg s.g_aRegSubChArrayIdxBits with
    | none => simp only [h1, h2, h3, h4, h5, h6, h7, h8, h9, hh, and_self]
    | some i =>
      simp only [registerEntry, h1, h2, h3, h4, h5, h6, h7, h8, h9, hh, and_self]

/-! ## Effect of the two primitives on the vocabulary of the claims -/

theorem mod32_lt (k : Nat) : MOD32 k < 32 := by
  unfold MOD32
  have h := Nat.and_pow_two_sub_one_eq_mod k 5
  norm_num at h
  rw [h]
  exact Nat.mod_lt _ (by norm_num)

theorem id_split (k : Nat) : k = SUBCH_GRP_IDX k * 32 + MOD32 k := by
  unfold SUBCH_GRP_IDX MOD32
  have h := Nat.and_pow_two_sub_one_eq_mod k 5
  norm_num at h
  rw [h, Nat.shiftRight_eq_div_pow]
  norm_num
  omega

theorem id_eq_iff (k c : Nat) :
    k = c ↔ SUBCH_GRP_IDX k = SUBCH_GRP_IDX c ∧ MOD32 k = MOD32 c := by
  constructor
  · rintro rfl; exact ⟨rfl, rfl⟩
  · rintro ⟨h1, h2⟩
    rw [id_split k, id_split c, h1, h2]

theorem grp_lt_two {k : Nat} (h : k < 64) : SUBCH_GRP_IDX k < 2 := by
  unfold SUBCH_GRP_IDX
  rw [Nat.shiftRight_eq_div_pow]
  norm_num
  omega

theorem close_table (cfg : BuildConfig) (i : Nat) (s : ChipState) :
    (tdmb_CloseSubChannel cfg i s).g_atTdmbRegSubchInfo = s.g_atTdmbRegSubchInfo := by
  by_cases h : i < 32 ∧ Registered s i
  · have := close_globals cfg i s h
    simp only [globals, Prod.mk.injEq] at this
    exact this.1
  · rw [close_noop cfg i s h]

theorem close_prev (cfg : BuildConfig) (i : Nat) (s : ChipState) :
    (tdmb_CloseSubChannel cfg i s).g_aTdmbPrevChFreqKHz = s.g_aTdmbPrevChFreqKHz := by
  by_cases h : i < 32 ∧ Registered s i
  · have := close_globals cfg i s h
    simp only [globals, Prod.mk.injEq] at this
    exact this.2.2.2.1
  · rw [close_noop cfg i s h]

theorem close_chg (cfg : BuildConfig) (i : Nat) (s : ChipState) :
    (tdmb_CloseSubChannel cfg i s).g_afRtvChannelChange = s.g_afRtvChannelChange := by
  by_cases h : i < 32 ∧ Registered s i
  · have := close_globals cfg i s h
    simp only [globals, Prod.mk.injEq] at this
    exact this.2.2.2.2.2.2.1
  · rw [close_noop cfg i s h]

theorem close_registered (cfg : BuildConfig) (i : Nat) (s : ChipState)
    (h : i < 32 ∧ Registered s i) (j : Nat) :
    Registered (tdmb_CloseSubChannel cfg i s) j ↔ Registered s j ∧ j < 32 ∧ j ≠ i := by
  have := close_globals cfg i s h
  simp only [globals, Prod.mk.injEq] at this
  unfold Registered
  rw [this.2.1, testBit_andNot32, testBit_shl1]
  simp only [Bool.and_eq_true, decide_eq_true_eq, Bool.not_eq_true', Bool.and_eq_false_imp,
    decide_eq_false_iff_not]
  constructor
  · rintro ⟨h1, h2, h3⟩
    exact ⟨h1, h2, fun e => h3 h.1 e.symm⟩
  · rintro ⟨h1, h2, h3⟩
    exact ⟨h1, h2, fun _ e => h3 e.symm⟩

theorem close_usedHw (cfg : BuildConfig) (i : Nat) (s : ChipState)
    (h : i < 32 ∧ Registered s i) (b : Nat) :
    UsedHw (tdmb_CloseSubChannel cfg i s) b ↔
      UsedHw s b ∧ b < 32 ∧ (s.g_atTdmbRegSubchInfo i).nHwSubChIdx ≠ b := by
  have := close_globals cfg i s h
  simp only [globals, Prod.mk.injEq] at this
  unfold UsedHw
  rw [this.2.2.1, testBit_andNot32, testBit_shl1]
  simp only [Bool.and_eq_true, decide_eq_true_eq, Bool.not_eq_true', Bool.and_eq_false_imp,
    decide_eq_false_iff_not]
  constructor
  · rintro ⟨h1, h2, h3⟩
    refine ⟨h1, h2, fun e => h3 (by omega) e⟩
  · rintro ⟨h1, h2, h3⟩
    exact ⟨h1, h2, fun _ e => h3 e⟩

theorem close_word (cfg : BuildConfig) (i : Nat) (s : ChipState)
    (h : i < 32 ∧ Registered s i) (w c : Nat) :
    (((tdmb_CloseSubChannel cfg i s).g_aRegSubChIdBits w).testBit c = true) ↔
      ((s.g_aRegSubChIdBits w).testBit c = true ∧
        (w = SUBCH_GRP_IDX (s.g_atTdmbRegSubchInfo i).nSubChID →
          c < 32 ∧ MOD32 (s.g_atTdmbRegSubchInfo i).nSubChID ≠ c)) := by
  have := close_globals cfg i s h
  simp only [globals, Prod.mk.injEq] at this
  rw [this.2.2.2.2.2.1]
  by_cases hw : w = SUBCH_GRP_IDX (s.g_atTdmbRegSubchInfo i).nSubChID
  · subst hw
    rw [Function.update_same, testBit_andNot32, testBit_shl1]
    have := mod32_lt (s.g_atTdmbRegSubchInfo i).nSubChID
    simp only [Bool.and_eq_true, decide_eq_true_eq, Bool.not_eq_true', Bool.and_eq_false_imp,
      decide_eq_false_iff_not, true_implies]
    constructor
    · rintro ⟨h1, h2, h3⟩
      exact ⟨h1, h2, h3 this⟩
    · rintro ⟨h1, h2, h3⟩
      exact ⟨h1, h2, fun _ => h3⟩
  · rw [Function.update_noteq hw]
    simp [hw]

theorem close_idBit (cfg : BuildConfig) (i : Nat) (s : ChipState)
    (h : i < 32 ∧ Registered s i) (k : Nat) :
    IdBit (tdmb_CloseSubChannel cfg i s) k ↔
      IdBit s k ∧ k ≠ (s.g_atTdmbRegSubchInfo i).nSubChID := by
  unfold IdBit
  rw [close_word cfg i s h]
  have := mod32_lt k
  constructor
  · rintro ⟨h1, h2⟩
    refine ⟨h1, fun e => ?_⟩
    obtain ⟨e1, e2⟩ := (id_eq_iff _ _).1 e
    exact (h2 e1).2 e2.symm
  · rintro ⟨h1, h2⟩
    exact ⟨h1, fun e1 => ⟨this, fun e2 => h2 ((id_eq_iff _ _).2 ⟨e1, e2.symm⟩)⟩⟩

theorem searchHw_cases (used : Nat) :
    (searchHwSubChIdx used = 7 ∧ used.testBit 3 = true ∧ used.testBit 4 = true
        ∧ used.testBit 5 = true ∧ used.testBit 6 = true) ∨
    ((searchHwSubChIdx used = 3 ∨ searchHwSubChIdx used = 4 ∨ searchHwSubChIdx used = 5
        ∨ searchHwSubChIdx used = 6) ∧ used.testBit (searchHwSubChIdx used) = false
      ∧ ∀ b, 3 ≤ b → b < searchHwSubChIdx used → used.testBit b = true) := by
  by_cases h3 : used.testBit 3 = true
  · by_cases h4 : used.testBit 4 = true
    · by_cases h5 : used.testBit 5 = true
      · by_cases h6 : used.testBit 6 = true
        · left
          have hv : searchHwSubChIdx used = 7 := by
            unfold searchHwSubChIdx; simp [and_shl1_eq_zero, h3, h4, h5, h6]
          exact ⟨hv, h3, h4, h5, h6⟩
        · right
          have hv : searchHwSubChIdx used = 6 := by
            unfold searchHwSubChIdx; simp [and_shl1_eq_zero, h3, h4, h5, h6]
          rw [hv]
          refine ⟨by simp, by simpa using h6, ?_⟩
          intro b hb1 hb2
          interval_cases b <;> assumption
      · right
        have hv : searchHwSubChIdx used = 5 := by
          unfold searchHwSubChIdx; simp [and_shl1_eq_zero, h3, h4, h5]
        rw [hv]
        refine ⟨by simp, by simpa using h5, ?_⟩
        intro b hb1 hb2
        interval_cases b <;> assumption
    · right
      have hv : searchHwSubChIdx used = 4 := by
        unfold searchHwSubChIdx; simp [and_shl1_eq_zero, h3, h4]
      rw [hv]
      refine ⟨by simp, by simpa using h4, ?_⟩
      intro b hb1 hb2
      interval_cases b
      assumption
  · right
    have hv : searchHwSubChIdx used = 3 := by
      unfold searchHwSubChIdx; simp [and_shl1_eq_zero, h3]
    rw [hv]
    refine ⟨by simp, by simpa using h3, ?_⟩
    intro b hb1 hb2
    omega

theorem searchFreeFrom_some (bits : Nat) :
    ∀ (n i r : Nat), searchFreeFrom bits n i = some r →
      i ≤ r ∧ r < i + n ∧ bits &&& shl1 r = 0 ∧ ∀ j, i ≤ j → j < r → bits &&& shl1 j ≠ 0 := by
  intro n
  induction n with
  | zero => intro i r h; simp [searchFreeFrom] at h
  | succ n ih =>
    intro i r h
    unfold searchFreeFrom at h
    split_ifs at h with h0
    · cases h
      exact ⟨le_refl _, by omega, h0, fun j h1 h2 => by omega⟩
    · obtain ⟨h1, h2, h3, h4⟩ := ih (i + 1) r h
      refine ⟨by omega, by omega, h3, fun j hj1 hj2 => ?_⟩
      by_cases e : j = i
      · subst e; exact h0
      · exact h4 j (by omega) hj2

theorem searchFreeFrom_none (bits : Nat) :
    ∀ (n i : Nat), searchFreeFrom bits n i = none →
      ∀ j, i ≤ j → j < i + n → bits &&& shl1 j ≠ 0 := by
  intro n
  induction n with
  | zero => intro i _ j h1 h2; omega
  | succ n ih =>
    intro i h j h1 h2
    unfold searchFreeFrom at h
    split_ifs at h with h0
    by_cases e : j = i
    · subst e; exact h0
    · exact ih (i + 1) h j (by omega) (by omega)

theorem open_prev (cfg : BuildConfig) (k : Nat) (svc : E_RTV_TDMB_SERVICE_TYPE) (thr : Nat)
    (s : ChipState) :
    (tdmb_OpenSubChannel cfg k svc thr s).g_aTdmbPrevChFreqKHz = s.g_aTdmbPrevChFreqKHz := by
  have := open_globals cfg k svc thr s
  simp only [globals, Prod.mk.injEq] at this
  exact this.2.2.2.1

theorem open_chg (cfg : BuildConfig) (k : Nat) (svc : E_RTV_TDMB_SERVICE_TYPE) (thr : Nat)
    (s : ChipState) :
    (tdmb_OpenSubChannel cfg k svc thr s).g_afRtvChannelChange = s.g_afRtvChannelChange := by
  have := open_globals cfg k svc thr s
  simp only [globals, Prod.mk.injEq] at this
  exact this.2.2.2.2.2.2.1

theorem open_usedHw (cfg : BuildConfig) (k : Nat) (svc : E_RTV_TDMB_SERVICE_TYPE) (thr : Nat)
    (s : ChipState) (b : Nat) :
    UsedHw (tdmb_OpenSubChannel cfg k svc thr s) b ↔
      UsedHw s b ∨ (openHwIdx cfg svc s < 32 ∧ openHwIdx cfg svc s = b) := by
  have := open_globals cfg k svc thr s
  simp only [globals, Prod.mk.injEq] at this
  unfold UsedHw
  rw [this.2.2.1, Nat.testBit_or, testBit_shl1]
  simp only [Bool.or_eq_true, Bool.and_eq_true, decide_eq_true_eq]

theorem open_word (cfg : BuildConfig) (k : Nat) (svc : E_RTV_TDMB_SERVICE_TYPE) (thr : Nat)
    (s : ChipState) (w c : Nat) :
    (((tdmb_OpenSubChannel cfg k svc thr s).g_aRegSubChIdBits w).testBit c = true) ↔
      ((s.g_aRegSubChIdBits w).testBit c = true ∨ (w = SUBCH_GRP_IDX k ∧ MOD32 k = c)) := by
  have := open_globals cfg k svc thr s
  simp only [globals, Prod.mk.injEq] at this
  rw [this.2.2.2.2.2.1]
  by_cases hw : w = SUBCH_GRP_IDX k
  · subst hw
    rw [Function.update_same, Nat.testBit_or, testBit_shl1]
    have := mod32_lt k
    simp [this]
  · rw [Function.update_noteq hw]
    simp [hw]

theorem open_idBit (cfg : BuildConfig) (k : Nat) (svc : E_RTV_TDMB_SERVICE_TYPE) (thr : Nat)
    (s : ChipState) (c : Nat) :
    IdBit (tdmb_OpenSubChannel cfg k svc thr s) c ↔ IdBit s c ∨ c = k := by
  unfold IdBit
  rw [open_word]
  constructor
  · rintro (h | ⟨h1, h2⟩)
    · exact Or.inl h
    · exact Or.inr ((id_eq_iff _ _).2 ⟨h1, h2.symm⟩)
  · rintro (h | h)
    · exact Or.inl h
    · obtain ⟨e1, e2⟩ := (id_eq_iff _ _).1 h
      exact Or.inr ⟨e1, e2.symm⟩

/-- Registration part of `tdmb_OpenSubChannel` when the chosen table index really sets a
bit. -/
theorem open_reg_some (cfg : BuildConfig) (k : Nat) (svc : E_RTV_TDMB_SERVICE_TYPE) (thr : Nat)
    (s : ChipState) (i : Nat) (hi : openIdx cfg s = some i) :
    (∀ j, Registered (tdmb_OpenSubChannel cfg k svc thr s) j ↔
        Registered s j ∨ (i < 32 ∧ j = i)) ∧
    (tdmb_OpenSubChannel cfg k svc thr s).g_atTdmbRegSubchInfo =
      Function.update s.g_atTdmbRegSubchInfo i ⟨k, openHwIdx cfg svc s, svc, thr⟩ := by
  have := open_globals cfg k svc thr s
  simp only [globals, Prod.mk.injEq, hi] at this
  refine ⟨fun j => ?_, this.1⟩
  unfold Registered
  rw [this.2.1, Nat.testBit_or, testBit_shl1]
  simp only [Bool.or_eq_true, Bool.and_eq_true, decide_eq_true_eq]
  constructor
  · rintro (h | ⟨h1, h2⟩)
    · exact Or.inl h
    · exact Or.inr ⟨h1, h2.symm⟩
  · rintro (h | ⟨h1, h2⟩)
    · exact Or.inl h
    · exact Or.inr ⟨h1, h2.symm⟩

theorem open_reg_none (cfg : BuildConfig) (k : Nat) (svc : E_RTV_TDMB_SERVICE_TYPE) (thr : Nat)
    (s : ChipState) (hi : openIdx cfg s = none) :
    (∀ j, Registered (tdmb_OpenSubChannel cfg k svc thr s) j ↔ Registered s j) ∧
    (tdmb_OpenSubChannel cfg k svc thr s).g_atTdmbRegSubchInfo = s.g_atTdmbRegSubchInfo := by
  have := open_globals cfg k svc thr s
  simp only [globals, Prod.mk.injEq, hi] at this
  refine ⟨fun j => ?_, this.1⟩
  unfold Registered
  rw [this.2.1]


/-! ## The Video slot stays unique (every build) -/

theorem VideoInv.congr {cfg : BuildConfig} {s t : ChipState} (h : VideoInv cfg s)
    (ht : t.g_atTdmbRegSubchInfo = s.g_atTdmbRegSubchInfo)
    (hr : t.g_aRegSubChArrayIdxBits = s.g_aRegSubChArrayIdxBits)
    (hu : t.g_aRtvUsedHwSubChIdxBits = s.g_aRtvUsedHwSubChIdxBits) : VideoInv cfg t := by
  obtain ⟨h1, h2, h3, h4, h5⟩ := h
  constructor <;> simp only [Registered, IsVideo, UsedHw, ht, hr, hu] at * <;> assumption

theorem VideoInv.of_globals {cfg : BuildConfig} {s t : ChipState} (h : VideoInv cfg s)
    (hg : globals t = globals s) : VideoInv cfg t := by
  simp only [globals, Prod.mk.injEq] at hg
  exact h.congr hg.1 hg.2.1 hg.2.2.1

theorem VideoInv.close {cfg : BuildConfig} {s : ChipState} (h : VideoInv cfg s) (i : Nat) :
    VideoInv cfg (tdmb_CloseSubChannel cfg i s) := by
  by_cases ha : i < 32 ∧ Registered s i
  · have hr := close_registered cfg i s ha
    have hu := close_usedHw cfg i s ha
    have ht := close_table cfg i s
    constructor
    · intro j hj; exact ((hr j).1 hj).2.1
    · intro hs j hj; exact h.single hs j ((hr j).1 hj).1
    · intro hs j hj hv
      have hj' := (hr j).1 hj
      have hv' : IsVideo s j := by unfold IsVideo at hv ⊢; rwa [ht] at hv
      refine (hu 0).2 ⟨h.vused hs j hj'.1 hv', by norm_num, fun e => ?_⟩
      exact hj'.2.2 (h.uniq j i hj'.1 ha.2 hv' (h.hw0 hs i ha.2 e))
    · intro hs j hj e
      have hj' := (hr j).1 hj
      unfold IsVideo; rw [ht]
      exact h.hw0 hs j hj'.1 (by rwa [ht] at e)
    · intro a b ha' hb' va vb
      unfold IsVideo at va vb; rw [ht] at va vb
      exact h.uniq a b ((hr a).1 ha').1 ((hr b).1 hb').1 va vb
  · rw [close_noop cfg i s ha]; exact h

theorem openHwIdx_eq_zero (cfg : BuildConfig) (svc : E_RTV_TDMB_SERVICE_TYPE) (s : ChipState)
    (hs : cfg.single = false) :
    openHwIdx cfg svc s = 0 ↔ svc = E_RTV_TDMB_SERVICE_TYPE.RTV_TDMB_SERVICE_VIDEO := by
  unfold openHwIdx
  simp only [hs, Bool.false_eq_true, if_false]
  by_cases hv : svc = E_RTV_TDMB_SERVICE_TYPE.RTV_TDMB_SERVICE_VIDEO
  · simp [hv]
  · simp only [hv, if_false, iff_false]
    rcases searchHw_cases s.g_aRtvUsedHwSubChIdxBits with h | h
    · omega
    · omega

theorem openHwIdx_lt (cfg : BuildConfig) (svc : E_RTV_TDMB_SERVICE_TYPE) (s : ChipState) :
    openHwIdx cfg svc s < 32 := by
  unfold openHwIdx
  split_ifs
  · norm_num
  · norm_num
  · rcases searchHw_cases s.g_aRtvUsedHwSubChIdxBits with h | h <;> omega

theorem VideoInv.open {cfg : BuildConfig} {s : ChipState} (h : VideoInv cfg s) (k : Nat)
    (svc : E_RTV_TDMB_SERVICE_TYPE) (thr : Nat)
    (hp : cfg.single = false → svc = E_RTV_TDMB_SERVICE_TYPE.RTV_TDMB_SERVICE_VIDEO →
      ∀ i, Registered s i → ¬ IsVideo s i) :
    VideoInv cfg (tdmb_OpenSubChannel cfg k svc thr s) := by
  have hu := open_usedHw cfg k svc thr s
  have hmono : ∀ b, UsedHw s b → UsedHw (tdmb_OpenSubChannel cfg k svc thr s) b :=
    fun b hb => (hu b).2 (Or.inl hb)
  cases hi : openIdx cfg s with
  | none =>
    obtain ⟨hr, ht⟩ := open_reg_none cfg k svc thr s hi
    constructor
    · intro j hj; exact h.lt32 j ((hr j).1 hj)
    · intro hs j hj; exact h.single hs j ((hr j).1 hj)
    · intro hs j hj hv
      unfold IsVideo at hv; rw [ht] at hv
      exact hmono 0 (h.vused hs j ((hr j).1 hj) hv)
    · intro hs j hj e
      unfold IsVideo; rw [ht]
      exact h.hw0 hs j ((hr j).1 hj) (by rwa [ht] at e)
    · intro a b ha hb va vb
      unfold IsVideo at va vb; rw [ht] at va vb
      exact h.uniq a b ((hr a).1 ha) ((hr b).1 hb) va vb
  | some i =>
    obtain ⟨hr, ht⟩ := open_reg_some cfg k svc thr s i hi
    by_cases hs : cfg.single = true
    · -- single sub-channel build: only index 0 is ever written
      have hi0 : i = 0 := by
        unfold openIdx at hi
        simp only [hs, if_true, Option.some.injEq] at hi
        exact hi.symm
      have hall : ∀ j, Registered (tdmb_OpenSubChannel cfg k svc thr s) j → j = 0 := by
        intro j hj
        rcases (hr j).1 hj with h1 | h1
        · exact h.single hs j h1
        · rw [h1.2, hi0]
      constructor
      · intro j hj; rw [hall j hj]; norm_num
      · intro _ j hj; exact hall j hj
      · intro hs'; rw [hs] at hs'; cases hs'
      · intro hs'; rw [hs] at hs'; cases hs'
      · intro a b ha hb _ _; rw [hall a ha, hall b hb]
    · have hs' : cfg.single = false := by simpa using hs
      -- an old registered index is different from the freshly written one
      have hfree : ¬ (i < 32 ∧ Registered s i) := by
        unfold openIdx at hi
        simp only [hs, Bool.false_eq_true, if_false] at hi
        exact (and_shl1_eq_zero _ _).1 (searchFreeFrom_some _ _ _ _ hi).2.2.1
      have hne : ∀ j, Registered s j → j ≠ i := by
        intro j hj e
        subst e
        exact hfree ⟨h.lt32 j hj, hj⟩
      have hold : ∀ j, j ≠ i → (tdmb_OpenSubChannel cfg k svc thr s).g_atTdmbRegSubchInfo j
          = s.g_atTdmbRegSubchInfo j := by
        intro j hj; rw [ht, Function.update_noteq hj]
      have hnew : (tdmb_OpenSubChannel cfg k svc thr s).g_atTdmbRegSubchInfo i
          = ⟨k, openHwIdx cfg svc s, svc, thr⟩ := by
        rw [ht, Function.update_same]
      constructor
      · intro j hj
        rcases (hr j).1 hj with h1 | h1
        · exact h.lt32 j h1
        · rw [h1.2]; exact h1.1
      · intro hs2; rw [hs'] at hs2; cases hs2
      · intro _ j hj hv
        rcases (hr j).1 hj with h1 | h1
        · unfold IsVideo at hv; rw [hold j (hne j h1)] at hv
          exact hmono 0 (h.vused hs' j h1 hv)
        · unfold IsVideo at hv; rw [h1.2, hnew] at hv
          exact (hu 0).2 (Or.inr ⟨openHwIdx_lt cfg svc s, (openHwIdx_eq_zero cfg svc s hs').2 hv⟩)
      · intro _ j hj e
        rcases (hr j).1 hj with h1 | h1
        · unfold IsVideo; rw [hold j (hne j h1)] at e ⊢
          exact h.hw0 hs' j h1 e
        · unfold IsVideo; rw [h1.2, hnew] at e ⊢
          exact (openHwIdx_eq_zero cfg svc s hs').1 e
      · intro a b ha hb va vb
        unfold IsVideo at va vb
        rcases (hr a).1 ha with h1 | h1 <;> rcases (hr b).1 hb with h2 | h2
        · rw [hold a (hne a h1)] at va; rw [hold b (hne b h2)] at vb
          exact h.uniq a b h1 h2 va vb
        · rw [hold a (hne a h1)] at va; rw [h2.2, hnew] at vb
          exact absurd va (hp hs' vb a h1)
        · rw [h1.2, hnew] at va; rw [hold b (hne b h2)] at vb
          exact absurd vb (hp hs' va b h2)
        · rw [h1.2, h2.2]

/-! ## The closing loops -/

theorem and_one_ne_zero (bits : Nat) : bits &&& 0x01 ≠ 0 ↔ bits.testBit 0 = true := by
  rw [Nat.and_one_is_mod, Nat.testBit_zero]
  simp only [decide_eq_true_eq]
  omega

theorem closeAllLoop_preserves (cfg : BuildConfig) (P : ChipState → Prop)
    (hP : ∀ s i, P s → P (tdmb_CloseSubChannel cfg i s)) :
    ∀ (fuel bits i : Nat) (s : ChipState), P s → P (closeAllLoop cfg fuel bits i s) := by
  intro fuel
  induction fuel with
  | zero => intro bits i s h; exact h
  | succ n ih =>
    intro bits i s h
    unfold closeAllLoop
    split_ifs
    · exact h
    · exact ih _ _ _ (hP s i h)
    · exact ih _ _ _ h

theorem closeIdLoop_preserves (cfg : BuildConfig) (k : Nat) (P : ChipState → Prop)
    (hP : ∀ s i, P s → P (tdmb_CloseSubChannel cfg i s)) :
    ∀ (fuel bits i : Nat) (s : ChipState), P s → P (closeIdLoop cfg k fuel bits i s) := by
  intro fuel
  induction fuel with
  | zero => intro bits i s h; exact h
  | succ n ih =>
    intro bits i s h
    unfold closeIdLoop
    split_ifs
    · exact h
    · exact ih _ _ _ (hP s i h)
    · exact ih _ _ _ h
    · exact ih _ _ _ h

theorem closeAllLoop_empty (cfg : BuildConfig) :
    ∀ (fuel bits i : Nat) (s : ChipState), bits ≤ fuel →
      (∀ j, Registered s j → j < 32 ∧ i ≤ j ∧ bits.testBit (j - i) = true) →
      ∀ j, ¬ Registered (closeAllLoop cfg fuel bits i s) j := by
  intro fuel
  induction fuel with
  | zero =>
    intro bits i s hb h j hj
    have : bits = 0 := by omega
    subst this
    have := (h j hj).2.2
    simp at this
  | succ n ih =>
    intro bits i s hb h
    unfold closeAllLoop
    by_cases h0 : bits = 0
    · rw [if_pos h0]
      intro j hj
      have := (h j hj).2.2
      rw [h0] at this
      simp at this
    · rw [if_neg h0]
      apply ih
      · rw [Nat.shiftRight_eq_div_pow]
        have : bits / 2 ^ 1 < bits := Nat.div_lt_self (by omega) (by norm_num)
        omega
      · intro j hj
        -- `j` was registered before the step and is not the index just handled
        have key : Registered s j ∧ j ≠ i := by
          by_cases hb0 : bits &&& 0x01 ≠ 0
          · rw [if_pos hb0] at hj
            by_cases ha : i < 32 ∧ Registered s i
            · have := (close_registered cfg i s ha j).1 hj
              exact ⟨this.1, this.2.2⟩
            · rw [close_noop cfg i s ha] at hj
              refine ⟨hj, fun e => ?_⟩
              subst e
              exact ha ⟨(h j hj).1, hj⟩
          · rw [if_neg hb0] at hj
            refine ⟨hj, fun e => ?_⟩
            subst e
            have := (h j hj).2.2
            rw [Nat.sub_self] at this
            exact hb0 ((and_one_ne_zero bits).2 this)
        obtain ⟨h1, h2, h3⟩ := h j key.1
        refine ⟨h1, by have := key.2; omega, ?_⟩
        rw [Nat.testBit_shiftRight]
        have e : 1 + (j - (i + 1)) = j - i := by have := key.2; omega
        rw [e]; exact h3

theorem closeAll_empty (cfg : BuildConfig) (s : ChipState)
    (h32 : ∀ i, Registered s i → i < 32) :
    ∀ j, ¬ Registered (tdmb_CloseAllSubChannel cfg s) j := by
  unfold tdmb_CloseAllSubChannel
  apply closeAllLoop_empty cfg _ _ _ _ (le_refl _)
  intro j hj
  exact ⟨h32 j hj, Nat.zero_le _, by simpa using hj⟩

theorem closeAll_prev (cfg : BuildConfig) (s : ChipState) :
    (tdmb_CloseAllSubChannel cfg s).g_aTdmbPrevChFreqKHz = s.g_aTdmbPrevChFreqKHz ∧
    (tdmb_CloseAllSubChannel cfg s).g_afRtvChannelChange = s.g_afRtvChannelChange := by
  unfold tdmb_CloseAllSubChannel
  exact closeAllLoop_preserves cfg
    (fun t => t.g_aTdmbPrevChFreqKHz = s.g_aTdmbPrevChFreqKHz ∧
      t.g_afRtvChannelChange = s.g_afRtvChannelChange)
    (fun t i ht => by
      show (tdmb_CloseSubChannel cfg i t).g_aTdmbPrevChFreqKHz = _ ∧
        (tdmb_CloseSubChannel cfg i t).g_afRtvChannelChange = _
      rw [close_prev, close_chg]; exact ht) _ _ _ _ ⟨rfl, rfl⟩

/-! ## The Video invariant along the API calls -/

theorem and_msc1_eq (used : Nat) :
    used &&& TDMB_MSC1_SUBCH_USE_MASK = TDMB_MSC1_SUBCH_USE_MASK ↔ used.testBit 0 = true := by
  unfold TDMB_MSC1_SUBCH_USE_MASK
  rw [Nat.and_one_is_mod, Nat.testBit_zero]
  simp only [decide_eq_true_eq]

theorem VideoInv.emit {cfg : BuildConfig} {s : ChipState} (h : VideoInv cfg s) (e : Event) :
    VideoInv cfg (emit e s) := h.of_globals rfl

theorem VideoInv.closeAll {cfg : BuildConfig} {s : ChipState} (h : VideoInv cfg s) :
    VideoInv cfg (tdmb_CloseAllSubChannel cfg s) := by
  unfold tdmb_CloseAllSubChannel
  exact closeAllLoop_preserves cfg (VideoInv cfg) (fun t i ht => ht.close i) _ _ _ _ h


/-! ## The paths through `rtvTDMB_OpenSubChannel` -/

theorem and_msc0_eq (used : Nat) :
    used &&& 0x78 = 0x78 ↔
      (used.testBit 3 = true ∧ used.testBit 4 = true ∧ used.testBit 5 = true
        ∧ used.testBit 6 = true) := by
  constructor
  · intro h
    have h3 := congrArg (fun x => x.testBit 3) h
    have h4 := congrArg (fun x => x.testBit 4) h
    have h5 := congrArg (fun x => x.testBit 5) h
    have h6 := congrArg (fun x => x.testBit 6) h
    simp only [Nat.testBit_and] at h3 h4 h5 h6
    have e3 : (0x78 : Nat).testBit 3 = true := by decide
    have e4 : (0x78 : Nat).testBit 4 = true := by decide
    have e5 : (0x78 : Nat).testBit 5 = true := by decide
    have e6 : (0x78 : Nat).testBit 6 = true := by decide
    rw [e3] at h3; rw [e4] at h4; rw [e5] at h5; rw [e6] at h6
    simp only [Bool.and_true] at h3 h4 h5 h6
    exact ⟨h3, h4, h5, h6⟩
  · rintro ⟨h3, h4, h5, h6⟩
    apply Nat.eq_of_testBit_eq
    intro j
    rw [Nat.testBit_and]
    by_cases hj : j < 7
    · have e : ∀ i, i < 7 → (0x78 : Nat).testBit i = decide (3 ≤ i) := by decide
      rw [e j hj]
      interval_cases j <;> simp [h3, h4, h5, h6]
    · have : (0x78 : Nat).testBit j = false :=
        Nat.testBit_lt_two_pow (lt_of_lt_of_le (by norm_num : (0x78 : Nat) < 2 ^ 7)
          (Nat.pow_le_pow_right (by norm_num) (by omega)))
      rw [this, Bool.and_false]

theorem idBit_iff (s : ChipState) (k : Nat) :
    s.g_aRegSubChIdBits (SUBCH_GRP_IDX k) &&& shl1 (MOD32 k) ≠ 0 ↔ IdBit s k := by
  unfold IdBit
  rw [Ne, and_shl1_eq_zero, not_not]
  exact ⟨fun h => h.2, fun h => ⟨mod32_lt k, h⟩⟩

theorem rtvOpen_cases (cfg : BuildConfig) (env : Env) (f k : Nat)
    (svc : E_RTV_TDMB_SERVICE_TYPE) (thr : Nat) (s : ChipState)
    (P : RtvResult × ChipState → Prop)
    (hid : 64 ≤ k → P (RtvResult.RTV_INVAILD_SUB_CHANNEL_ID, s))
    (hthr : k < 64 → ¬ thresholdAccepted cfg thr → P (RtvResult.RTV_INVAILD_THRESHOLD_SIZE, s))
    (hreg : k < 64 → thresholdAccepted cfg thr → s.g_aTdmbPrevChFreqKHz = f → IdBit s k →
      P (RtvResult.RTV_SUCCESS, restoreStream s))
    (hsingle : k < 64 → thresholdAccepted cfg thr → s.g_aTdmbPrevChFreqKHz = f → ¬ IdBit s k →
      cfg.single = true →
      P (RtvResult.RTV_SUCCESS,
        emit Event.RTV_GUARD_FREE
          (tdmb_OpenSubChannel cfg k svc (effectiveThreshold cfg thr)
            (tdmb_CloseSubChannel cfg 0 (emit Event.RTV_GUARD_LOCK s)))))
    (hfullV : k < 64 → thresholdAccepted cfg thr → s.g_aTdmbPrevChFreqKHz = f → ¬ IdBit s k →
      cfg.single = false → svc = E_RTV_TDMB_SERVICE_TYPE.RTV_TDMB_SERVICE_VIDEO → UsedHw s 0 →
      P (RtvResult.RTV_NO_MORE_SUB_CHANNEL, restoreStream s))
    (hfullA : k < 64 → thresholdAccepted cfg thr → s.g_aTdmbPrevChFreqKHz = f → ¬ IdBit s k →
      cfg.single = false → svc ≠ E_RTV_TDMB_SERVICE_TYPE.RTV_TDMB_SERVICE_VIDEO →
      (UsedHw s 3 ∧ UsedHw s 4 ∧ UsedHw s 5 ∧ UsedHw s 6) →
      P (RtvResult.RTV_NO_MORE_SUB_CHANNEL, restoreStream s))
    (hopen : k < 64 → thresholdAccepted cfg thr → s.g_aTdmbPrevChFreqKHz = f → ¬ IdBit s k →
      cfg.single = false →
      (svc = E_RTV_TDMB_SERVICE_TYPE.RTV_TDMB_SERVICE_VIDEO → ¬ UsedHw s 0) →
      (svc ≠ E_RTV_TDMB_SERVICE_TYPE.RTV_TDMB_SERVICE_VIDEO →
        ¬ (UsedHw s 3 ∧ UsedHw s 4 ∧ UsedHw s 5 ∧ UsedHw s 6)) →
      P (RtvResult.RTV_SUCCESS,
        emit Event.RTV_GUARD_FREE
          (emit Event.rtv_StreamRestore
            (tdmb_OpenSubChannel cfg k svc (effectiveThreshold cfg thr)
              (emit Event.RTV_GUARD_LOCK s)))))
    (hnew : k < 64 → thresholdAccepted cfg thr → s.g_aTdmbPrevChFreqKHz ≠ f →
      P (openNewFreq cfg env f k svc thr s)) :
    P (rtvTDMB_OpenSubChannel cfg env f k svc thr s) := by
  unfold rtvTDMB_OpenSubChannel
  simp only []
  by_cases h1 : k > MAX_NUM_TDMB_SUB_CH - 1
  · rw [if_pos h1]; exact hid (by unfold MAX_NUM_TDMB_SUB_CH at h1; omega)
  rw [if_neg h1]
  have hk : k < 64 := by unfold MAX_NUM_TDMB_SUB_CH at h1; omega
  by_cases h2 : (!cfg.RTV_CIF_MODE_ENABLED && cfg.ifSpiOrEbi2
      && decide (effectiveThreshold cfg thr > 188 * 18)) = true
  · rw [if_pos h2]
    apply hthr hk
    unfold thresholdAccepted
    simp only [Bool.and_eq_true, Bool.not_eq_true', decide_eq_true_eq] at h2
    exact fun hn => hn ⟨h2.1.1, h2.1.2, h2.2⟩
  rw [if_neg h2]
  have hacc : thresholdAccepted cfg thr := by
    unfold thresholdAccepted
    simp only [Bool.and_eq_true, Bool.not_eq_true', decide_eq_true_eq] at h2
    exact fun hn => h2 ⟨⟨hn.1, hn.2.1⟩, hn.2.2⟩
  by_cases h3 : s.g_aTdmbPrevChFreqKHz = f
  · rw [if_pos h3]
    by_cases h4 : s.g_aRegSubChIdBits (SUBCH_GRP_IDX k) &&& shl1 (MOD32 k) ≠ 0
    · rw [if_pos h4]; exact hreg hk hacc h3 ((idBit_iff s k).1 h4)
    rw [if_neg h4]
    have hnid : ¬ IdBit s k := fun h => h4 ((idBit_iff s k).2 h)
    by_cases h5 : cfg.single = true
    · rw [if_pos h5]; exact hsingle hk hacc h3 hnid h5
    rw [if_neg h5]
    have hs : cfg.single = false := by simpa using h5
    have hm0 : TDMB_MSC0_SUBCH_USE_MASK cfg = 0x78 := by
      unfold TDMB_MSC0_SUBCH_USE_MASK; simp [hs]
    by_cases h6 : svc = E_RTV_TDMB_SERVICE_TYPE.RTV_TDMB_SERVICE_VIDEO
        ∧ s.g_aRtvUsedHwSubChIdxBits &&& TDMB_MSC1_SUBCH_USE_MASK = TDMB_MSC1_SUBCH_USE_MASK
    · rw [if_pos h6]; exact hfullV hk hacc h3 hnid hs h6.1 ((and_msc1_eq _).1 h6.2)
    rw [if_neg h6]
    by_cases h7 : svc ≠ E_RTV_TDMB_SERVICE_TYPE.RTV_TDMB_SERVICE_VIDEO
        ∧ s.g_aRtvUsedHwSubChIdxBits &&& TDMB_MSC0_SUBCH_USE_MASK cfg
            = TDMB_MSC0_SUBCH_USE_MASK cfg
    · rw [if_pos h7]
      refine hfullA hk hacc h3 hnid hs h7.1 ?_
      have := h7.2
      rw [hm0] at this
      exact (and_msc0_eq _).1 this
    rw [if_neg h7]
    refine hopen hk hacc h3 hnid hs (fun hv hu => h6 ⟨hv, (and_msc1_eq _).2 hu⟩) ?_
    intro hv hu
    apply h7
    refine ⟨hv, ?_⟩
    rw [hm0]
    exact (and_msc0_eq _).2 hu
  · rw [if_neg h3]
    exact hnew hk hacc h3


/-! ## The Video invariant along the API calls -/

theorem VideoInv.rtvOpen {cfg : BuildConfig} {s : ChipState} (h : VideoInv cfg s) (env : Env)
    (f k : Nat) (svc : E_RTV_TDMB_SERVICE_TYPE) (thr : Nat) :
    VideoInv cfg (rtvTDMB_OpenSubChannel cfg env f k svc thr s).2 := by
  apply rtvOpen_cases cfg env f k svc thr s (fun r => VideoInv cfg r.2)
  · intro _; exact h
  · intro _ _; exact h
  · intro _ _ _ _; exact h.of_globals rfl
  · intro _ _ _ _ hs
    refine VideoInv.emit (VideoInv.open ((h.emit _).close 0) k svc _ ?_) _
    intro hs'; rw [hs] at hs'; cases hs'
  · intro _ _ _ _ _ _ _; exact h.of_globals rfl
  · intro _ _ _ _ _ _ _; exact h.of_globals rfl
  · intro _ _ _ _ hs hv _
    refine VideoInv.emit (VideoInv.emit (VideoInv.open (h.emit _) k svc _ ?_) _) _
    intro _ hvid i hi hvi
    exact hv hvid (h.vused hs i hi hvi)
  · intro _ _ _
    unfold openNewFreq
    have h0 : VideoInv cfg (Mtv818.emit Event.RTV_GUARD_LOCK
        { s with g_aTdmbPrevChFreqKHz := f, g_afRtvChannelChange := true }) :=
      h.congr rfl rfl rfl
    by_cases hs : cfg.single = true
    · simp only [hs, if_true]
      have h1 := h0.close 0
      have h2 : VideoInv cfg { tdmb_CloseSubChannel cfg 0 (Mtv818.emit Event.RTV_GUARD_LOCK
          { s with g_aTdmbPrevChFreqKHz := f, g_afRtvChannelChange := true }) with
          hw := (rtvRF_SetFrequency env f (tdmb_CloseSubChannel cfg 0 (Mtv818.emit
            Event.RTV_GUARD_LOCK
            { s with g_aTdmbPrevChFreqKHz := f, g_afRtvChannelChange := true })).hw).2 } :=
        h1.congr rfl rfl rfl
      have h3 := VideoInv.open h2 k svc (effectiveThreshold cfg thr)
        (fun hs' => by rw [hs] at hs'; cases hs')
      exact (h3.emit Event.RTV_GUARD_FREE).congr rfl rfl rfl
    · simp only [hs, Bool.false_eq_true, if_false]
      have h1 := h0.closeAll
      have he := closeAll_empty cfg _ h0.lt32
      have h2 : VideoInv cfg { tdmb_CloseAllSubChannel cfg (Mtv818.emit Event.RTV_GUARD_LOCK
          { s with g_aTdmbPrevChFreqKHz := f, g_afRtvChannelChange := true }) with
          hw := (rtvRF_SetFrequency env f (tdmb_CloseAllSubChannel cfg (Mtv818.emit
            Event.RTV_GUARD_LOCK
            { s with g_aTdmbPrevChFreqKHz := f, g_afRtvChannelChange := true })).hw).2 } :=
        h1.congr rfl rfl rfl
      have h3 := VideoInv.open h2 k svc (effectiveThreshold cfg thr)
        (fun _ _ i hi _ => he i hi)
      exact (h3.emit Event.RTV_GUARD_FREE).congr rfl rfl rfl

theorem VideoInv.rtvClose {cfg : BuildConfig} {s : ChipState} (h : VideoInv cfg s) (k : Nat) :
    VideoInv cfg (rtvTDMB_CloseSubChannel cfg k s).2 := by
  unfold rtvTDMB_CloseSubChannel
  simp only []
  apply VideoInv.emit
  split_ifs
  · exact (h.emit _).close 0
  · exact closeIdLoop_preserves cfg k (VideoInv cfg) (fun t i ht => ht.close i) _ _ _ _
      (h.emit _)

theorem VideoInv.scan {cfg : BuildConfig} {s : ChipState} (h : VideoInv cfg s) (env : Env)
    (f : Nat) : VideoInv cfg (rtvTDMB_ScanFrequency cfg env f s).2 := by
  unfold rtvTDMB_ScanFrequency
  simp only []
  have h0 : VideoInv cfg (Mtv818.emit Event.RTV_GUARD_LOCK
      { s with g_afRtvChannelChange := true }) := h.congr rfl rfl rfl
  split_ifs
  · exact (h0.close 0).congr rfl rfl rfl
  · exact h0.closeAll.congr rfl rfl rfl

theorem init_registered (cfg : BuildConfig) (env : Env) (band : E_RTV_COUNTRY_BAND_TYPE)
    (s0 : ChipState) (h : (rtvTDMB_Initialize cfg env band s0).1 = RtvResult.RTV_SUCCESS) :
    (rtvTDMB_Initialize cfg env band s0).2.g_aRegSubChArrayIdxBits = 0 ∧
    (rtvTDMB_Initialize cfg env band s0).2.g_aRtvUsedHwSubChIdxBits = 0 ∧
    (rtvTDMB_Initialize cfg env band s0).2.g_aRegSubChIdBits 0 = 0 ∧
    (rtvTDMB_Initialize cfg env band s0).2.g_aRegSubChIdBits 1 = 0 ∧
    (rtvTDMB_Initialize cfg env band s0).2.g_aTdmbPrevChFreqKHz = 0 := by
  unfold rtvTDMB_Initialize at h ⊢
  cases band with
  | other n => simp at h
  | RTV_COUNTRY_BAND_KOREA =>
    simp only []
    split_ifs <;> simp [onHw, Mtv818.emit]

theorem VideoInv.init (cfg : BuildConfig) (env : Env) (band : E_RTV_COUNTRY_BAND_TYPE)
    (s0 : ChipState) (h : (rtvTDMB_Initialize cfg env band s0).1 = RtvResult.RTV_SUCCESS) :
    VideoInv cfg (rtvTDMB_Initialize cfg env band s0).2 := by
  have hr := (init_registered cfg env band s0 h).1
  have hnone : ∀ i, ¬ Registered (rtvTDMB_Initialize cfg env band s0).2 i := by
    intro i hi; unfold Registered at hi; rw [hr] at hi; simp at hi
  constructor
  · intro i hi; exact absurd hi (hnone i)
  · intro _ i hi; exact absurd hi (hnone i)
  · intro _ i hi; exact absurd hi (hnone i)
  · intro _ i hi; exact absurd hi (hnone i)
  · intro i _ hi; exact absurd hi (hnone i)

theorem VideoInv.of_reachable {cfg : BuildConfig} {env : Env} {s : ChipState}
    (h : Reachable cfg env s) : VideoInv cfg s := by
  induction h with
  | init s0 band hok => exact VideoInv.init cfg env band s0 hok
  | openSubChannel s f k svc thr _ ih => exact ih.rtvOpen env f k svc thr
  | closeSubChannel s k _ ih => exact ih.rtvClose k
  | scanFrequency s f _ ih => exact ih.scan env f

/-- C3: in every reachable chip state at most one registered sub-channel entry has service
type Video (any build). -/
theorem at_most_one_video (cfg : BuildConfig) (env : Env) (s : ChipState)
    (h : Reachable cfg env s) (i j : Nat) (hi : Registered s i) (hj : Registered s j)
    (vi : (s.g_atTdmbRegSubchInfo i).eServiceType
      = E_RTV_TDMB_SERVICE_TYPE.RTV_TDMB_SERVICE_VIDEO)
    (vj : (s.g_atTdmbRegSubchInfo j).eServiceType
      = E_RTV_TDMB_SERVICE_TYPE.RTV_TDMB_SERVICE_VIDEO) : i = j :=
  (VideoInv.of_reachable h).uniq i j hi hj vi vj


/-! ## The registration invariants (single sub-channel build, or a table of five or more) -/

theorem RegInv.reg_congr {cfg : BuildConfig} {s t : ChipState} (h : RegInv cfg s)
    (ht : t.g_atTdmbRegSubchInfo = s.g_atTdmbRegSubchInfo)
    (hr : t.g_aRegSubChArrayIdxBits = s.g_aRegSubChArrayIdxBits)
    (hu : t.g_aRtvUsedHwSubChIdxBits = s.g_aRtvUsedHwSubChIdxBits)
    (hi : t.g_aRegSubChIdBits = s.g_aRegSubChIdBits) : RegInv cfg t := by
  obtain ⟨h1, h2, h3, h4, h5, h6, h7, h8⟩ := h
  constructor <;> simp only [Registered, UsedHw, IdBit, ht, hr, hu, hi] at * <;> assumption

theorem RegInv.reg_of_globals {cfg : BuildConfig} {s t : ChipState} (h : RegInv cfg s)
    (hg : globals t = globals s) : RegInv cfg t := by
  simp only [globals, Prod.mk.injEq] at hg
  exact h.reg_congr hg.1 hg.2.1 hg.2.2.1 hg.2.2.2.2.2.1

theorem RegInv.reg_emit {cfg : BuildConfig} {s : ChipState} (h : RegInv cfg s) (e : Event) :
    RegInv cfg (emit e s) := h.reg_of_globals rfl

theorem RegInv.lt32 {cfg : BuildConfig} {s : ChipState} (h : RegInv cfg s) (i : Nat)
    (hi : Registered s i) : i < 32 := by
  have := h.idx i hi
  split_ifs at this <;> omega

theorem RegInv.hw_lt {cfg : BuildConfig} {s : ChipState} (h : RegInv cfg s) (i : Nat)
    (hi : Registered s i) : (s.g_atTdmbRegSubchInfo i).nHwSubChIdx < 32 := by
  rcases h.hw_rng i hi with h0 | ⟨_, h0⟩ <;> omega

theorem RegInv.reg_close {cfg : BuildConfig} {s : ChipState} (h : RegInv cfg s) (i : Nat) :
    RegInv cfg (tdmb_CloseSubChannel cfg i s) := by
  by_cases ha : i < 32 ∧ Registered s i
  · have hr := close_registered cfg i s ha
    have hu := close_usedHw cfg i s ha
    have hid := close_idBit cfg i s ha
    have hw := close_word cfg i s ha
    have ht := close_table cfg i s
    constructor
    · intro j hj; exact h.idx j ((hr j).1 hj).1
    · intro b
      rw [hu b, h.used_iff b, ht]
      constructor
      · rintro ⟨⟨j, hj, e⟩, _, hne⟩
        refine ⟨j, (hr j).2 ⟨hj, h.lt32 j hj, fun e' => hne (by rw [← e, e'])⟩, e⟩
      · rintro ⟨j, hj, e⟩
        have hj' := (hr j).1 hj
        refine ⟨⟨j, hj'.1, e⟩, by rw [← e]; exact h.hw_lt j hj'.1, fun e' => ?_⟩
        exact hj'.2.2 (h.hw_inj j i hj'.1 ha.2 (by rw [e, e']))
    · intro k hk
      rw [hid k, h.id_iff k hk, ht]
      constructor
      · rintro ⟨⟨j, hj, e⟩, hne⟩
        refine ⟨j, (hr j).2 ⟨hj, h.lt32 j hj, fun e' => hne (by rw [← e, e'])⟩, e⟩
      · rintro ⟨j, hj, e⟩
        have hj' := (hr j).1 hj
        refine ⟨⟨j, hj'.1, e⟩, fun e' => ?_⟩
        exact hj'.2.2 (h.id_inj j i hj'.1 ha.2 (by rw [e, e']))
    · intro j hj; rw [ht]; exact h.id_lt j ((hr j).1 hj).1
    · intro a b ha' hb' e; rw [ht] at e
      exact h.id_inj a b ((hr a).1 ha').1 ((hr b).1 hb').1 e
    · intro a b ha' hb' e; rw [ht] at e
      exact h.hw_inj a b ((hr a).1 ha').1 ((hr b).1 hb').1 e
    · intro j hj; rw [ht]; exact h.hw_rng j ((hr j).1 hj).1
    · intro w c hw2 hc
      exact h.word_lt w c hw2 ((hw w c).1 hc).1
  · rw [close_noop cfg i s ha]; exact h

theorem RegInv.reg_closeAll {cfg : BuildConfig} {s : ChipState} (h : RegInv cfg s) :
    RegInv cfg (tdmb_CloseAllSubChannel cfg s) := by
  unfold tdmb_CloseAllSubChannel
  exact closeAllLoop_preserves cfg (RegInv cfg) (fun t i ht => ht.reg_close i) _ _ _ _ h

/-- With the invariants, a state without registered entries has empty masks. -/
theorem RegInv.empty {cfg : BuildConfig} {s : ChipState} (h : RegInv cfg s)
    (he : ∀ i, ¬ Registered s i) :
    (∀ b, ¬ UsedHw s b) ∧ (∀ k, k < 64 → ¬ IdBit s k) := by
  constructor
  · intro b hb
    obtain ⟨i, hi, _⟩ := (h.used_iff b).1 hb
    exact he i hi
  · intro k hk hb
    obtain ⟨i, hi, _⟩ := (h.id_iff k hk).1 hb
    exact he i hi

/-- Pigeonhole: when a hardware slot is free, one of the first five table indices is free. -/
theorem RegInv.free_index {cfg : BuildConfig} {s : ChipState} (h : RegInv cfg s)
    (h0 : Nat) (hr : h0 = 0 ∨ h0 = 3 ∨ h0 = 4 ∨ h0 = 5 ∨ h0 = 6) (hfree : ¬ UsedHw s h0) :
    ∃ j, j < 5 ∧ ¬ Registered s j := by
  by_contra hall
  push_neg at hall
  have hinj : Set.InjOn (fun j => (s.g_atTdmbRegSubchInfo j).nHwSubChIdx)
      (Finset.range 5 : Finset Nat) := by
    intro a ha b hb e
    simp only [Finset.coe_range, Set.mem_Iio] at ha hb
    exact h.hw_inj a b (hall a ha) (hall b hb) e
  have hcard := Finset.card_image_of_injOn hinj
  have hsub : (Finset.range 5).image (fun j => (s.g_atTdmbRegSubchInfo j).nHwSubChIdx)
      ⊆ ({0, 3, 4, 5, 6} : Finset Nat).erase h0 := by
    intro x hx
    simp only [Finset.mem_image, Finset.mem_range] at hx
    obtain ⟨j, hj, e⟩ := hx
    have hreg := hall j hj
    have hne : x ≠ h0 := by
      intro e'
      exact hfree ((h.used_iff h0).2 ⟨j, hreg, by rw [e, e']⟩)
    have hrng := h.hw_rng j hreg
    rw [e] at hrng
    simp only [Finset.mem_erase, Finset.mem_insert, Finset.mem_singleton]
    refine ⟨hne, ?_⟩
    rcases hrng with h1 | ⟨_, h1 | h1 | h1 | h1⟩ <;> simp [h1]
  have hle := Finset.card_le_card hsub
  rw [hcard, Finset.card_range] at hle
  have h5 : (({0, 3, 4, 5, 6} : Finset Nat).erase h0).card = 4 := by
    rcases hr with e | e | e | e | e <;> subst e <;> decide
  omega


theorem openHwIdx_spec {cfg : BuildConfig} {s : ChipState} (h : RegInv cfg s)
    (svc : E_RTV_TDMB_SERVICE_TYPE)
    (hsingle : cfg.single = true → ∀ i, ¬ Registered s i)
    (hv : cfg.single = false → svc = E_RTV_TDMB_SERVICE_TYPE.RTV_TDMB_SERVICE_VIDEO →
      ¬ UsedHw s 0)
    (ha : cfg.single = false → svc ≠ E_RTV_TDMB_SERVICE_TYPE.RTV_TDMB_SERVICE_VIDEO →
      ¬ (UsedHw s 3 ∧ UsedHw s 4 ∧ UsedHw s 5 ∧ UsedHw s 6)) :
    ¬ UsedHw s (openHwIdx cfg svc s) ∧
    (openHwIdx cfg svc s = 0 ∨
      (cfg.single = false ∧ (openHwIdx cfg svc s = 3 ∨ openHwIdx cfg svc s = 4
        ∨ openHwIdx cfg svc s = 5 ∨ openHwIdx cfg svc s = 6))) := by
  unfold openHwIdx
  by_cases hs : cfg.single = true
  · simp only [hs, if_true]
    exact ⟨(h.empty (hsingle hs)).1 0, Or.inl trivial⟩
  · have hs' : cfg.single = false := by simpa using hs
    simp only [hs', Bool.false_eq_true, if_false]
    by_cases hvid : svc = E_RTV_TDMB_SERVICE_TYPE.RTV_TDMB_SERVICE_VIDEO
    · simp only [hvid, if_true]
      exact ⟨hv hs' hvid, Or.inl trivial⟩
    · simp only [hvid, if_false]
      rcases searchHw_cases s.g_aRtvUsedHwSubChIdxBits with ⟨_, h3, h4, h5, h6⟩ | ⟨hr, hf, _⟩
      · exact absurd ⟨h3, h4, h5, h6⟩ (ha hs' hvid)
      · refine ⟨?_, Or.inr ⟨trivial, hr⟩⟩
        unfold UsedHw
        rw [hf]; simp

theorem openIdx_spec {cfg : BuildConfig} {s : ChipState} (h : RegInv cfg s)
    (hroomy : cfg.roomy) (svc : E_RTV_TDMB_SERVICE_TYPE)
    (hsingle : cfg.single = true → ∀ i, ¬ Registered s i)
    (hv : cfg.single = false → svc = E_RTV_TDMB_SERVICE_TYPE.RTV_TDMB_SERVICE_VIDEO →
      ¬ UsedHw s 0)
    (ha : cfg.single = false → svc ≠ E_RTV_TDMB_SERVICE_TYPE.RTV_TDMB_SERVICE_VIDEO →
      ¬ (UsedHw s 3 ∧ UsedHw s 4 ∧ UsedHw s 5 ∧ UsedHw s 6)) :
    ∃ i, openIdx cfg s = some i ∧ i < (if cfg.single then 1 else 5) ∧ ¬ Registered s i ∧
      ∀ j, j < i → Registered s j := by
  unfold openIdx
  by_cases hs : cfg.single = true
  · simp only [hs, if_true]
    exact ⟨0, rfl, by norm_num, hsingle hs 0, fun j hj => by omega⟩
  · have hs' : cfg.single = false := by simpa using hs
    simp only [hs', Bool.false_eq_true, if_false]
    have hmax : 5 ≤ cfg.RTV_MAX_NUM_SUB_CHANNEL_USED := by
      rcases hroomy with h1 | h1
      · exfalso; apply hs; unfold BuildConfig.single; simp [h1]
      · exact h1
    obtain ⟨hfree, hrng⟩ := openHwIdx_spec h svc hsingle hv ha
    obtain ⟨j0, hj0, hj0free⟩ := h.free_index (openHwIdx cfg svc s)
      (by rcases hrng with e | ⟨_, e | e | e | e⟩ <;> simp [e]) hfree
    unfold searchFreeArrayIdx
    cases hres : searchFreeFrom s.g_aRegSubChArrayIdxBits cfg.RTV_MAX_NUM_SUB_CHANNEL_USED 0 with
    | none =>
      exfalso
      have := searchFreeFrom_none _ _ _ hres j0 (Nat.zero_le _) (by omega)
      rw [Ne, and_shl1_eq_zero, not_not] at this
      exact hj0free this.2
    | some i =>
      obtain ⟨_, _, h3, h4⟩ := searchFreeFrom_some _ _ _ _ hres
      have hmin : ∀ j, j < i → Registered s j := by
        intro j hj
        have := h4 j (Nat.zero_le _) hj
        rw [Ne, and_shl1_eq_zero, not_not] at this
        exact this.2
      have hi5 : i < 5 := by
        by_contra hge
        exact hj0free (hmin j0 (by omega))
      refine ⟨i, rfl, hi5, ?_, hmin⟩
      intro hreg
      exact (and_shl1_eq_zero _ _).1 h3 ⟨by omega, hreg⟩

theorem RegInv.reg_open {cfg : BuildConfig} {s : ChipState} (h : RegInv cfg s)
    (hroomy : cfg.roomy) (k : Nat) (svc : E_RTV_TDMB_SERVICE_TYPE) (thr : Nat)
    (hk : k < 64) (hnid : ¬ IdBit s k)
    (hsingle : cfg.single = true → ∀ i, ¬ Registered s i)
    (hv : cfg.single = false → svc = E_RTV_TDMB_SERVICE_TYPE.RTV_TDMB_SERVICE_VIDEO →
      ¬ UsedHw s 0)
    (ha : cfg.single = false → svc ≠ E_RTV_TDMB_SERVICE_TYPE.RTV_TDMB_SERVICE_VIDEO →
      ¬ (UsedHw s 3 ∧ UsedHw s 4 ∧ UsedHw s 5 ∧ UsedHw s 6)) :
    RegInv cfg (tdmb_OpenSubChannel cfg k svc thr s) := by
  obtain ⟨hfree, hrng⟩ := openHwIdx_spec h svc hsingle hv ha
  obtain ⟨i, hi, hicap, hinew, _⟩ := openIdx_spec h hroomy svc hsingle hv ha
  have hi32 : i < 32 := by split_ifs at hicap <;> omega
  obtain ⟨hr, ht⟩ := open_reg_some cfg k svc thr s i hi
  have hu := open_usedHw cfg k svc thr s
  have hid := open_idBit cfg k svc thr s
  have hw := open_word cfg k svc thr s
  have hne : ∀ j, Registered s j → j ≠ i := fun j hj e => hinew (e ▸ hj)
  have hold : ∀ j, j ≠ i → (tdmb_OpenSubChannel cfg k svc thr s).g_atTdmbRegSubchInfo j
      = s.g_atTdmbRegSubchInfo j := by
    intro j hj; rw [ht, Function.update_noteq hj]
  have hnew : (tdmb_OpenSubChannel cfg k svc thr s).g_atTdmbRegSubchInfo i
      = ⟨k, openHwIdx cfg svc s, svc, thr⟩ := by
    rw [ht, Function.update_same]
  have hreg : ∀ j, Registered (tdmb_OpenSubChannel cfg k svc thr s) j ↔
      Registered s j ∨ j = i := by
    intro j; rw [hr j]; simp [hi32]
  constructor
  · intro j hj
    rcases (hreg j).1 hj with h1 | h1
    · exact h.idx j h1
    · rw [h1]; exact hicap
  · intro b
    rw [hu b, h.used_iff b]
    constructor
    · rintro (⟨j, hj, e⟩ | ⟨_, e⟩)
      · exact ⟨j, (hreg j).2 (Or.inl hj), by rw [hold j (hne j hj)]; exact e⟩
      · exact ⟨i, (hreg i).2 (Or.inr rfl), by rw [hnew]; exact e⟩
    · rintro ⟨j, hj, e⟩
      rcases (hreg j).1 hj with h1 | h1
      · rw [hold j (hne j h1)] at e; exact Or.inl ⟨j, h1, e⟩
      · rw [h1, hnew] at e; exact Or.inr ⟨openHwIdx_lt cfg svc s, e⟩
  · intro c hc
    rw [hid c, h.id_iff c hc]
    constructor
    · rintro (⟨j, hj, e⟩ | e)
      · exact ⟨j, (hreg j).2 (Or.inl hj), by rw [hold j (hne j hj)]; exact e⟩
      · exact ⟨i, (hreg i).2 (Or.inr rfl), by rw [hnew]; exact e.symm⟩
    · rintro ⟨j, hj, e⟩
      rcases (hreg j).1 hj with h1 | h1
      · rw [hold j (hne j h1)] at e; exact Or.inl ⟨j, h1, e⟩
      · rw [h1, hnew] at e; exact Or.inr e.symm
  · intro j hj
    rcases (hreg j).1 hj with h1 | h1
    · rw [hold j (hne j h1)]; exact h.id_lt j h1
    · rw [h1, hnew]; exact hk
  · intro a b ha' hb' e
    rcases (hreg a).1 ha' with h1 | h1 <;> rcases (hreg b).1 hb' with h2 | h2
    · rw [hold a (hne a h1), hold b (hne b h2)] at e
      exact h.id_inj a b h1 h2 e
    · rw [hold a (hne a h1), h2, hnew] at e
      exact absurd ((h.id_iff k hk).2 ⟨a, h1, e⟩) hnid
    · rw [h1, hnew, hold b (hne b h2)] at e
      exact absurd ((h.id_iff k hk).2 ⟨b, h2, e.symm⟩) hnid
    · rw [h1, h2]
  · intro a b ha' hb' e
    rcases (hreg a).1 ha' with h1 | h1 <;> rcases (hreg b).1 hb' with h2 | h2
    · rw [hold a (hne a h1), hold b (hne b h2)] at e
      exact h.hw_inj a b h1 h2 e
    · rw [hold a (hne a h1), h2, hnew] at e
      exact absurd ((h.used_iff _).2 ⟨a, h1, e⟩) hfree
    · rw [h1, hnew, hold b (hne b h2)] at e
      exact absurd ((h.used_iff _).2 ⟨b, h2, e.symm⟩) hfree
    · rw [h1, h2]
  · intro j hj
    rcases (hreg j).1 hj with h1 | h1
    · rw [hold j (hne j h1)]; exact h.hw_rng j h1
    · rw [h1, hnew]; exact hrng
  · intro w c hw2 hc
    rcases (hw w c).1 hc with h1 | ⟨_, h1⟩
    · exact h.word_lt w c hw2 h1
    · rw [← h1]; exact mod32_lt k


theorem RegInv.single_close_empty {cfg : BuildConfig} {s : ChipState} (h : RegInv cfg s)
    (hs : cfg.single = true) : ∀ i, ¬ Registered (tdmb_CloseSubChannel cfg 0 s) i := by
  intro i hi
  have hi0 : ∀ j, Registered s j → j = 0 := by
    intro j hj
    have := h.idx j hj
    simp only [hs, if_true] at this
    omega
  by_cases ha : 0 < 32 ∧ Registered s 0
  · have := (close_registered cfg 0 s ha i).1 hi
    exact this.2.2 (hi0 i this.1)
  · rw [close_noop cfg 0 s ha] at hi
    have := hi0 i hi
    subst this
    exact ha ⟨by norm_num, hi⟩

/-- The state in which `tdmb_OpenSubChannel` runs on the frequency-changing path. -/
theorem RegInv.closed_for_new_freq {cfg : BuildConfig} {s : ChipState} (h : RegInv cfg s)
    (s2 : ChipState)
    (hs2 : s2 = if cfg.single then tdmb_CloseSubChannel cfg 0 s
      else tdmb_CloseAllSubChannel cfg s) :
    RegInv cfg s2 ∧ ∀ i, ¬ Registered s2 i := by
  subst hs2
  by_cases hs : cfg.single = true
  · simp only [hs, if_true]
    exact ⟨h.reg_close 0, h.single_close_empty hs⟩
  · simp only [hs, Bool.false_eq_true, if_false]
    exact ⟨h.reg_closeAll, closeAll_empty cfg s h.lt32⟩

theorem RegInv.open_of_empty {cfg : BuildConfig} {s : ChipState} (h : RegInv cfg s)
    (hroomy : cfg.roomy) (he : ∀ i, ¬ Registered s i) (k : Nat)
    (svc : E_RTV_TDMB_SERVICE_TYPE) (thr : Nat) (hk : k < 64) :
    RegInv cfg (tdmb_OpenSubChannel cfg k svc thr s) :=
  h.reg_open hroomy k svc thr hk ((h.empty he).2 k hk) (fun _ => he)
    (fun _ _ => (h.empty he).1 0) (fun _ _ hu => (h.empty he).1 3 hu.1)

theorem RegInv.reg_rtvOpen {cfg : BuildConfig} {s : ChipState} (h : RegInv cfg s)
    (hroomy : cfg.roomy) (env : Env) (f k : Nat) (svc : E_RTV_TDMB_SERVICE_TYPE) (thr : Nat) :
    RegInv cfg (rtvTDMB_OpenSubChannel cfg env f k svc thr s).2 := by
  apply rtvOpen_cases cfg env f k svc thr s (fun r => RegInv cfg r.2)
  · intro _; exact h
  · intro _ _; exact h
  · intro _ _ _ _; exact h.reg_of_globals rfl
  · intro hk _ _ _ hs
    have h1 := (h.reg_emit Event.RTV_GUARD_LOCK).reg_close 0
    have he := (h.reg_emit Event.RTV_GUARD_LOCK).single_close_empty hs
    exact (h1.open_of_empty hroomy he k svc _ hk).reg_emit _
  · intro _ _ _ _ _ _ _; exact h.reg_of_globals rfl
  · intro _ _ _ _ _ _ _; exact h.reg_of_globals rfl
  · intro hk _ _ hnid hs hv ha
    have h1 := h.reg_emit Event.RTV_GUARD_LOCK
    refine RegInv.reg_emit (RegInv.reg_emit (h1.reg_open hroomy k svc _ hk hnid ?_ (fun _ => hv)
      (fun _ => ha)) _) _
    intro hs'; rw [hs] at hs'; cases hs'
  · intro hk _ _
    unfold openNewFreq
    have h0 : RegInv cfg (Mtv818.emit Event.RTV_GUARD_LOCK
        { s with g_aTdmbPrevChFreqKHz := f, g_afRtvChannelChange := true }) :=
      h.reg_congr rfl rfl rfl rfl
    obtain ⟨h1, he⟩ := h0.closed_for_new_freq _ rfl
    simp only []
    generalize (if cfg.single = true then tdmb_CloseSubChannel cfg 0 (Mtv818.emit
      Event.RTV_GUARD_LOCK { s with g_aTdmbPrevChFreqKHz := f, g_afRtvChannelChange := true })
      else tdmb_CloseAllSubChannel cfg (Mtv818.emit Event.RTV_GUARD_LOCK
      { s with g_aTdmbPrevChFreqKHz := f, g_afRtvChannelChange := true })) = s2 at h1 he ⊢
    have h2 : RegInv cfg { s2 with hw := (rtvRF_SetFrequency env f s2.hw).2 } :=
      h1.reg_congr rfl rfl rfl rfl
    have h3 := h2.open_of_empty hroomy he k svc (effectiveThreshold cfg thr) hk
    exact (h3.reg_emit Event.RTV_GUARD_FREE).reg_congr rfl rfl rfl rfl

theorem RegInv.reg_rtvClose {cfg : BuildConfig} {s : ChipState} (h : RegInv cfg s) (k : Nat) :
    RegInv cfg (rtvTDMB_CloseSubChannel cfg k s).2 := by
  unfold rtvTDMB_CloseSubChannel
  simp only []
  apply RegInv.reg_emit
  split_ifs
  · exact (h.reg_emit _).reg_close 0
  · exact closeIdLoop_preserves cfg k (RegInv cfg) (fun t i ht => ht.reg_close i) _ _ _ _
      (h.reg_emit _)

theorem RegInv.reg_scan {cfg : BuildConfig} {s : ChipState} (h : RegInv cfg s) (env : Env)
    (f : Nat) : RegInv cfg (rtvTDMB_ScanFrequency cfg env f s).2 := by
  unfold rtvTDMB_ScanFrequency
  simp only []
  have h0 : RegInv cfg (Mtv818.emit Event.RTV_GUARD_LOCK
      { s with g_afRtvChannelChange := true }) := h.reg_congr rfl rfl rfl rfl
  split_ifs
  · exact (h0.reg_close 0).reg_congr rfl rfl rfl rfl
  · exact h0.reg_closeAll.reg_congr rfl rfl rfl rfl

theorem RegInv.reg_init (cfg : BuildConfig) (env : Env) (band : E_RTV_COUNTRY_BAND_TYPE)
    (s0 : ChipState) (h : (rtvTDMB_Initialize cfg env band s0).1 = RtvResult.RTV_SUCCESS) :
    RegInv cfg (rtvTDMB_Initialize cfg env band s0).2 := by
  obtain ⟨hr, hu, hw0, hw1, _⟩ := init_registered cfg env band s0 h
  have hnone : ∀ i, ¬ Registered (rtvTDMB_Initialize cfg env band s0).2 i := by
    intro i hi; unfold Registered at hi; rw [hr] at hi; simp at hi
  have hword : ∀ w c, w < 2 →
      ((rtvTDMB_Initialize cfg env band s0).2.g_aRegSubChIdBits w).testBit c = false := by
    intro w c hw
    interval_cases w
    · rw [hw0]; simp
    · rw [hw1]; simp
  constructor
  · intro i hi; exact absurd hi (hnone i)
  · intro b
    constructor
    · intro hb; unfold UsedHw at hb; rw [hu] at hb; simp at hb
    · rintro ⟨i, hi, _⟩; exact absurd hi (hnone i)
  · intro k hk
    constructor
    · intro hb; unfold IdBit at hb; rw [hword _ _ (grp_lt_two hk)] at hb; cases hb
    · rintro ⟨i, hi, _⟩; exact absurd hi (hnone i)
  · intro i hi; exact absurd hi (hnone i)
  · intro i _ hi; exact absurd hi (hnone i)
  · intro i _ hi; exact absurd hi (hnone i)
  · intro i hi; exact absurd hi (hnone i)
  · intro w c hw hc; rw [hword w c hw] at hc; cases hc

theorem RegInv.reg_of_reachable {cfg : BuildConfig} {env : Env} {s : ChipState}
    (hroomy : cfg.roomy) (h : Reachable cfg env s) : RegInv cfg s := by
  induction h with
  | init s0 band hok => exact RegInv.reg_init cfg env band s0 hok
  | openSubChannel s f k svc thr _ ih => exact ih.reg_rtvOpen hroomy env f k svc thr
  | closeSubChannel s k _ ih => exact ih.reg_rtvClose k
  | scanFrequency s f _ ih => exact ih.reg_scan env f

/-- C1: in every reachable chip state of a single-slot build or of a multi-slot build with a
registration table of at least 5 entries, bit `i` of `usedHardwareSlotMask` is set if and only
if some registered table entry has `nHwSubChIdx == i`. -/
theorem used_mask_iff_registered_slot (cfg : BuildConfig) (env : Env) (s : ChipState)
    (hbuild : cfg.RTV_MAX_NUM_SUB_CHANNEL_USED = 1 ∨ 5 ≤ cfg.RTV_MAX_NUM_SUB_CHANNEL_USED)
    (h : Reachable cfg env s) (i : Nat) :
    s.g_aRtvUsedHwSubChIdxBits.testBit i = true ↔
      ∃ j, s.g_aRegSubChArrayIdxBits.testBit j = true ∧
        (s.g_atTdmbRegSubchInfo j).nHwSubChIdx = i :=
  (RegInv.reg_of_reachable hbuild h).used_iff i


/-! ## `rtvTDMB_CloseSubChannel` closes exactly the entry carrying the ID -/

theorem closeIdLoop_noop (cfg : BuildConfig) (k : Nat) :
    ∀ (fuel bits i : Nat) (t : ChipState),
      (∀ j, i ≤ j → bits.testBit (j - i) = true → (t.g_atTdmbRegSubchInfo j).nSubChID ≠ k) →
      closeIdLoop cfg k fuel bits i t = t := by
  intro fuel
  induction fuel with
  | zero => intro bits i t _; rfl
  | succ n ih =>
    intro bits i t h
    unfold closeIdLoop
    by_cases h0 : bits = 0
    · rw [if_pos h0]
    · rw [if_neg h0]
      have hstep : (if bits &&& 0x01 ≠ 0 then
          (if k = (t.g_atTdmbRegSubchInfo i).nSubChID then tdmb_CloseSubChannel cfg i t else t)
          else t) = t := by
        by_cases hb : bits &&& 0x01 ≠ 0
        · rw [if_pos hb]
          have := h i (le_refl _) (by rw [Nat.sub_self]; exact (and_one_ne_zero bits).1 hb)
          rw [if_neg (fun e => this e.symm)]
        · rw [if_neg hb]
      rw [hstep]
      apply ih
      intro j hj hbit
      apply h j (by omega)
      rw [Nat.testBit_shiftRight] at hbit
      have e : 1 + (j - (i + 1)) = j - i := by omega
      rwa [e] at hbit

theorem closeIdLoop_hit (cfg : BuildConfig) (k i0 : Nat) :
    ∀ (fuel bits i : Nat) (t : ChipState), bits ≤ fuel → i ≤ i0 →
      bits.testBit (i0 - i) = true → (t.g_atTdmbRegSubchInfo i0).nSubChID = k →
      (∀ j, i ≤ j → j ≠ i0 → bits.testBit (j - i) = true →
        (t.g_atTdmbRegSubchInfo j).nSubChID ≠ k) →
      closeIdLoop cfg k fuel bits i t = tdmb_CloseSubChannel cfg i0 t := by
  intro fuel
  induction fuel with
  | zero =>
    intro bits i t hb _ hbit _ _
    have : bits = 0 := by omega
    rw [this] at hbit; simp at hbit
  | succ n ih =>
    intro bits i t hb hi hbit hid hoth
    have h0 : bits ≠ 0 := by
      intro e; rw [e] at hbit; simp at hbit
    have hfuel : bits >>> 1 ≤ n := by
      rw [Nat.shiftRight_eq_div_pow]
      have : bits / 2 ^ 1 < bits := Nat.div_lt_self (by omega) (by norm_num)
      omega
    unfold closeIdLoop
    rw [if_neg h0]
    by_cases e : i = i0
    · subst e
      rw [Nat.sub_self] at hbit
      rw [if_pos ((and_one_ne_zero bits).2 hbit), if_pos hid.symm]
      apply closeIdLoop_noop
      intro j hj hjb
      rw [close_table]
      apply hoth j (by omega) (by omega)
      rw [Nat.testBit_shiftRight] at hjb
      have e : 1 + (j - (i + 1)) = j - i := by omega
      rwa [e] at hjb
    · have hstep : (if bits &&& 0x01 ≠ 0 then
          (if k = (t.g_atTdmbRegSubchInfo i).nSubChID then tdmb_CloseSubChannel cfg i t else t)
          else t) = t := by
        by_cases hb1 : bits &&& 0x01 ≠ 0
        · rw [if_pos hb1]
          have := hoth i (le_refl _) e
            (by rw [Nat.sub_self]; exact (and_one_ne_zero bits).1 hb1)
          rw [if_neg (fun e' => this e'.symm)]
        · rw [if_neg hb1]
      rw [hstep]
      apply ih _ _ _ hfuel (by omega)
      · rw [Nat.testBit_shiftRight]
        have e' : 1 + (i0 - (i + 1)) = i0 - i := by omega
        rwa [e']
      · exact hid
      · intro j hj hne hjb
        apply hoth j (by omega) hne
        rw [Nat.testBit_shiftRight] at hjb
        have e' : 1 + (j - (i + 1)) = j - i := by omega
        rwa [e'] at hjb

/-- With the invariants, closing an ID that no registered entry carries changes nothing but
the collaborator trace. -/
theorem rtvClose_absent (cfg : BuildConfig) (k : Nat) (s : ChipState)
    (hs : cfg.single = true → ¬ Registered s 0)
    (hm : cfg.single = false → ∀ i, Registered s i → (s.g_atTdmbRegSubchInfo i).nSubChID ≠ k) :
    rtvTDMB_CloseSubChannel cfg k s
      = (RtvResult.RTV_SUCCESS, emit Event.RTV_GUARD_FREE (emit Event.RTV_GUARD_LOCK s)) := by
  unfold rtvTDMB_CloseSubChannel
  simp only []
  by_cases h1 : cfg.single = true
  · rw [if_pos h1]
    rw [close_noop cfg 0 (emit Event.RTV_GUARD_LOCK s) (fun h => hs h1 h.2)]
  · rw [if_neg h1]
    have h1' : cfg.single = false := by simpa using h1
    rw [closeIdLoop_noop]
    intro j _ hbit
    rw [Nat.sub_zero] at hbit
    exact hm h1' j hbit

/-- With the invariants, closing the ID carried by the registered entry `i0` is
`tdmb_CloseSubChannel(i0)` between lock and unlock. -/
theorem rtvClose_present {cfg : BuildConfig} {s : ChipState} (h : RegInv cfg s) (k i0 : Nat)
    (hi0 : Registered s i0) (hid : (s.g_atTdmbRegSubchInfo i0).nSubChID = k) :
    rtvTDMB_CloseSubChannel cfg k s
      = (RtvResult.RTV_SUCCESS,
          emit Event.RTV_GUARD_FREE (tdmb_CloseSubChannel cfg i0 (emit Event.RTV_GUARD_LOCK s)))
    := by
  unfold rtvTDMB_CloseSubChannel
  simp only []
  by_cases h1 : cfg.single = true
  · rw [if_pos h1]
    have := h.idx i0 hi0
    simp only [h1, if_true] at this
    have e : i0 = 0 := by omega
    rw [e]
  · rw [if_neg h1]
    rw [closeIdLoop_hit cfg k i0 _ _ _ (emit Event.RTV_GUARD_LOCK s) (le_refl _)
      (Nat.zero_le _) (by rw [Nat.sub_zero]; exact hi0) hid]
    intro j _ hne hbit heq
    rw [Nat.sub_zero] at hbit
    exact hne (h.id_inj j i0 hbit hi0 (by
      show (s.g_atTdmbRegSubchInfo j).nSubChID = (s.g_atTdmbRegSubchInfo i0).nSubChID
      rw [hid]; exact heq))

theorem andNot32_or_shl1 (x n : Nat) (hx : ∀ j, x.testBit j = true → j < 32)
    (hn : x.testBit n = false) : andNot32 (x ||| shl1 n) (shl1 n) = x := by
  apply Nat.eq_of_testBit_eq
  intro j
  rw [testBit_andNot32, Nat.testBit_or, testBit_shl1]
  by_cases hj : x.testBit j = true
  · have := hx j hj
    have hne : n ≠ j := by intro e; subst e; rw [hn] at hj; cases hj
    simp [hj, this, hne]
  · have hj' : x.testBit j = false := by simpa using hj
    by_cases e : n = j
    · simp [hj', e]
    · simp [hj', e]


/-! ## Open followed by close -/

theorem RegInv.used_lt {cfg : BuildConfig} {s : ChipState} (h : RegInv cfg s) (b : Nat)
    (hb : s.g_aRtvUsedHwSubChIdxBits.testBit b = true) : b < 32 := by
  obtain ⟨i, hi, e⟩ := (h.used_iff b).1 hb
  rw [← e]; exact h.hw_lt i hi

theorem open_close_restores {cfg : BuildConfig} {s : ChipState} (h : RegInv cfg s)
    (hroomy : cfg.roomy) (k : Nat) (svc : E_RTV_TDMB_SERVICE_TYPE) (thr : Nat)
    (hk : k < 64) (hnid : ¬ IdBit s k)
    (hsingle : cfg.single = true → ∀ i, ¬ Registered s i)
    (hv : cfg.single = false → svc = E_RTV_TDMB_SERVICE_TYPE.RTV_TDMB_SERVICE_VIDEO →
      ¬ UsedHw s 0)
    (ha : cfg.single = false → svc ≠ E_RTV_TDMB_SERVICE_TYPE.RTV_TDMB_SERVICE_VIDEO →
      ¬ (UsedHw s 3 ∧ UsedHw s 4 ∧ UsedHw s 5 ∧ UsedHw s 6))
    (t : ChipState)
    (ht1 : t.g_atTdmbRegSubchInfo = (tdmb_OpenSubChannel cfg k svc thr s).g_atTdmbRegSubchInfo)
    (ht2 : t.g_aRegSubChArrayIdxBits
      = (tdmb_OpenSubChannel cfg k svc thr s).g_aRegSubChArrayIdxBits)
    (ht3 : t.g_aRtvUsedHwSubChIdxBits
      = (tdmb_OpenSubChannel cfg k svc thr s).g_aRtvUsedHwSubChIdxBits)
    (ht4 : t.g_aRegSubChIdBits = (tdmb_OpenSubChannel cfg k svc thr s).g_aRegSubChIdBits) :
    (rtvTDMB_CloseSubChannel cfg k t).2.g_aRtvUsedHwSubChIdxBits = s.g_aRtvUsedHwSubChIdxBits ∧
    (rtvTDMB_CloseSubChannel cfg k t).2.g_aRegSubChIdBits = s.g_aRegSubChIdBits := by
  obtain ⟨hfree, _⟩ := openHwIdx_spec h svc hsingle hv ha
  obtain ⟨i, hi, hicap, _, _⟩ := openIdx_spec h hroomy svc hsingle hv ha
  have hi32 : i < 32 := by split_ifs at hicap <;> omega
  have hopen := h.reg_open hroomy k svc thr hk hnid hsingle hv ha
  have hT : RegInv cfg t := hopen.reg_congr ht1 ht2 ht3 ht4
  have hg := open_globals cfg k svc thr s
  simp only [globals, Prod.mk.injEq, hi] at hg
  obtain ⟨g1, g2, g3, _, _, g6, _⟩ := hg
  rw [← ht1] at g1; rw [← ht2] at g2; rw [← ht3] at g3; rw [← ht4] at g6
  have hreg : Registered t i := by
    unfold Registered
    rw [g2, Nat.testBit_or, testBit_shl1]
    simp [hi32]
  have hent : t.g_atTdmbRegSubchInfo i = ⟨k, openHwIdx cfg svc s, svc, thr⟩ := by
    rw [g1, Function.update_same]
  have hidk : (t.g_atTdmbRegSubchInfo i).nSubChID = k := by rw [hent]
  rw [rtvClose_present hT k i hreg hidk]
  have hact : i < 32 ∧ Registered (emit Event.RTV_GUARD_LOCK t) i := ⟨hi32, hreg⟩
  have hc := close_globals cfg i (emit Event.RTV_GUARD_LOCK t) hact
  simp only [globals, Prod.mk.injEq] at hc
  obtain ⟨_, _, c3, _, _, c6, _⟩ := hc
  constructor
  · show (tdmb_CloseSubChannel cfg i (emit Event.RTV_GUARD_LOCK t)).g_aRtvUsedHwSubChIdxBits = _
    rw [c3]
    show andNot32 t.g_aRtvUsedHwSubChIdxBits (shl1 (t.g_atTdmbRegSubchInfo i).nHwSubChIdx) = _
    rw [g3, hent]
    exact andNot32_or_shl1 _ _ (fun j hj => h.used_lt j hj) (by simpa [UsedHw] using hfree)
  · show (tdmb_CloseSubChannel cfg i (emit Event.RTV_GUARD_LOCK t)).g_aRegSubChIdBits = _
    rw [c6]
    show Function.update t.g_aRegSubChIdBits (SUBCH_GRP_IDX (t.g_atTdmbRegSubchInfo i).nSubChID)
      (andNot32 (t.g_aRegSubChIdBits (SUBCH_GRP_IDX (t.g_atTdmbRegSubchInfo i).nSubChID))
        (shl1 (MOD32 (t.g_atTdmbRegSubchInfo i).nSubChID))) = _
    rw [hidk, g6, Function.update_same, Function.update_idem,
      andNot32_or_shl1 _ _ (fun j hj => h.word_lt _ j (grp_lt_two hk) hj)
        (by simpa [IdBit] using hnid),
      Function.update_eq_self]

theorem reg_zero_of_empty (s : ChipState) (he : ∀ i, ¬ Registered s i) :
    s.g_aRegSubChArrayIdxBits = 0 := by
  apply Nat.zero_of_testBit_eq_false
  intro i
  have := he i
  unfold Registered at this
  simpa using this

theorem closeAll_of_empty (cfg : BuildConfig) (s : ChipState) (he : ∀ i, ¬ Registered s i) :
    tdmb_CloseAllSubChannel cfg s = s := by
  unfold tdmb_CloseAllSubChannel
  rw [reg_zero_of_empty s he]
  rfl

theorem closed_of_empty (cfg : BuildConfig) (s : ChipState) (he : ∀ i, ¬ Registered s i) :
    (if cfg.single then tdmb_CloseSubChannel cfg 0 s else tdmb_CloseAllSubChannel cfg s) = s := by
  split_ifs
  · exact close_noop cfg 0 s (fun h => he 0 h.2)
  · exact closeAll_of_empty cfg s he

/-- Closing an ID that no registered entry carries leaves the bookkeeping as it was (stated
for a state `t` that agrees with `s` on the bookkeeping). -/
theorem rtvClose_absent_fields (cfg : BuildConfig) (k : Nat) (s t : ChipState)
    (ht1 : t.g_atTdmbRegSubchInfo = s.g_atTdmbRegSubchInfo)
    (ht2 : t.g_aRegSubChArrayIdxBits = s.g_aRegSubChArrayIdxBits)
    (ht3 : t.g_aRtvUsedHwSubChIdxBits = s.g_aRtvUsedHwSubChIdxBits)
    (ht4 : t.g_aRegSubChIdBits = s.g_aRegSubChIdBits)
    (hs : cfg.single = true → ¬ Registered s 0)
    (hm : cfg.single = false → ∀ i, Registered s i → (s.g_atTdmbRegSubchInfo i).nSubChID ≠ k) :
    (rtvTDMB_CloseSubChannel cfg k t).1 = RtvResult.RTV_SUCCESS ∧
    (rtvTDMB_CloseSubChannel cfg k t).2.g_aRtvUsedHwSubChIdxBits = s.g_aRtvUsedHwSubChIdxBits ∧
    (rtvTDMB_CloseSubChannel cfg k t).2.g_aRegSubChArrayIdxBits = s.g_aRegSubChArrayIdxBits ∧
    (rtvTDMB_CloseSubChannel cfg k t).2.g_aRegSubChIdBits = s.g_aRegSubChIdBits ∧
    (rtvTDMB_CloseSubChannel cfg k t).2.g_atTdmbRegSubchInfo = s.g_atTdmbRegSubchInfo := by
  have hs' : cfg.single = true → ¬ Registered t 0 := by
    intro h1 h2; apply hs h1; unfold Registered at h2 ⊢; rwa [ht2] at h2
  have hm' : cfg.single = false →
      ∀ i, Registered t i → (t.g_atTdmbRegSubchInfo i).nSubChID ≠ k := by
    intro h1 i h2
    rw [ht1]; apply hm h1 i; unfold Registered at h2 ⊢; rwa [ht2] at h2
  rw [rtvClose_absent cfg k t hs' hm']
  exact ⟨rfl, ht3, ht2, ht4, ht1⟩


/-- C4 (amended): in a reachable state of a single-slot build or of a multi-slot build with a
table of at least 5 entries, for an ID `k < 64` that is not registered and an accepted
threshold: when no sub-channel is registered before the call (any frequency), or the build is
multi-slot and the frequency is the chip's previous frequency, `OpenSubChannel` followed
immediately by `CloseSubChannel` of the same ID leaves `usedHardwareSlotMask` and
`registeredSubChannelIdBits` as they were before the open. -/
theorem open_then_close_restores_masks (cfg : BuildConfig) (env : Env) (s : ChipState)
    (f k : Nat) (svc : E_RTV_TDMB_SERVICE_TYPE) (thr : Nat)
    (hbuild : cfg.RTV_MAX_NUM_SUB_CHANNEL_USED = 1 ∨ 5 ≤ cfg.RTV_MAX_NUM_SUB_CHANNEL_USED)
    (hreach : Reachable cfg env s) (hk : k < 64) (hthr : thresholdAccepted cfg thr)
    (hnid : ¬ IdBit s k)
    (hcase : (∀ i, ¬ Registered s i) ∨
      (cfg.RTV_MAX_NUM_SUB_CHANNEL_USED ≠ 1 ∧ f = s.g_aTdmbPrevChFreqKHz)) :
    (rtvTDMB_CloseSubChannel cfg k
        (rtvTDMB_OpenSubChannel cfg env f k svc thr s).2).2.g_aRtvUsedHwSubChIdxBits
      = s.g_aRtvUsedHwSubChIdxBits ∧
    (rtvTDMB_CloseSubChannel cfg k
        (rtvTDMB_OpenSubChannel cfg env f k svc thr s).2).2.g_aRegSubChIdBits
      = s.g_aRegSubChIdBits := by
  have h : RegInv cfg s := RegInv.reg_of_reachable hbuild hreach
  have hL : RegInv cfg (emit Event.RTV_GUARD_LOCK s) := h.reg_emit _
  have hsingle_empty : cfg.single = true → ∀ i, ¬ Registered s i := by
    intro hs
    rcases hcase with he | ⟨hne, _⟩
    · exact he
    · exfalso; apply hne; simpa [BuildConfig.single] using hs
  have habsent : cfg.single = false →
      ∀ i, Registered s i → (s.g_atTdmbRegSubchInfo i).nSubChID ≠ k :=
    fun _ i hi e => hnid ((h.id_iff k hk).2 ⟨i, hi, e⟩)
  apply rtvOpen_cases cfg env f k svc thr s (fun r =>
    (rtvTDMB_CloseSubChannel cfg k r.2).2.g_aRtvUsedHwSubChIdxBits = s.g_aRtvUsedHwSubChIdxBits ∧
    (rtvTDMB_CloseSubChannel cfg k r.2).2.g_aRegSubChIdBits = s.g_aRegSubChIdBits)
  · intro h64; omega
  · intro _ hn; exact absurd hthr hn
  · intro _ _ _ hb; exact absurd hb hnid
  · intro _ _ _ _ hs
    have he := hsingle_empty hs
    rw [close_noop cfg 0 (emit Event.RTV_GUARD_LOCK s) (fun hh => he 0 hh.2)]
    exact open_close_restores hL hbuild k svc _ hk hnid (fun _ => he)
      (fun hs' => by rw [hs] at hs'; cases hs') (fun hs' => by rw [hs] at hs'; cases hs')
      _ rfl rfl rfl rfl
  · intro _ _ _ _ hs _ _
    have := rtvClose_absent_fields cfg k s (restoreStream s) rfl rfl rfl rfl
      (fun hs' => by rw [hs] at hs'; cases hs') habsent
    exact ⟨this.2.1, this.2.2.2.1⟩
  · intro _ _ _ _ hs _ _
    have := rtvClose_absent_fields cfg k s (restoreStream s) rfl rfl rfl rfl
      (fun hs' => by rw [hs] at hs'; cases hs') habsent
    exact ⟨this.2.1, this.2.2.2.1⟩
  · intro _ _ _ _ hs hv ha
    exact open_close_restores hL hbuild k svc _ hk hnid
      (fun hs' => by rw [hs] at hs'; cases hs') (fun _ => hv) (fun _ => ha) _ rfl rfl rfl rfl
  · intro _ _ hf
    have he : ∀ i, ¬ Registered s i := by
      rcases hcase with he | ⟨_, e⟩
      · exact he
      · exact absurd e.symm hf
    unfold openNewFreq
    simp only []
    rw [closed_of_empty cfg (emit Event.RTV_GUARD_LOCK
      { s with g_aTdmbPrevChFreqKHz := f, g_afRtvChannelChange := true }) he]
    have h0 : RegInv cfg { emit Event.RTV_GUARD_LOCK
        { s with g_aTdmbPrevChFreqKHz := f, g_afRtvChannelChange := true } with
        hw := (rtvRF_SetFrequency env f (emit Event.RTV_GUARD_LOCK
          { s with g_aTdmbPrevChFreqKHz := f, g_afRtvChannelChange := true }).hw).2 } :=
      h.reg_congr rfl rfl rfl rfl
    exact open_close_restores h0 hbuild k svc _ hk hnid (fun _ => he)
      (fun _ _ => (h.empty he).1 0) (fun _ _ hu => (h.empty he).1 3 hu.1) _ rfl rfl rfl rfl


/-- Opening on a state without registered entries: afterwards the ID bits hold exactly `k`
and the hardware mask exactly the slot recorded for `k` (stated for a state `t` that agrees
with the result on the bookkeeping). -/
theorem open_on_empty {cfg : BuildConfig} {s : ChipState} (h : RegInv cfg s)
    (hroomy : cfg.roomy) (he : ∀ i, ¬ Registered s i) (k : Nat)
    (svc : E_RTV_TDMB_SERVICE_TYPE) (thr : Nat) (t : ChipState)
    (ht1 : t.g_atTdmbRegSubchInfo = (tdmb_OpenSubChannel cfg k svc thr s).g_atTdmbRegSubchInfo)
    (ht2 : t.g_aRegSubChArrayIdxBits
      = (tdmb_OpenSubChannel cfg k svc thr s).g_aRegSubChArrayIdxBits)
    (ht3 : t.g_aRtvUsedHwSubChIdxBits
      = (tdmb_OpenSubChannel cfg k svc thr s).g_aRtvUsedHwSubChIdxBits)
    (ht4 : t.g_aRegSubChIdBits = (tdmb_OpenSubChannel cfg k svc thr s).g_aRegSubChIdBits) :
    (∀ c, c < 64 → (IdBit t c ↔ c = k)) ∧
    ∃ i, Registered t i ∧ (t.g_atTdmbRegSubchInfo i).nSubChID = k ∧
      ∀ b, UsedHw t b ↔ b = (t.g_atTdmbRegSubchInfo i).nHwSubChIdx := by
  have hsingle : cfg.single = true → ∀ i, ¬ Registered s i := fun _ => he
  have hv : cfg.single = false → svc = E_RTV_TDMB_SERVICE_TYPE.RTV_TDMB_SERVICE_VIDEO →
      ¬ UsedHw s 0 := fun _ _ => (h.empty he).1 0
  have ha : cfg.single = false → svc ≠ E_RTV_TDMB_SERVICE_TYPE.RTV_TDMB_SERVICE_VIDEO →
      ¬ (UsedHw s 3 ∧ UsedHw s 4 ∧ UsedHw s 5 ∧ UsedHw s 6) :=
    fun _ _ hu => (h.empty he).1 3 hu.1
  obtain ⟨i, hi, hicap, _, _⟩ := openIdx_spec h hroomy svc hsingle hv ha
  have hi32 : i < 32 := by split_ifs at hicap <;> omega
  obtain ⟨hr, htab⟩ := open_reg_some cfg k svc thr s i hi
  have hu := open_usedHw cfg k svc thr s
  have hid := open_idBit cfg k svc thr s
  have hent : t.g_atTdmbRegSubchInfo i = ⟨k, openHwIdx cfg svc s, svc, thr⟩ := by
    rw [ht1, htab, Function.update_same]
  constructor
  · intro c hc
    have : IdBit t c ↔ IdBit (tdmb_OpenSubChannel cfg k svc thr s) c := by
      unfold IdBit; rw [ht4]
    rw [this, hid c]
    constructor
    · rintro (h1 | h1)
      · exact absurd h1 ((h.empty he).2 c hc)
      · exact h1
    · exact Or.inr
  · refine ⟨i, ?_, by rw [hent], ?_⟩
    · have : Registered t i ↔ Registered (tdmb_OpenSubChannel cfg k svc thr s) i := by
        unfold Registered; rw [ht2]
      rw [this, hr i]
      exact Or.inr ⟨hi32, rfl⟩
    · intro b
      have : UsedHw t b ↔ UsedHw (tdmb_OpenSubChannel cfg k svc thr s) b := by
        unfold UsedHw; rw [ht3]
      rw [this, hu b, hent]
      constructor
      · rintro (h1 | ⟨_, h1⟩)
        · exact absurd h1 ((h.empty he).1 b)
        · exact h1.symm
      · intro e
        exact Or.inr ⟨openHwIdx_lt cfg svc s, e.symm⟩

/-- C6 (amended): in a reachable state of a single-slot build or of a multi-slot build with a
table of at least 5 entries, after an `OpenSubChannel` call with a valid ID `k`, an accepted
threshold and a frequency different from the chip's previous frequency, the registered ID set
is exactly `{k}` (every previously open ID other than `k` is gone) and
`usedHardwareSlotMask` contains exactly the hardware slot recorded for `k`. -/
theorem new_frequency_leaves_only_k (cfg : BuildConfig) (env : Env) (s : ChipState)
    (f k : Nat) (svc : E_RTV_TDMB_SERVICE_TYPE) (thr : Nat)
    (hbuild : cfg.RTV_MAX_NUM_SUB_CHANNEL_USED = 1 ∨ 5 ≤ cfg.RTV_MAX_NUM_SUB_CHANNEL_USED)
    (hreach : Reachable cfg env s) (hk : k < 64) (hthr : thresholdAccepted cfg thr)
    (hf : f ≠ s.g_aTdmbPrevChFreqKHz) :
    (∀ c, c < 64 → (IdBit (rtvTDMB_OpenSubChannel cfg env f k svc thr s).2 c ↔ c = k)) ∧
    ∃ i, Registered (rtvTDMB_OpenSubChannel cfg env f k svc thr s).2 i ∧
      ((rtvTDMB_OpenSubChannel cfg env f k svc thr s).2.g_atTdmbRegSubchInfo i).nSubChID = k ∧
      ∀ b, UsedHw (rtvTDMB_OpenSubChannel cfg env f k svc thr s).2 b ↔
        b = ((rtvTDMB_OpenSubChannel cfg env f k svc thr s).2.g_atTdmbRegSubchInfo i).nHwSubChIdx
    := by
  have h : RegInv cfg s := RegInv.reg_of_reachable hbuild hreach
  apply rtvOpen_cases cfg env f k svc thr s (fun r =>
    (∀ c, c < 64 → (IdBit r.2 c ↔ c = k)) ∧
    ∃ i, Registered r.2 i ∧ (r.2.g_atTdmbRegSubchInfo i).nSubChID = k ∧
      ∀ b, UsedHw r.2 b ↔ b = (r.2.g_atTdmbRegSubchInfo i).nHwSubChIdx)
  · intro h64; omega
  · intro _ hn; exact absurd hthr hn
  · intro _ _ e; exact absurd e.symm hf
  · intro _ _ e; exact absurd e.symm hf
  · intro _ _ e; exact absurd e.symm hf
  · intro _ _ e; exact absurd e.symm hf
  · intro _ _ e; exact absurd e.symm hf
  · intro _ _ _
    unfold openNewFreq
    have h0 : RegInv cfg (Mtv818.emit Event.RTV_GUARD_LOCK
        { s with g_aTdmbPrevChFreqKHz := f, g_afRtvChannelChange := true }) :=
      h.reg_congr rfl rfl rfl rfl
    obtain ⟨h1, he⟩ := h0.closed_for_new_freq _ rfl
    simp only []
    generalize (if cfg.single = true then tdmb_CloseSubChannel cfg 0 (Mtv818.emit
      Event.RTV_GUARD_LOCK { s with g_aTdmbPrevChFreqKHz := f, g_afRtvChannelChange := true })
      else tdmb_CloseAllSubChannel cfg (Mtv818.emit Event.RTV_GUARD_LOCK
      { s with g_aTdmbPrevChFreqKHz := f, g_afRtvChannelChange := true })) = s2 at h1 he ⊢
    have h2 : RegInv cfg { s2 with hw := (rtvRF_SetFrequency env f s2.hw).2 } :=
      h1.reg_congr rfl rfl rfl rfl
    exact open_on_empty h2 hbuild he k svc (effectiveThreshold cfg thr) _ rfl rfl rfl rfl

/-- C5 (amended): in a multi-slot build, for every chip state, every ID `k < 64` whose ID bit
is clear and every accepted threshold size, `OpenSubChannel` on the chip's previous frequency
returns `RTV_NO_MORE_SUB_CHANNEL` when the needed hardware class is fully occupied (Video
with slot 0 in use, or Audio/Data with slots 3, 4, 5 and 6 all in use), leaving
`usedHardwareSlotMask`, `registeredSlotMask`, `registeredSubChannelIdBits` and the table
unchanged. -/
theorem full_class_returns_no_more (cfg : BuildConfig) (env : Env) (s : ChipState)
    (k : Nat) (svc : E_RTV_TDMB_SERVICE_TYPE) (thr : Nat)
    (hmulti : cfg.RTV_MAX_NUM_SUB_CHANNEL_USED ≠ 1) (hk : k < 64) (hnid : ¬ IdBit s k)
    (hthr : thresholdAccepted cfg thr)
    (hfull : (svc = E_RTV_TDMB_SERVICE_TYPE.RTV_TDMB_SERVICE_VIDEO ∧ UsedHw s 0) ∨
      (svc ≠ E_RTV_TDMB_SERVICE_TYPE.RTV_TDMB_SERVICE_VIDEO ∧
        UsedHw s 3 ∧ UsedHw s 4 ∧ UsedHw s 5 ∧ UsedHw s 6)) :
    (rtvTDMB_OpenSubChannel cfg env s.g_aTdmbPrevChFreqKHz k svc thr s).1
      = RtvResult.RTV_NO_MORE_SUB_CHANNEL ∧
    (rtvTDMB_OpenSubChannel cfg env s.g_aTdmbPrevChFreqKHz k svc thr s).2.g_aRtvUsedHwSubChIdxBits
      = s.g_aRtvUsedHwSubChIdxBits ∧
    (rtvTDMB_OpenSubChannel cfg env s.g_aTdmbPrevChFreqKHz k svc thr s).2.g_aRegSubChArrayIdxBits
      = s.g_aRegSubChArrayIdxBits ∧
    (rtvTDMB_OpenSubChannel cfg env s.g_aTdmbPrevChFreqKHz k svc thr s).2.g_aRegSubChIdBits
      = s.g_aRegSubChIdBits ∧
    (rtvTDMB_OpenSubChannel cfg env s.g_aTdmbPrevChFreqKHz k svc thr s).2.g_atTdmbRegSubchInfo
      = s.g_atTdmbRegSubchInfo := by
  have hns : ¬ cfg.single = true := by
    intro hs; apply hmulti; simpa [BuildConfig.single] using hs
  apply rtvOpen_cases cfg env s.g_aTdmbPrevChFreqKHz k svc thr s (fun r =>
    r.1 = RtvResult.RTV_NO_MORE_SUB_CHANNEL ∧
    r.2.g_aRtvUsedHwSubChIdxBits = s.g_aRtvUsedHwSubChIdxBits ∧
    r.2.g_aRegSubChArrayIdxBits = s.g_aRegSubChArrayIdxBits ∧
    r.2.g_aRegSubChIdBits = s.g_aRegSubChIdBits ∧
    r.2.g_atTdmbRegSubchInfo = s.g_atTdmbRegSubchInfo)
  · intro h64; omega
  · intro _ hn; exact absurd hthr hn
  · intro _ _ _ hb; exact absurd hb hnid
  · intro _ _ _ _ hs; exact absurd hs hns
  · intro _ _ _ _ _ _ _; exact ⟨rfl, rfl, rfl, rfl, rfl⟩
  · intro _ _ _ _ _ _ _; exact ⟨rfl, rfl, rfl, rfl, rfl⟩
  · intro _ _ _ _ _ hv ha
    rcases hfull with ⟨e, hu⟩ | ⟨e, hu⟩
    · exact absurd hu (hv e)
    · exact absurd hu (ha e)
  · intro _ _ hne; exact absurd rfl hne

/-- C9 (amended): `CloseSubChannel` of an ID that no registered table entry carries returns
success and leaves `usedHardwareSlotMask`, `registeredSlotMask`, `registeredSubChannelIdBits`
and the table unchanged in a multi-slot build; in a single-slot build, where the call closes
table entry 0 whatever ID is passed, this holds when entry 0 is not registered. -/
theorem close_of_absent_id_changes_nothing (cfg : BuildConfig) (k : Nat) (s : ChipState)
    (hsingle : cfg.RTV_MAX_NUM_SUB_CHANNEL_USED = 1 → ¬ Registered s 0)
    (hmulti : cfg.RTV_MAX_NUM_SUB_CHANNEL_USED ≠ 1 →
      ∀ i, Registered s i → (s.g_atTdmbRegSubchInfo i).nSubChID ≠ k) :
    (rtvTDMB_CloseSubChannel cfg k s).1 = RtvResult.RTV_SUCCESS ∧
    (rtvTDMB_CloseSubChannel cfg k s).2.g_aRtvUsedHwSubChIdxBits = s.g_aRtvUsedHwSubChIdxBits ∧
    (rtvTDMB_CloseSubChannel cfg k s).2.g_aRegSubChArrayIdxBits = s.g_aRegSubChArrayIdxBits ∧
    (rtvTDMB_CloseSubChannel cfg k s).2.g_aRegSubChIdBits = s.g_aRegSubChIdBits ∧
    (rtvTDMB_CloseSubChannel cfg k s).2.g_atTdmbRegSubchInfo = s.g_atTdmbRegSubchInfo := by
  apply rtvClose_absent_fields cfg k s s rfl rfl rfl rfl
  · intro hs; apply hsingle; simpa [BuildConfig.single] using hs
  · intro hs; apply hmulti; intro e; simp [BuildConfig.single, e] at hs

/-! ## Claims -/

/-- The state `videoOnly` is reachable in the five-entry SPI build. -/
theorem videoOnly_reachable : Reachable cfgM5 quietEnv videoOnly :=
  Reachable.openSubChannel _ 100 1 E_RTV_TDMB_SERVICE_TYPE.RTV_TDMB_SERVICE_VIDEO 188
    (Reachable.init bootState E_RTV_COUNTRY_BAND_TYPE.RTV_COUNTRY_BAND_KOREA (by decide))

/-- The state `audioOnly` is reachable in the five-entry SPI build. -/
theorem audioOnly_reachable : Reachable cfgM5 quietEnv audioOnly :=
  Reachable.openSubChannel _ 100 1 E_RTV_TDMB_SERVICE_TYPE.RTV_TDMB_SERVICE_AUDIO 188
    (Reachable.init bootState E_RTV_COUNTRY_BAND_TYPE.RTV_COUNTRY_BAND_KOREA (by decide))

/-- C1 at the state with one Video sub-channel open: slot bit 0. -/
theorem used_mask_iff_registered_slot_witness :
    (cfgM5.RTV_MAX_NUM_SUB_CHANNEL_USED = 1 ∨ 5 ≤ cfgM5.RTV_MAX_NUM_SUB_CHANNEL_USED) ∧
    Reachable cfgM5 quietEnv videoOnly ∧
    (videoOnly.g_aRtvUsedHwSubChIdxBits.testBit 0 = true ↔
      ∃ j, videoOnly.g_aRegSubChArrayIdxBits.testBit j = true ∧
        (videoOnly.g_atTdmbRegSubchInfo j).nHwSubChIdx = 0) :=
  ⟨Or.inr (by decide), videoOnly_reachable,
    used_mask_iff_registered_slot cfgM5 quietEnv videoOnly (Or.inr (by decide))
      videoOnly_reachable 0⟩

/-- C2 (code defect): in the multi-slot build with a table of 2 entries, after
`Initialize`, and three Audio opens of IDs 1, 2, 3 on one frequency, the state is reachable,
the ID bit of 3 is set, and no registered table entry carries ID 3: the free-index search of
`tdmb_OpenSubChannel` found no index, yet the ID bit and the hardware slot bit were set. -/
theorem full_table_sets_id_bit_without_entry :
    Reachable cfgM2 quietEnv leakState ∧
    ¬ (IdBit leakState 3 ↔
        ∃ i, Registered leakState i ∧ (leakState.g_atTdmbRegSubchInfo i).nSubChID = 3) := by
  refine ⟨?_, ?_⟩
  · exact Reachable.openSubChannel _ 100 3 E_RTV_TDMB_SERVICE_TYPE.RTV_TDMB_SERVICE_AUDIO 188
      (Reachable.openSubChannel _ 100 2 E_RTV_TDMB_SERVICE_TYPE.RTV_TDMB_SERVICE_AUDIO 188
        (Reachable.openSubChannel _ 100 1 E_RTV_TDMB_SERVICE_TYPE.RTV_TDMB_SERVICE_AUDIO 188
          (Reachable.init bootState E_RTV_COUNTRY_BAND_TYPE.RTV_COUNTRY_BAND_KOREA
            (by decide))))
  · intro h
    have hbit : IdBit leakState 3 := by decide
    obtain ⟨i, hi, hid⟩ := h.1 hbit
    have hreg : leakState.g_aRegSubChArrayIdxBits = 3 := by decide
    unfold Registered at hi
    rw [hreg] at hi
    have hi2 : i < 2 := by
      by_contra hge
      have : (3 : Nat).testBit i = false :=
        Nat.testBit_lt_two_pow (lt_of_lt_of_le (by norm_num : (3 : Nat) < 2 ^ 2)
          (Nat.pow_le_pow_right (by norm_num) (by omega)))
      rw [this] at hi; cases hi
    have h0 : (leakState.g_atTdmbRegSubchInfo 0).nSubChID = 1 := by decide
    have h1 : (leakState.g_atTdmbRegSubchInfo 1).nSubChID = 2 := by decide
    interval_cases i
    · rw [h0] at hid; cases hid
    · rw [h1] at hid; cases hid

/-- C3 at the state with one Video sub-channel open. -/
theorem at_most_one_video_witness :
    Reachable cfgM5 quietEnv videoOnly ∧ Registered videoOnly 0 ∧
    (videoOnly.g_atTdmbRegSubchInfo 0).eServiceType
      = E_RTV_TDMB_SERVICE_TYPE.RTV_TDMB_SERVICE_VIDEO ∧ 0 = 0 :=
  ⟨videoOnly_reachable, by decide, by decide,
    at_most_one_video cfgM5 quietEnv videoOnly videoOnly_reachable 0 0 (by decide) (by decide)
      (by decide) (by decide)⟩

/-- C4 fails as stated: with Audio ID 1 open on frequency `100`, opening ID 2 on
frequency `200` and closing it again leaves `usedHardwareSlotMask` empty, although slot 3 was
in use before the open (the retune closed ID 1). -/
theorem open_close_after_retune_differs :
    Reachable cfgM5 quietEnv audioOnly ∧ thresholdAccepted cfgM5 188 ∧
    audioOnly.g_aRtvUsedHwSubChIdxBits = 8 ∧
    (rtvTDMB_CloseSubChannel cfgM5 2
      (rtvTDMB_OpenSubChannel cfgM5 quietEnv 200 2
        E_RTV_TDMB_SERVICE_TYPE.RTV_TDMB_SERVICE_AUDIO 188 audioOnly).2).2.g_aRtvUsedHwSubChIdxBits
      = 0 ∧
    (rtvTDMB_CloseSubChannel cfgM5 2
      (rtvTDMB_OpenSubChannel cfgM5 quietEnv 200 2
        E_RTV_TDMB_SERVICE_TYPE.RTV_TDMB_SERVICE_AUDIO 188 audioOnly).2).2.g_aRegSubChIdBits 0
      ≠ audioOnly.g_aRegSubChIdBits 0 :=
  ⟨audioOnly_reachable, by decide, by decide, by decide, by decide⟩

/-- C4 (amended) at the state right after `Initialize`, ID 1, Video, frequency `100`. -/
theorem open_then_close_restores_masks_witness :
    (cfgM5.RTV_MAX_NUM_SUB_CHANNEL_USED = 1 ∨ 5 ≤ cfgM5.RTV_MAX_NUM_SUB_CHANNEL_USED) ∧
    Reachable cfgM5 quietEnv (initState cfgM5) ∧ 1 < 64 ∧ thresholdAccepted cfgM5 188 ∧
    ¬ IdBit (initState cfgM5) 1 ∧
    ((rtvTDMB_CloseSubChannel cfgM5 1
        (rtvTDMB_OpenSubChannel cfgM5 quietEnv 100 1
          E_RTV_TDMB_SERVICE_TYPE.RTV_TDMB_SERVICE_VIDEO 188
          (initState cfgM5)).2).2.g_aRtvUsedHwSubChIdxBits
      = (initState cfgM5).g_aRtvUsedHwSubChIdxBits ∧
    (rtvTDMB_CloseSubChannel cfgM5 1
        (rtvTDMB_OpenSubChannel cfgM5 quietEnv 100 1
          E_RTV_TDMB_SERVICE_TYPE.RTV_TDMB_SERVICE_VIDEO 188
          (initState cfgM5)).2).2.g_aRegSubChIdBits
      = (initState cfgM5).g_aRegSubChIdBits) :=
  ⟨Or.inr (by decide),
    Reachable.init bootState E_RTV_COUNTRY_BAND_TYPE.RTV_COUNTRY_BAND_KOREA (by decide),
    by decide, by decide, by decide,
    open_then_close_restores_masks cfgM5 quietEnv (initState cfgM5) 100 1
      E_RTV_TDMB_SERVICE_TYPE.RTV_TDMB_SERVICE_VIDEO 188 (Or.inr (by decide))
      (Reachable.init bootState E_RTV_COUNTRY_BAND_TYPE.RTV_COUNTRY_BAND_KOREA (by decide))
      (by decide) (by decide) (by decide) (Or.inl (by
        intro i hi
        have hz : (initState cfgM5).g_aRegSubChArrayIdxBits = 0 := by decide
        unfold Registered at hi
        rw [hz] at hi
        simp at hi))⟩

/-- C5 fails as stated: in the SPI build without CIF mode, with Video ID 1 open on
frequency `100`, opening the unregistered Video ID 2 on the same frequency with threshold
size 4000 returns `RTV_INVAILD_THRESHOLD_SIZE`, not `RTV_NO_MORE_SUB_CHANNEL`. -/
theorem oversized_threshold_precedes_no_more :
    cfgM5.RTV_MAX_NUM_SUB_CHANNEL_USED ≠ 1 ∧ ¬ IdBit videoOnly 2 ∧ UsedHw videoOnly 0 ∧
    videoOnly.g_aTdmbPrevChFreqKHz = 100 ∧
    (rtvTDMB_OpenSubChannel cfgM5 quietEnv 100 2
      E_RTV_TDMB_SERVICE_TYPE.RTV_TDMB_SERVICE_VIDEO 4000 videoOnly).1
      = RtvResult.RTV_INVAILD_THRESHOLD_SIZE := by
  decide

/-- C5 (amended) at the state with Video ID 1 open: a second Video ID 2 on the same
frequency. -/
theorem full_class_returns_no_more_witness :
    cfgM5.RTV_MAX_NUM_SUB_CHANNEL_USED ≠ 1 ∧ 2 < 64 ∧ ¬ IdBit videoOnly 2 ∧
    thresholdAccepted cfgM5 188 ∧ UsedHw videoOnly 0 ∧
    (rtvTDMB_OpenSubChannel cfgM5 quietEnv videoOnly.g_aTdmbPrevChFreqKHz 2
      E_RTV_TDMB_SERVICE_TYPE.RTV_TDMB_SERVICE_VIDEO 188 videoOnly).1
      = RtvResult.RTV_NO_MORE_SUB_CHANNEL :=
  ⟨by decide, by decide, by decide, by decide, by decide,
    (full_class_returns_no_more cfgM5 quietEnv videoOnly 2
      E_RTV_TDMB_SERVICE_TYPE.RTV_TDMB_SERVICE_VIDEO 188 (by decide) (by decide) (by decide)
      (by decide) (Or.inl ⟨rfl, by decide⟩)).1⟩

/-- C6 fails as stated: in the SPI build without CIF mode, with Audio ID 1 open on
frequency `100`, `OpenSubChannel(200, 2, Audio, 4000)` has a valid ID and a new frequency but
is rejected for its threshold size, and afterwards the ID bit of 1 is still set. -/
theorem rejected_threshold_keeps_old_ids :
    Reachable cfgM5 quietEnv audioOnly ∧ 2 < 64 ∧ 200 ≠ audioOnly.g_aTdmbPrevChFreqKHz ∧
    IdBit audioOnly 1 ∧
    (rtvTDMB_OpenSubChannel cfgM5 quietEnv 200 2
      E_RTV_TDMB_SERVICE_TYPE.RTV_TDMB_SERVICE_AUDIO 4000 audioOnly).1
      = RtvResult.RTV_INVAILD_THRESHOLD_SIZE ∧
    IdBit (rtvTDMB_OpenSubChannel cfgM5 quietEnv 200 2
      E_RTV_TDMB_SERVICE_TYPE.RTV_TDMB_SERVICE_AUDIO 4000 audioOnly).2 1 ∧
    ¬ IdBit (rtvTDMB_OpenSubChannel cfgM5 quietEnv 200 2
      E_RTV_TDMB_SERVICE_TYPE.RTV_TDMB_SERVICE_AUDIO 4000 audioOnly).2 2 :=
  ⟨audioOnly_reachable, by decide, by decide, by decide, by decide, by decide, by decide⟩

/-- C6 (amended) at the state with Audio ID 1 open on frequency `100`: opening ID 2 on
frequency `200`. -/
theorem new_frequency_leaves_only_k_witness :
    (cfgM5.RTV_MAX_NUM_SUB_CHANNEL_USED = 1 ∨ 5 ≤ cfgM5.RTV_MAX_NUM_SUB_CHANNEL_USED) ∧
    Reachable cfgM5 quietEnv audioOnly ∧ 2 < 64 ∧ thresholdAccepted cfgM5 188 ∧
    200 ≠ audioOnly.g_aTdmbPrevChFreqKHz ∧
    (∀ c, c < 64 → (IdBit (rtvTDMB_OpenSubChannel cfgM5 quietEnv 200 2
      E_RTV_TDMB_SERVICE_TYPE.RTV_TDMB_SERVICE_AUDIO 188 audioOnly).2 c ↔ c = 2)) :=
  ⟨Or.inr (by decide), audioOnly_reachable, by decide, by decide, by decide,
    (new_frequency_leaves_only_k cfgM5 quietEnv audioOnly 200 2
      E_RTV_TDMB_SERVICE_TYPE.RTV_TDMB_SERVICE_AUDIO 188 (Or.inr (by decide))
      audioOnly_reachable (by decide) (by decide) (by decide)).1⟩

/-- C7 (code defect): with register `0x7F` reading 1 and register `0x7E` reading 0, the raw
13-bit monitor value is 256 (above 160), yet `rtvTDMB_GetCNR` returns 0 instead of the
high-end constant `5.44 * RTV_TDMB_CNR_DIVIDER` (5440 for divider 1000): the value is stored
in a `U8` local and truncated to 0. -/
theorem getCNR_truncates_raw_256 :
    (((1 &&& 0x1f) <<< 8) + 0 = 256) ∧
    bootState.g_afRtvChannelChange = false ∧
    (rtvTDMB_GetCNR cfgM5 (cnrEnv 0 1) bootState).1 = 0 ∧
    544 * cfgM5.RTV_TDMB_CNR_DIVIDER / 100 = 5440 := by
  decide

set_option maxRecDepth 100000 in
/-- C8 (code defect): in the multi-slot SPI build, closing the only open sub-channel, a Video
one with ID 1, disables hardware slot 0 and then resets the MSC0 memory; the call never issues
`rtv_ResetMemory_MSC1`, because the use masks are tested before the slot bit is cleared.
Closing the only open Audio sub-channel issues `rtv_ResetMemory_MSC1` and never
`rtv_ResetMemory_MSC0`. -/
theorem close_only_video_resets_msc0 :
    videoOnly.g_aRegSubChArrayIdxBits = 1 ∧
    (videoOnly.g_atTdmbRegSubchInfo 0).eServiceType
      = E_RTV_TDMB_SERVICE_TYPE.RTV_TDMB_SERVICE_VIDEO ∧
    callTrace videoOnly (rtvTDMB_CloseSubChannel cfgM5 1 videoOnly).2
      = [Event.RTV_GUARD_LOCK, Event.rtv_Set_MSC1_SUBCH0 1 false false,
         Event.RTV_REG_MAP_SEL 0, Event.RTV_REG_SET 0x62 2, Event.rtv_ResetMemory_MSC0,
         Event.RTV_GUARD_FREE] ∧
    Event.rtv_ResetMemory_MSC1 ∉
      callTrace videoOnly (rtvTDMB_CloseSubChannel cfgM5 1 videoOnly).2 ∧
    callTrace audioOnly (rtvTDMB_CloseSubChannel cfgM5 1 audioOnly).2
      = [Event.RTV_GUARD_LOCK, Event.rtv_Set_MSC0_SUBCH3 1 false,
         Event.RTV_REG_MAP_SEL 0, Event.RTV_REG_SET 0x62 4, Event.rtv_ResetMemory_MSC1,
         Event.RTV_GUARD_FREE] :=
  ⟨by decide, by decide, by decide, by decide, by decide⟩

/-- C9 fails as stated: in the single-slot build with Audio ID 3 open, `CloseSubChannel(5)`
names an ID that is not registered, yet it closes ID 3: the hardware slot bit, the table bit
and the ID bit of 3 are cleared. -/
theorem single_slot_close_ignores_id :
    singleAudio.g_aRegSubChArrayIdxBits = 1 ∧
    (singleAudio.g_atTdmbRegSubchInfo 0).nSubChID = 3 ∧ ¬ IdBit singleAudio 5 ∧
    singleAudio.g_aRtvUsedHwSubChIdxBits = 1 ∧
    (rtvTDMB_CloseSubChannel cfgS1 5 singleAudio).1 = RtvResult.RTV_SUCCESS ∧
    (rtvTDMB_CloseSubChannel cfgS1 5 singleAudio).2.g_aRtvUsedHwSubChIdxBits = 0 ∧
    (rtvTDMB_CloseSubChannel cfgS1 5 singleAudio).2.g_aRegSubChArrayIdxBits = 0 ∧
    IdBit singleAudio 3 ∧ ¬ IdBit (rtvTDMB_CloseSubChannel cfgS1 5 singleAudio).2 3 := by
  decide

/-- No registered table entry of `videoOnly` carries the sub-channel ID 7. -/
theorem videoOnly_no_id_seven (i : Nat) (hi : Registered videoOnly i) :
    (videoOnly.g_atTdmbRegSubchInfo i).nSubChID ≠ 7 := by
  have hreg : videoOnly.g_aRegSubChArrayIdxBits = 1 := by decide
  unfold Registered at hi
  rw [hreg] at hi
  have hi0 : i = 0 := by
    by_contra hne
    have : (1 : Nat).testBit i = false :=
      Nat.testBit_lt_two_pow (lt_of_lt_of_le (by norm_num : (1 : Nat) < 2 ^ 1)
        (Nat.pow_le_pow_right (by norm_num) (by omega)))
    rw [this] at hi; cases hi
  subst hi0
  decide

/-- C9 (amended) at the multi-slot state with Video ID 1 open: closing ID 7. -/
theorem close_of_absent_id_changes_nothing_witness :
    (cfgM5.RTV_MAX_NUM_SUB_CHANNEL_USED ≠ 1) ∧
    (∀ i, Registered videoOnly i → (videoOnly.g_atTdmbRegSubchInfo i).nSubChID ≠ 7) ∧
    (rtvTDMB_CloseSubChannel cfgM5 7 videoOnly).1 = RtvResult.RTV_SUCCESS ∧
    (rtvTDMB_CloseSubChannel cfgM5 7 videoOnly).2.g_aRtvUsedHwSubChIdxBits
      = videoOnly.g_aRtvUsedHwSubChIdxBits ∧
    (rtvTDMB_CloseSubChannel cfgM5 7 videoOnly).2.g_aRegSubChArrayIdxBits
      = videoOnly.g_aRegSubChArrayIdxBits ∧
    (rtvTDMB_CloseSubChannel cfgM5 7 videoOnly).2.g_aRegSubChIdBits
      = videoOnly.g_aRegSubChIdBits ∧
    (rtvTDMB_CloseSubChannel cfgM5 7 videoOnly).2.g_atTdmbRegSubchInfo
      = videoOnly.g_atTdmbRegSubchInfo :=
  ⟨by decide, videoOnly_no_id_seven,
    close_of_absent_id_changes_nothing cfgM5 7 videoOnly (fun h => absurd h (by decide))
      (fun _ => videoOnly_no_id_seven)⟩

/-- C10: for every chip state, frequency, service type and threshold, `OpenSubChannel` with
`subChannelId >= 64` returns `RTV_INVAILD_SUB_CHANNEL_ID` and hands back the chip state it
was given (no collaborator call, no global changed); for `subChannelId <= 63` it never
returns `RTV_INVAILD_SUB_CHANNEL_ID`. -/
theorem invalid_id_rejected_unchanged (cfg : BuildConfig) (env : Env) (f k : Nat)
    (svc : E_RTV_TDMB_SERVICE_TYPE) (thr : Nat) (s : ChipState) :
    (64 ≤ k → rtvTDMB_OpenSubChannel cfg env f k svc thr s
        = (RtvResult.RTV_INVAILD_SUB_CHANNEL_ID, s)) ∧
    (k ≤ 63 → (rtvTDMB_OpenSubChannel cfg env f k svc thr s).1
        ≠ RtvResult.RTV_INVAILD_SUB_CHANNEL_ID) := by
  constructor
  · intro h
    unfold rtvTDMB_OpenSubChannel
    have : k > MAX_NUM_TDMB_SUB_CH - 1 := by unfold MAX_NUM_TDMB_SUB_CH; omega
    simp only [this, if_true]
  · intro h
    unfold rtvTDMB_OpenSubChannel
    have : ¬ k > MAX_NUM_TDMB_SUB_CH - 1 := by unfold MAX_NUM_TDMB_SUB_CH; omega
    simp only [this, if_false]
    have hc : ∀ o : Option Nat,
        RtvResult.ofCollaborator o ≠ RtvResult.RTV_INVAILD_SUB_CHANNEL_ID := by
      intro o; cases o <;> simp [RtvResult.ofCollaborator]
    split_ifs <;> first | exact hc _ | (intro h0; cases h0)

/-- C10 at ID 64 and at ID 63 on the state with Video ID 1 open. -/
theorem invalid_id_rejected_unchanged_witness :
    (64 ≤ 64 ∧ (rtvTDMB_OpenSubChannel cfgM5 quietEnv 100 64
        E_RTV_TDMB_SERVICE_TYPE.RTV_TDMB_SERVICE_AUDIO 188 videoOnly).2.hw = videoOnly.hw) ∧
    (63 ≤ 63 ∧ (rtvTDMB_OpenSubChannel cfgM5 quietEnv 100 63
        E_RTV_TDMB_SERVICE_TYPE.RTV_TDMB_SERVICE_AUDIO 188 videoOnly).1
        ≠ RtvResult.RTV_INVAILD_SUB_CHANNEL_ID) :=
  ⟨⟨le_refl _, congrArg (fun r => r.2.hw)
      ((invalid_id_rejected_unchanged cfgM5 quietEnv 100 64
        E_RTV_TDMB_SERVICE_TYPE.RTV_TDMB_SERVICE_AUDIO 188 videoOnly).1 (le_refl _))⟩,
    ⟨le_refl _, (invalid_id_rejected_unchanged cfgM5 quietEnv 100 63
        E_RTV_TDMB_SERVICE_TYPE.RTV_TDMB_SERVICE_AUDIO 188 videoOnly).2 (le_refl _)⟩⟩

/-! ## Signal quality accessors, threshold check, slot assignment and FIC reads -/

theorem callTrace_of_append (s t : ChipState) (es : List Event)
    (h : t.hw.trace = es ++ s.hw.trace) : callTrace s t = es.reverse := by
  unfold callTrace
  rw [h, List.length_append, Nat.add_sub_cancel, List.take_left']
  rfl

theorem and_eight_shift (x : Nat) : ((x &&& 0x08) >>> 3 = 1) ↔ x.testBit 3 = true := by
  have h8 : (0x08 : Nat) = 2 ^ 3 := by norm_num
  rw [h8, Nat.and_two_pow]
  cases x.testBit 3 <;> simp

/-- C11 (amended): in every build that is not in CIF aggregation mode and whose interface is
SPI or EBI2, `OpenSubChannel` with a valid ID and a threshold size above `188 * 18` returns
`RTV_INVAILD_THRESHOLD_SIZE` and hands back the chip state it was given. -/
theorem oversized_threshold_rejected_unchanged (cfg : BuildConfig) (env : Env) (f k : Nat)
    (svc : E_RTV_TDMB_SERVICE_TYPE) (thr : Nat) (s : ChipState)
    (hcif : cfg.RTV_CIF_MODE_ENABLED = false)
    (hif : cfg.iface = Interface.RTV_IF_SPI ∨ cfg.iface = Interface.RTV_IF_EBI2)
    (hk : k ≤ 63) (hthr : 188 * 18 < thr) :
    rtvTDMB_OpenSubChannel cfg env f k svc thr s
      = (RtvResult.RTV_INVAILD_THRESHOLD_SIZE, s) := by
  have h1 : ¬ k > MAX_NUM_TDMB_SUB_CH - 1 := by unfold MAX_NUM_TDMB_SUB_CH; omega
  have h2 : cfg.ifSpiOrEbi2 = true := by
    unfold BuildConfig.ifSpiOrEbi2
    rcases hif with e | e <;> simp [e]
  have h3 : cfg.ifAnyTsif = false := by
    unfold BuildConfig.ifAnyTsif BuildConfig.ifSerialTsif
    rcases hif with e | e <;> simp [e]
  have h4 : effectiveThreshold cfg thr = thr := by
    unfold effectiveThreshold; simp [hcif, h3]
  unfold rtvTDMB_OpenSubChannel
  simp only [h4, if_neg h1, hcif, h2, Bool.not_false, Bool.and_self, Bool.true_and,
    decide_eq_true_eq]
  rw [if_pos (by omega)]

/-- C11 fails as stated: the serial TSIF build without CIF mode is not in CIF aggregation
mode, yet `OpenSubChannel(100, 1, Audio, 4000)` succeeds and registers ID 1 (the TSIF builds
overwrite the threshold with `RTV_TS_PACKET_SIZE` and compile no check). -/
theorem tsif_build_takes_oversized_threshold :
    cfgT5.RTV_CIF_MODE_ENABLED = false ∧ 1 ≤ 63 ∧ 188 * 18 < 4000 ∧
    (rtvTDMB_OpenSubChannel cfgT5 quietEnv 100 1
      E_RTV_TDMB_SERVICE_TYPE.RTV_TDMB_SERVICE_AUDIO 4000 (initState cfgT5)).1
      = RtvResult.RTV_SUCCESS ∧
    ¬ IdBit (initState cfgT5) 1 ∧
    IdBit (rtvTDMB_OpenSubChannel cfgT5 quietEnv 100 1
      E_RTV_TDMB_SERVICE_TYPE.RTV_TDMB_SERVICE_AUDIO 4000 (initState cfgT5)).2 1 := by
  decide

/-- C14: while the channel-changing flag is set, each of `GetLockStatus`, `GetPER`,
`GetRSSI`, `GetCNR`, `GetBER` and `GetCER` returns 0 and hands back the chip state it was
given, for every register content: no collaborator call is recorded (no lock, page select,
read or write). -/
theorem accessors_idle_while_channel_changes (cfg : BuildConfig) (env : Env) (s : ChipState)
    (h : s.g_afRtvChannelChange = true) :
    rtvTDMB_GetLockStatus cfg env s = (0, s) ∧ rtvTDMB_GetPER env s = (0, s) ∧
    rtvTDMB_GetRSSI cfg env s = (0, s) ∧ rtvTDMB_GetCNR cfg env s = (0, s) ∧
    rtvTDMB_GetBER cfg env s = (0, s) ∧ rtvTDMB_GetCER env s = (0, s) := by
  refine ⟨?_, ?_, ?_, ?_, ?_, ?_⟩
  · unfold rtvTDMB_GetLockStatus; rw [if_pos h]
  · unfold rtvTDMB_GetPER; rw [if_pos h]
  · unfold rtvTDMB_GetRSSI; rw [if_pos h]
  · unfold rtvTDMB_GetCNR; rw [if_pos h]
  · unfold rtvTDMB_GetBER; rw [if_pos h]
  · unfold rtvTDMB_GetCER; rw [if_pos h]

theorem restoreStream_trace (s : ChipState) :
    callTrace s (restoreStream s)
      = [Event.RTV_GUARD_LOCK, Event.rtv_StreamRestore, Event.RTV_GUARD_FREE] :=
  callTrace_of_append s _ [Event.RTV_GUARD_FREE, Event.rtv_StreamRestore, Event.RTV_GUARD_LOCK]
    rfl

theorem restoreStream_globals (s : ChipState) : globals (restoreStream s) = globals s := by
  unfold restoreStream
  simp only [globals_emit]

theorem rtvOpen_registered (cfg : BuildConfig) (env : Env) (k : Nat)
    (svc : E_RTV_TDMB_SERVICE_TYPE) (thr : Nat) (s : ChipState)
    (hk : k < 64) (hid : IdBit s k) (hthr : thresholdAccepted cfg thr) :
    rtvTDMB_OpenSubChannel cfg env s.g_aTdmbPrevChFreqKHz k svc thr s
      = (RtvResult.RTV_SUCCESS, restoreStream s) := by
  apply rtvOpen_cases cfg env s.g_aTdmbPrevChFreqKHz k svc thr s
    (fun r => r = (RtvResult.RTV_SUCCESS, restoreStream s))
  · intro h; omega
  · intro _ hn; exact absurd hthr hn
  · intro _ _ _ _; rfl
  · intro _ _ _ hn; exact absurd hid hn
  · intro _ _ _ hn; exact absurd hid hn
  · intro _ _ _ hn; exact absurd hid hn
  · intro _ _ _ hn; exact absurd hid hn
  · intro _ _ hne; exact absurd rfl hne

/-- C12: when the ID bit of a valid ID `k` is set, `OpenSubChannel` on the chip's previous
frequency with ID `k` (any service type, any accepted threshold) returns success, its only
collaborator calls are lock, `rtv_StreamRestore`, unlock, and every global (previous
frequency, the three masks, the table, the flags, the interrupt mask shadow) is unchanged;
a second call returns success again and leaves the globals as the first call left them. -/
theorem reopen_registered_only_restores (cfg : BuildConfig) (env : Env) (k : Nat)
    (svc : E_RTV_TDMB_SERVICE_TYPE) (thr : Nat) (s : ChipState)
    (hk : k < 64) (hid : IdBit s k) (hthr : thresholdAccepted cfg thr) :
    (rtvTDMB_OpenSubChannel cfg env s.g_aTdmbPrevChFreqKHz k svc thr s).1
      = RtvResult.RTV_SUCCESS ∧
    callTrace s (rtvTDMB_OpenSubChannel cfg env s.g_aTdmbPrevChFreqKHz k svc thr s).2
      = [Event.RTV_GUARD_LOCK, Event.rtv_StreamRestore, Event.RTV_GUARD_FREE] ∧
    globals (rtvTDMB_OpenSubChannel cfg env s.g_aTdmbPrevChFreqKHz k svc thr s).2
      = globals s ∧
    (rtvTDMB_OpenSubChannel cfg env s.g_aTdmbPrevChFreqKHz k svc thr s).2.g_abRtvIntrMaskRegL
      = s.g_abRtvIntrMaskRegL ∧
    (rtvTDMB_OpenSubChannel cfg env s.g_aTdmbPrevChFreqKHz k svc thr
        (rtvTDMB_OpenSubChannel cfg env s.g_aTdmbPrevChFreqKHz k svc thr s).2).1
      = RtvResult.RTV_SUCCESS ∧
    globals (rtvTDMB_OpenSubChannel cfg env s.g_aTdmbPrevChFreqKHz k svc thr
        (rtvTDMB_OpenSubChannel cfg env s.g_aTdmbPrevChFreqKHz k svc thr s).2).2
      = globals (rtvTDMB_OpenSubChannel cfg env s.g_aTdmbPrevChFreqKHz k svc thr s).2 ∧
    (rtvTDMB_OpenSubChannel cfg env s.g_aTdmbPrevChFreqKHz k svc thr
        (rtvTDMB_OpenSubChannel cfg env s.g_aTdmbPrevChFreqKHz k svc thr
          s).2).2.g_abRtvIntrMaskRegL
      = (rtvTDMB_OpenSubChannel cfg env s.g_aTdmbPrevChFreqKHz k svc thr
          s).2.g_abRtvIntrMaskRegL := by
  have h1 := rtvOpen_registered cfg env k svc thr s hk hid hthr
  have h2 := rtvOpen_registered cfg env k svc thr (restoreStream s) hk hid hthr
  have hp : (restoreStream s).g_aTdmbPrevChFreqKHz = s.g_aTdmbPrevChFreqKHz := rfl
  rw [hp] at h2
  rw [h1]
  show RtvResult.RTV_SUCCESS = RtvResult.RTV_SUCCESS ∧ callTrace s (restoreStream s) = _ ∧
    globals (restoreStream s) = globals s ∧
    (restoreStream s).g_abRtvIntrMaskRegL = s.g_abRtvIntrMaskRegL ∧
    (rtvTDMB_OpenSubChannel cfg env s.g_aTdmbPrevChFreqKHz k svc thr (restoreStream s)).1
      = RtvResult.RTV_SUCCESS ∧
    globals (rtvTDMB_OpenSubChannel cfg env s.g_aTdmbPrevChFreqKHz k svc thr
      (restoreStream s)).2 = globals (restoreStream s) ∧
    (rtvTDMB_OpenSubChannel cfg env s.g_aTdmbPrevChFreqKHz k svc thr
      (restoreStream s)).2.g_abRtvIntrMaskRegL = (restoreStream s).g_abRtvIntrMaskRegL
  rw [h2]
  exact ⟨rfl, restoreStream_trace s, restoreStream_globals s, rfl, rfl,
    restoreStream_globals _, rfl⟩

theorem getPER_unsynced (env : Env) (s : ChipState) (hch : s.g_afRtvChannelChange = false)
    (hn : ¬ ((env.reg s.hw.time FEC_PAGE 0xD7 % 256) &&& 0x08) >>> 3 = 1) :
    (rtvTDMB_GetPER env s).1 = 0 ∧
    (rtvTDMB_GetPER env s).2.hw.trace = [Event.RTV_GUARD_FREE, Event.RTV_REG_GET 0xD7,
      Event.RTV_REG_MAP_SEL FEC_PAGE, Event.RTV_GUARD_LOCK] ++ s.hw.trace := by
  unfold rtvTDMB_GetPER
  simp only [hch, Bool.false_eq_true, if_false]
  rw [if_pos]
  · exact ⟨rfl, rfl⟩
  · exact hn

theorem getBER_unsynced (cfg : BuildConfig) (env : Env) (s : ChipState)
    (hch : s.g_afRtvChannelChange = false)
    (hn : ¬ ((env.reg s.hw.time FEC_PAGE 0xD7 % 256) &&& 0x08) >>> 3 = 1) :
    (rtvTDMB_GetBER cfg env s).1 = 0 ∧
    (rtvTDMB_GetBER cfg env s).2.hw.trace = [Event.RTV_GUARD_FREE, Event.RTV_REG_GET 0xD7,
      Event.RTV_REG_MAP_SEL FEC_PAGE, Event.RTV_GUARD_LOCK] ++ s.hw.trace := by
  unfold rtvTDMB_GetBER
  simp only [hch, Bool.false_eq_true, if_false]
  rw [if_pos]
  · exact ⟨rfl, rfl⟩
  · exact hn

/-- C15: with the channel-changing flag clear, when bit 3 of the byte read from FEC-page
register `0xD7` is 0, `GetPER` and `GetBER` return 0 and their only calls are lock, page
select, the read of `0xD7`, unlock; when the bit is 1, `GetPER` returns
`(reg 0xB4 << 8) | reg 0xB5` of the two following reads. -/
theorem per_ber_gated_on_rs_sync (cfg : BuildConfig) (env : Env) (s : ChipState)
    (hch : s.g_afRtvChannelChange = false) :
    ((env.reg s.hw.time FEC_PAGE 0xD7 % 256).testBit 3 = false →
      (rtvTDMB_GetPER env s).1 = 0 ∧ (rtvTDMB_GetBER cfg env s).1 = 0 ∧
      callTrace s (rtvTDMB_GetPER env s).2
        = [Event.RTV_GUARD_LOCK, Event.RTV_REG_MAP_SEL FEC_PAGE, Event.RTV_REG_GET 0xD7,
            Event.RTV_GUARD_FREE] ∧
      callTrace s (rtvTDMB_GetBER cfg env s).2
        = [Event.RTV_GUARD_LOCK, Event.RTV_REG_MAP_SEL FEC_PAGE, Event.RTV_REG_GET 0xD7,
            Event.RTV_GUARD_FREE]) ∧
    ((env.reg s.hw.time FEC_PAGE 0xD7 % 256).testBit 3 = true →
      (rtvTDMB_GetPER env s).1
        = ((env.reg (s.hw.time + 1) FEC_PAGE 0xB4 % 256) <<< 8)
            ||| (env.reg (s.hw.time + 2) FEC_PAGE 0xB5 % 256)) := by
  constructor
  · intro hb
    have hn : ¬ ((env.reg s.hw.time FEC_PAGE 0xD7 % 256) &&& 0x08) >>> 3 = 1 := by
      rw [and_eight_shift, hb]; simp
    obtain ⟨p1, p2⟩ := getPER_unsynced env s hch hn
    obtain ⟨b1, b2⟩ := getBER_unsynced cfg env s hch hn
    exact ⟨p1, b1, callTrace_of_append s _ _ p2, callTrace_of_append s _ _ b2⟩
  · intro hb
    have hy : ((env.reg s.hw.time FEC_PAGE 0xD7 % 256) &&& 0x08) >>> 3 = 1 :=
      (and_eight_shift _).2 hb
    unfold rtvTDMB_GetPER
    simp only [hch, Bool.false_eq_true, if_false]
    rw [if_neg]
    · rfl
    · exact fun hn => hn hy

theorem toS32_id (x : Int) (h1 : -2147483648 ≤ x) (h2 : x < 2147483648) : toS32 x = x := by
  unfold toS32
  rw [Int.emod_eq_of_lt (by omega) (by omega)]
  omega

theorem sigShift_small (fuel n : Nat) :
    sigShift fuel n = 0 ∨ 2 ^ sigShift fuel n * 2 ^ 52 ≤ n := by
  induction fuel generalizing n with
  | zero => left; rfl
  | succ fuel ih =>
    unfold sigShift
    by_cases h : n < 2 ^ 53
    · left; rw [if_pos h]
    · right
      rw [if_neg h, pow_succ]
      rcases ih (n / 2) with h0 | h0
      · rw [h0]; norm_num at h ⊢; omega
      · generalize 2 ^ sigShift fuel (n / 2) = Q at h0 ⊢
        norm_num at h0 ⊢
        omega

theorem roundBinary64_near (n : Nat) :
    2 ^ 53 * roundBinary64 n ≤ 2 ^ 53 * n + n ∧ 2 ^ 53 * n ≤ 2 ^ 53 * roundBinary64 n + n := by
  unfold roundBinary64
  simp only []
  have hs := sigShift_small n n
  generalize sigShift n n = s at hs ⊢
  have hP : 2 ^ s = 1 ∨ 2 ^ s * 2 ^ 52 ≤ n := by
    rcases hs with h | h
    · left; rw [h]; rfl
    · right; exact h
  have hpos : 0 < 2 ^ s := Nat.pow_pos (by norm_num)
  generalize 2 ^ s = P at hP hpos ⊢
  have hdm := Nat.div_add_mod n P
  have hr := Nat.mod_lt n hpos
  have e1 : (n / P + 1) * P = P * (n / P) + P := by ring
  have e2 : n / P * P = P * (n / P) := by ring
  rw [e1, e2]
  generalize P * (n / P) = X at hdm ⊢
  generalize n % P = r at hdm hr ⊢
  norm_num at hP ⊢
  split_ifs with hc <;> omega

theorem sigShift_le (fuel : Nat) :
    ∀ (j n : Nat), n < 2 ^ 53 * 2 ^ j → sigShift fuel n ≤ j := by
  induction fuel with
  | zero => intro j n _; exact Nat.zero_le _
  | succ fuel ih =>
    intro j n hn
    unfold sigShift
    by_cases h : n < 2 ^ 53
    · rw [if_pos h]; exact Nat.zero_le _
    · rw [if_neg h]
      cases j with
      | zero => rw [pow_zero, Nat.mul_one] at hn; exact absurd hn h
      | succ j =>
        have h2 : n < 2 * (2 ^ 53 * 2 ^ j) :=
          calc n < 2 ^ 53 * 2 ^ (j + 1) := hn
            _ = 2 * (2 ^ 53 * 2 ^ j) := by ring
        have := ih j (n / 2) (Nat.div_lt_of_lt_mul h2)
        omega

/-- Rounding does not cross a value that is representable at the exponent of `n`: a multiple
of `2 ^ j` below `n` stays below the rounded `n`. -/
theorem roundBinary64_ge (n j w : Nat) (hn : n < 2 ^ 53 * 2 ^ j) (hv : w * 2 ^ j ≤ n) :
    w * 2 ^ j ≤ roundBinary64 n := by
  unfold roundBinary64
  simp only []
  have hs := sigShift_le n j n hn
  generalize sigShift n n = s at hs ⊢
  obtain ⟨d, rfl⟩ : ∃ d, j = s + d := ⟨j - s, by omega⟩
  have hq : w * 2 ^ d ≤ n / 2 ^ s := by
    rw [Nat.le_div_iff_mul_le (Nat.pow_pos (by norm_num))]
    rw [pow_add] at hv
    calc w * 2 ^ d * 2 ^ s = w * (2 ^ s * 2 ^ d) := by ring
      _ ≤ n := hv
  have hm := Nat.mul_le_mul_right (2 ^ s) hq
  have e : w * 2 ^ (s + d) = w * 2 ^ d * 2 ^ s := by rw [pow_add]; ring
  rw [e]
  split_ifs
  · exact le_trans hm (Nat.mul_le_mul_right _ (Nat.le_succ _))
  · exact hm

/-- With fuel `n` the shift found by `sigShift` leaves a significand of at most 53 bits. -/
theorem sigShift_fits (fuel : Nat) :
    ∀ n : Nat, n < 2 ^ 53 * 2 ^ fuel → n / 2 ^ sigShift fuel n < 2 ^ 53 := by
  induction fuel with
  | zero =>
    intro n hn
    rw [pow_zero, Nat.mul_one] at hn
    unfold sigShift
    rw [pow_zero, Nat.div_one]
    exact hn
  | succ fuel ih =>
    intro n hn
    unfold sigShift
    by_cases h : n < 2 ^ 53
    · rw [if_pos h, pow_zero, Nat.div_one]; exact h
    · rw [if_neg h]
      have h2 : n < 2 * (2 ^ 53 * 2 ^ fuel) :=
        calc n < 2 ^ 53 * 2 ^ (fuel + 1) := hn
          _ = 2 * (2 ^ 53 * 2 ^ fuel) := by ring
      have := ih (n / 2) (Nat.div_lt_of_lt_mul h2)
      rw [Nat.pow_succ, Nat.mul_comm, ← Nat.div_div_eq_div_mul]
      exact this

/-- The rounded value has a significand of at most 53 bits: it is `q * 2 ^ s` with
`q ≤ 2 ^ 53`. -/
theorem roundBinary64_representable (n : Nat) :
    ∃ q s, roundBinary64 n = q * 2 ^ s ∧ q ≤ 2 ^ 53 := by
  have hf := sigShift_fits n n
    (lt_of_lt_of_le (Nat.lt_two_pow n) (Nat.le_mul_of_pos_left _ (Nat.pow_pos (by norm_num))))
  unfold roundBinary64
  simp only []
  split_ifs
  · exact ⟨_, _, rfl, hf⟩
  · exact ⟨_, _, rfl, le_of_lt hf⟩

/-- The C constants of `rtvTDMB_GetRSSI` against the exact decimal products: `(S32)(2.7*D)`
and `(S32)(0.4*D)` are the truncated exact products; `(S32)(2.8*D)` is the truncated exact
product or one less, and it is the truncated exact product when `D` is not a multiple of 5 and
for `D = 10, 100, 1000`. -/
theorem weights_pinned (D : Nat) (hD : D ≤ 10000000) :
    weight2_7 D = truncTenths 27 D ∧ weight0_4 D = truncTenths 4 D ∧
    weight2_8 D ≤ truncTenths 28 D ∧ truncTenths 28 D ≤ weight2_8 D + 1 ∧
    (D % 5 ≠ 0 ∨ D = 10 ∨ D = 100 ∨ D = 1000 → weight2_8 D = truncTenths 28 D) := by
  have h7 : weight2_7 D = truncTenths 27 D := by
    unfold weight2_7 f64MulTrunc truncTenths
    have h := roundBinary64_near (3039929748475085 * D)
    have hg := roundBinary64_ge (3039929748475085 * D) 50 (27 * D / 10)
      (by norm_num; omega) (by norm_num; omega)
    generalize roundBinary64 (3039929748475085 * D) = R at h hg ⊢
    norm_num at h hg ⊢
    omega
  have h4 : weight0_4 D = truncTenths 4 D := by
    unfold weight0_4 f64MulTrunc truncTenths
    have h := roundBinary64_near (3602879701896397 * D)
    have hg := roundBinary64_ge (3602879701896397 * D) 53 (4 * D / 10)
      (by norm_num; omega) (by norm_num; omega)
    generalize roundBinary64 (3602879701896397 * D) = R at h hg ⊢
    norm_num at h hg ⊢
    omega
  have h8 : weight2_8 D ≤ truncTenths 28 D ∧ truncTenths 28 D ≤ weight2_8 D + 1 ∧
      (D % 5 ≠ 0 → weight2_8 D = truncTenths 28 D) := by
    unfold weight2_8 f64MulTrunc truncTenths
    have h := roundBinary64_near (3152519739159347 * D)
    generalize roundBinary64 (3152519739159347 * D) = R at h ⊢
    norm_num at h ⊢
    refine ⟨by omega, by omega, ?_⟩
    intro h5
    have h5' : D % 5 = 1 ∨ D % 5 = 2 ∨ D % 5 = 3 ∨ D % 5 = 4 := by omega
    rcases h5' with e | e | e | e <;> omega
  refine ⟨h7, h4, h8.1, h8.2.1, ?_⟩
  rintro (h | rfl | rfl | rfl)
  · exact h8.2.2 h
  · decide
  · decide
  · decide

theorem rssiGain_le (w D a b c : Nat) (hw : w ≤ truncTenths 28 D) :
    rssiGain w D a b c ≤ 170 * D := by
  unfold rssiGain
  unfold truncTenths at hw ⊢
  have h1 : (a &&& 0x30) >>> 4 ≤ 3 := by
    have := @Nat.and_le_right a 0x30
    rw [Nat.shiftRight_eq_div_pow]; omega
  have h2 : a &&& 0x0F ≤ 15 := Nat.and_le_right
  have h3 : (b &&& 0x1E) >>> 1 ≤ 15 := by
    have := @Nat.and_le_right b 0x1E
    rw [Nat.shiftRight_eq_div_pow]; omega
  have h4 : c &&& 0x7F ≤ 127 := Nat.and_le_right
  have e1 : 28 * D / 10 * 10 ≤ 28 * D := Nat.div_mul_le_self _ _
  have e2 : 27 * D / 10 * 10 ≤ 27 * D := Nat.div_mul_le_self _ _
  have e3 : 4 * D / 10 * 10 ≤ 4 * D := Nat.div_mul_le_self _ _
  have m1 := Nat.mul_le_mul_right (12 * D) h1
  have m2 := Nat.mul_le_mul h2 hw
  have m3 := Nat.mul_le_mul_right (27 * D / 10) h3
  have m4 := Nat.mul_le_mul_right (4 * D / 10) h4
  omega

theorem getRSSI_eq (cfg : BuildConfig) (env : Env) (s : ChipState)
    (hch : s.g_afRtvChannelChange = false) (hD : cfg.RTV_TDMB_RSSI_DIVIDER ≤ 10000000) :
    (rtvTDMB_GetRSSI cfg env s).1
      = rssiBase (weight2_8 cfg.RTV_TDMB_RSSI_DIVIDER) cfg.RTV_TDMB_RSSI_DIVIDER
          (env.reg s.hw.time cfg.RF_PAGE 0x00 % 256)
          (env.reg (s.hw.time + 1) cfg.RF_PAGE 0x02 % 256)
          (env.reg (s.hw.time + 2) cfg.RF_PAGE 0x04 % 256)
        - (if (env.reg s.hw.time cfg.RF_PAGE 0x00 % 256) &&& 0xC0 = 0x40 then 5 else 0) := by
  obtain ⟨h7, h4, h8, _, _⟩ := weights_pinned cfg.RTV_TDMB_RSSI_DIVIDER hD
  have hg := rssiGain_le (weight2_8 cfg.RTV_TDMB_RSSI_DIVIDER) cfg.RTV_TDMB_RSSI_DIVIDER
          (env.reg s.hw.time cfg.RF_PAGE 0x00 % 256)
          (env.reg (s.hw.time + 1) cfg.RF_PAGE 0x02 % 256)
          (env.reg (s.hw.time + 2) cfg.RF_PAGE 0x04 % 256) h8
  have hb : toS32 (rssiBase (weight2_8 cfg.RTV_TDMB_RSSI_DIVIDER) cfg.RTV_TDMB_RSSI_DIVIDER
      (env.reg s.hw.time cfg.RF_PAGE 0x00 % 256)
      (env.reg (s.hw.time + 1) cfg.RF_PAGE 0x02 % 256)
      (env.reg (s.hw.time + 2) cfg.RF_PAGE 0x04 % 256))
      = rssiBase (weight2_8 cfg.RTV_TDMB_RSSI_DIVIDER) cfg.RTV_TDMB_RSSI_DIVIDER
      (env.reg s.hw.time cfg.RF_PAGE 0x00 % 256)
      (env.reg (s.hw.time + 1) cfg.RF_PAGE 0x02 % 256)
      (env.reg (s.hw.time + 2) cfg.RF_PAGE 0x04 % 256) := by
    apply toS32_id <;> unfold rssiBase <;> push_cast <;> omega
  have hb5 : toS32 (rssiBase (weight2_8 cfg.RTV_TDMB_RSSI_DIVIDER) cfg.RTV_TDMB_RSSI_DIVIDER
      (env.reg s.hw.time cfg.RF_PAGE 0x00 % 256)
      (env.reg (s.hw.time + 1) cfg.RF_PAGE 0x02 % 256)
      (env.reg (s.hw.time + 2) cfg.RF_PAGE 0x04 % 256) - 5)
      = rssiBase (weight2_8 cfg.RTV_TDMB_RSSI_DIVIDER) cfg.RTV_TDMB_RSSI_DIVIDER
      (env.reg s.hw.time cfg.RF_PAGE 0x00 % 256)
      (env.reg (s.hw.time + 1) cfg.RF_PAGE 0x02 % 256)
      (env.reg (s.hw.time + 2) cfg.RF_PAGE 0x04 % 256) - 5 := by
    apply toS32_id <;> unfold rssiBase <;> push_cast <;> omega
  unfold rtvTDMB_GetRSSI
  simp only [hch, Bool.false_eq_true, if_false, h7, h4]
  show (if (env.reg s.hw.time cfg.RF_PAGE 0x00 % 256) &&& 0xC0 = 0x40 then
        ((toS32 (toS32 (rssiBase (weight2_8 cfg.RTV_TDMB_RSSI_DIVIDER)
          cfg.RTV_TDMB_RSSI_DIVIDER
          (env.reg s.hw.time cfg.RF_PAGE 0x00 % 256)
          (env.reg (s.hw.time + 1) cfg.RF_PAGE 0x02 % 256)
          (env.reg (s.hw.time + 2) cfg.RF_PAGE 0x04 % 256)) - 5), _) : Int × ChipState)
       else (toS32 (rssiBase (weight2_8 cfg.RTV_TDMB_RSSI_DIVIDER) cfg.RTV_TDMB_RSSI_DIVIDER
          (env.reg s.hw.time cfg.RF_PAGE 0x00 % 256)
          (env.reg (s.hw.time + 1) cfg.RF_PAGE 0x02 % 256)
          (env.reg (s.hw.time + 2) cfg.RF_PAGE 0x04 % 256)), _)).1 = _
  rw [hb, hb5]
  split_ifs
  · rfl
  · simp

theorem rssiGain_congr (w D a1 a2 b c : Nat) (h : a1 &&& 0x3F = a2 &&& 0x3F) :
    rssiGain w D a1 b c = rssiGain w D a2 b c := by
  have e1 : ∀ a : Nat, a &&& 0x30 = (a &&& 0x3F) &&& 0x30 := by
    intro a; rw [Nat.and_assoc]; rfl
  have e2 : ∀ a : Nat, a &&& 0x0F = (a &&& 0x3F) &&& 0x0F := by
    intro a; rw [Nat.and_assoc]; rfl
  unfold rssiGain
  rw [e1 a1, e2 a1, e1 a2, e2 a2, h]

/-- C16 fails as stated: with divider 10, the channel-changing flag clear and all RF-page
registers reading 0, `GetRSSI` returns `100`, which is not negative. -/
theorem rssi_positive_for_zero_registers :
    0 < cfgM5.RTV_TDMB_RSSI_DIVIDER ∧ bootState.g_afRtvChannelChange = false ∧
    (rtvTDMB_GetRSSI cfgM5 quietEnv bootState).1 = 100 ∧
    ¬ (rtvTDMB_GetRSSI cfgM5 quietEnv bootState).1 < 0 := by
  decide

/-- C16 (amended): with the channel-changing flag clear and a positive divider `D` (at most
`10000000`, so that the `S32` arithmetic does not wrap), `GetRSSI` returns at most `10 * D`; it
returns a negative value exactly when the weighted sum
`((a & 0x30) >> 4)*12D + (a & 0x0F)*w + ((b & 0x1E) >> 1)*trunc(2.7D) + (c & 0x7F)*trunc(0.4D)`,
plus 5 when `(a & 0xC0) == 0x40`, exceeds `10 * D`; and it returns a positive value when the
weighted sum is 0.  Here `w` is the C constant `(S32)(2.8*D)`, a `double` product truncated to
an integer: it is `trunc(2.8D)` or one less, and it is `trunc(2.8D)` when `D` is not a multiple
of 5 and for `D = 10, 100, 1000`. -/
theorem rssi_negative_iff_gain_exceeds (cfg : BuildConfig) (env : Env) (s : ChipState)
    (hch : s.g_afRtvChannelChange = false) (hpos : 0 < cfg.RTV_TDMB_RSSI_DIVIDER)
    (hD : cfg.RTV_TDMB_RSSI_DIVIDER ≤ 10000000) :
    (rtvTDMB_GetRSSI cfg env s).1 ≤ 10 * cfg.RTV_TDMB_RSSI_DIVIDER ∧
    ((rtvTDMB_GetRSSI cfg env s).1 < 0 ↔
      10 * cfg.RTV_TDMB_RSSI_DIVIDER
        < rssiGain (weight2_8 cfg.RTV_TDMB_RSSI_DIVIDER) cfg.RTV_TDMB_RSSI_DIVIDER
            (env.reg s.hw.time cfg.RF_PAGE 0x00 % 256)
            (env.reg (s.hw.time + 1) cfg.RF_PAGE 0x02 % 256)
            (env.reg (s.hw.time + 2) cfg.RF_PAGE 0x04 % 256)
          + (if (env.reg s.hw.time cfg.RF_PAGE 0x00 % 256) &&& 0xC0 = 0x40 then 5 else 0)) ∧
    (rssiGain (weight2_8 cfg.RTV_TDMB_RSSI_DIVIDER) cfg.RTV_TDMB_RSSI_DIVIDER
        (env.reg s.hw.time cfg.RF_PAGE 0x00 % 256)
        (env.reg (s.hw.time + 1) cfg.RF_PAGE 0x02 % 256)
        (env.reg (s.hw.time + 2) cfg.RF_PAGE 0x04 % 256) = 0 →
      0 < (rtvTDMB_GetRSSI cfg env s).1) ∧
    weight2_8 cfg.RTV_TDMB_RSSI_DIVIDER ≤ truncTenths 28 cfg.RTV_TDMB_RSSI_DIVIDER ∧
    truncTenths 28 cfg.RTV_TDMB_RSSI_DIVIDER ≤ weight2_8 cfg.RTV_TDMB_RSSI_DIVIDER + 1 ∧
    (cfg.RTV_TDMB_RSSI_DIVIDER % 5 ≠ 0 ∨ cfg.RTV_TDMB_RSSI_DIVIDER = 10 ∨
        cfg.RTV_TDMB_RSSI_DIVIDER = 100 ∨ cfg.RTV_TDMB_RSSI_DIVIDER = 1000 →
      weight2_8 cfg.RTV_TDMB_RSSI_DIVIDER = truncTenths 28 cfg.RTV_TDMB_RSSI_DIVIDER) := by
  obtain ⟨_, _, p1, p2, p3⟩ := weights_pinned cfg.RTV_TDMB_RSSI_DIVIDER hD
  rw [getRSSI_eq cfg env s hch hD]
  unfold rssiBase
  refine ⟨?_, ?_, ?_, p1, p2, p3⟩
  · split_ifs <;> push_cast <;> omega
  · split_ifs <;> push_cast <;> omega
  · intro h0
    rw [h0]
    split_ifs <;> push_cast <;> omega

/-- C17 fails as stated: with divider 45, the channel-changing flag clear, register `0x00`
reading `a = 0x0F` (so `(a & 0xC0) != 0x40`) and registers `0x02`, `0x04` reading 0, `GetRSSI`
returns `-1425`, while the claim's `base` with `trunc(2.8 * 45) = 126` is `-1440`: the C
constant `(S32)(2.8*45)` is the truncated `double` product `125.99999999999999`, that is
`125`. -/
theorem rssi_weight_is_truncated_double_product :
    bootState.g_afRtvChannelChange = false ∧ cfgD45.RTV_TDMB_RSSI_DIVIDER = 45 ∧
    gainStepEnv.reg bootState.hw.time cfgD45.RF_PAGE 0x00 % 256 = 0x0F ∧
    gainStepEnv.reg (bootState.hw.time + 1) cfgD45.RF_PAGE 0x02 % 256 = 0 ∧
    gainStepEnv.reg (bootState.hw.time + 2) cfgD45.RF_PAGE 0x04 % 256 = 0 ∧
    0x0F &&& 0xC0 ≠ 0x40 ∧
    truncTenths 28 45 = 126 ∧ weight2_8 45 = 125 ∧
    rssiBase (truncTenths 28 45) 45 0x0F 0 0 = -1440 ∧
    (rtvTDMB_GetRSSI cfgD45 gainStepEnv bootState).1 = -1425 ∧
    (rtvTDMB_GetRSSI cfgD45 gainStepEnv bootState).1
      ≠ rssiBase (truncTenths 28 45) 45 0x0F 0 0 := by
  decide

/-- C17 (amended): with the channel-changing flag clear and a divider `D` of at most
`10000000` (so that the `S32` arithmetic does not wrap), for the readings `a`, `b`, `c` of
RF-page registers `0x00`, `0x02`, `0x04`, `GetRSSI` equals `base - 5` when
`(a & 0xC0) == 0x40` and `base` otherwise, where `base = -(((a & 0x30) >> 4)*12D + (a & 0x0F)*w
+ ((b & 0x1E) >> 1)*trunc(2.7D) + (c & 0x7F)*trunc(0.4D) - 10D)` and `w` is the C constant
`(S32)(2.8*D)`, a `double` product truncated to an integer: `w` is `trunc(2.8D)` or one less,
and it is `trunc(2.8D)` when `D` is not a multiple of 5 and for `D = 10, 100, 1000`; for
those dividers `GetRSSI` is the claim's formula.  Two register contents that differ only in bits 7:6 of
register `0x00` give results that differ by 0 or by 5. -/
theorem rssi_is_base_with_correction (cfg : BuildConfig) (env : Env) (s : ChipState)
    (hch : s.g_afRtvChannelChange = false) (hD : cfg.RTV_TDMB_RSSI_DIVIDER ≤ 10000000) :
    (rtvTDMB_GetRSSI cfg env s).1
      = rssiBase (weight2_8 cfg.RTV_TDMB_RSSI_DIVIDER) cfg.RTV_TDMB_RSSI_DIVIDER
          (env.reg s.hw.time cfg.RF_PAGE 0x00 % 256)
          (env.reg (s.hw.time + 1) cfg.RF_PAGE 0x02 % 256)
          (env.reg (s.hw.time + 2) cfg.RF_PAGE 0x04 % 256)
        - (if (env.reg s.hw.time cfg.RF_PAGE 0x00 % 256) &&& 0xC0 = 0x40 then 5 else 0) ∧
    weight2_8 cfg.RTV_TDMB_RSSI_DIVIDER ≤ truncTenths 28 cfg.RTV_TDMB_RSSI_DIVIDER ∧
    truncTenths 28 cfg.RTV_TDMB_RSSI_DIVIDER ≤ weight2_8 cfg.RTV_TDMB_RSSI_DIVIDER + 1 ∧
    (cfg.RTV_TDMB_RSSI_DIVIDER % 5 ≠ 0 ∨ cfg.RTV_TDMB_RSSI_DIVIDER = 10 ∨
        cfg.RTV_TDMB_RSSI_DIVIDER = 100 ∨ cfg.RTV_TDMB_RSSI_DIVIDER = 1000 →
      (rtvTDMB_GetRSSI cfg env s).1
        = rssiBase (truncTenths 28 cfg.RTV_TDMB_RSSI_DIVIDER) cfg.RTV_TDMB_RSSI_DIVIDER
            (env.reg s.hw.time cfg.RF_PAGE 0x00 % 256)
            (env.reg (s.hw.time + 1) cfg.RF_PAGE 0x02 % 256)
            (env.reg (s.hw.time + 2) cfg.RF_PAGE 0x04 % 256)
          - (if (env.reg s.hw.time cfg.RF_PAGE 0x00 % 256) &&& 0xC0 = 0x40 then 5 else 0)) ∧
    ∀ env2 : Env,
      (env2.reg s.hw.time cfg.RF_PAGE 0x00 % 256) &&& 0x3F
        = (env.reg s.hw.time cfg.RF_PAGE 0x00 % 256) &&& 0x3F →
      env2.reg (s.hw.time + 1) cfg.RF_PAGE 0x02 % 256
        = env.reg (s.hw.time + 1) cfg.RF_PAGE 0x02 % 256 →
      env2.reg (s.hw.time + 2) cfg.RF_PAGE 0x04 % 256
        = env.reg (s.hw.time + 2) cfg.RF_PAGE 0x04 % 256 →
      (rtvTDMB_GetRSSI cfg env2 s).1 - (rtvTDMB_GetRSSI cfg env s).1 = 0 ∨
      (rtvTDMB_GetRSSI cfg env2 s).1 - (rtvTDMB_GetRSSI cfg env s).1 = 5 ∨
      (rtvTDMB_GetRSSI cfg env2 s).1 - (rtvTDMB_GetRSSI cfg env s).1 = -5 := by
  obtain ⟨_, _, p1, p2, p3⟩ := weights_pinned cfg.RTV_TDMB_RSSI_DIVIDER hD
  refine ⟨getRSSI_eq cfg env s hch hD, p1, p2, ?_, ?_⟩
  · intro h
    rw [getRSSI_eq cfg env s hch hD, p3 h]
  · intro env2 ha hb hc
    rw [getRSSI_eq cfg env s hch hD, getRSSI_eq cfg env2 s hch hD, hb, hc]
    unfold rssiBase
    rw [rssiGain_congr _ _ _ _ _ _ ha]
    split_ifs <;> omega

/-- C16 (amended) at divider 10 over registers that read `0xFF`. -/
theorem rssi_negative_iff_gain_exceeds_witness :
    bootState.g_afRtvChannelChange = false ∧ 0 < cfgM5.RTV_TDMB_RSSI_DIVIDER ∧
    cfgM5.RTV_TDMB_RSSI_DIVIDER ≤ 10000000 ∧
    (rtvTDMB_GetRSSI cfgM5 (regEnv (fun _ _ => 0xFF)) bootState).1
      ≤ 10 * cfgM5.RTV_TDMB_RSSI_DIVIDER :=
  ⟨by decide, by decide, by decide,
    (rssi_negative_iff_gain_exceeds cfgM5 (regEnv (fun _ _ => 0xFF)) bootState (by decide)
      (by decide) (by decide)).1⟩

/-- C17 (amended) at divider 10 over registers that read `0x7F`: the result is the claim's
`base - 5`. -/
theorem rssi_is_base_with_correction_witness :
    bootState.g_afRtvChannelChange = false ∧ cfgM5.RTV_TDMB_RSSI_DIVIDER ≤ 10000000 ∧
    (rtvTDMB_GetRSSI cfgM5 (regEnv (fun _ _ => 0x7F)) bootState).1
      = rssiBase (truncTenths 28 10) 10 0x7F 0x7F 0x7F - 5 :=
  ⟨by decide, by decide,
    (rssi_is_base_with_correction cfgM5 (regEnv (fun _ _ => 0x7F)) bootState (by decide)
      (by decide)).2.2.2.1 (Or.inr (Or.inl rfl))⟩

theorem pollTrace_reverse_succ (statl ms n : Nat) :
    (pollTrace statl ms (n + 1)).reverse
      = (pollTrace statl ms n).reverse ++ [Event.RTV_DELAY_MS ms, Event.RTV_REG_GET statl] := by
  show (Event.RTV_REG_GET statl :: Event.RTV_DELAY_MS ms :: pollTrace statl ms n).reverse = _
  simp

/-- The polling loop when the FIC bit stays clear for the `n` rounds that are left. -/
theorem ficPollLoop_idle (cfg : BuildConfig) (env : Env) (m : Nat) (buf : Nat → Nat) :
    ∀ (n fuel cnt : Nat) (h : HwIf), cnt + n = 10 → n < fuel →
      (∀ j, j < n → (env.reg (h.time + j) h.page cfg.INT_E_STATL % 256) &&& cfg.FIC_E_INT = 0) →
      ficPollLoop cfg env m buf fuel cnt h
        = (0, buf, { page := h.page, time := h.time + n,
                     trace := Event.RTV_GUARD_FREE ::
                      ((pollTrace cfg.INT_E_STATL (frame_dur.getD m 0) n).reverse ++ h.trace) })
  | 0, fuel, cnt, h, hc, hf, _ => by
    cases fuel with
    | zero => omega
    | succ f =>
      unfold ficPollLoop
      rw [if_neg (by omega)]
      rfl
  | n + 1, fuel, cnt, h, hc, hf, hz => by
    cases fuel with
    | zero => omega
    | succ f =>
      unfold ficPollLoop
      rw [if_pos (by omega)]
      have h0 := hz 0 (by omega)
      simp only [Nat.add_zero] at h0
      have hr : (RTV_REG_GET env cfg.INT_E_STATL h).1 &&& cfg.FIC_E_INT = 0 := h0
      simp only [hr, ne_eq, not_true_eq_false, if_false]
      rw [ficPollLoop_idle cfg env m buf n f (cnt + 1) _ (by omega) (by omega)]
      · rw [pollTrace_reverse_succ]
        simp only [RTV_DELAY_MS, RTV_REG_GET, HwIf.emit, List.cons_append, List.append_assoc,
          List.singleton_append, Prod.mk.injEq, HwIf.mk.injEq, true_and]
        exact ⟨by omega, by simp⟩
      · intro j hj
        have := hz (j + 1) (by omega)
        simpa [RTV_DELAY_MS, RTV_REG_GET, HwIf.emit, Nat.add_assoc, Nat.add_comm 1 j] using this

/-- The polling loop when the FIC bit is set on one of the `n` rounds that are left. -/
theorem ficPollLoop_hit (cfg : BuildConfig) (env : Env) (m : Nat) (buf : Nat → Nat) :
    ∀ (n fuel cnt : Nat) (h : HwIf), cnt + n = 10 → n < fuel →
      (∃ j, j < n ∧ (env.reg (h.time + j) h.page cfg.INT_E_STATL % 256) &&& cfg.FIC_E_INT ≠ 0) →
      (ficPollLoop cfg env m buf fuel cnt h).1 = 384
  | 0, _, _, _, _, _, hz => by
    obtain ⟨j, hj, _⟩ := hz
    omega
  | n + 1, fuel, cnt, h, hc, hf, hz => by
    cases fuel with
    | zero => omega
    | succ f =>
      unfold ficPollLoop
      rw [if_pos (by omega)]
      by_cases hr : (RTV_REG_GET env cfg.INT_E_STATL h).1 &&& cfg.FIC_E_INT ≠ 0
      · rw [if_pos hr]
        rfl
      · rw [if_neg hr]
        apply ficPollLoop_hit cfg env m buf n f (cnt + 1) _ (by omega) (by omega)
        obtain ⟨j, hj, hb⟩ := hz
        cases j with
        | zero => exact absurd hb hr
        | succ i =>
          refine ⟨i, by omega, ?_⟩
          simpa [RTV_DELAY_MS, RTV_REG_GET, HwIf.emit, Nat.add_assoc, Nat.add_comm 1 i] using hb

theorem tr_mode_le (x : Nat) : (x % 256 &&& 0x30) >>> 4 ≤ 3 := by
  have := @Nat.and_le_right (x % 256) 0x30
  rw [Nat.shiftRight_eq_div_pow]; omega

/-- C18: in polling mode with FIC opened, the transmission-mode field is at most 3 and
`frame_dur` is `48, 12, 12, 24`; when the FIC bit of the interrupt status is clear on each of
the 10 status reads, `ReadFIC` returns 0, leaves the buffer as it was, and its calls are:
lock, page select `0x06`, read `0x27`, page select `DD_PAGE`, then 10 times a status read
followed by a delay of `frame_dur[mode]`, then unlock (no burst read); when the bit is set on
one of the first 10 reads, it returns 384. -/
theorem readFIC_polling_timeout (cfg : BuildConfig) (env : Env) (pbBuf : Nat → Nat)
    (s : ChipState) (hpoll : cfg.RTV_FIC_POLLING_MODE = true)
    (hfic : s.g_afRtvTdmbConfiguredFIC = true) :
    ((env.reg s.hw.time 0x06 0x27 % 256 &&& 0x30) >>> 4 ≤ 3 ∧ frame_dur = [48, 12, 12, 24]) ∧
    ((∀ j, j < 10 →
        (env.reg (s.hw.time + 1 + j) cfg.DD_PAGE cfg.INT_E_STATL % 256) &&& cfg.FIC_E_INT = 0) →
      (rtvTDMB_ReadFIC cfg env pbBuf s).1 = 0 ∧
      (rtvTDMB_ReadFIC cfg env pbBuf s).2.1 = pbBuf ∧
      callTrace s (rtvTDMB_ReadFIC cfg env pbBuf s).2.2
        = [Event.RTV_GUARD_LOCK, Event.RTV_REG_MAP_SEL 0x06, Event.RTV_REG_GET 0x27,
            Event.RTV_REG_MAP_SEL cfg.DD_PAGE]
          ++ pollTrace cfg.INT_E_STATL
              (frame_dur.getD ((env.reg s.hw.time 0x06 0x27 % 256 &&& 0x30) >>> 4) 0) 10
          ++ [Event.RTV_GUARD_FREE]) ∧
    ((∃ j, j < 10 ∧
        (env.reg (s.hw.time + 1 + j) cfg.DD_PAGE cfg.INT_E_STATL % 256) &&& cfg.FIC_E_INT ≠ 0) →
      (rtvTDMB_ReadFIC cfg env pbBuf s).1 = 384) := by
  refine ⟨⟨tr_mode_le _, by decide⟩, ?_, ?_⟩
  · intro hz
    unfold rtvTDMB_ReadFIC
    simp only [hpoll, hfic, if_true, Bool.true_eq_false, if_false]
    rw [ficPollLoop_idle cfg env _ pbBuf 10 11 0 _ rfl (by omega) hz]
    refine ⟨rfl, rfl, ?_⟩
    rw [callTrace_of_append s _ (Event.RTV_GUARD_FREE ::
      ((pollTrace cfg.INT_E_STATL
        (frame_dur.getD ((env.reg s.hw.time 0x06 0x27 % 256 &&& 0x30) >>> 4) 0) 10).reverse
        ++ [Event.RTV_REG_MAP_SEL cfg.DD_PAGE, Event.RTV_REG_GET 0x27,
          Event.RTV_REG_MAP_SEL 0x06, Event.RTV_GUARD_LOCK]))]
    · simp
    · simp [RTV_REG_MAP_SEL, RTV_REG_GET, HwIf.emit]
  · intro hz
    unfold rtvTDMB_ReadFIC
    simp only [hpoll, hfic, if_true, Bool.true_eq_false, if_false]
    exact ficPollLoop_hit cfg env _ pbBuf 10 11 0 _ rfl (by omega) hz

/-- C18 over registers that read 0 (timeout) and over registers that read `0xFF` from time
5 on (success). -/
theorem readFIC_polling_timeout_witness :
    cfgM5.RTV_FIC_POLLING_MODE = true ∧ ficOpened.g_afRtvTdmbConfiguredFIC = true ∧
    (rtvTDMB_ReadFIC cfgM5 quietEnv zeroBuf ficOpened).1 = 0 ∧
    (rtvTDMB_ReadFIC cfgM5 (lateEnv 5) zeroBuf ficOpened).1 = 384 :=
  ⟨by decide, by decide,
    ((readFIC_polling_timeout cfgM5 quietEnv zeroBuf ficOpened (by decide) (by decide)).2.1
      (fun _ _ => by simp [quietEnv])).1,
    (readFIC_polling_timeout cfgM5 (lateEnv 5) zeroBuf ficOpened (by decide) (by decide)).2.2
      ⟨4, by decide, by decide⟩⟩

theorem burstBytes_append (es fs : List Event) :
    burstBytes (es ++ fs) = burstBytes es + burstBytes fs := by
  induction es with
  | nil => simp [burstBytes]
  | cons e es ih =>
    cases e <;> simp [burstBytes, ih]
    omega

theorem burstBytes_reverse (es : List Event) : burstBytes es.reverse = burstBytes es := by
  induction es with
  | nil => rfl
  | cons e es ih =>
    rw [List.reverse_cons, burstBytes_append, ih]
    cases e <;> simp [burstBytes]
    omega

/-- The polling loop returns 384 only through the read-out block. -/
theorem ficPollLoop_of_384 (cfg : BuildConfig) (env : Env) (m : Nat) (buf : Nat → Nat) :
    ∀ (fuel cnt : Nat) (h : HwIf), (ficPollLoop cfg env m buf fuel cnt h).1 = 384 →
      ∃ (es : List Event) (h1 : HwIf), h1.trace = es ++ h.trace ∧ burstBytes es = 0 ∧
        ficPollLoop cfg env m buf fuel cnt h = ficReadOut cfg env buf h1
  | 0, _, _, hr => by
    unfold ficPollLoop at hr
    simp at hr
  | f + 1, cnt, h, hr => by
    unfold ficPollLoop at hr ⊢
    by_cases hc : cnt + 1 ≤ 10
    · rw [if_pos hc] at hr ⊢
      by_cases hb : (RTV_REG_GET env cfg.INT_E_STATL h).1 &&& cfg.FIC_E_INT ≠ 0
      · rw [if_pos hb]
        exact ⟨[Event.RTV_REG_GET cfg.INT_E_STATL], _, rfl, rfl, rfl⟩
      · rw [if_neg hb] at hr ⊢
        obtain ⟨es, h1, e1, e2, e3⟩ := ficPollLoop_of_384 cfg env m buf f (cnt + 1) _ hr
        refine ⟨es ++ [Event.RTV_DELAY_MS (frame_dur.getD m 0),
          Event.RTV_REG_GET cfg.INT_E_STATL], h1, ?_, ?_, e3⟩
        · rw [e1]; simp [RTV_DELAY_MS, RTV_REG_GET, HwIf.emit]
        · rw [burstBytes_append, e2]; rfl
    · rw [if_neg hc] at hr
      simp at hr

/-- The calls of the read-out block, newest first. -/
theorem ficReadOut_trace (cfg : BuildConfig) (env : Env) (buf : Nat → Nat) (h : HwIf) :
    ∃ bs : List Event,
      (ficReadOut cfg env buf h).2.2.trace
        = Event.RTV_GUARD_FREE :: Event.RTV_REG_SET cfg.INT_E_UCLRL 0x01
            :: Event.RTV_REG_MAP_SEL cfg.DD_PAGE
            :: (bs ++ Event.RTV_REG_MAP_SEL cfg.FIC_PAGE :: h.trace) ∧
      (cfg.ifAnyTsif = true →
        bs = [Event.RTV_REG_BURST_GET 0x10 192 192, Event.RTV_REG_BURST_GET 0x10 0 192]) ∧
      (cfg.iface = Interface.RTV_IF_SPI → cfg.KERNEL = false →
        bs = [Event.RTV_REG_BURST_GET 0x10 0 384]) ∧
      (cfg.iface = Interface.RTV_IF_SPI → cfg.KERNEL = true →
        bs = [Event.RTV_REG_BURST_GET 0x10 0 385]) := by
  unfold ficReadOut ficBurst
  by_cases ht : cfg.ifAnyTsif = true
  · refine ⟨[Event.RTV_REG_BURST_GET 0x10 192 192, Event.RTV_REG_BURST_GET 0x10 0 192],
      ?_, fun _ => rfl, ?_, ?_⟩
    · simp only [ht, if_true]; rfl
    · intro hi; exfalso
      simp [BuildConfig.ifAnyTsif, BuildConfig.ifSerialTsif, hi] at ht
    · intro hi; exfalso
      simp [BuildConfig.ifAnyTsif, BuildConfig.ifSerialTsif, hi] at ht
  · by_cases hi : cfg.iface = Interface.RTV_IF_SPI
    · by_cases hk : cfg.KERNEL = true
      · refine ⟨[Event.RTV_REG_BURST_GET 0x10 0 385], ?_, fun h1 => absurd h1 ht,
          fun _ h2 => ?_, fun _ _ => rfl⟩
        · simp only [ht, hi, hk, if_true, if_false, Bool.false_eq_true]; rfl
        · rw [hk] at h2; cases h2
      · refine ⟨[Event.RTV_REG_BURST_GET 0x10 0 384], ?_, fun h1 => absurd h1 ht,
          fun _ _ => rfl, fun _ h2 => absurd h2 hk⟩
        simp only [ht, hi, hk, if_true, if_false, Bool.false_eq_true]; rfl
    · refine ⟨[], ?_, fun h1 => absurd h1 ht, fun h1 => absurd h1 hi, fun h1 => absurd h1 hi⟩
      simp only [ht, hi, if_false, Bool.false_eq_true]; rfl

/-- The calls of a `rtvTDMB_ReadFIC` that returns 384, in program order. -/
theorem readFIC_384_calls (cfg : BuildConfig) (env : Env) (pbBuf : Nat → Nat) (s : ChipState)
    (hret : (rtvTDMB_ReadFIC cfg env pbBuf s).1 = 384) :
    ∃ pre bs : List Event,
      callTrace s (rtvTDMB_ReadFIC cfg env pbBuf s).2.2
        = pre ++ Event.RTV_REG_MAP_SEL cfg.FIC_PAGE :: (bs ++
          [Event.RTV_REG_MAP_SEL cfg.DD_PAGE, Event.RTV_REG_SET cfg.INT_E_UCLRL 0x01,
            Event.RTV_GUARD_FREE]) ∧
      burstBytes pre = 0 ∧
      (cfg.ifAnyTsif = true →
        bs = [Event.RTV_REG_BURST_GET 0x10 0 192, Event.RTV_REG_BURST_GET 0x10 192 192]) ∧
      (cfg.iface = Interface.RTV_IF_SPI → cfg.KERNEL = false →
        bs = [Event.RTV_REG_BURST_GET 0x10 0 384]) ∧
      (cfg.iface = Interface.RTV_IF_SPI → cfg.KERNEL = true →
        bs = [Event.RTV_REG_BURST_GET 0x10 0 385]) := by
  unfold rtvTDMB_ReadFIC at hret ⊢
  by_cases hp : cfg.RTV_FIC_POLLING_MODE = true
  · rw [if_pos hp] at hret ⊢
    by_cases hf : s.g_afRtvTdmbConfiguredFIC = false
    · rw [if_pos hf] at hret
      simp at hret
    · rw [if_neg hf] at hret ⊢
      simp only [] at hret ⊢
      obtain ⟨es, h1, e1, e2, e3⟩ := ficPollLoop_of_384 cfg env _ pbBuf 11 0 _ hret
      obtain ⟨bs, t1, t2, t3, t4⟩ := ficReadOut_trace cfg env pbBuf h1
      rw [e3]
      refine ⟨[Event.RTV_GUARD_LOCK, Event.RTV_REG_MAP_SEL 0x06, Event.RTV_REG_GET 0x27,
        Event.RTV_REG_MAP_SEL cfg.DD_PAGE] ++ es.reverse, bs.reverse, ?_, ?_,
        fun h => by rw [t2 h]; rfl, fun h k => by rw [t3 h k]; rfl,
        fun h k => by rw [t4 h k]; rfl⟩
      · rw [callTrace_of_append s _ (Event.RTV_GUARD_FREE
          :: Event.RTV_REG_SET cfg.INT_E_UCLRL 0x01 :: Event.RTV_REG_MAP_SEL cfg.DD_PAGE
          :: (bs ++ Event.RTV_REG_MAP_SEL cfg.FIC_PAGE :: (es ++
            [Event.RTV_REG_MAP_SEL cfg.DD_PAGE, Event.RTV_REG_GET 0x27,
              Event.RTV_REG_MAP_SEL 0x06, Event.RTV_GUARD_LOCK])))]
        · simp
        · show (ficReadOut cfg env pbBuf h1).2.2.trace = _
          rw [t1, e1]
          simp [RTV_REG_MAP_SEL, RTV_REG_GET, HwIf.emit]
      · rw [burstBytes_append, burstBytes_reverse, e2]; rfl
  · rw [if_neg hp] at hret ⊢
    simp only [] at hret ⊢
    obtain ⟨bs, t1, t2, t3, t4⟩ := ficReadOut_trace cfg env pbBuf
      (s.hw.emit Event.RTV_GUARD_LOCK)
    refine ⟨[Event.RTV_GUARD_LOCK], bs.reverse, ?_, rfl,
      fun h => by rw [t2 h]; rfl, fun h k => by rw [t3 h k]; rfl,
      fun h k => by rw [t4 h k]; rfl⟩
    rw [callTrace_of_append s _ (Event.RTV_GUARD_FREE
      :: Event.RTV_REG_SET cfg.INT_E_UCLRL 0x01 :: Event.RTV_REG_MAP_SEL cfg.DD_PAGE
      :: (bs ++ [Event.RTV_REG_MAP_SEL cfg.FIC_PAGE, Event.RTV_GUARD_LOCK]))]
    · simp
    · show (ficReadOut cfg env pbBuf (s.hw.emit Event.RTV_GUARD_LOCK)).2.2.trace = _
      rw [t1]
      simp [HwIf.emit]

/-- C19 (amended): whenever `ReadFIC` returns 384, the burst reads of the call transfer
384 bytes on the TSIF interfaces and on SPI outside the kernel, and 385 bytes on SPI
inside the kernel (`384+1`); on every interface the call ends with page select `DD_PAGE`,
the write of `0x01` to `INT_E_UCLRL` (FIC interrupt status clear) and unlock. -/
theorem readFIC_burst_sizes (cfg : BuildConfig) (env : Env) (pbBuf : Nat → Nat)
    (s : ChipState) (hret : (rtvTDMB_ReadFIC cfg env pbBuf s).1 = 384) :
    (cfg.ifAnyTsif = true →
      burstBytes (callTrace s (rtvTDMB_ReadFIC cfg env pbBuf s).2.2) = 384) ∧
    (cfg.iface = Interface.RTV_IF_SPI → cfg.KERNEL = false →
      burstBytes (callTrace s (rtvTDMB_ReadFIC cfg env pbBuf s).2.2) = 384) ∧
    (cfg.iface = Interface.RTV_IF_SPI → cfg.KERNEL = true →
      burstBytes (callTrace s (rtvTDMB_ReadFIC cfg env pbBuf s).2.2) = 385) ∧
    ∃ pre : List Event, callTrace s (rtvTDMB_ReadFIC cfg env pbBuf s).2.2
      = pre ++ [Event.RTV_REG_MAP_SEL cfg.DD_PAGE, Event.RTV_REG_SET cfg.INT_E_UCLRL 0x01,
          Event.RTV_GUARD_FREE] := by
  obtain ⟨pre, bs, h1, h2, h3, h4, h5⟩ := readFIC_384_calls cfg env pbBuf s hret
  have hb : ∀ l : List Event, burstBytes (pre ++ Event.RTV_REG_MAP_SEL cfg.FIC_PAGE :: (l ++
      [Event.RTV_REG_MAP_SEL cfg.DD_PAGE, Event.RTV_REG_SET cfg.INT_E_UCLRL 0x01,
        Event.RTV_GUARD_FREE])) = burstBytes l := by
    intro l
    rw [burstBytes_append, h2]
    show 0 + burstBytes (l ++ _) = _
    rw [burstBytes_append]
    simp [burstBytes]
  rw [h1]
  refine ⟨fun h => ?_, fun h k => ?_, fun h k => ?_, ?_⟩
  · rw [hb, h3 h]; rfl
  · rw [hb, h4 h k]; rfl
  · rw [hb, h5 h k]; rfl
  · exact ⟨pre ++ Event.RTV_REG_MAP_SEL cfg.FIC_PAGE :: bs, by simp⟩

set_option maxRecDepth 100000 in
/-- C19 fails as stated: in the SPI build inside the kernel `ReadFIC` returns 384 after a
burst read of 385 bytes, and in the EBI2 build it returns 384 without any burst read. -/
theorem spi_kernel_reads_385_ebi2_reads_none :
    (cfgM5Direct.iface = Interface.RTV_IF_SPI ∧ cfgM5Direct.KERNEL = true ∧
      (rtvTDMB_ReadFIC cfgM5Direct quietEnv zeroBuf bootState).1 = 384 ∧
      burstBytes (callTrace bootState
        (rtvTDMB_ReadFIC cfgM5Direct quietEnv zeroBuf bootState).2.2) = 385) ∧
    (cfgE5.iface = Interface.RTV_IF_EBI2 ∧
      (rtvTDMB_ReadFIC cfgE5 (lateEnv 0) zeroBuf (rtvTDMB_OpenFIC cfgE5 bootState)).1 = 384 ∧
      burstBytes (callTrace (rtvTDMB_OpenFIC cfgE5 bootState)
        (rtvTDMB_ReadFIC cfgE5 (lateEnv 0) zeroBuf (rtvTDMB_OpenFIC cfgE5 bootState)).2.2)
        = 0) := by
  refine ⟨⟨by decide, by decide, by decide, by decide⟩, by decide, by decide, by decide⟩

set_option maxRecDepth 100000 in
/-- C19 (amended) at the serial TSIF build with FIC opened and the FIC bit set. -/
theorem readFIC_burst_sizes_witness :
    (rtvTDMB_ReadFIC cfgT5 (lateEnv 0) zeroBuf (rtvTDMB_OpenFIC cfgT5 bootState)).1 = 384 ∧
    cfgT5.ifAnyTsif = true ∧
    burstBytes (callTrace (rtvTDMB_OpenFIC cfgT5 bootState)
      (rtvTDMB_ReadFIC cfgT5 (lateEnv 0) zeroBuf (rtvTDMB_OpenFIC cfgT5 bootState)).2.2)
      = 384 :=
  ⟨by decide, by decide,
    (readFIC_burst_sizes cfgT5 (lateEnv 0) zeroBuf (rtvTDMB_OpenFIC cfgT5 bootState)
      (by decide)).1 (by decide)⟩

theorem init_fic_closed (cfg : BuildConfig) (env : Env) (band : E_RTV_COUNTRY_BAND_TYPE)
    (s0 : ChipState) (h : (rtvTDMB_Initialize cfg env band s0).1 = RtvResult.RTV_SUCCESS) :
    (rtvTDMB_Initialize cfg env band s0).2.g_afRtvTdmbConfiguredFIC = false := by
  unfold rtvTDMB_Initialize at h ⊢
  cases band with
  | other n => simp at h
  | RTV_COUNTRY_BAND_KOREA =>
    simp only []
    split_ifs <;> simp [onHw, Mtv818.emit]

theorem closeFIC_flag (cfg : BuildConfig) (s : ChipState) :
    (rtvTDMB_CloseFIC cfg s).g_afRtvTdmbConfiguredFIC = false := by
  unfold rtvTDMB_CloseFIC
  by_cases h : s.g_afRtvTdmbConfiguredFIC = false
  · rw [if_pos h]; exact h
  · rw [if_neg h]; rfl

theorem readFIC_closed (cfg : BuildConfig) (env : Env) (pbBuf : Nat → Nat) (s : ChipState)
    (hpoll : cfg.RTV_FIC_POLLING_MODE = true) (hf : s.g_afRtvTdmbConfiguredFIC = false) :
    rtvTDMB_ReadFIC cfg env pbBuf s = (0, pbBuf, s) := by
  unfold rtvTDMB_ReadFIC
  rw [if_pos hpoll, if_pos hf]

/-- C20 (amended): in polling mode, `ReadFIC` on a state whose FIC-configured flag is false
returns 0 and hands back the buffer and the chip state it was given (no collaborator call);
this is the case after `CloseFIC` and after a successful `Initialize`. -/
theorem readFIC_unopened_polling (cfg : BuildConfig) (env : Env) (pbBuf : Nat → Nat)
    (s : ChipState) (hpoll : cfg.RTV_FIC_POLLING_MODE = true) :
    (s.g_afRtvTdmbConfiguredFIC = false → rtvTDMB_ReadFIC cfg env pbBuf s = (0, pbBuf, s)) ∧
    rtvTDMB_ReadFIC cfg env pbBuf (rtvTDMB_CloseFIC cfg s) = (0, pbBuf, rtvTDMB_CloseFIC cfg s) ∧
    (∀ band : E_RTV_COUNTRY_BAND_TYPE,
      (rtvTDMB_Initialize cfg env band s).1 = RtvResult.RTV_SUCCESS →
      rtvTDMB_ReadFIC cfg env pbBuf (rtvTDMB_Initialize cfg env band s).2
        = (0, pbBuf, (rtvTDMB_Initialize cfg env band s).2)) :=
  ⟨readFIC_closed cfg env pbBuf s hpoll,
    readFIC_closed cfg env pbBuf _ hpoll (closeFIC_flag cfg s),
    fun band h => readFIC_closed cfg env pbBuf _ hpoll (init_fic_closed cfg env band s h)⟩

set_option maxRecDepth 100000 in
/-- C20 fails as stated: in direct mode (build without `RTV_FIC_POLLING_MODE`) right after
`Initialize`, with the FIC-configured flag false, `ReadFIC` returns 384 after selecting pages
and burst-reading. -/
theorem direct_mode_reads_unopened_fic :
    cfgM5Direct.RTV_FIC_POLLING_MODE = false ∧
    (initState cfgM5Direct).g_afRtvTdmbConfiguredFIC = false ∧
    (rtvTDMB_ReadFIC cfgM5Direct quietEnv zeroBuf (initState cfgM5Direct)).1 = 384 ∧
    callTrace (initState cfgM5Direct)
      (rtvTDMB_ReadFIC cfgM5Direct quietEnv zeroBuf (initState cfgM5Direct)).2.2
      = [Event.RTV_GUARD_LOCK, Event.RTV_REG_MAP_SEL 0x07, Event.RTV_REG_BURST_GET 0x10 0 385,
          Event.RTV_REG_MAP_SEL 0x05, Event.RTV_REG_SET 0x35 0x01, Event.RTV_GUARD_FREE] :=
  ⟨by decide, by decide, by decide, by decide⟩

/-- C20 (amended) at the state after `Initialize` in the polling build. -/
theorem readFIC_unopened_polling_witness :
    cfgM5.RTV_FIC_POLLING_MODE = true ∧ (initState cfgM5).g_afRtvTdmbConfiguredFIC = false ∧
    (rtvTDMB_ReadFIC cfgM5 quietEnv zeroBuf (initState cfgM5)).1 = 0 :=
  ⟨by decide, by decide,
    congrArg Prod.fst
      ((readFIC_unopened_polling cfgM5 quietEnv zeroBuf (initState cfgM5) (by decide)).1
        (by decide))⟩

/-- The hardware slot chosen for an Audio/Data service in a multi sub-channel build is the
least free index in 3..6 when one is free. -/
theorem openHwIdx_audio (cfg : BuildConfig) (svc : E_RTV_TDMB_SERVICE_TYPE) (s : ChipState)
    (hs : cfg.single = false) (hsvc : svc ≠ E_RTV_TDMB_SERVICE_TYPE.RTV_TDMB_SERVICE_VIDEO)
    (ha : ¬ (UsedHw s 3 ∧ UsedHw s 4 ∧ UsedHw s 5 ∧ UsedHw s 6)) :
    3 ≤ openHwIdx cfg svc s ∧ openHwIdx cfg svc s ≤ 6 ∧ ¬ UsedHw s (openHwIdx cfg svc s) ∧
    ∀ b, 3 ≤ b → b < openHwIdx cfg svc s → UsedHw s b := by
  have e : openHwIdx cfg svc s = searchHwSubChIdx s.g_aRtvUsedHwSubChIdxBits := by
    unfold openHwIdx
    simp only [hs, Bool.false_eq_true, if_false, hsvc]
  rw [e]
  rcases searchHw_cases s.g_aRtvUsedHwSubChIdxBits with ⟨_, h3, h4, h5, h6⟩ | ⟨hr, hf, hl⟩
  · exact absurd ⟨h3, h4, h5, h6⟩ ha
  · refine ⟨by omega, by omega, ?_, hl⟩
    unfold UsedHw
    rw [hf]; simp

/-- The table entry written by `tdmb_OpenSubChannel` in a build with a table of five or more
entries (stated for a state `t` that agrees with the result on the bookkeeping). -/
theorem open_entry {cfg : BuildConfig} {s : ChipState} (h : RegInv cfg s)
    (hroomy : cfg.roomy) (hs : cfg.single = false) (k : Nat)
    (svc : E_RTV_TDMB_SERVICE_TYPE) (thr : Nat) (hk : k < 64) (hnid : ¬ IdBit s k)
    (hv : svc = E_RTV_TDMB_SERVICE_TYPE.RTV_TDMB_SERVICE_VIDEO → ¬ UsedHw s 0)
    (ha : svc ≠ E_RTV_TDMB_SERVICE_TYPE.RTV_TDMB_SERVICE_VIDEO →
      ¬ (UsedHw s 3 ∧ UsedHw s 4 ∧ UsedHw s 5 ∧ UsedHw s 6))
    (t : ChipState)
    (ht1 : t.g_atTdmbRegSubchInfo = (tdmb_OpenSubChannel cfg k svc thr s).g_atTdmbRegSubchInfo)
    (ht2 : t.g_aRegSubChArrayIdxBits
      = (tdmb_OpenSubChannel cfg k svc thr s).g_aRegSubChArrayIdxBits)
    (ht3 : t.g_aRtvUsedHwSubChIdxBits
      = (tdmb_OpenSubChannel cfg k svc thr s).g_aRtvUsedHwSubChIdxBits)
    (ht4 : t.g_aRegSubChIdBits = (tdmb_OpenSubChannel cfg k svc thr s).g_aRegSubChIdBits) :
    ∃ i, Registered t i ∧ (t.g_atTdmbRegSubchInfo i).nSubChID = k ∧
      (∀ j, Registered t j → (t.g_atTdmbRegSubchInfo j).nSubChID = k → j = i) ∧
      (svc = E_RTV_TDMB_SERVICE_TYPE.RTV_TDMB_SERVICE_VIDEO →
        (t.g_atTdmbRegSubchInfo i).nHwSubChIdx = 0) ∧
      (svc ≠ E_RTV_TDMB_SERVICE_TYPE.RTV_TDMB_SERVICE_VIDEO →
        3 ≤ (t.g_atTdmbRegSubchInfo i).nHwSubChIdx ∧ (t.g_atTdmbRegSubchInfo i).nHwSubChIdx ≤ 6
        ∧ ¬ UsedHw s (t.g_atTdmbRegSubchInfo i).nHwSubChIdx
        ∧ ∀ b, 3 ≤ b → b < (t.g_atTdmbRegSubchInfo i).nHwSubChIdx → UsedHw s b) := by
  have hsingle : cfg.single = true → ∀ i, ¬ Registered s i := by
    intro h1; rw [hs] at h1; cases h1
  have hT : RegInv cfg t :=
    (h.reg_open hroomy k svc thr hk hnid hsingle (fun _ => hv) (fun _ => ha)).reg_congr
      ht1 ht2 ht3 ht4
  obtain ⟨i, hi, hicap, _, _⟩ := openIdx_spec h hroomy svc hsingle (fun _ => hv) (fun _ => ha)
  have hi32 : i < 32 := by split_ifs at hicap <;> omega
  obtain ⟨hr, htab⟩ := open_reg_some cfg k svc thr s i hi
  have hent : t.g_atTdmbRegSubchInfo i = ⟨k, openHwIdx cfg svc s, svc, thr⟩ := by
    rw [ht1, htab, Function.update_same]
  have hreg : Registered t i := by
    have : Registered t i ↔ Registered (tdmb_OpenSubChannel cfg k svc thr s) i := by
      unfold Registered; rw [ht2]
    rw [this, hr i]
    exact Or.inr ⟨hi32, rfl⟩
  refine ⟨i, hreg, by rw [hent], fun j hj hjk => ?_, fun e => ?_, fun e => ?_⟩
  · apply hT.id_inj j i hj hreg
    rw [hjk, hent]
  · rw [hent]
    exact (openHwIdx_eq_zero cfg svc _ hs).2 e
  · rw [hent]
    exact openHwIdx_audio cfg svc s hs e (ha e)

/-- C13 fails as stated: with Audio ID 1 open in hardware slot 3 on frequency `100`, the
successful open of Audio ID 2 on frequency `200` records hardware slot 3, whose bit is set in
the pre-call `usedHardwareSlotMask`; the least index in 3..6 with a clear bit is 4. -/
theorem retune_reuses_slot_used_before :
    Reachable cfgM5 quietEnv audioOnly ∧ ¬ IdBit audioOnly 2 ∧
    UsedHw audioOnly 3 ∧ ¬ UsedHw audioOnly 4 ∧
    (rtvTDMB_OpenSubChannel cfgM5 quietEnv 200 2
      E_RTV_TDMB_SERVICE_TYPE.RTV_TDMB_SERVICE_AUDIO 188 audioOnly).1 = RtvResult.RTV_SUCCESS ∧
    Registered (rtvTDMB_OpenSubChannel cfgM5 quietEnv 200 2
      E_RTV_TDMB_SERVICE_TYPE.RTV_TDMB_SERVICE_AUDIO 188 audioOnly).2 0 ∧
    ((rtvTDMB_OpenSubChannel cfgM5 quietEnv 200 2
      E_RTV_TDMB_SERVICE_TYPE.RTV_TDMB_SERVICE_AUDIO 188 audioOnly).2.g_atTdmbRegSubchInfo 0)
      = ⟨2, 3, E_RTV_TDMB_SERVICE_TYPE.RTV_TDMB_SERVICE_AUDIO, 188⟩ :=
  ⟨Reachable.openSubChannel _ 100 1 E_RTV_TDMB_SERVICE_TYPE.RTV_TDMB_SERVICE_AUDIO 188
    (Reachable.init bootState E_RTV_COUNTRY_BAND_TYPE.RTV_COUNTRY_BAND_KOREA (by decide)),
    by decide, by decide, by decide, by decide, by decide, by decide⟩

/-- C13 (amended): in a reachable state of a multi-slot build with a table of at least 5
entries, a successful `OpenSubChannel` of an ID whose bit is clear, with an accepted threshold,
leaves exactly one registered table entry with that ID, and its `nHwSubChIdx` is: 0 for a Video
service; for an Audio/Data service on the chip's previous frequency the least index in 3..6
whose bit is clear in the pre-call `usedHardwareSlotMask`; for an Audio/Data service on another
frequency (all sub-channels are closed first) 3. -/
theorem open_records_least_free_slot (cfg : BuildConfig) (env : Env) (s : ChipState)
    (f k : Nat) (svc : E_RTV_TDMB_SERVICE_TYPE) (thr : Nat)
    (hbuild : 5 ≤ cfg.RTV_MAX_NUM_SUB_CHANNEL_USED)
    (hreach : Reachable cfg env s) (hk : k < 64) (hnid : ¬ IdBit s k)
    (hthr : thresholdAccepted cfg thr)
    (hok : (rtvTDMB_OpenSubChannel cfg env f k svc thr s).1 = RtvResult.RTV_SUCCESS) :
    ∃ i, Registered (rtvTDMB_OpenSubChannel cfg env f k svc thr s).2 i ∧
      ((rtvTDMB_OpenSubChannel cfg env f k svc thr s).2.g_atTdmbRegSubchInfo i).nSubChID = k ∧
      (∀ j, Registered (rtvTDMB_OpenSubChannel cfg env f k svc thr s).2 j →
        ((rtvTDMB_OpenSubChannel cfg env f k svc thr s).2.g_atTdmbRegSubchInfo j).nSubChID = k →
        j = i) ∧
      (svc = E_RTV_TDMB_SERVICE_TYPE.RTV_TDMB_SERVICE_VIDEO →
        ((rtvTDMB_OpenSubChannel cfg env f k svc thr s).2.g_atTdmbRegSubchInfo i).nHwSubChIdx
          = 0) ∧
      (svc ≠ E_RTV_TDMB_SERVICE_TYPE.RTV_TDMB_SERVICE_VIDEO → f = s.g_aTdmbPrevChFreqKHz →
        3 ≤ ((rtvTDMB_OpenSubChannel cfg env f k svc thr s).2.g_atTdmbRegSubchInfo i).nHwSubChIdx
        ∧ ((rtvTDMB_OpenSubChannel cfg env f k svc thr s).2.g_atTdmbRegSubchInfo i).nHwSubChIdx
          ≤ 6
        ∧ ¬ UsedHw s
          ((rtvTDMB_OpenSubChannel cfg env f k svc thr s).2.g_atTdmbRegSubchInfo i).nHwSubChIdx
        ∧ ∀ b, 3 ≤ b →
          b < ((rtvTDMB_OpenSubChannel cfg env f k svc thr s).2.g_atTdmbRegSubchInfo
            i).nHwSubChIdx → UsedHw s b) ∧
      (svc ≠ E_RTV_TDMB_SERVICE_TYPE.RTV_TDMB_SERVICE_VIDEO → f ≠ s.g_aTdmbPrevChFreqKHz →
        ((rtvTDMB_OpenSubChannel cfg env f k svc thr s).2.g_atTdmbRegSubchInfo i).nHwSubChIdx
          = 3) := by
  have hroomy : cfg.roomy := Or.inr hbuild
  have hs : cfg.single = false := by
    unfold BuildConfig.single; simp; omega
  have h : RegInv cfg s := RegInv.reg_of_reachable hroomy hreach
  revert hok
  apply rtvOpen_cases cfg env f k svc thr s (fun r =>
    r.1 = RtvResult.RTV_SUCCESS →
    ∃ i, Registered r.2 i ∧ (r.2.g_atTdmbRegSubchInfo i).nSubChID = k ∧
      (∀ j, Registered r.2 j → (r.2.g_atTdmbRegSubchInfo j).nSubChID = k → j = i) ∧
      (svc = E_RTV_TDMB_SERVICE_TYPE.RTV_TDMB_SERVICE_VIDEO →
        (r.2.g_atTdmbRegSubchInfo i).nHwSubChIdx = 0) ∧
      (svc ≠ E_RTV_TDMB_SERVICE_TYPE.RTV_TDMB_SERVICE_VIDEO → f = s.g_aTdmbPrevChFreqKHz →
        3 ≤ (r.2.g_atTdmbRegSubchInfo i).nHwSubChIdx
        ∧ (r.2.g_atTdmbRegSubchInfo i).nHwSubChIdx ≤ 6
        ∧ ¬ UsedHw s (r.2.g_atTdmbRegSubchInfo i).nHwSubChIdx
        ∧ ∀ b, 3 ≤ b → b < (r.2.g_atTdmbRegSubchInfo i).nHwSubChIdx → UsedHw s b) ∧
      (svc ≠ E_RTV_TDMB_SERVICE_TYPE.RTV_TDMB_SERVICE_VIDEO → f ≠ s.g_aTdmbPrevChFreqKHz →
        (r.2.g_atTdmbRegSubchInfo i).nHwSubChIdx = 3))
  · intro h64; omega
  · intro _ hn; exact absurd hthr hn
  · intro _ _ _ hb; exact absurd hb hnid
  · intro _ _ _ _ hs1; rw [hs] at hs1; cases hs1
  · intro _ _ _ _ _ _ _ h0; cases h0
  · intro _ _ _ _ _ _ _ h0; cases h0
  · intro _ _ hf _ _ hv ha _
    have hL : RegInv cfg (Mtv818.emit Event.RTV_GUARD_LOCK s) := h.reg_emit _
    obtain ⟨i, hreg, hid, huniq, hvid, haud⟩ := open_entry hL hroomy hs k svc
      (effectiveThreshold cfg thr) hk hnid hv ha
      (Mtv818.emit Event.RTV_GUARD_FREE (Mtv818.emit Event.rtv_StreamRestore
        (tdmb_OpenSubChannel cfg k svc (effectiveThreshold cfg thr)
          (Mtv818.emit Event.RTV_GUARD_LOCK s)))) rfl rfl rfl rfl
    exact ⟨i, hreg, hid, huniq, hvid, fun e _ => haud e, fun _ hne => absurd hf.symm hne⟩
  · intro _ _ hne _
    unfold openNewFreq
    have h0 : RegInv cfg (Mtv818.emit Event.RTV_GUARD_LOCK
        { s with g_aTdmbPrevChFreqKHz := f, g_afRtvChannelChange := true }) :=
      h.reg_congr rfl rfl rfl rfl
    obtain ⟨h1, he⟩ := h0.closed_for_new_freq _ rfl
    simp only []
    generalize (if cfg.single = true then tdmb_CloseSubChannel cfg 0 (Mtv818.emit
      Event.RTV_GUARD_LOCK { s with g_aTdmbPrevChFreqKHz := f, g_afRtvChannelChange := true })
      else tdmb_CloseAllSubChannel cfg (Mtv818.emit Event.RTV_GUARD_LOCK
      { s with g_aTdmbPrevChFreqKHz := f, g_afRtvChannelChange := true })) = s2 at h1 he ⊢
    have h2 : RegInv cfg { s2 with hw := (rtvRF_SetFrequency env f s2.hw).2 } :=
      h1.reg_congr rfl rfl rfl rfl
    have he2 : ∀ i, ¬ Registered { s2 with hw := (rtvRF_SetFrequency env f s2.hw).2 } i := he
    have hu := (h2.empty he2).1
    obtain ⟨i, hreg, hid, huniq, hvid, haud⟩ := open_entry h2 hroomy hs k svc
      (effectiveThreshold cfg thr) hk ((h2.empty he2).2 k hk) (fun _ => hu 0)
      (fun _ hx => hu 3 hx.1)
      { Mtv818.emit Event.RTV_GUARD_FREE (tdmb_OpenSubChannel cfg k svc
          (effectiveThreshold cfg thr) { s2 with hw := (rtvRF_SetFrequency env f s2.hw).2 })
        with g_afRtvChannelChange := false } rfl rfl rfl rfl
    have h3 : ∀ x : Nat, (3 ≤ x ∧ x ≤ 6 ∧
        ¬ UsedHw { s2 with hw := (rtvRF_SetFrequency env f s2.hw).2 } x ∧
        ∀ b, 3 ≤ b → b < x → UsedHw { s2 with hw := (rtvRF_SetFrequency env f s2.hw).2 } b) →
        x = 3 := by
      rintro x ⟨a1, _, _, a4⟩
      by_contra hne3
      exact hu 3 (a4 3 (le_refl _) (by omega))
    exact ⟨i, hreg, hid, huniq, hvid, fun _ e => absurd e.symm hne, fun e _ => h3 _ (haud e)⟩

/-- C11 (amended) at the SPI build, ID 1, threshold size 4000. -/
theorem oversized_threshold_rejected_unchanged_witness :
    cfgM5.RTV_CIF_MODE_ENABLED = false ∧ cfgM5.iface = Interface.RTV_IF_SPI ∧ 1 ≤ 63 ∧
    188 * 18 < 4000 ∧
    rtvTDMB_OpenSubChannel cfgM5 quietEnv 100 1
      E_RTV_TDMB_SERVICE_TYPE.RTV_TDMB_SERVICE_AUDIO 4000 (initState cfgM5)
      = (RtvResult.RTV_INVAILD_THRESHOLD_SIZE, initState cfgM5) :=
  ⟨by decide, by decide, by decide, by decide,
    oversized_threshold_rejected_unchanged cfgM5 quietEnv 100 1
      E_RTV_TDMB_SERVICE_TYPE.RTV_TDMB_SERVICE_AUDIO 4000 (initState cfgM5) (by decide)
      (Or.inl (by decide)) (by decide) (by decide)⟩

/-- C12 at the state with Video ID 1 open: re-opening ID 1. -/
theorem reopen_registered_only_restores_witness :
    1 < 64 ∧ IdBit videoOnly 1 ∧ thresholdAccepted cfgM5 188 ∧
    (rtvTDMB_OpenSubChannel cfgM5 quietEnv videoOnly.g_aTdmbPrevChFreqKHz 1
      E_RTV_TDMB_SERVICE_TYPE.RTV_TDMB_SERVICE_AUDIO 188 videoOnly).1
      = RtvResult.RTV_SUCCESS :=
  ⟨by decide, by decide, by decide,
    (reopen_registered_only_restores cfgM5 quietEnv 1
      E_RTV_TDMB_SERVICE_TYPE.RTV_TDMB_SERVICE_AUDIO 188 videoOnly (by decide) (by decide)
      (by decide)).1⟩

/-- C13 (amended) at the state with Audio ID 1 open: opening Audio ID 2 on the same
frequency. -/
theorem open_records_least_free_slot_witness :
    5 ≤ cfgM5.RTV_MAX_NUM_SUB_CHANNEL_USED ∧ Reachable cfgM5 quietEnv audioOnly ∧ 2 < 64 ∧
    ¬ IdBit audioOnly 2 ∧ thresholdAccepted cfgM5 188 ∧
    (rtvTDMB_OpenSubChannel cfgM5 quietEnv 100 2
      E_RTV_TDMB_SERVICE_TYPE.RTV_TDMB_SERVICE_AUDIO 188 audioOnly).1 = RtvResult.RTV_SUCCESS ∧
    ∃ i, Registered (rtvTDMB_OpenSubChannel cfgM5 quietEnv 100 2
        E_RTV_TDMB_SERVICE_TYPE.RTV_TDMB_SERVICE_AUDIO 188 audioOnly).2 i ∧
      ((rtvTDMB_OpenSubChannel cfgM5 quietEnv 100 2
        E_RTV_TDMB_SERVICE_TYPE.RTV_TDMB_SERVICE_AUDIO 188 audioOnly).2.g_atTdmbRegSubchInfo
          i).nSubChID = 2 :=
  ⟨by decide, audioOnly_reachable, by decide, by decide, by decide, by decide,
    (open_records_least_free_slot cfgM5 quietEnv audioOnly 100 2
      E_RTV_TDMB_SERVICE_TYPE.RTV_TDMB_SERVICE_AUDIO 188 (by decide) audioOnly_reachable
      (by decide) (by decide) (by decide) (by decide)).imp (fun _ h => ⟨h.1, h.2.1⟩)⟩

/-- C14 at the boot state with the flag set, over registers that read `0xFF`. -/
theorem accessors_idle_while_channel_changes_witness :
    changingState.g_afRtvChannelChange = true ∧
    rtvTDMB_GetLockStatus cfgM5 (regEnv (fun _ _ => 0xFF)) changingState = (0, changingState) :=
  ⟨rfl,
    (accessors_idle_while_channel_changes cfgM5 (regEnv (fun _ _ => 0xFF)) changingState
      rfl).1⟩

/-- C15 at registers `0xD7 = 0x08`, `0xB4 = 0x12`, `0xB5 = 0x34`. -/
theorem per_ber_gated_on_rs_sync_witness :
    bootState.g_afRtvChannelChange = false ∧
    ((regEnv (fun _ a => if a = 0xD7 then 0x08 else if a = 0xB4 then 0x12 else 0x34)).reg
      bootState.hw.time FEC_PAGE 0xD7 % 256).testBit 3 = true ∧
    (rtvTDMB_GetPER (regEnv (fun _ a => if a = 0xD7 then 0x08 else if a = 0xB4 then 0x12
      else 0x34)) bootState).1 = 0x1234 :=
  ⟨by decide, by decide,
    (per_ber_gated_on_rs_sync cfgM5 (regEnv (fun _ a => if a = 0xD7 then 0x08
      else if a = 0xB4 then 0x12 else 0x34)) bootState (by decide)).2 (by decide)⟩

/-! ## Frequency scan -/

/-! ## Counting collaborator calls -/

theorem calls_get (p : Event → Bool) (env : Env) (a : Nat) (h : HwIf) :
    calls p (RTV_REG_GET env a h).2 = calls p h + (p (Event.RTV_REG_GET a)).toNat := by
  unfold calls RTV_REG_GET
  simp only [List.countP_cons]
  cases p (Event.RTV_REG_GET a) <;> simp

theorem calls_sel (p : Event → Bool) (pg : Nat) (h : HwIf) :
    calls p (RTV_REG_MAP_SEL pg h) = calls p h + (p (Event.RTV_REG_MAP_SEL pg)).toNat := by
  unfold calls RTV_REG_MAP_SEL
  simp only [List.countP_cons]
  cases p (Event.RTV_REG_MAP_SEL pg) <;> simp

theorem calls_set (p : Event → Bool) (a v : Nat) (h : HwIf) :
    calls p (RTV_REG_SET a v h) = calls p h + (p (Event.RTV_REG_SET a v)).toNat := by
  unfold calls RTV_REG_SET HwIf.emit
  simp only [List.countP_cons]
  cases p (Event.RTV_REG_SET a v) <;> simp

theorem calls_mask (p : Event → Bool) (a m v : Nat) (h : HwIf) :
    calls p (RTV_REG_MASK_SET a m v h)
      = calls p h + (p (Event.RTV_REG_MASK_SET a m v)).toNat := by
  unfold calls RTV_REG_MASK_SET HwIf.emit
  simp only [List.countP_cons]
  cases p (Event.RTV_REG_MASK_SET a m v) <;> simp

theorem calls_delay (p : Event → Bool) (ms : Nat) (h : HwIf) :
    calls p (RTV_DELAY_MS ms h) = calls p h + (p (Event.RTV_DELAY_MS ms)).toNat := by
  unfold calls RTV_DELAY_MS HwIf.emit
  simp only [List.countP_cons]
  cases p (Event.RTV_DELAY_MS ms) <;> simp

theorem calls_emit (p : Event → Bool) (e : Event) (h : HwIf) :
    calls p (h.emit e) = calls p h + (p e).toNat := by
  unfold calls HwIf.emit
  simp only [List.countP_cons]
  cases p e <;> simp

theorem calls_set_blind (p : Event → Bool) (hp : ValueBlind p) (a v : Nat) (h : HwIf) :
    calls p (RTV_REG_SET a v h) = calls p h + (p (Event.RTV_REG_SET a 0)).toNat := by
  rw [calls_set, hp a v]

/-- Calls of the FEC sync retry loop: at most `r` rounds of five calls. -/
theorem fecSyncLoop_calls (env : Env) (p : Event → Bool) :
    ∀ (fuel n r : Nat) (x : ScanExit) (h : HwIf), n + r = 20 →
      calls p (fecSyncLoop env fuel n x h).2 ≤ calls p h + r * syncRoundCalls p := by
  intro fuel
  induction fuel with
  | zero => intro n r x h _; unfold fecSyncLoop; exact Nat.le_add_right _ _
  | succ fuel ih =>
    intro n r x h hr
    unfold fecSyncLoop
    by_cases hn : n < 20
    · rw [if_pos hn]
      obtain ⟨r', rfl⟩ : ∃ r', r = r' + 1 := ⟨r - 1, by omega⟩
      simp only []
      rw [Nat.succ_mul]
      split_ifs
      · simp only [calls_get, calls_sel, calls_delay, syncRoundCalls]; omega
      · refine le_trans (ih (n + 1) r' _ _ (by omega)) ?_
        simp only [calls_get, calls_sel, calls_delay, syncRoundCalls]; omega
      · refine le_trans (ih (n + 1) r' _ _ (by omega)) ?_
        simp only [calls_get, calls_sel, calls_delay, syncRoundCalls]; omega
      · simp only [calls_get, calls_sel, calls_delay, syncRoundCalls]; omega
    · rw [if_neg hn]; exact Nat.le_add_right _ _

/-- Calls of the OFDM lock wait loop: at most `r` rounds of six calls and the two calls at
the `break`. -/
theorem ofdmLockLoop_calls (env : Env) (p : Event → Bool) :
    ∀ (fuel j r L : Nat) (h : HwIf), j + r = 50 →
      calls p (ofdmLockLoop env fuel j L h).2 ≤ calls p h + r * lockRoundCalls p
        + ((p (Event.RTV_REG_MAP_SEL OFDM_PAGE)).toNat
          + (p (Event.RTV_REG_SET 0x54 0x58)).toNat) := by
  intro fuel
  induction fuel with
  | zero => intro j r L h _; unfold ofdmLockLoop; show calls p h ≤ _; omega
  | succ fuel ih =>
    intro j r L h hr
    unfold ofdmLockLoop
    by_cases hj : j < 50
    · rw [if_pos hj]
      obtain ⟨r', rfl⟩ : ∃ r', r = r' + 1 := ⟨r - 1, by omega⟩
      simp only []
      rw [Nat.succ_mul]
      split_ifs
      · simp only [calls_get, calls_sel, calls_delay, calls_mask, calls_set, lockRoundCalls]
        omega
      · refine le_trans (ih (j + 1) r' _ _ (by omega)) ?_
        simp only [calls_get, calls_sel, calls_delay, calls_mask, calls_set, lockRoundCalls]
        omega
    · rw [if_neg hj]; show calls p h ≤ _; omega

/-- Calls of the code run when `ccnt > 1`. -/
theorem lockAndSync_calls (env : Env) (p : Event → Bool) (x : ScanExit) (L : Nat) (h : HwIf) :
    calls p (lockAndSync env x L h).2 ≤ calls p h + lockAndSyncCalls p := by
  have hl := ofdmLockLoop_calls env p 50 0 50 L h (by omega)
  unfold lockAndSync
  simp only []
  split_ifs
  · simp only [calls_get, calls_sel, lockAndSyncCalls]; omega
  · refine le_trans (fecSyncLoop_calls env p 20 0 20 _ _ (by omega)) ?_
    simp only [calls_get, calls_sel, lockAndSyncCalls]; omega
  · simp only [calls_get, calls_sel, lockAndSyncCalls]; omega
  · simp only [lockAndSyncCalls]; omega

/-- Calls of the fine-check loop: at most `r` rounds of fourteen calls, then lock and sync. -/
theorem fineCheckLoop_calls (cfg : BuildConfig) (env : Env) (p : Event → Bool)
    (mode pg nc : Nat) :
    ∀ (fuel i r : Nat) (v : FineLocals) (h : HwIf), i + r = 100 →
      calls p (fineCheckLoop cfg env mode pg nc fuel i v h).2
        ≤ calls p h + r * fineRoundCalls cfg p + lockAndSyncCalls p := by
  intro fuel
  induction fuel with
  | zero => intro i r v h _; unfold fineCheckLoop; show calls p h ≤ _; omega
  | succ fuel ih =>
    intro i r v h hr
    unfold fineCheckLoop
    by_cases hi : i < 100
    · rw [if_pos hi]
      obtain ⟨r', rfl⟩ : ∃ r', r = r' + 1 := ⟨r - 1, by omega⟩
      simp only []
      rw [Nat.succ_mul]
      split_ifs
      all_goals first
        | (simp only [calls_get, calls_sel, calls_delay, calls_mask, fineRoundCalls]; omega)
        | (refine le_trans (lockAndSync_calls env p _ _ _) ?_
           simp only [calls_get, calls_sel, calls_delay, calls_mask, fineRoundCalls]; omega)
        | (refine le_trans (ih (i + 1) r' _ _ (by omega)) ?_
           simp only [calls_get, calls_sel, calls_delay, calls_mask, fineRoundCalls]; omega)
    · rw [if_neg hi]; show calls p h ≤ _; omega

/-- Calls of the null-symbol sampling loop: at most `r` rounds of six calls. -/
theorem nullSampleLoop_calls (env : Env) (p : Event → Bool) (hp : ValueBlind p)
    (mode pg : Nat) :
    ∀ (fuel m r : Nat) (sf : RtvResult) (fl nc : Nat) (h : HwIf), m + r = 16 →
      calls p (nullSampleLoop env mode pg fuel m sf fl nc h).2
        ≤ calls p h + r * nullRoundCalls p := by
  intro fuel
  induction fuel with
  | zero => intro m r sf fl nc h _; unfold nullSampleLoop; exact Nat.le_add_right _ _
  | succ fuel ih =>
    intro m r sf fl nc h hr
    unfold nullSampleLoop
    by_cases hm : m < 16
    · rw [if_pos hm]
      obtain ⟨r', rfl⟩ : ∃ r', r = r' + 1 := ⟨r - 1, by omega⟩
      simp only []
      rw [Nat.succ_mul]
      split_ifs
      all_goals first
        | (simp only [calls_get, calls_delay, calls_set_blind p hp, nullRoundCalls]; omega)
        | (refine le_trans (ih (m + 1) r' _ _ _ _ (by omega)) ?_
           simp only [calls_get, calls_delay, calls_set_blind p hp, nullRoundCalls]; omega)
    · rw [if_neg hm]; exact Nat.le_add_right _ _

/-- Outcome of the null-symbol sampling loop run from `m < 16` with enough fuel: a mode
mismatch, the null-symbol rejection (only with `PreGain < 400`), or the end of the loop with
`scan_flag = RTV_SUCCESS`. -/
theorem nullSampleLoop_outcome (env : Env) (mode pg : Nat) :
    ∀ (fuel m : Nat) (sf : RtvResult) (fl nc : Nat) (h : HwIf), m < 16 → 16 ≤ m + fuel →
      (∃ h2, nullSampleLoop env mode pg fuel m sf fl nc h
          = (NullOutcome.exit ⟨RtvResult.RTV_CHANNEL_NOT_DETECTED, 0xE000⟩, h2)) ∨
      (pg < 400 ∧ ∃ h2, nullSampleLoop env mode pg fuel m sf fl nc h
          = (NullOutcome.exit ⟨RtvResult.RTV_CHANNEL_NOT_DETECTED, 0xEF05⟩, h2)) ∨
      (∃ nc2 h2, nullSampleLoop env mode pg fuel m sf fl nc h
          = (NullOutcome.done RtvResult.RTV_SUCCESS 0x1111 nc2, h2)) := by
  intro fuel
  induction fuel with
  | zero => intro m sf fl nc h h1 h2; omega
  | succ fuel ih =>
    intro m sf fl nc h hm hf
    unfold nullSampleLoop
    rw [if_pos hm]
    simp only []
    split_ifs
    all_goals first
      | exact Or.inl ⟨_, rfl⟩
      | exact Or.inr (Or.inl ⟨by omega, _, rfl⟩)
      | exact Or.inr (Or.inr ⟨_, _, rfl⟩)
      | exact ih (m + 1) _ _ _ _ (by omega) (by omega)

theorem nullSampleLoop_calls_eq (env : Env) (p : Event → Bool) (hp : ValueBlind p)
    (mode pg : Nat) (sf : RtvResult) (fl nc : Nat) (h : HwIf) (o : NullOutcome × HwIf)
    (e : nullSampleLoop env mode pg 16 0 sf fl nc h = o) :
    calls p o.2 ≤ calls p h + 16 * nullRoundCalls p :=
  e ▸ nullSampleLoop_calls env p hp mode pg 16 0 16 sf fl nc h (by omega)

theorem nullSampleLoop_done_success (env : Env) (mode pg : Nat) (sf : RtvResult) (fl nc : Nat)
    (h : HwIf) (sf2 : RtvResult) (fl2 nc2 : Nat) (h2 : HwIf)
    (e : nullSampleLoop env mode pg 16 0 sf fl nc h = (NullOutcome.done sf2 fl2 nc2, h2)) :
    sf2 = RtvResult.RTV_SUCCESS ∧ fl2 = 0x1111 := by
  rcases nullSampleLoop_outcome env mode pg 16 0 sf fl nc h (by omega) (by omega) with
    ⟨h3, e3⟩ | ⟨_, h3, e3⟩ | ⟨nc3, h3, e3⟩
  · rw [e] at e3; cases e3
  · rw [e] at e3; cases e3
  · rw [e] at e3; cases e3; exact ⟨rfl, rfl⟩

/-- Calls of the `while(1)` loop: at most `r` rounds of polls and one tail. -/
theorem scanLoop_calls (cfg : BuildConfig) (env : Env) (band : E_RTV_COUNTRY_BAND_TYPE)
    (adc : E_RTV_ADC_CLK_FREQ_TYPE) (p : Event → Bool) (hp : ValueBlind p) :
    ∀ (fuel r : Nat) (v : ScanLocals) (h : HwIf), v.nReTryCnt + r = 9999 →
      calls p (scanLoop cfg env band adc fuel v h).2
        ≤ calls p h + r * pollRoundCalls cfg p + scanTailCalls cfg p := by
  intro fuel
  induction fuel with
  | zero => intro r v h _; unfold scanLoop; show calls p h ≤ _; omega
  | succ fuel ih =>
    intro r v h hr
    unfold scanLoop
    simp only []
    by_cases ht : (v.nReTryCnt + 1) % 2 ^ 32 = 10000
    · rw [if_pos ht]; show calls p h ≤ _; omega
    · rw [if_neg ht]
      have hlt : v.nReTryCnt + 1 < 2 ^ 32 := by omega
      rw [Nat.mod_eq_of_lt hlt] at ht
      obtain ⟨r', rfl⟩ : ∃ r', r = r' + 1 := ⟨r - 1, by omega⟩
      rw [Nat.succ_mul]
      repeat' split
      all_goals first
        | (simp only [calls_get, calls_sel, calls_set_blind p hp, pollRoundCalls, scanTailCalls]
           omega)
        | (rename_i heq hs
           exact absurd (nullSampleLoop_done_success _ _ _ _ _ _ _ _ _ _ _ heq).1 hs)
        | (rename_i heq hs
           have hc := nullSampleLoop_calls_eq env p hp _ _ _ _ _ _ _ heq
           refine le_trans (fineCheckLoop_calls cfg env p _ _ _ 100 0 100 _ _ (by omega)) ?_
           simp only [calls_get, calls_sel, calls_set_blind p hp, pollRoundCalls,
             scanTailCalls] at hc ⊢
           omega)
        | (rename_i heq
           have hc := nullSampleLoop_calls_eq env p hp _ _ _ _ _ _ _ heq
           simp only [calls_get, calls_sel, calls_set_blind p hp, pollRoundCalls,
             scanTailCalls] at hc ⊢
           omega)
        | (refine le_trans (ih r' _ _ (by simp only []; omega)) ?_
           simp only [calls_get, calls_sel, calls_set_blind p hp, pollRoundCalls, scanTailCalls]
           omega)

/-- Calls of the scan between the closing of the sub-channels and `TDMB_SCAN_EXIT`. -/
theorem scanBody_calls (cfg : BuildConfig) (env : Env) (band : E_RTV_COUNTRY_BAND_TYPE)
    (adc : E_RTV_ADC_CLK_FREQ_TYPE) (p : Event → Bool) (hp : ValueBlind p) (f : Nat) (h : HwIf) :
    calls p ((scanBody cfg env band adc f h).2.emit Event.RTV_GUARD_FREE)
      ≤ calls p h + scanCalls cfg f p := by
  have hrf : calls p (rtvRF_SetFrequency env f h).2
      = calls p h + (p (Event.rtvRF_SetFrequency f)).toNat := by
    unfold calls rtvRF_SetFrequency
    simp only [List.countP_cons]
    cases p (Event.rtvRF_SetFrequency f) <;> simp
  unfold scanBody
  simp only []
  split_ifs
  · rw [calls_emit, hrf]; unfold scanCalls; omega
  · rw [calls_emit]
    have hl := scanLoop_calls cfg env band adc p hp 10000 9999
      ⟨0, (rtvRF_SetFrequency env f h).1, 0xFFFF, 0⟩
      (tdmb_SoftReset (RTV_REG_SET 0x54 0x70 (RTV_REG_MAP_SEL OFDM_PAGE
        (rtvRF_SetFrequency env f h).2))) (by simp)
    unfold tdmb_SoftReset at hl ⊢
    simp only [calls_set, calls_sel, calls_delay, hrf] at hl
    unfold scanCalls
    omega

theorem scan_hw_eq (cfg : BuildConfig) (env : Env) (f : Nat) (s : ChipState) :
    (rtvTDMB_ScanFrequency cfg env f s).2.hw
      = (scanBody cfg env (scanClosed cfg s).g_eRtvCountryBandType
          (scanClosed cfg s).g_aeRtvAdcClkFreqType f (scanClosed cfg s).hw).2.emit
            Event.RTV_GUARD_FREE := by
  unfold rtvTDMB_ScanFrequency scanClosed
  rfl

theorem scan_result_eq (cfg : BuildConfig) (env : Env) (f : Nat) (s : ChipState) :
    (rtvTDMB_ScanFrequency cfg env f s).1
      = (scanBody cfg env (scanClosed cfg s).g_eRtvCountryBandType
          (scanClosed cfg s).g_aeRtvAdcClkFreqType f (scanClosed cfg s).hw).1.scan_flag := by
  unfold rtvTDMB_ScanFrequency scanClosed
  rfl

theorem scan_calls (cfg : BuildConfig) (env : Env) (p : Event → Bool) (hp : ValueBlind p)
    (f : Nat) (s : ChipState) :
    calls p (rtvTDMB_ScanFrequency cfg env f s).2.hw
      ≤ calls p (scanClosed cfg s).hw + scanCalls cfg f p := by
  rw [scan_hw_eq]
  exact scanBody_calls cfg env _ _ p hp f _

theorem isRead_blind (a : Nat) : ValueBlind (isRead a) := by
  intro x v; simp [isRead]

theorem isRegAccess_blind : ValueBlind Event.isRegAccess := by
  intro x v; rfl

theorem isDelay_blind : ValueBlind Event.isDelay := by
  intro x v; rfl

/-! ## Fuel of the loops -/

theorem fecSyncLoop_fuel (env : Env) :
    ∀ (f1 f2 n : Nat) (x : ScanExit) (h : HwIf), 20 ≤ n + f1 → 20 ≤ n + f2 →
      fecSyncLoop env f1 n x h = fecSyncLoop env f2 n x h := by
  intro f1
  induction f1 with
  | zero =>
    intro f2 n x h h1 h2
    cases f2 with
    | zero => rfl
    | succ f2 => unfold fecSyncLoop; rw [if_neg (by omega)]
  | succ f1 ih =>
    intro f2 n x h h1 h2
    cases f2 with
    | zero => unfold fecSyncLoop; rw [if_neg (by omega)]
    | succ f2 =>
      unfold fecSyncLoop
      have ih2 := fun x h => ih f2 (n + 1) x h (by omega) (by omega)
      simp only [ih2]

theorem ofdmLockLoop_fuel (env : Env) :
    ∀ (f1 f2 j L : Nat) (h : HwIf), 50 ≤ j + f1 → 50 ≤ j + f2 →
      ofdmLockLoop env f1 j L h = ofdmLockLoop env f2 j L h := by
  intro f1
  induction f1 with
  | zero =>
    intro f2 j L h h1 h2
    cases f2 with
    | zero => rfl
    | succ f2 => unfold ofdmLockLoop; rw [if_neg (by omega)]
  | succ f1 ih =>
    intro f2 j L h h1 h2
    cases f2 with
    | zero => unfold ofdmLockLoop; rw [if_neg (by omega)]
    | succ f2 =>
      unfold ofdmLockLoop
      have ih2 := fun L h => ih f2 (j + 1) L h (by omega) (by omega)
      simp only [ih2]

theorem fineCheckLoop_fuel (cfg : BuildConfig) (env : Env) (mode pg nc : Nat) :
    ∀ (f1 f2 i : Nat) (v : FineLocals) (h : HwIf), 100 ≤ i + f1 → 100 ≤ i + f2 →
      fineCheckLoop cfg env mode pg nc f1 i v h = fineCheckLoop cfg env mode pg nc f2 i v h := by
  intro f1
  induction f1 with
  | zero =>
    intro f2 i v h h1 h2
    cases f2 with
    | zero => rfl
    | succ f2 => unfold fineCheckLoop; rw [if_neg (by omega)]
  | succ f1 ih =>
    intro f2 i v h h1 h2
    cases f2 with
    | zero => unfold fineCheckLoop; rw [if_neg (by omega)]
    | succ f2 =>
      unfold fineCheckLoop
      have ih2 := fun v h => ih f2 (i + 1) v h (by omega) (by omega)
      simp only [ih2]

theorem nullSampleLoop_fuel (env : Env) (mode pg : Nat) :
    ∀ (f1 f2 m : Nat) (sf : RtvResult) (fl nc : Nat) (h : HwIf), 16 ≤ m + f1 → 16 ≤ m + f2 →
      nullSampleLoop env mode pg f1 m sf fl nc h = nullSampleLoop env mode pg f2 m sf fl nc h := by
  intro f1
  induction f1 with
  | zero =>
    intro f2 m sf fl nc h h1 h2
    cases f2 with
    | zero => rfl
    | succ f2 => unfold nullSampleLoop; rw [if_neg (by omega)]
  | succ f1 ih =>
    intro f2 m sf fl nc h h1 h2
    cases f2 with
    | zero => unfold nullSampleLoop; rw [if_neg (by omega)]
    | succ f2 =>
      unfold nullSampleLoop
      have ih2 := fun sf fl nc h => ih f2 (m + 1) sf fl nc h (by omega) (by omega)
      simp only [ih2]

theorem scanLoop_fuel (cfg : BuildConfig) (env : Env) (band : E_RTV_COUNTRY_BAND_TYPE)
    (adc : E_RTV_ADC_CLK_FREQ_TYPE) :
    ∀ (f1 f2 n : Nat) (sf : RtvResult) (fl nc : Nat) (h : HwIf), n < 10000 →
      10000 ≤ n + f1 → 10000 ≤ n + f2 →
      scanLoop cfg env band adc f1 ⟨n, sf, fl, nc⟩ h
        = scanLoop cfg env band adc f2 ⟨n, sf, fl, nc⟩ h := by
  intro f1
  induction f1 with
  | zero => intro f2 n sf fl nc h h0 h1 h2; omega
  | succ f1 ih =>
    intro f2 n sf fl nc h h0 h1 h2
    cases f2 with
    | zero => omega
    | succ f2 =>
      unfold scanLoop
      simp only []
      rw [Nat.mod_eq_of_lt (show n + 1 < 2 ^ 32 by omega)]
      by_cases ht : n + 1 = 10000
      · rw [if_pos ht, if_pos ht]
      · rw [if_neg ht, if_neg ht]
        have ih2 := fun sf fl nc h => ih f2 (n + 1) sf fl nc h (by omega) (by omega) (by omega)
        simp only [ih2]

/-! ## Clock and page of the register primitives -/

theorem get_val (env : Env) (a : Nat) (h : HwIf) :
    (RTV_REG_GET env a h).1 = env.reg h.time h.page a % 256 := rfl

theorem get_time (env : Env) (a : Nat) (h : HwIf) :
    (RTV_REG_GET env a h).2.time = h.time + 1 := rfl

theorem get_page (env : Env) (a : Nat) (h : HwIf) :
    (RTV_REG_GET env a h).2.page = h.page := rfl

theorem get_trace (env : Env) (a : Nat) (h : HwIf) :
    (RTV_REG_GET env a h).2.trace = Event.RTV_REG_GET a :: h.trace := rfl

theorem sel_time (pg : Nat) (h : HwIf) : (RTV_REG_MAP_SEL pg h).time = h.time := rfl

theorem sel_page (pg : Nat) (h : HwIf) : (RTV_REG_MAP_SEL pg h).page = pg := rfl

theorem sel_trace (pg : Nat) (h : HwIf) :
    (RTV_REG_MAP_SEL pg h).trace = Event.RTV_REG_MAP_SEL pg :: h.trace := rfl

theorem set_time (a v : Nat) (h : HwIf) : (RTV_REG_SET a v h).time = h.time := rfl

theorem set_page (a v : Nat) (h : HwIf) : (RTV_REG_SET a v h).page = h.page := rfl

theorem mask_time (a m v : Nat) (h : HwIf) : (RTV_REG_MASK_SET a m v h).time = h.time := rfl

theorem mask_page (a m v : Nat) (h : HwIf) : (RTV_REG_MASK_SET a m v h).page = h.page := rfl

theorem delay_time (ms : Nat) (h : HwIf) : (RTV_DELAY_MS ms h).time = h.time := rfl

theorem delay_page (ms : Nat) (h : HwIf) : (RTV_DELAY_MS ms h).page = h.page := rfl

/-! ## Exits of the lock and sync code -/

/-- The FEC sync retry loop ends with "not detected", or with success after reading the FEC
sync status `0b11` and the OFDM lock bit in its last round. -/
theorem fecSyncLoop_good (env : Env) :
    ∀ (fuel n : Nat) (x : ScanExit) (h : HwIf),
      ((x.scan_flag = RtvResult.RTV_CHANNEL_NOT_DETECTED ∧ x.fail ≠ 0xEF05) ∨
        (0 < fuel ∧ n < 20)) →
      ((fecSyncLoop env fuel n x h).1.scan_flag = RtvResult.RTV_CHANNEL_NOT_DETECTED ∧
        (fecSyncLoop env fuel n x h).1.fail ≠ 0xEF05) ∨
      ((fecSyncLoop env fuel n x h).1.scan_flag = RtvResult.RTV_SUCCESS ∧
        (fecSyncLoop env fuel n x h).1.fail ≠ 0xEF05 ∧
        LockedAndSynced env (fecSyncLoop env fuel n x h).2) := by
  intro fuel
  induction fuel with
  | zero =>
    intro n x h hx
    rcases hx with hx | hx
    · exact Or.inl hx
    · omega
  | succ fuel ih =>
    intro n x h hx
    unfold fecSyncLoop
    by_cases hn : n < 20
    · rw [if_pos hn]
      simp only []
      split_ifs with hL hF h2
      · refine Or.inr ⟨rfl, by simp, Or.inr ⟨_, rfl, ?_, ?_, ?_⟩⟩
        · simp only [get_time, sel_time, delay_time]; omega
        · simp only [get_val, get_time, get_page, sel_time, sel_page, delay_time] at hF ⊢
          exact hF
        · simp only [get_val, get_time, get_page, sel_time, sel_page, delay_time] at hL ⊢
          exact hL
      · exact ih (n + 1) _ _ (Or.inl ⟨rfl, by decide⟩)
      · exact ih (n + 1) _ _ (Or.inl ⟨rfl, by decide⟩)
      · exact Or.inl ⟨rfl, by simp⟩
    · rw [if_neg hn]
      rcases hx with hx | hx
      · exact Or.inl hx
      · omega

/-- After the OFDM lock wait loop, a set lock bit in `OFDM_L` is the one read from register
`0x12` three reads before the end of the loop. -/
theorem ofdmLockLoop_lock (env : Env) :
    ∀ (fuel j L : Nat) (h : HwIf),
      ((L &&& 0x80 ≠ 0 → 3 ≤ h.time ∧ env.reg (h.time - 3) OFDM_PAGE 0x12 % 256 = L) ∨
        (0 < fuel ∧ j < 50)) →
      (ofdmLockLoop env fuel j L h).1 &&& 0x80 ≠ 0 →
        3 ≤ (ofdmLockLoop env fuel j L h).2.time ∧
        env.reg ((ofdmLockLoop env fuel j L h).2.time - 3) OFDM_PAGE 0x12 % 256
          = (ofdmLockLoop env fuel j L h).1 := by
  intro fuel
  induction fuel with
  | zero =>
    intro j L h hx
    rcases hx with hx | hx
    · exact hx
    · omega
  | succ fuel ih =>
    intro j L h hx
    unfold ofdmLockLoop
    by_cases hj : j < 50
    · rw [if_pos hj]
      simp only []
      split_ifs with hb
      · intro _
        simp only [get_val, get_time, get_page, sel_time, sel_page, delay_time, mask_time,
          mask_page, set_time, set_page]
        exact ⟨by omega, by rw [show h.time + 1 + 1 + 1 - 3 = h.time by omega]⟩
      · refine ih (j + 1) _ _ (Or.inl ?_)
        intro _
        simp only [get_val, get_time, get_page, sel_time, sel_page, delay_time, mask_time,
          mask_page, set_time, set_page]
        exact ⟨by omega, by rw [show h.time + 1 + 1 + 1 - 3 = h.time by omega]⟩
    · rw [if_neg hj]
      rcases hx with hx | hx
      · exact hx
      · omega

/-- The code run when `ccnt > 1` ends with "not detected", or with success after reading
the OFDM lock bit and the FEC sync status `0b11`. -/
theorem lockAndSync_good (env : Env) (x : ScanExit) (L : Nat) (h : HwIf) :
    ((lockAndSync env x L h).1.scan_flag = RtvResult.RTV_CHANNEL_NOT_DETECTED ∧
      (lockAndSync env x L h).1.fail ≠ 0xEF05) ∨
    ((lockAndSync env x L h).1.scan_flag = RtvResult.RTV_SUCCESS ∧
      (lockAndSync env x L h).1.fail ≠ 0xEF05 ∧
      LockedAndSynced env (lockAndSync env x L h).2) := by
  have hl := ofdmLockLoop_lock env 50 0 L h (Or.inr ⟨by omega, by omega⟩)
  unfold lockAndSync
  simp only []
  split_ifs with hb hF h2
  · obtain ⟨h3, hv⟩ := hl hb
    refine Or.inr ⟨rfl, by simp, Or.inl ⟨_, rfl, ?_, ?_, ?_⟩⟩
    · simp only [get_time, sel_time]; omega
    · simp only [get_val, get_time, get_page, sel_time, sel_page] at hF ⊢
      rw [show (ofdmLockLoop env 50 0 L h).2.time + 1 - 1 = (ofdmLockLoop env 50 0 L h).2.time
        by omega]
      exact hF
    · simp only [get_time, sel_time]
      rw [show (ofdmLockLoop env 50 0 L h).2.time + 1 - 4
        = (ofdmLockLoop env 50 0 L h).2.time - 3 by omega, hv]
      exact hb
  · exact fecSyncLoop_good env 20 0 x _ (Or.inr ⟨by omega, by omega⟩)
  · exact Or.inl ⟨rfl, by simp⟩
  · exact Or.inl ⟨rfl, by simp⟩

/-- The fine-check loop ends with "not detected", or with success after reading the OFDM lock
bit and the FEC sync status `0b11`. -/
theorem fineCheckLoop_good (cfg : BuildConfig) (env : Env) (mode pg nc : Nat) :
    ∀ (fuel i : Nat) (v : FineLocals) (h : HwIf),
      ((fineCheckLoop cfg env mode pg nc fuel i v h).1.scan_flag
          = RtvResult.RTV_CHANNEL_NOT_DETECTED ∧
        (fineCheckLoop cfg env mode pg nc fuel i v h).1.fail ≠ 0xEF05) ∨
      ((fineCheckLoop cfg env mode pg nc fuel i v h).1.scan_flag = RtvResult.RTV_SUCCESS ∧
        (fineCheckLoop cfg env mode pg nc fuel i v h).1.fail ≠ 0xEF05 ∧
        LockedAndSynced env (fineCheckLoop cfg env mode pg nc fuel i v h).2) := by
  intro fuel
  induction fuel with
  | zero => intro i v h; exact Or.inl ⟨rfl, by simp [fineCheckLoop]⟩
  | succ fuel ih =>
    intro i v h
    unfold fineCheckLoop
    by_cases hi : i < 100
    · rw [if_pos hi]
      simp only []
      split_ifs
      all_goals first
        | exact Or.inl ⟨rfl, by simp⟩
        | exact lockAndSync_good env _ _ _
        | exact ih (i + 1) _ _
    · rw [if_neg hi]
      exact Or.inl ⟨rfl, by simp⟩

/-! ## The rounds of the `while(1)` loop -/

theorem done_eq (env : Env) (h : HwIf) :
    (RTV_REG_GET env 0xCF (RTV_REG_MAP_SEL OFDM_PAGE h)).1 = scanDoneAt env h.time := rfl

theorem scanThresholds_none (adc : E_RTV_ADC_CLK_FREQ_TYPE) (m : Nat)
    (e : scanThresholds adc m = none) : ¬ adcSupported adc := by
  cases adc <;> simp [scanThresholds] at e
  simp [adcSupported]

theorem scanVerdict_step (cfg : BuildConfig) (env : Env) (adc : E_RTV_ADC_CLK_FREQ_TYPE)
    (t n fl : Nat) (r : ScanExit × HwIf) (hp : scanPending (scanDoneAt env t))
    (hv : ScanVerdict cfg env adc (t + 7) (n + 1) fl r) : ScanVerdict cfg env adc t n fl r := by
  rcases hv with hv | ⟨j, hj, hr, hrest⟩
  · exact Or.inl hv
  · refine Or.inr ⟨j + 1, by omega, ?_, ?_⟩
    · intro i hi
      cases i with
      | zero => exact hp
      | succ i =>
        have := hr i (by omega)
        rw [show t + 7 * (i + 1) = t + 7 + 7 * i by ring]
        exact this
    · rw [show t + 7 * (j + 1) = t + 7 + 7 * j by ring]
      exact hrest

theorem scanVerdict_here (cfg : BuildConfig) (env : Env) (adc : E_RTV_ADC_CLK_FREQ_TYPE)
    (t n fl : Nat) (r : ScanExit × HwIf) (th : ScanThresholds) (hn : n < 9999)
    (hd : scanDoneAt env t = 0x03) (hth : scanThresholds adc (scanModeAt env t) = some th)
    (hpw : th.PWR_TH ≤ scanPowerAt cfg env t) (hpg : th.PreGainTH ≤ preGainAt env t)
    (hr : (r.1.scan_flag = RtvResult.RTV_CHANNEL_NOT_DETECTED ∧
          (r.1.fail = 0xEF05 → preGainAt env t < 400)) ∨
        (r.1.scan_flag = RtvResult.RTV_SUCCESS ∧ r.1.fail ≠ 0xEF05 ∧
          LockedAndSynced env r.2)) : ScanVerdict cfg env adc t n fl r :=
  Or.inr ⟨0, by omega, fun i hi => absurd hi (Nat.not_lt_zero i), hd, th, hth, hpw, hpg, hr⟩

theorem scanVerdict_early (cfg : BuildConfig) (env : Env) (adc : E_RTV_ADC_CLK_FREQ_TYPE)
    (t n fl c : Nat) (h : HwIf) (hc : c ≠ 0xEF05) :
    ScanVerdict cfg env adc t n fl (⟨RtvResult.RTV_CHANNEL_NOT_DETECTED, c⟩, h) :=
  Or.inl ⟨Or.inl rfl, fun e => absurd e hc⟩

theorem nullSampleLoop_exit (env : Env) (mode pg : Nat) (sf : RtvResult) (fl nc : Nat)
    (h : HwIf) (x : ScanExit) (h2 : HwIf)
    (e : nullSampleLoop env mode pg 16 0 sf fl nc h = (NullOutcome.exit x, h2)) :
    x.scan_flag = RtvResult.RTV_CHANNEL_NOT_DETECTED ∧ (x.fail = 0xEF05 → pg < 400) := by
  rcases nullSampleLoop_outcome env mode pg 16 0 sf fl nc h (by omega) (by omega) with
    ⟨h3, e3⟩ | ⟨hpg, h3, e3⟩ | ⟨nc3, h3, e3⟩
  · rw [e] at e3; cases e3; exact ⟨rfl, fun c => absurd c (by decide)⟩
  · rw [e] at e3; cases e3; exact ⟨rfl, fun _ => hpg⟩
  · rw [e] at e3; cases e3

/-- Every run of the `while(1)` loop with enough fuel ends in one of the ways listed by
`ScanVerdict`. -/
theorem scanLoop_verdict (cfg : BuildConfig) (env : Env) (band : E_RTV_COUNTRY_BAND_TYPE)
    (adc : E_RTV_ADC_CLK_FREQ_TYPE) :
    ∀ (fuel n : Nat) (sf : RtvResult) (fl nc : Nat) (h : HwIf), n < 10000 → 10000 ≤ n + fuel →
      ScanVerdict cfg env adc h.time n fl (scanLoop cfg env band adc fuel ⟨n, sf, fl, nc⟩ h) := by
  intro fuel
  induction fuel with
  | zero => intro n sf fl nc h h0 h1; omega
  | succ fuel ih =>
    intro n sf fl nc h h0 h1
    unfold scanLoop
    simp only []
    rw [Nat.mod_eq_of_lt (show n + 1 < 2 ^ 32 by omega)]
    by_cases ht : n + 1 = 10000
    · rw [if_pos ht]; exact scanVerdict_early cfg env adc _ _ _ _ _ (by decide)
    · rw [if_neg ht]
      repeat' split
      all_goals first
        | exact scanVerdict_early cfg env adc _ _ _ _ _ (by decide)
        | (rename_i hd o heq
           exact Or.inl ⟨Or.inr ⟨rfl, scanThresholds_none _ _ heq⟩, fun e => e⟩)
        | (rename_i hd o th heq h1 h3 hE002 hEF33 hpw hpg o2 x h2 hnull
           exact scanVerdict_here cfg env adc _ _ _ _ th (by omega) h3 heq
             (Nat.le_of_not_lt hpw) (Nat.le_of_not_lt (fun c => hpg (Or.inl c)))
             (Or.inl (nullSampleLoop_exit _ _ _ _ _ _ _ _ _ hnull)))
        | (rename_i hd o th heq h1 h3 hE002 hEF33 hpw hpg o2 sf2 fl2 nc2 h2 hnull hs
           exact absurd (nullSampleLoop_done_success _ _ _ _ _ _ _ _ _ _ _ hnull).1 hs)
        | (rename_i hd o th heq h1 h3 hE002 hEF33 hpw hpg o2 sf2 fl2 nc2 h2 hnull hs
           exact scanVerdict_here cfg env adc _ _ _ _ th (by omega) h3 heq
             (Nat.le_of_not_lt hpw) (Nat.le_of_not_lt (fun c => hpg (Or.inl c)))
             ((fineCheckLoop_good cfg env _ _ _ 100 0 _ _).imp
               (fun a => ⟨a.1, fun e => absurd e a.2⟩) id))
        | (rename_i hd o th heq h1 h3
           exact scanVerdict_step cfg env adc _ _ _ _ ⟨hd, h1, h3⟩
             (ih (n + 1) sf fl nc _ (by omega) (by omega)))

/-! ## Closing makes no read -/

theorem time_closeSwitch (id hw : Nat) (s : ChipState) :
    (closeSwitch id hw s).hw.time = s.hw.time := by
  unfold closeSwitch
  split_ifs <;> rfl

theorem time_closeResetMSC1 (cfg : BuildConfig) (s : ChipState) :
    (closeResetMSC1 cfg s).hw.time = s.hw.time := by
  unfold closeResetMSC1
  split_ifs <;> rfl

theorem time_closeResetMSC0 (cfg : BuildConfig) (s : ChipState) :
    (closeResetMSC0 cfg s).hw.time = s.hw.time := by
  unfold closeResetMSC0
  split_ifs <;> rfl

theorem time_closeHw (cfg : BuildConfig) (id hw : Nat) (s : ChipState) :
    (closeSubChannelHw cfg id hw s).hw.time = s.hw.time := by
  unfold closeSubChannelHw
  split_ifs
  · rfl
  · rfl
  · show (closeResetMSC0 cfg (closeResetMSC1 cfg (closeSwitch id hw s))).hw.time = _
    rw [time_closeResetMSC0, time_closeResetMSC1, time_closeSwitch]
  · rw [time_closeResetMSC0, time_closeResetMSC1, time_closeSwitch]

theorem close_time (cfg : BuildConfig) (i : Nat) (s : ChipState) :
    (tdmb_CloseSubChannel cfg i s).hw.time = s.hw.time := by
  unfold tdmb_CloseSubChannel
  split_ifs
  · rfl
  · exact time_closeHw cfg _ _ s

theorem closeAll_time (cfg : BuildConfig) (s : ChipState) :
    (tdmb_CloseAllSubChannel cfg s).hw.time = s.hw.time := by
  unfold tdmb_CloseAllSubChannel
  exact closeAllLoop_preserves cfg (fun t => t.hw.time = s.hw.time)
    (fun t i ht => by
      show (tdmb_CloseSubChannel cfg i t).hw.time = _
      rw [close_time]; exact ht) _ _ _ _ rfl

/-- The state in which the tuner is called by the frequency-changing paths (scan, open on a new
frequency) has the clock of the state before the call. -/
theorem closed_time (cfg : BuildConfig) (s : ChipState) :
    (if cfg.single then tdmb_CloseSubChannel cfg 0 s else tdmb_CloseAllSubChannel cfg s).hw.time
      = s.hw.time := by
  split_ifs
  · exact close_time cfg 0 s
  · exact closeAll_time cfg s

/-- C21: for every build, every collaborator oracle (tuner failure, unsupported ADC clock,
rejection, timeout and success alike), every requested frequency `f` and every prior chip
state, after `rtvTDMB_ScanFrequency(f)` the previous frequency equals `f` and the
channel-changing flag is false. -/
theorem scan_records_frequency_and_clears_flag (cfg : BuildConfig) (env : Env) (f : Nat)
    (s : ChipState) :
    (rtvTDMB_ScanFrequency cfg env f s).2.g_aTdmbPrevChFreqKHz = f ∧
    (rtvTDMB_ScanFrequency cfg env f s).2.g_afRtvChannelChange = false := by
  unfold rtvTDMB_ScanFrequency
  exact ⟨rfl, rfl⟩

theorem used_zero_of_empty {cfg : BuildConfig} {s : ChipState} (h : RegInv cfg s)
    (he : ∀ i, ¬ Registered s i) : s.g_aRtvUsedHwSubChIdxBits = 0 := by
  apply Nat.zero_of_testBit_eq_false
  intro b
  have := (h.empty he).1 b
  unfold UsedHw at this
  simpa using this

theorem ids_zero_of_empty {cfg : BuildConfig} {s : ChipState} (h : RegInv cfg s)
    (he : ∀ i, ¬ Registered s i) (w : Nat) (hw : w < 2) : s.g_aRegSubChIdBits w = 0 := by
  apply Nat.zero_of_testBit_eq_false
  intro c
  by_contra hc
  have hc1 : (s.g_aRegSubChIdBits w).testBit c = true := by simpa using hc
  have hc32 := h.word_lt w c hw hc1
  have hk : w * 32 + c < 64 := by omega
  apply (h.empty he).2 (w * 32 + c) hk
  unfold IdBit
  have e1 : SUBCH_GRP_IDX (w * 32 + c) = w := by
    unfold SUBCH_GRP_IDX
    rw [Nat.shiftRight_eq_div_pow]
    norm_num
    omega
  have e2 : MOD32 (w * 32 + c) = c := by
    unfold MOD32
    have h5 := Nat.and_pow_two_sub_one_eq_mod (w * 32 + c) 5
    norm_num at h5
    rw [h5]
    omega
  rw [e1, e2]
  exact hc1

/-- C28: for every prior chip state in which the registration invariants hold and every
register and tuner oracle, after `rtvTDMB_ScanFrequency` no sub-channel is registered:
`usedHardwareSlotMask`, `registeredSlotMask` and both words of `registeredSubChannelIdBits`
are zero. -/
theorem scan_leaves_nothing_registered (cfg : BuildConfig) (env : Env) (f : Nat)
    (s : ChipState) (h : RegInv cfg s) :
    (rtvTDMB_ScanFrequency cfg env f s).2.g_aRtvUsedHwSubChIdxBits = 0 ∧
    (rtvTDMB_ScanFrequency cfg env f s).2.g_aRegSubChArrayIdxBits = 0 ∧
    (rtvTDMB_ScanFrequency cfg env f s).2.g_aRegSubChIdBits 0 = 0 ∧
    (rtvTDMB_ScanFrequency cfg env f s).2.g_aRegSubChIdBits 1 = 0 := by
  have h0 : RegInv cfg (Mtv818.emit Event.RTV_GUARD_LOCK
      { s with g_afRtvChannelChange := true }) := h.reg_congr rfl rfl rfl rfl
  obtain ⟨h1, he⟩ := h0.closed_for_new_freq _ rfl
  unfold rtvTDMB_ScanFrequency
  simp only []
  generalize (if cfg.single = true then tdmb_CloseSubChannel cfg 0 (Mtv818.emit
    Event.RTV_GUARD_LOCK { s with g_afRtvChannelChange := true })
    else tdmb_CloseAllSubChannel cfg (Mtv818.emit Event.RTV_GUARD_LOCK
    { s with g_afRtvChannelChange := true })) = s2 at h1 he ⊢
  exact ⟨used_zero_of_empty h1 he, reg_zero_of_empty s2 he,
    ids_zero_of_empty h1 he 0 (by norm_num), ids_zero_of_empty h1 he 1 (by norm_num)⟩

theorem and_0x79_eq (used : Nat)
    (h : ∀ b, used.testBit b = true → b = 0 ∨ b = 3 ∨ b = 4 ∨ b = 5 ∨ b = 6) :
    used &&& 0x79 = used := by
  apply Nat.eq_of_testBit_eq
  intro b
  rw [Nat.testBit_and]
  by_cases hb : used.testBit b = true
  · rcases h b hb with e | e | e | e | e <;> subst e <;> simp [hb] <;> decide
  · simp only [Bool.not_eq_true] at hb
    rw [hb]; simp

theorem lt_32_of_bits (x : Nat) (h : ∀ i, x.testBit i = true → i < 5) : x < 32 := by
  by_contra hge
  have hx : 2 ^ 5 ≤ x := by omega
  obtain ⟨i, hi, hb⟩ := Nat.ge_two_pow_implies_high_bit_true hx
  have := h i hb
  omega

/-- C29: in a multi-slot build with a registration table of at least 5 entries, in every
state reachable from `Initialize` via `OpenSubChannel`, `CloseSubChannel` and `ScanFrequency`:
`usedHardwareSlotMask` has no bit set outside {0,3,4,5,6} (mask `0x79`), every registered table
index is below 5 and at most 5 entries are registered; the hardware slot search of
`tdmb_OpenSubChannel` never yields index 7 and the free-table-index search never fails, both
on the same-frequency path (when the needed hardware class is not fully occupied, the case
that reaches the searches) and on the new-frequency path (after all sub-channels are
closed). -/
theorem slots_and_table_indices_bounded (cfg : BuildConfig) (env : Env) (s : ChipState)
    (hbuild : 5 ≤ cfg.RTV_MAX_NUM_SUB_CHANNEL_USED) (hreach : Reachable cfg env s) :
    (∀ b, UsedHw s b → b = 0 ∨ b = 3 ∨ b = 4 ∨ b = 5 ∨ b = 6) ∧
    s.g_aRtvUsedHwSubChIdxBits &&& 0x79 = s.g_aRtvUsedHwSubChIdxBits ∧
    (∀ i, Registered s i → i < 5) ∧
    s.g_aRegSubChArrayIdxBits < 32 ∧
    ((Finset.range 32).filter (fun i => Registered s i)).card ≤ 5 ∧
    (∀ svc : E_RTV_TDMB_SERVICE_TYPE,
      (svc = E_RTV_TDMB_SERVICE_TYPE.RTV_TDMB_SERVICE_VIDEO → ¬ UsedHw s 0) →
      (svc ≠ E_RTV_TDMB_SERVICE_TYPE.RTV_TDMB_SERVICE_VIDEO →
        ¬ (UsedHw s 3 ∧ UsedHw s 4 ∧ UsedHw s 5 ∧ UsedHw s 6)) →
      openHwIdx cfg svc s ≠ 7 ∧ openIdx cfg s ≠ none) ∧
    (∀ (f : Nat) (svc : E_RTV_TDMB_SERVICE_TYPE),
      openHwIdx cfg svc (tdmb_CloseAllSubChannel cfg (emit Event.RTV_GUARD_LOCK
        { s with g_aTdmbPrevChFreqKHz := f, g_afRtvChannelChange := true })) ≠ 7 ∧
      openIdx cfg (tdmb_CloseAllSubChannel cfg (emit Event.RTV_GUARD_LOCK
        { s with g_aTdmbPrevChFreqKHz := f, g_afRtvChannelChange := true })) ≠ none) := by
  have hroomy : cfg.roomy := Or.inr hbuild
  have hs : cfg.single = false := by
    unfold BuildConfig.single; simp; omega
  have h : RegInv cfg s := RegInv.reg_of_reachable hroomy hreach
  have hsingle : ∀ t : ChipState, cfg.single = true → ∀ i, ¬ Registered t i := by
    intro t h1; rw [hs] at h1; cases h1
  have hused : ∀ b, UsedHw s b → b = 0 ∨ b = 3 ∨ b = 4 ∨ b = 5 ∨ b = 6 := by
    intro b hb
    obtain ⟨i, hi, e⟩ := (h.used_iff b).1 hb
    rcases h.hw_rng i hi with h0 | ⟨_, h0⟩ <;> omega
  have hidx : ∀ i, Registered s i → i < 5 := by
    intro i hi
    have := h.idx i hi
    simpa [hs] using this
  have key : ∀ (t : ChipState) (svc : E_RTV_TDMB_SERVICE_TYPE), RegInv cfg t →
      (svc = E_RTV_TDMB_SERVICE_TYPE.RTV_TDMB_SERVICE_VIDEO → ¬ UsedHw t 0) →
      (svc ≠ E_RTV_TDMB_SERVICE_TYPE.RTV_TDMB_SERVICE_VIDEO →
        ¬ (UsedHw t 3 ∧ UsedHw t 4 ∧ UsedHw t 5 ∧ UsedHw t 6)) →
      openHwIdx cfg svc t ≠ 7 ∧ openIdx cfg t ≠ none := by
    intro t svc ht hv ha
    obtain ⟨_, hrng⟩ := openHwIdx_spec ht svc (hsingle t) (fun _ => hv) (fun _ => ha)
    obtain ⟨i, hi, _⟩ := openIdx_spec ht hroomy svc (hsingle t) (fun _ => hv) (fun _ => ha)
    refine ⟨?_, by rw [hi]; simp⟩
    rcases hrng with e | ⟨_, e | e | e | e⟩ <;> omega
  refine ⟨hused, and_0x79_eq _ hused, hidx, lt_32_of_bits _ hidx, ?_, ?_, ?_⟩
  · calc ((Finset.range 32).filter (fun i => Registered s i)).card
        ≤ (Finset.range 5).card := by
          apply Finset.card_le_card
          intro i hi
          simp only [Finset.mem_filter, Finset.mem_range] at hi ⊢
          exact hidx i hi.2
      _ = 5 := Finset.card_range 5
  · intro svc hv ha
    exact key s svc h hv ha
  · intro f svc
    have h0 : RegInv cfg (Mtv818.emit Event.RTV_GUARD_LOCK
        { s with g_aTdmbPrevChFreqKHz := f, g_afRtvChannelChange := true }) :=
      h.reg_congr rfl rfl rfl rfl
    have h1 := h0.reg_closeAll
    have he := closeAll_empty cfg _ h0.lt32
    have hu := (h1.empty he).1
    exact key _ svc h1 (fun _ => hu 0) (fun _ hx => hu 3 hx.1)

/-- C29 at the state with Audio ID 1 open in the build with a table of 5 entries. -/
theorem slots_and_table_indices_bounded_witness :
    5 ≤ cfgM5.RTV_MAX_NUM_SUB_CHANNEL_USED ∧ Reachable cfgM5 quietEnv audioOnly ∧
    audioOnly.g_aRtvUsedHwSubChIdxBits &&& 0x79 = audioOnly.g_aRtvUsedHwSubChIdxBits ∧
    audioOnly.g_aRegSubChArrayIdxBits < 32 :=
  ⟨by decide, audioOnly_reachable,
    (slots_and_table_indices_bounded cfgM5 quietEnv audioOnly (by decide)
      audioOnly_reachable).2.1,
    (slots_and_table_indices_bounded cfgM5 quietEnv audioOnly (by decide)
      audioOnly_reachable).2.2.2.1⟩

theorem rtvOpen_new_freq (cfg : BuildConfig) (env : Env) (f k : Nat)
    (svc : E_RTV_TDMB_SERVICE_TYPE) (thr : Nat) (s : ChipState)
    (hk : k < 64) (hthr : thresholdAccepted cfg thr) (hf : f ≠ s.g_aTdmbPrevChFreqKHz) :
    rtvTDMB_OpenSubChannel cfg env f k svc thr s = openNewFreq cfg env f k svc thr s := by
  apply rtvOpen_cases cfg env f k svc thr s (fun r => r = openNewFreq cfg env f k svc thr s)
  · intro h; omega
  · intro _ hn; exact absurd hthr hn
  · intro _ _ e; exact absurd e.symm hf
  · intro _ _ e; exact absurd e.symm hf
  · intro _ _ e; exact absurd e.symm hf
  · intro _ _ e; exact absurd e.symm hf
  · intro _ _ e; exact absurd e.symm hf
  · intro _ _ _; rfl

theorem registered_lt_32 (s : ChipState) (h32 : s.g_aRegSubChArrayIdxBits < 2 ^ 32) (i : Nat)
    (hi : Registered s i) : i < 32 := by
  by_contra hge
  have : s.g_aRegSubChArrayIdxBits.testBit i = false :=
    Nat.testBit_lt_two_pow (lt_of_lt_of_le h32 (Nat.pow_le_pow_right (by norm_num) (by omega)))
  unfold Registered at hi
  rw [this] at hi
  cases hi

/-- The table index chosen by `tdmb_OpenSubChannel` after the sub-channels were closed for a
new frequency is 0. -/
theorem openIdx_closed (cfg : BuildConfig) (s t : ChipState)
    (hmax : 0 < cfg.RTV_MAX_NUM_SUB_CHANNEL_USED)
    (h32 : s.g_aRegSubChArrayIdxBits < 2 ^ 32)
    (ht : t.g_aRegSubChArrayIdxBits
      = (if cfg.single then tdmb_CloseSubChannel cfg 0 s
          else tdmb_CloseAllSubChannel cfg s).g_aRegSubChArrayIdxBits) :
    openIdx cfg t = some 0 := by
  unfold openIdx
  by_cases hs : cfg.single = true
  · rw [if_pos hs]
  · rw [if_neg hs]
    rw [if_neg hs] at ht
    have he := closeAll_empty cfg s (registered_lt_32 s h32)
    rw [ht, reg_zero_of_empty _ he]
    unfold searchFreeArrayIdx
    obtain ⟨n, hn⟩ := Nat.exists_eq_succ_of_ne_zero (Nat.pos_iff_ne_zero.1 hmax)
    rw [hn]
    unfold searchFreeFrom
    simp

theorem closed_prev (cfg : BuildConfig) (s : ChipState) :
    (if cfg.single then tdmb_CloseSubChannel cfg 0 s
      else tdmb_CloseAllSubChannel cfg s).g_aTdmbPrevChFreqKHz = s.g_aTdmbPrevChFreqKHz := by
  split_ifs
  · exact close_prev cfg 0 s
  · exact (closeAll_prev cfg s).1

/-- What the frequency-changing path of `rtvTDMB_OpenSubChannel` leaves behind, whatever the
tuner answered. -/
theorem openNewFreq_registers (cfg : BuildConfig) (env : Env) (f k : Nat)
    (svc : E_RTV_TDMB_SERVICE_TYPE) (thr : Nat) (s : ChipState)
    (hmax : 0 < cfg.RTV_MAX_NUM_SUB_CHANNEL_USED)
    (h32 : s.g_aRegSubChArrayIdxBits < 2 ^ 32) :
    (openNewFreq cfg env f k svc thr s).1
      = RtvResult.ofCollaborator (env.rfSetFrequency s.hw.time f) ∧
    IdBit (openNewFreq cfg env f k svc thr s).2 k ∧
    (Registered (openNewFreq cfg env f k svc thr s).2 0 ∧
      ((openNewFreq cfg env f k svc thr s).2.g_atTdmbRegSubchInfo 0).nSubChID = k ∧
      UsedHw (openNewFreq cfg env f k svc thr s).2
        ((openNewFreq cfg env f k svc thr s).2.g_atTdmbRegSubchInfo 0).nHwSubChIdx) ∧
    (openNewFreq cfg env f k svc thr s).2.g_aTdmbPrevChFreqKHz = f ∧
    (openNewFreq cfg env f k svc thr s).2.g_afRtvChannelChange = false := by
  have ht := closed_time cfg (Mtv818.emit Event.RTV_GUARD_LOCK
    { s with g_aTdmbPrevChFreqKHz := f, g_afRtvChannelChange := true })
  have hp := closed_prev cfg (Mtv818.emit Event.RTV_GUARD_LOCK
    { s with g_aTdmbPrevChFreqKHz := f, g_afRtvChannelChange := true })
  have hi := fun t => openIdx_closed cfg (Mtv818.emit Event.RTV_GUARD_LOCK
    { s with g_aTdmbPrevChFreqKHz := f, g_afRtvChannelChange := true }) t hmax h32
  unfold openNewFreq
  simp only []
  generalize (if cfg.single = true then tdmb_CloseSubChannel cfg 0 (Mtv818.emit
    Event.RTV_GUARD_LOCK { s with g_aTdmbPrevChFreqKHz := f, g_afRtvChannelChange := true })
    else tdmb_CloseAllSubChannel cfg (Mtv818.emit Event.RTV_GUARD_LOCK
    { s with g_aTdmbPrevChFreqKHz := f, g_afRtvChannelChange := true })) = s2 at ht hp hi ⊢
  have hi0 := hi { s2 with hw := (rtvRF_SetFrequency env f s2.hw).2 } rfl
  obtain ⟨hr, htab⟩ := open_reg_some cfg k svc (effectiveThreshold cfg thr)
    { s2 with hw := (rtvRF_SetFrequency env f s2.hw).2 } 0 hi0
  have hu := open_usedHw cfg k svc (effectiveThreshold cfg thr)
    { s2 with hw := (rtvRF_SetFrequency env f s2.hw).2 }
  have hid := open_idBit cfg k svc (effectiveThreshold cfg thr)
    { s2 with hw := (rtvRF_SetFrequency env f s2.hw).2 } k
  have hpr := open_prev cfg k svc (effectiveThreshold cfg thr)
    { s2 with hw := (rtvRF_SetFrequency env f s2.hw).2 }
  refine ⟨?_, ?_, ⟨?_, ?_, ?_⟩, ?_, trivial⟩
  · show RtvResult.ofCollaborator (env.rfSetFrequency s2.hw.time f) = _
    rw [ht]; rfl
  · exact hid.2 (Or.inr rfl)
  · exact (hr 0).2 (Or.inr ⟨by norm_num, rfl⟩)
  · show ((tdmb_OpenSubChannel cfg k svc (effectiveThreshold cfg thr)
      { s2 with hw := (rtvRF_SetFrequency env f s2.hw).2 }).g_atTdmbRegSubchInfo 0).nSubChID = k
    rw [htab, Function.update_same]
  · show UsedHw (tdmb_OpenSubChannel cfg k svc (effectiveThreshold cfg thr)
      { s2 with hw := (rtvRF_SetFrequency env f s2.hw).2 })
      ((tdmb_OpenSubChannel cfg k svc (effectiveThreshold cfg thr)
        { s2 with hw := (rtvRF_SetFrequency env f s2.hw).2 }).g_atTdmbRegSubchInfo
          0).nHwSubChIdx
    rw [htab, Function.update_same]
    exact (hu _).2 (Or.inr ⟨openHwIdx_lt cfg svc _, rfl⟩)
  · show (tdmb_OpenSubChannel cfg k svc (effectiveThreshold cfg thr)
      { s2 with hw := (rtvRF_SetFrequency env f s2.hw).2 }).g_aTdmbPrevChFreqKHz = f
    rw [hpr]
    exact hp

/-- C27: if the tuner fails with code `c` during an `OpenSubChannel` call with a valid ID
`k`, an accepted threshold and a frequency `f` other than the previous one, the call returns
the tuner's failure code, yet afterwards the ID bit of `k` is set, a registered table entry
holds `k` and the bit of its hardware slot is set, the previous frequency equals `f` and the
channel-changing flag is false; an immediate identical retry returns success and its only
collaborator calls are lock, `rtv_StreamRestore`, unlock (no tuner call). -/
theorem open_after_tuner_failure_registers (cfg : BuildConfig) (env : Env) (f k : Nat)
    (svc : E_RTV_TDMB_SERVICE_TYPE) (thr : Nat) (s : ChipState) (c : Nat)
    (hmax : 0 < cfg.RTV_MAX_NUM_SUB_CHANNEL_USED)
    (h32 : s.g_aRegSubChArrayIdxBits < 2 ^ 32)
    (hk : k < 64) (hthr : thresholdAccepted cfg thr) (hf : f ≠ s.g_aTdmbPrevChFreqKHz)
    (hfail : env.rfSetFrequency s.hw.time f = some c) :
    (rtvTDMB_OpenSubChannel cfg env f k svc thr s).1 = RtvResult.collaboratorFailure c ∧
    IdBit (rtvTDMB_OpenSubChannel cfg env f k svc thr s).2 k ∧
    (∃ i, Registered (rtvTDMB_OpenSubChannel cfg env f k svc thr s).2 i ∧
      ((rtvTDMB_OpenSubChannel cfg env f k svc thr s).2.g_atTdmbRegSubchInfo i).nSubChID = k ∧
      UsedHw (rtvTDMB_OpenSubChannel cfg env f k svc thr s).2
        ((rtvTDMB_OpenSubChannel cfg env f k svc thr s).2.g_atTdmbRegSubchInfo i).nHwSubChIdx) ∧
    (rtvTDMB_OpenSubChannel cfg env f k svc thr s).2.g_aTdmbPrevChFreqKHz = f ∧
    (rtvTDMB_OpenSubChannel cfg env f k svc thr s).2.g_afRtvChannelChange = false ∧
    (rtvTDMB_OpenSubChannel cfg env f k svc thr
      (rtvTDMB_OpenSubChannel cfg env f k svc thr s).2).1 = RtvResult.RTV_SUCCESS ∧
    callTrace (rtvTDMB_OpenSubChannel cfg env f k svc thr s).2
      (rtvTDMB_OpenSubChannel cfg env f k svc thr
        (rtvTDMB_OpenSubChannel cfg env f k svc thr s).2).2
      = [Event.RTV_GUARD_LOCK, Event.rtv_StreamRestore, Event.RTV_GUARD_FREE] := by
  rw [rtvOpen_new_freq cfg env f k svc thr s hk hthr hf]
  obtain ⟨h1, h2, h3, h4, h5⟩ := openNewFreq_registers cfg env f k svc thr s hmax h32
  have hre := rtvOpen_registered cfg env k svc thr (openNewFreq cfg env f k svc thr s).2
    hk h2 hthr
  rw [h4] at hre
  refine ⟨?_, h2, ⟨0, h3⟩, h4, h5, ?_, ?_⟩
  · rw [h1, hfail]; rfl
  · rw [hre]
  · rw [hre]
    exact restoreStream_trace _

/-- C27 at the state with Audio ID 1 open on frequency 100: opening Audio ID 2 on frequency
200 with a tuner that fails with code 5. -/
theorem open_after_tuner_failure_registers_witness :
    0 < cfgM5.RTV_MAX_NUM_SUB_CHANNEL_USED ∧ audioOnly.g_aRegSubChArrayIdxBits < 2 ^ 32 ∧
    2 < 64 ∧ thresholdAccepted cfgM5 188 ∧ 200 ≠ audioOnly.g_aTdmbPrevChFreqKHz ∧
    (rtvTDMB_OpenSubChannel cfgM5 (tunerFailEnv 5) 200 2
      E_RTV_TDMB_SERVICE_TYPE.RTV_TDMB_SERVICE_AUDIO 188 audioOnly).1
      = RtvResult.collaboratorFailure 5 ∧
    IdBit (rtvTDMB_OpenSubChannel cfgM5 (tunerFailEnv 5)
      200 2 E_RTV_TDMB_SERVICE_TYPE.RTV_TDMB_SERVICE_AUDIO 188 audioOnly).2 2 :=
  ⟨by decide, by decide, by decide, by decide, by decide,
    (open_after_tuner_failure_registers cfgM5
      (tunerFailEnv 5) 200 2
      E_RTV_TDMB_SERVICE_TYPE.RTV_TDMB_SERVICE_AUDIO 188 audioOnly 5 (by decide) (by decide)
      (by decide) (by decide) (by decide) rfl).1,
    (open_after_tuner_failure_registers cfgM5
      (tunerFailEnv 5) 200 2
      E_RTV_TDMB_SERVICE_TYPE.RTV_TDMB_SERVICE_AUDIO 188 audioOnly 5 (by decide) (by decide)
      (by decide) (by decide) (by decide) rfl).2.1⟩

/-! ## The state in which the scan calls the tuner -/

theorem close_adc_band (cfg : BuildConfig) (i : Nat) (s : ChipState) :
    (tdmb_CloseSubChannel cfg i s).g_eRtvCountryBandType = s.g_eRtvCountryBandType ∧
    (tdmb_CloseSubChannel cfg i s).g_aeRtvAdcClkFreqType = s.g_aeRtvAdcClkFreqType := by
  by_cases h : i < 32 ∧ Registered s i
  · have := close_globals cfg i s h
    simp only [globals, Prod.mk.injEq] at this
    exact ⟨this.2.2.2.2.2.2.2.1, this.2.2.2.2.2.2.2.2⟩
  · rw [close_noop cfg i s h]; exact ⟨rfl, rfl⟩

theorem closeAll_adc_band (cfg : BuildConfig) (s : ChipState) :
    (tdmb_CloseAllSubChannel cfg s).g_eRtvCountryBandType = s.g_eRtvCountryBandType ∧
    (tdmb_CloseAllSubChannel cfg s).g_aeRtvAdcClkFreqType = s.g_aeRtvAdcClkFreqType := by
  unfold tdmb_CloseAllSubChannel
  exact closeAllLoop_preserves cfg
    (fun t => t.g_eRtvCountryBandType = s.g_eRtvCountryBandType ∧
      t.g_aeRtvAdcClkFreqType = s.g_aeRtvAdcClkFreqType)
    (fun t i ht => by
      show (tdmb_CloseSubChannel cfg i t).g_eRtvCountryBandType = _ ∧
        (tdmb_CloseSubChannel cfg i t).g_aeRtvAdcClkFreqType = _
      rw [(close_adc_band cfg i t).1, (close_adc_band cfg i t).2]; exact ht) _ _ _ _ ⟨rfl, rfl⟩

theorem scanClosed_time (cfg : BuildConfig) (s : ChipState) :
    (scanClosed cfg s).hw.time = s.hw.time := by
  unfold scanClosed
  exact closed_time cfg _

theorem scanClosed_adc (cfg : BuildConfig) (s : ChipState) :
    (scanClosed cfg s).g_aeRtvAdcClkFreqType = s.g_aeRtvAdcClkFreqType := by
  unfold scanClosed
  split_ifs
  · exact (close_adc_band cfg 0 _).2
  · exact (closeAll_adc_band cfg _).2

theorem scanClosed_band (cfg : BuildConfig) (s : ChipState) :
    (scanClosed cfg s).g_eRtvCountryBandType = s.g_eRtvCountryBandType := by
  unfold scanClosed
  split_ifs
  · exact (close_adc_band cfg 0 _).1
  · exact (closeAll_adc_band cfg _).1

/-! ## The scan after the tuner call -/

theorem scanBody_tuner_ok (cfg : BuildConfig) (env : Env) (band : E_RTV_COUNTRY_BAND_TYPE)
    (adc : E_RTV_ADC_CLK_FREQ_TYPE) (f : Nat) (h : HwIf)
    (ht : env.rfSetFrequency h.time f = none) :
    scanBody cfg env band adc f h
      = scanLoop cfg env band adc 10000 ⟨0, RtvResult.RTV_SUCCESS, 0xFFFF, 0⟩
          (tdmb_SoftReset (RTV_REG_SET 0x54 0x70 (RTV_REG_MAP_SEL OFDM_PAGE
            (rtvRF_SetFrequency env f h).2))) := by
  unfold scanBody
  have h1 : (rtvRF_SetFrequency env f h).1 = RtvResult.RTV_SUCCESS := by
    unfold rtvRF_SetFrequency; simp only [ht]; rfl
  simp only []
  rw [if_neg (by rw [h1]; exact fun c => c rfl), h1]

theorem scanBody_tuner_fail (cfg : BuildConfig) (env : Env) (band : E_RTV_COUNTRY_BAND_TYPE)
    (adc : E_RTV_ADC_CLK_FREQ_TYPE) (f : Nat) (h : HwIf) (c : Nat)
    (ht : env.rfSetFrequency h.time f = some c) :
    scanBody cfg env band adc f h
      = (⟨RtvResult.collaboratorFailure c, 0⟩, (rtvRF_SetFrequency env f h).2) := by
  unfold scanBody
  have h1 : (rtvRF_SetFrequency env f h).1 = RtvResult.collaboratorFailure c := by
    unfold rtvRF_SetFrequency; simp only [ht]; rfl
  simp only []
  rw [if_pos (by rw [h1]; exact fun c => by cases c), h1]

theorem scanBody_verdict (cfg : BuildConfig) (env : Env) (band : E_RTV_COUNTRY_BAND_TYPE)
    (adc : E_RTV_ADC_CLK_FREQ_TYPE) (f : Nat) (h : HwIf)
    (ht : env.rfSetFrequency h.time f = none) :
    ScanVerdict cfg env adc (h.time + 1) 0 0xFFFF (scanBody cfg env band adc f h) := by
  rw [scanBody_tuner_ok cfg env band adc f h ht]
  exact scanLoop_verdict cfg env band adc 10000 0 _ _ _ _ (by omega) (by omega)

/-- With a supported ADC clock and a scan-done flag that asks for another poll in every
round, the `while(1)` loop leaves through its timeout branch. -/
theorem scanLoop_timeout (cfg : BuildConfig) (env : Env) (band : E_RTV_COUNTRY_BAND_TYPE)
    (adc : E_RTV_ADC_CLK_FREQ_TYPE) (hadc : adcSupported adc) :
    ∀ (fuel n : Nat) (sf : RtvResult) (fl nc : Nat) (h : HwIf), n < 10000 → 10000 ≤ n + fuel →
      (∀ j, n + j < 9999 → scanPending (scanDoneAt env (h.time + 7 * j))) →
      (scanLoop cfg env band adc fuel ⟨n, sf, fl, nc⟩ h).1
        = ⟨RtvResult.RTV_CHANNEL_NOT_DETECTED, 0xFF0D⟩ := by
  intro fuel
  induction fuel with
  | zero => intro n sf fl nc h h0 h1; omega
  | succ fuel ih =>
    intro n sf fl nc h h0 h1 hp
    unfold scanLoop
    simp only []
    rw [Nat.mod_eq_of_lt (show n + 1 < 2 ^ 32 by omega)]
    by_cases ht : n + 1 = 10000
    · rw [if_pos ht]
    · rw [if_neg ht]
      have hp0 : scanPending (scanDoneAt env h.time) := by
        have := hp 0 (by omega)
        simpa using this
      rw [← done_eq] at hp0
      repeat' split
      all_goals first
        | (rename_i hd o heq; exact absurd hadc (scanThresholds_none _ _ heq))
        | (rename_i hd o th heq h1 h3
           refine ih (n + 1) sf fl nc _ (by omega) (by omega) ?_
           intro j hj
           have := hp (j + 1) (by omega)
           rw [show h.time + 7 * (j + 1) = h.time + 7 + 7 * j by ring] at this
           exact this)
        | (exfalso; rename_i hd; exact hd hp0.1)
        | (exfalso; rename_i hd o th heq h1; exact hp0.2.1 h1)
        | (exfalso; rename_i hd o th heq h1 h3 _; exact hp0.2.2 h3)
        | (exfalso; rename_i hd o th heq h1 h3 _ _; exact hp0.2.2 h3)
        | (exfalso; rename_i hd o th heq h1 h3 _ _ _; exact hp0.2.2 h3)
        | (exfalso; rename_i hd o th heq h1 h3 _ _ _ _; exact hp0.2.2 h3)
        | (exfalso; rename_i hd o th heq h1 h3 _ _ _ _ _ _ _ _; exact hp0.2.2 h3)
        | (exfalso; rename_i hd o th heq h1 h3 _ _ _ _ _ _ _ _ _ _ _; exact hp0.2.2 h3)

/-- Result of the first round of the `while(1)` loop for an unsupported ADC clock. -/
theorem scanLoop_unsupported (cfg : BuildConfig) (env : Env) (band : E_RTV_COUNTRY_BAND_TYPE)
    (adc : E_RTV_ADC_CLK_FREQ_TYPE) (hadc : ¬ adcSupported adc) (fuel : Nat) (sf : RtvResult)
    (fl nc : Nat) (h : HwIf) :
    (scanDoneAt env h.time ≠ 0xff →
      (scanLoop cfg env band adc (fuel + 1) ⟨0, sf, fl, nc⟩ h).1.scan_flag
        = RtvResult.RTV_UNSUPPORT_ADC_CLK) ∧
    (scanDoneAt env h.time = 0xff →
      (scanLoop cfg env band adc (fuel + 1) ⟨0, sf, fl, nc⟩ h).1.scan_flag
        = RtvResult.RTV_CHANNEL_NOT_DETECTED) := by
  have hnone : ∀ m, scanThresholds adc m = none := by
    intro m
    cases adc with
    | unsupported k => rfl
    | _ => exact absurd (by simp [adcSupported]) hadc
  unfold scanLoop
  simp only [hnone]
  rw [if_neg (by norm_num), done_eq]
  constructor
  · intro hd; rw [if_pos hd]
  · intro hd; rw [if_neg (fun c => c hd)]

theorem scanThresholds_gain (adc : E_RTV_ADC_CLK_FREQ_TYPE) (m : Nat) (th : ScanThresholds)
    (e : scanThresholds adc m = some th) :
    ((adc = E_RTV_ADC_CLK_FREQ_TYPE.RTV_ADC_CLK_FREQ_8_MHz ∨
        adc = E_RTV_ADC_CLK_FREQ_TYPE.RTV_ADC_CLK_FREQ_8_192_MHz) → th.PreGainTH = 405) ∧
    ((adc = E_RTV_ADC_CLK_FREQ_TYPE.RTV_ADC_CLK_FREQ_9_MHz ∨
        adc = E_RTV_ADC_CLK_FREQ_TYPE.RTV_ADC_CLK_FREQ_9_6_MHz) → th.PreGainTH = 380) := by
  cases adc <;> rcases m with _ | _ | _ | _ | m <;> simp [scanThresholds] at e <;>
    subst e <;> simp

/-! ## The scan as a whole -/

theorem scan_verdict (cfg : BuildConfig) (env : Env) (f : Nat) (s : ChipState)
    (ht : env.rfSetFrequency s.hw.time f = none) :
    ∃ r : ScanExit × HwIf,
      (rtvTDMB_ScanFrequency cfg env f s).1 = r.1.scan_flag ∧
      (rtvTDMB_ScanFrequency cfg env f s).2.hw = r.2.emit Event.RTV_GUARD_FREE ∧
      ScanVerdict cfg env s.g_aeRtvAdcClkFreqType (s.hw.time + 1) 0 0xFFFF r := by
  refine ⟨_, scan_result_eq cfg env f s, scan_hw_eq cfg env f s, ?_⟩
  have hv := scanBody_verdict cfg env (scanClosed cfg s).g_eRtvCountryBandType
    (scanClosed cfg s).g_aeRtvAdcClkFreqType f (scanClosed cfg s).hw
    (by rw [scanClosed_time]; exact ht)
  rw [scanClosed_time] at hv
  rw [scanClosed_adc] at hv ⊢
  exact hv

theorem scan_tuner_fail (cfg : BuildConfig) (env : Env) (f : Nat) (s : ChipState) (c : Nat)
    (ht : env.rfSetFrequency s.hw.time f = some c) :
    (rtvTDMB_ScanFrequency cfg env f s).1 = RtvResult.collaboratorFailure c := by
  rw [scan_result_eq, scanBody_tuner_fail cfg env _ _ f _ c (by rw [scanClosed_time]; exact ht)]

theorem scan_timeout_exit (cfg : BuildConfig) (env : Env) (f : Nat) (s : ChipState)
    (htuner : env.rfSetFrequency s.hw.time f = none)
    (hadc : adcSupported s.g_aeRtvAdcClkFreqType)
    (hpend : ∀ j, j < 9999 → scanPending (scanDoneAt env (s.hw.time + 1 + 7 * j))) :
    (scanBody cfg env (scanClosed cfg s).g_eRtvCountryBandType
      (scanClosed cfg s).g_aeRtvAdcClkFreqType f (scanClosed cfg s).hw).1
        = ⟨RtvResult.RTV_CHANNEL_NOT_DETECTED, 0xFF0D⟩ := by
  rw [scanBody_tuner_ok cfg env _ _ f _ (by rw [scanClosed_time]; exact htuner)]
  refine scanLoop_timeout cfg env _ _ (by rw [scanClosed_adc]; exact hadc) 10000 0 _ _ _ _
    (by omega) (by omega) ?_
  intro j hj
  have := hpend j (by omega)
  rw [← scanClosed_time cfg s] at this
  exact this

theorem scan_unsupported (cfg : BuildConfig) (env : Env) (f : Nat) (s : ChipState)
    (htuner : env.rfSetFrequency s.hw.time f = none)
    (hadc : ¬ adcSupported s.g_aeRtvAdcClkFreqType) :
    (scanDoneAt env (s.hw.time + 1) ≠ 0xff →
      (rtvTDMB_ScanFrequency cfg env f s).1 = RtvResult.RTV_UNSUPPORT_ADC_CLK) ∧
    (scanDoneAt env (s.hw.time + 1) = 0xff →
      (rtvTDMB_ScanFrequency cfg env f s).1 = RtvResult.RTV_CHANNEL_NOT_DETECTED) := by
  rw [scan_result_eq,
    scanBody_tuner_ok cfg env _ _ f _ (by rw [scanClosed_time]; exact htuner)]
  have h := scanLoop_unsupported cfg env (scanClosed cfg s).g_eRtvCountryBandType
    (scanClosed cfg s).g_aeRtvAdcClkFreqType (by rw [scanClosed_adc]; exact hadc) 9999
    RtvResult.RTV_SUCCESS 0xFFFF 0
    (tdmb_SoftReset (RTV_REG_SET 0x54 0x70 (RTV_REG_MAP_SEL OFDM_PAGE
      (rtvRF_SetFrequency env f (scanClosed cfg s).hw).2)))
  have ht : (tdmb_SoftReset (RTV_REG_SET 0x54 0x70 (RTV_REG_MAP_SEL OFDM_PAGE
      (rtvRF_SetFrequency env f (scanClosed cfg s).hw).2))).time = s.hw.time + 1 := by
    rw [← scanClosed_time cfg s]; rfl
  rw [ht] at h
  exact h

/-! ## Claims on the scan results -/

/-- C22: with a successful tuner retune and a supported ADC clock type, when in every round
that the `while(1)` loop reaches the scan power `(reg 0x39 << 8) | reg 0x38` is below the
`PWR_TH` selected by the ADC clock type and the transmission mode read in the same round,
`rtvTDMB_ScanFrequency` returns `RTV_CHANNEL_NOT_DETECTED`, which is neither success nor a
timeout result. -/
theorem low_scan_power_is_not_detected (cfg : BuildConfig) (env : Env) (f : Nat)
    (s : ChipState) (htuner : env.rfSetFrequency s.hw.time f = none)
    (hadc : adcSupported s.g_aeRtvAdcClkFreqType)
    (hlow : ∀ j, j < 9999 → ReachesRound env (s.hw.time + 1) j → ∀ th,
      scanThresholds s.g_aeRtvAdcClkFreqType (scanModeAt env (s.hw.time + 1 + 7 * j)) = some th →
      scanPowerAt cfg env (s.hw.time + 1 + 7 * j) < th.PWR_TH) :
    (rtvTDMB_ScanFrequency cfg env f s).1 = RtvResult.RTV_CHANNEL_NOT_DETECTED ∧
    (rtvTDMB_ScanFrequency cfg env f s).1 ≠ RtvResult.RTV_SUCCESS ∧
    (rtvTDMB_ScanFrequency cfg env f s).1 ≠ RtvResult.ScanTimeout := by
  obtain ⟨r, h1, _, hv⟩ := scan_verdict cfg env f s htuner
  have key : (rtvTDMB_ScanFrequency cfg env f s).1 = RtvResult.RTV_CHANNEL_NOT_DETECTED := by
    rw [h1]
    rcases hv with ⟨h2 | ⟨_, h2⟩, _⟩ | ⟨j, hj, hr, _, th, hth, hpw, _⟩
    · exact h2
    · exact absurd hadc h2
    · have := hlow j (by omega) hr th hth
      omega
  rw [key]
  exact ⟨rfl, by decide, by decide⟩

/-- C22 at the boot state (8 MHz ADC clock) over registers whose scan-done flag reads `0x03`
and whose other registers, the scan power included, read 0. -/
theorem low_scan_power_is_not_detected_witness :
    (rtvTDMB_ScanFrequency cfgM5 lowPowerEnv 100 bootState).1
        = RtvResult.RTV_CHANNEL_NOT_DETECTED ∧
    (rtvTDMB_ScanFrequency cfgM5 lowPowerEnv 100 bootState).1 ≠ RtvResult.RTV_SUCCESS ∧
    (rtvTDMB_ScanFrequency cfgM5 lowPowerEnv 100 bootState).1 ≠ RtvResult.ScanTimeout :=
  low_scan_power_is_not_detected cfgM5 lowPowerEnv 100 bootState rfl (by decide)
    (fun j _ _ th hth => by
      simp [scanModeAt, lowPowerEnv, regEnv, scanThresholds, bootState] at hth
      subst hth
      simp [scanPowerAt, lowPowerEnv, regEnv, cfgM5, sampleBuild])

/-- C23 fails as stated: at the boot state (tuner retune successful, 8 MHz ADC clock) over
registers that read 0, the scan-done flag asks for another poll in each of the 9,999 rounds,
and `rtvTDMB_ScanFrequency` returns `RTV_CHANNEL_NOT_DETECTED`, not a timeout result. -/
theorem timeout_returns_not_detected :
    (∀ j, j < 9999 → scanPending (scanDoneAt quietEnv (bootState.hw.time + 1 + 7 * j))) ∧
    (rtvTDMB_ScanFrequency cfgM5 quietEnv 100 bootState).1
      = RtvResult.RTV_CHANNEL_NOT_DETECTED ∧
    (rtvTDMB_ScanFrequency cfgM5 quietEnv 100 bootState).1 ≠ RtvResult.ScanTimeout := by
  have hp : ∀ j, j < 9999 → scanPending (scanDoneAt quietEnv (bootState.hw.time + 1 + 7 * j)) :=
    fun j _ => by simp [scanPending, scanDoneAt, quietEnv]
  have h := scan_timeout_exit cfgM5 quietEnv 100 bootState rfl (by decide) hp
  have key : (rtvTDMB_ScanFrequency cfgM5 quietEnv 100 bootState).1
      = RtvResult.RTV_CHANNEL_NOT_DETECTED := by
    rw [scan_result_eq, h]
  refine ⟨hp, key, ?_⟩
  rw [key]
  decide

/-- C23 (amended): when the scan-done flag never reports completion within the polling
budget (it is none of `0xff`, `0x01`, `0x03` in each of the 9,999 rounds; tuner retune
successful, ADC clock supported), `rtvTDMB_ScanFrequency` returns `RTV_CHANNEL_NOT_DETECTED`,
and it leaves through the timeout branch of the loop (debug code `0xFF0D`). -/
theorem exhausted_polls_return_not_detected (cfg : BuildConfig) (env : Env) (f : Nat)
    (s : ChipState) (htuner : env.rfSetFrequency s.hw.time f = none)
    (hadc : adcSupported s.g_aeRtvAdcClkFreqType)
    (hpend : ∀ j, j < 9999 → scanPending (scanDoneAt env (s.hw.time + 1 + 7 * j))) :
    (rtvTDMB_ScanFrequency cfg env f s).1 = RtvResult.RTV_CHANNEL_NOT_DETECTED ∧
    (scanBody cfg env (scanClosed cfg s).g_eRtvCountryBandType
      (scanClosed cfg s).g_aeRtvAdcClkFreqType f (scanClosed cfg s).hw).1.fail = 0xFF0D := by
  have h := scan_timeout_exit cfg env f s htuner hadc hpend
  constructor
  · rw [scan_result_eq, h]
  · rw [h]

/-- C23 (amended) at the state with Video ID 1 open, over registers that read 0. -/
theorem exhausted_polls_return_not_detected_witness :
    (rtvTDMB_ScanFrequency cfgM5 quietEnv 100 videoOnly).1
      = RtvResult.RTV_CHANNEL_NOT_DETECTED ∧
    (scanBody cfgM5 quietEnv (scanClosed cfgM5 videoOnly).g_eRtvCountryBandType
      (scanClosed cfgM5 videoOnly).g_aeRtvAdcClkFreqType 100
      (scanClosed cfgM5 videoOnly).hw).1.fail = 0xFF0D :=
  exhausted_polls_return_not_detected cfgM5 quietEnv 100 videoOnly rfl (by decide)
    (fun j _ => by simp [scanPending, scanDoneAt, quietEnv])

/-- C24: for every register oracle, `rtvTDMB_ScanFrequency` returns `RTV_SUCCESS` only if
the tuner retune succeeded, some round of the `while(1)` loop read the scan-done flag as
`0x03`, and the scan ended locked and synced: the OFDM lock bit (bit 7 of OFDM-page register
`0x12`) was read as set and the last FEC sync status read (FEC-page register `0xFB & 0x03`)
was `0b11`.  With a successful retune and a supported ADC clock, a scan that does not end
locked and synced (a last sync status of `0b10` after the 20 retries, or any other value)
returns `RTV_CHANNEL_NOT_DETECTED`. -/
theorem success_requires_lock_and_sync (cfg : BuildConfig) (env : Env) (f : Nat)
    (s : ChipState) :
    ((rtvTDMB_ScanFrequency cfg env f s).1 = RtvResult.RTV_SUCCESS →
      env.rfSetFrequency s.hw.time f = none ∧
      (∃ j, j < 9999 ∧ ReachesRound env (s.hw.time + 1) j ∧
        scanDoneAt env (s.hw.time + 1 + 7 * j) = 0x03) ∧
      ∃ h, (rtvTDMB_ScanFrequency cfg env f s).2.hw = h.emit Event.RTV_GUARD_FREE ∧
        LockedAndSynced env h) ∧
    (env.rfSetFrequency s.hw.time f = none → adcSupported s.g_aeRtvAdcClkFreqType →
      (∀ h, (rtvTDMB_ScanFrequency cfg env f s).2.hw = h.emit Event.RTV_GUARD_FREE →
        ¬ LockedAndSynced env h) →
      (rtvTDMB_ScanFrequency cfg env f s).1 = RtvResult.RTV_CHANNEL_NOT_DETECTED) := by
  constructor
  · intro hs
    cases ht : env.rfSetFrequency s.hw.time f with
    | some c =>
      rw [scan_tuner_fail cfg env f s c ht] at hs
      cases hs
    | none =>
      obtain ⟨r, h1, h2, hv⟩ := scan_verdict cfg env f s ht
      rw [h1] at hs
      rcases hv with ⟨h3 | ⟨h3, _⟩, _⟩ | ⟨j, hj, hr, hd, th, _, _, _, ⟨h3, _⟩ | ⟨_, _, h4⟩⟩
      · rw [h3] at hs; cases hs
      · rw [h3] at hs; cases hs
      · rw [h3] at hs; cases hs
      · exact ⟨rfl, ⟨j, by omega, hr, hd⟩, r.2, h2, h4⟩
  · intro ht hadc hno
    obtain ⟨r, h1, h2, hv⟩ := scan_verdict cfg env f s ht
    rw [h1]
    rcases hv with ⟨h3 | ⟨_, h3⟩, _⟩ | ⟨j, hj, hr, hd, th, _, _, _, ⟨h3, _⟩ | ⟨_, _, h4⟩⟩
    · exact h3
    · exact absurd hadc h3
    · exact h3
    · exact absurd h4 (hno r.2 h2)

set_option maxRecDepth 100000 in
/-- C24 at the boot state over registers of a channel that locks at once: the scan returns
success, after a successful retune, a scan-done flag of `0x03`, OFDM lock and FEC sync. -/
theorem success_requires_lock_and_sync_witness :
    (rtvTDMB_ScanFrequency cfgM5 lockedEnv 100 bootState).1 = RtvResult.RTV_SUCCESS ∧
    (lockedEnv.rfSetFrequency bootState.hw.time 100 = none ∧
      (∃ j, j < 9999 ∧ ReachesRound lockedEnv (bootState.hw.time + 1) j ∧
        scanDoneAt lockedEnv (bootState.hw.time + 1 + 7 * j) = 0x03) ∧
      ∃ h, (rtvTDMB_ScanFrequency cfgM5 lockedEnv 100 bootState).2.hw
          = h.emit Event.RTV_GUARD_FREE ∧ LockedAndSynced lockedEnv h) :=
  ⟨by decide, (success_requires_lock_and_sync cfgM5 lockedEnv 100 bootState).1 (by decide)⟩

set_option maxRecDepth 100000 in
/-- C25 fails as stated: with an unsupported ADC clock type, a successful tuner retune and
registers that read `0xFF`, the first scan-done reading is `0xff` and
`rtvTDMB_ScanFrequency` returns `RTV_CHANNEL_NOT_DETECTED`, not `RTV_UNSUPPORT_ADC_CLK`
(the `0xff` test precedes the `switch` on the ADC clock type). -/
theorem first_poll_0xff_precedes_adc_check :
    ¬ adcSupported oddAdcState.g_aeRtvAdcClkFreqType ∧
    (lateEnv 0).rfSetFrequency oddAdcState.hw.time 100 = none ∧
    scanDoneAt (lateEnv 0) (oddAdcState.hw.time + 1) = 0xff ∧
    (rtvTDMB_ScanFrequency cfgM5 (lateEnv 0) 100 oddAdcState).1
      = RtvResult.RTV_CHANNEL_NOT_DETECTED ∧
    (rtvTDMB_ScanFrequency cfgM5 (lateEnv 0) 100 oddAdcState).1
      ≠ RtvResult.RTV_UNSUPPORT_ADC_CLK := by
  decide

/-- C25 (amended): when the ADC clock type is not one of the four supported values and the
tuner retune succeeds, `rtvTDMB_ScanFrequency` returns `RTV_UNSUPPORT_ADC_CLK` for every
register oracle whose first scan-done reading is not `0xff`, and `RTV_CHANNEL_NOT_DETECTED`
when the first scan-done reading is `0xff`. -/
theorem unsupported_adc_reported_unless_first_poll_0xff (cfg : BuildConfig) (env : Env)
    (f : Nat) (s : ChipState) (htuner : env.rfSetFrequency s.hw.time f = none)
    (hadc : ¬ adcSupported s.g_aeRtvAdcClkFreqType) :
    (scanDoneAt env (s.hw.time + 1) ≠ 0xff →
      (rtvTDMB_ScanFrequency cfg env f s).1 = RtvResult.RTV_UNSUPPORT_ADC_CLK) ∧
    (scanDoneAt env (s.hw.time + 1) = 0xff →
      (rtvTDMB_ScanFrequency cfg env f s).1 = RtvResult.RTV_CHANNEL_NOT_DETECTED) :=
  scan_unsupported cfg env f s htuner hadc

/-- C25 (amended) at the boot state with an unsupported ADC clock type, over registers that
read 0. -/
theorem unsupported_adc_reported_unless_first_poll_0xff_witness :
    scanDoneAt quietEnv (oddAdcState.hw.time + 1) ≠ 0xff ∧
    (rtvTDMB_ScanFrequency cfgM5 quietEnv 100 oddAdcState).1
      = RtvResult.RTV_UNSUPPORT_ADC_CLK :=
  ⟨by decide,
    (unsupported_adc_reported_unless_first_poll_0xff cfgM5 quietEnv 100 oddAdcState rfl
      (by decide)).1 (by decide)⟩

/-! ## Bounds on the calls of a scan -/

theorem scanCalls_regAccess (cfg : BuildConfig) (f : Nat) :
    scanCalls cfg f Event.isRegAccess = 111710 := by
  have hp : pollRoundCalls cfg Event.isRegAccess = 11 := by
    simp [pollRoundCalls, Event.isRegAccess]
  have hn : nullRoundCalls Event.isRegAccess = 5 := by
    simp [nullRoundCalls, Event.isRegAccess]
  have hf : fineRoundCalls cfg Event.isRegAccess = 13 := by
    simp [fineRoundCalls, Event.isRegAccess]
  have hl : lockRoundCalls Event.isRegAccess = 5 := by
    simp [lockRoundCalls, Event.isRegAccess]
  have hs : syncRoundCalls Event.isRegAccess = 4 := by
    simp [syncRoundCalls, Event.isRegAccess]
  have hh : (Event.isRegAccess (Event.rtvRF_SetFrequency f)).toNat
    + ((Event.isRegAccess (Event.RTV_REG_MAP_SEL OFDM_PAGE)).toNat
      + (Event.isRegAccess (Event.RTV_REG_SET 0x54 0x70)).toNat
      + (Event.isRegAccess (Event.RTV_REG_MAP_SEL OFDM_PAGE)).toNat
      + (Event.isRegAccess (Event.RTV_REG_SET 0x10 0x48)).toNat
      + (Event.isRegAccess (Event.RTV_DELAY_MS 1)).toNat
      + (Event.isRegAccess (Event.RTV_REG_SET 0x10 0xC9)).toNat) = 5 := by
    simp [Event.isRegAccess]
  have ht : scanTailCalls cfg Event.isRegAccess = 1716 := by
    have h1 : (Event.isRegAccess (Event.RTV_REG_MAP_SEL OFDM_PAGE)).toNat = 1 := rfl
    have h2 : (Event.isRegAccess (Event.RTV_REG_GET 0x18)).toNat = 1 := rfl
    have h3 : (Event.isRegAccess (Event.RTV_REG_SET 0x54 0x58)).toNat = 1 := rfl
    have h4 : (Event.isRegAccess (Event.RTV_REG_MAP_SEL FEC_PAGE)).toNat = 1 := rfl
    have h5 : (Event.isRegAccess (Event.RTV_REG_GET 0xFB)).toNat = 1 := rfl
    unfold scanTailCalls lockAndSyncCalls
    rw [hn, hf, hl, hs, h1, h2, h3, h4, h5]
  have hfree : (Event.isRegAccess Event.RTV_GUARD_FREE).toNat = 0 := rfl
  unfold scanCalls
  rw [hh, hp, ht, hfree]

theorem scanCalls_delay (cfg : BuildConfig) (f : Nat) :
    scanCalls cfg f Event.isDelay = 187 := by
  simp [scanCalls, pollRoundCalls, scanTailCalls, nullRoundCalls, fineRoundCalls,
    lockAndSyncCalls, lockRoundCalls, syncRoundCalls, Event.isDelay]

theorem scanCalls_read (cfg : BuildConfig) (f : Nat) :
    scanCalls cfg f (isRead 0xCF) = 9999 ∧ scanCalls cfg f (isRead 0x1C) = 16 ∧
    scanCalls cfg f (isRead 0x30) = 100 ∧ scanCalls cfg f (isRead 0x7E) = 50 ∧
    scanCalls cfg f (isRead 0xFB) = 21 := by
  refine ⟨?_, ?_, ?_, ?_, ?_⟩ <;>
  simp [scanCalls, pollRoundCalls, scanTailCalls, nullRoundCalls, fineRoundCalls,
    lockAndSyncCalls, lockRoundCalls, syncRoundCalls, isRead]

/-- C26: `rtvTDMB_ScanFrequency` is a total function, and for every register and tuner
oracle, counted from the state in which the sub-channels are closed (which does not depend on
the oracle): the scan-done register `0xCF` is read at most 9,999 times; register `0x1C` (read
once per round of the null-symbol sampling loop) at most 16 times, `0x30` (fine check) at most
100 times, `0x7E` (OFDM lock wait) at most 50 times, and the FEC sync status `0xFB` at most 21
times (once before the retry loop and once in each of its at most 20 rounds); there are at
most 111,710 register accesses and at most 187 delays.  The loops end by their own bounds:
fuel beyond 10000, 16, 100, 50 and 20 does not change their results. -/
theorem scan_terminates_within_bounds (cfg : BuildConfig) (env : Env) (f : Nat)
    (s : ChipState) :
    calls (isRead 0xCF) (rtvTDMB_ScanFrequency cfg env f s).2.hw
      ≤ calls (isRead 0xCF) (scanClosed cfg s).hw + 9999 ∧
    calls (isRead 0x1C) (rtvTDMB_ScanFrequency cfg env f s).2.hw
      ≤ calls (isRead 0x1C) (scanClosed cfg s).hw + 16 ∧
    calls (isRead 0x30) (rtvTDMB_ScanFrequency cfg env f s).2.hw
      ≤ calls (isRead 0x30) (scanClosed cfg s).hw + 100 ∧
    calls (isRead 0x7E) (rtvTDMB_ScanFrequency cfg env f s).2.hw
      ≤ calls (isRead 0x7E) (scanClosed cfg s).hw + 50 ∧
    calls (isRead 0xFB) (rtvTDMB_ScanFrequency cfg env f s).2.hw
      ≤ calls (isRead 0xFB) (scanClosed cfg s).hw + 21 ∧
    calls Event.isRegAccess (rtvTDMB_ScanFrequency cfg env f s).2.hw
      ≤ calls Event.isRegAccess (scanClosed cfg s).hw + 111710 ∧
    calls Event.isDelay (rtvTDMB_ScanFrequency cfg env f s).2.hw
      ≤ calls Event.isDelay (scanClosed cfg s).hw + 187 ∧
    (∀ (k : Nat) band adc sf fl nc h,
      scanLoop cfg env band adc (10000 + k) ⟨0, sf, fl, nc⟩ h
        = scanLoop cfg env band adc 10000 ⟨0, sf, fl, nc⟩ h) ∧
    (∀ (k : Nat) mode pg sf fl nc h,
      nullSampleLoop env mode pg (16 + k) 0 sf fl nc h
        = nullSampleLoop env mode pg 16 0 sf fl nc h) ∧
    (∀ (k : Nat) mode pg nc v h,
      fineCheckLoop cfg env mode pg nc (100 + k) 0 v h
        = fineCheckLoop cfg env mode pg nc 100 0 v h) ∧
    (∀ (k : Nat) L h, ofdmLockLoop env (50 + k) 0 L h = ofdmLockLoop env 50 0 L h) ∧
    (∀ (k : Nat) x h, fecSyncLoop env (20 + k) 0 x h = fecSyncLoop env 20 0 x h) := by
  obtain ⟨e1, e2, e3, e4, e5⟩ := scanCalls_read cfg f
  have e6 := scanCalls_regAccess cfg f
  have e7 := scanCalls_delay cfg f
  have c1 := scan_calls cfg env (isRead 0xCF) (isRead_blind _) f s
  have c2 := scan_calls cfg env (isRead 0x1C) (isRead_blind _) f s
  have c3 := scan_calls cfg env (isRead 0x30) (isRead_blind _) f s
  have c4 := scan_calls cfg env (isRead 0x7E) (isRead_blind _) f s
  have c5 := scan_calls cfg env (isRead 0xFB) (isRead_blind _) f s
  have c6 := scan_calls cfg env Event.isRegAccess isRegAccess_blind f s
  have c7 := scan_calls cfg env Event.isDelay isDelay_blind f s
  rw [e1] at c1; rw [e2] at c2; rw [e3] at c3; rw [e4] at c4; rw [e5] at c5
  rw [e6] at c6; rw [e7] at c7
  refine ⟨c1, c2, c3, c4, c5, c6, c7, ?_, ?_, ?_, ?_, ?_⟩
  · intro k band adc sf fl nc h
    exact scanLoop_fuel cfg env band adc _ _ 0 sf fl nc h (by omega) (by omega) (by omega)
  · intro k mode pg sf fl nc h
    exact nullSampleLoop_fuel env mode pg _ _ 0 sf fl nc h (by omega) (by omega)
  · intro k mode pg nc v h
    exact fineCheckLoop_fuel cfg env mode pg nc _ _ 0 v h (by omega) (by omega)
  · intro k L h
    exact ofdmLockLoop_fuel env _ _ 0 L h (by omega) (by omega)
  · intro k x h
    exact fecSyncLoop_fuel env _ _ 0 x h (by omega) (by omega)

/-! ## The null-symbol rejection -/

theorem nullReject_gain (g t : Nat) (h1 : 380 ≤ g) (h2 : g < 400) :
    preGainAt (nullRejectEnv g) t = g := by
  interval_cases g <;> (simp [preGainAt, nullRejectEnv, regEnv]) <;> rfl

set_option maxRecDepth 100000 in
theorem nullReject_reached_9 (g : Nat) (h1 : 380 ≤ g) (h2 : g < 400) :
    (scanBody cfgM5 (nullRejectEnv g) E_RTV_COUNTRY_BAND_TYPE.RTV_COUNTRY_BAND_KOREA
      E_RTV_ADC_CLK_FREQ_TYPE.RTV_ADC_CLK_FREQ_9_MHz 100 ⟨0, 0, []⟩).1
      = ⟨RtvResult.RTV_CHANNEL_NOT_DETECTED, 0xEF05⟩ := by
  interval_cases g <;> decide

set_option maxRecDepth 100000 in
theorem nullReject_reached_9_6 (g : Nat) (h1 : 380 ≤ g) (h2 : g < 400) :
    (scanBody cfgM5 (nullRejectEnv g) E_RTV_COUNTRY_BAND_TYPE.RTV_COUNTRY_BAND_KOREA
      E_RTV_ADC_CLK_FREQ_TYPE.RTV_ADC_CLK_FREQ_9_6_MHz 100 ⟨0, 0, []⟩).1
      = ⟨RtvResult.RTV_CHANNEL_NOT_DETECTED, 0xEF05⟩ := by
  interval_cases g <;> decide

theorem scanBody_ef05 (cfg : BuildConfig) (env : Env) (band : E_RTV_COUNTRY_BAND_TYPE)
    (adc : E_RTV_ADC_CLK_FREQ_TYPE) (f : Nat) (h : HwIf)
    (he : (scanBody cfg env band adc f h).1.fail = 0xEF05) :
    ∃ j, j < 9999 ∧ ReachesRound env (h.time + 1) j ∧
      scanDoneAt env (h.time + 1 + 7 * j) = 0x03 ∧
      ∃ th, scanThresholds adc (scanModeAt env (h.time + 1 + 7 * j)) = some th ∧
        th.PreGainTH ≤ preGainAt env (h.time + 1 + 7 * j) ∧
        preGainAt env (h.time + 1 + 7 * j) < 400 := by
  cases ht : env.rfSetFrequency h.time f with
  | some c =>
    rw [scanBody_tuner_fail cfg env band adc f h c ht] at he
    exact absurd he (by simp)
  | none =>
    rcases scanBody_verdict cfg env band adc f h ht with
      ⟨_, h2⟩ | ⟨j, hj, hr, hd, th, hth, _, hpg, ⟨_, h3⟩ | ⟨_, h3, _⟩⟩
    · exact absurd (h2 he) (by decide)
    · exact ⟨j, by omega, hr, hd, th, hth, hpg, h3 he⟩
    · exact absurd he h3

/-- C30: for every register and tuner oracle, with an ADC clock of 8 MHz or 8.192 MHz the
scan never leaves through the null-symbol rejection (debug code `0xEF05`); with 9 MHz or
9.6 MHz it leaves through it only in a round whose pre-AGC gain is at least 380 and below 400;
and for every gain `g` with `380 <= g < 400` there are registers with that gain on which the
scan leaves through the rejection. -/
theorem null_rejection_needs_gain_380_to_399 (cfg : BuildConfig) (env : Env)
    (band : E_RTV_COUNTRY_BAND_TYPE) (f : Nat) (h : HwIf) :
    (∀ adc, adc = E_RTV_ADC_CLK_FREQ_TYPE.RTV_ADC_CLK_FREQ_8_MHz ∨
        adc = E_RTV_ADC_CLK_FREQ_TYPE.RTV_ADC_CLK_FREQ_8_192_MHz →
      (scanBody cfg env band adc f h).1.fail ≠ 0xEF05) ∧
    (∀ adc, adc = E_RTV_ADC_CLK_FREQ_TYPE.RTV_ADC_CLK_FREQ_9_MHz ∨
        adc = E_RTV_ADC_CLK_FREQ_TYPE.RTV_ADC_CLK_FREQ_9_6_MHz →
      (scanBody cfg env band adc f h).1.fail = 0xEF05 →
      ∃ j, j < 9999 ∧ ReachesRound env (h.time + 1) j ∧
        scanDoneAt env (h.time + 1 + 7 * j) = 0x03 ∧
        380 ≤ preGainAt env (h.time + 1 + 7 * j) ∧
        preGainAt env (h.time + 1 + 7 * j) < 400) ∧
    (∀ adc, adc = E_RTV_ADC_CLK_FREQ_TYPE.RTV_ADC_CLK_FREQ_9_MHz ∨
        adc = E_RTV_ADC_CLK_FREQ_TYPE.RTV_ADC_CLK_FREQ_9_6_MHz →
      ∀ g, 380 ≤ g → g < 400 →
        preGainAt (nullRejectEnv g) 1 = g ∧
        (scanBody cfgM5 (nullRejectEnv g) E_RTV_COUNTRY_BAND_TYPE.RTV_COUNTRY_BAND_KOREA adc 100
          ⟨0, 0, []⟩).1 = ⟨RtvResult.RTV_CHANNEL_NOT_DETECTED, 0xEF05⟩) := by
  refine ⟨?_, ?_, ?_⟩
  · intro adc hadc he
    obtain ⟨j, _, _, _, th, hth, h1, h2⟩ := scanBody_ef05 cfg env band adc f h he
    have := (scanThresholds_gain adc _ th hth).1 hadc
    omega
  · intro adc hadc he
    obtain ⟨j, hj, hr, hd, th, hth, h1, h2⟩ := scanBody_ef05 cfg env band adc f h he
    have := (scanThresholds_gain adc _ th hth).2 hadc
    exact ⟨j, hj, hr, hd, by omega, h2⟩
  · intro adc hadc g h1 h2
    refine ⟨nullReject_gain g 1 h1 h2, ?_⟩
    rcases hadc with rfl | rfl
    · exact nullReject_reached_9 g h1 h2
    · exact nullReject_reached_9_6 g h1 h2

set_option maxRecDepth 100000 in
/-- C30 at the 9 MHz ADC clock over registers with pre-AGC gain 390 whose null-symbol length
reads 0: the scan leaves through the null-symbol rejection, in a round whose gain lies in
`[380, 400)`. -/
theorem null_rejection_needs_gain_380_to_399_witness :
    (scanBody cfgM5 (nullRejectEnv 390) E_RTV_COUNTRY_BAND_TYPE.RTV_COUNTRY_BAND_KOREA
      E_RTV_ADC_CLK_FREQ_TYPE.RTV_ADC_CLK_FREQ_9_MHz 100 ⟨0, 0, []⟩).1.fail = 0xEF05 ∧
    ∃ j, j < 9999 ∧ ReachesRound (nullRejectEnv 390) ((⟨0, 0, []⟩ : HwIf).time + 1) j ∧
      scanDoneAt (nullRejectEnv 390) ((⟨0, 0, []⟩ : HwIf).time + 1 + 7 * j) = 0x03 ∧
      380 ≤ preGainAt (nullRejectEnv 390) ((⟨0, 0, []⟩ : HwIf).time + 1 + 7 * j) ∧
      preGainAt (nullRejectEnv 390) ((⟨0, 0, []⟩ : HwIf).time + 1 + 7 * j) < 400 :=
  ⟨by decide,
    (null_rejection_needs_gain_380_to_399 cfgM5 (nullRejectEnv 390)
      E_RTV_COUNTRY_BAND_TYPE.RTV_COUNTRY_BAND_KOREA 100 ⟨0, 0, []⟩).2.1
      E_RTV_ADC_CLK_FREQ_TYPE.RTV_ADC_CLK_FREQ_9_MHz (Or.inl rfl) (by decide)⟩

/-- C28 at the state with Video ID 1 open. -/
theorem scan_leaves_nothing_registered_witness :
    (rtvTDMB_ScanFrequency cfgM5 quietEnv 100 videoOnly).2.g_aRtvUsedHwSubChIdxBits = 0 ∧
    (rtvTDMB_ScanFrequency cfgM5 quietEnv 100 videoOnly).2.g_aRegSubChArrayIdxBits = 0 ∧
    (rtvTDMB_ScanFrequency cfgM5 quietEnv 100 videoOnly).2.g_aRegSubChIdBits 0 = 0 ∧
    (rtvTDMB_ScanFrequency cfgM5 quietEnv 100 videoOnly).2.g_aRegSubChIdBits 1 = 0 :=
  scan_leaves_nothing_registered cfgM5 quietEnv 100 videoOnly
    (RegInv.reg_of_reachable (Or.inr (by decide)) videoOnly_reachable)

end Mtv818
